import Mathlib

/-!
# Quetoo state synchronisation: a shallow embedding

The definitions below transcribe the client frame parser (`cl_entity.c`, with the
baseline parser of `cl_parse.c`), the player movement simulator (`bg_pmove.c`), the
server send loop and server frame (`sv_send.c`, `sv_main.c`) and the push physics
(`g_phys.c`) of the engine into Lean functions.

Conventions of the embedding:

* `vec_t` (a C `float`) is an exact rational number; arithmetic on it is exact.
* Unsigned machine integers are natural numbers, reduced modulo `2 ^ w` where
  the C code can wrap.
* A `Com_Error(ERR_DROP, ...)` unwinds to the caller: the embedded function
  returns `Except.error` with the matching `fault`.
* Global C state (`cl`, `cls`, `net_message`, `pm`, `pml`, `svs`, `sv`) is passed
  explicitly.
* Headers of the engine (`cl_types.h`, `bg_pmove.h`, `sv_types.h`, `net.h`) are not
  part of the sources at hand.  Numeric limits they define are parameters;
  decoders they declare are function parameters.
-/

namespace Quetoo

/-! ## Vectors and machine integers -/

/-- The C type `vec_t`, modelled as an exact rational. -/
abbrev vec_t := ℚ

/-- The C type `vec3_t` (three `vec_t` components). -/
structure vec3_t where
  x : vec_t
  y : vec_t
  z : vec_t
deriving DecidableEq

/-- A vector of three 16 bit integers, the packed form of a `vec3_t`. -/
structure svec3_t where
  x : Int
  y : Int
  z : Int
deriving DecidableEq

/-- The zero vector, `vec3_origin`. -/
def vec3_origin : vec3_t := ⟨0, 0, 0⟩

/-- Reduction to an unsigned 32 bit value. -/
def u32 (n : Nat) : Nat := n % 4294967296

/-- Reduction to an unsigned 16 bit value. -/
def u16 (n : Nat) : Nat := n % 65536

/-- `VectorSubtract(a, b, out)`. -/
def VectorSubtract (a b : vec3_t) : vec3_t := ⟨a.x - b.x, a.y - b.y, a.z - b.z⟩

/-- `DotProduct(a, b)`. -/
def DotProduct (a b : vec3_t) : vec_t := a.x * b.x + a.y * b.y + a.z * b.z

/-- The test `VectorLength(v) > r` for a non-negative bound `r`, decided on the
squares: the length is the square root of `DotProduct(v, v)`. -/
def VectorLength_gt (v : vec3_t) (r : vec_t) : Bool := decide (r * r < DotProduct v v)

/-- `UnpackVector(in, out)`: packed coordinates are eighths of a unit. -/
def UnpackVector (v : svec3_t) : vec3_t := ⟨(v.x : ℚ) / 8, (v.y : ℚ) / 8, (v.z : ℚ) / 8⟩

/-! ## Client data model (`cl_types.h`) -/

/-- Limits and protocol constants defined in headers that are not part of the
sources at hand.  `PACKET_MASK` and `ENTITY_STATE_MASK` are the sizes minus one. -/
structure limits_t where
  PACKET_BACKUP : Nat
  ENTITY_STATE_BACKUP : Nat
  MAX_ENTITIES : Nat
  U_REMOVE : Nat

/-- The mask `PACKET_MASK = PACKET_BACKUP - 1`. -/
def limits_t.PACKET_MASK (L : limits_t) : Nat := L.PACKET_BACKUP - 1

/-- The mask `ENTITY_STATE_MASK = ENTITY_STATE_BACKUP - 1`. -/
def limits_t.ENTITY_STATE_MASK (L : limits_t) : Nat := L.ENTITY_STATE_BACKUP - 1

/-- The transmissible snapshot of one entity, `entity_state_t`. -/
structure entity_state_t where
  number : Nat
  origin : vec3_t
  old_origin : vec3_t
  angles : vec3_t
  model1 : Nat
  animation1 : Nat
  animation2 : Nat
  effects : Nat
  sound : Nat
  event : Nat
  solid : Nat
deriving DecidableEq

/-- The all-zero entity state (a C `static entity_state_t null_state`). -/
def null_entity_state : entity_state_t :=
  ⟨0, vec3_origin, vec3_origin, vec3_origin, 0, 0, 0, 0, 0, 0, 0⟩

/-- Lighting cache states of `r_lighting_t`. -/
inductive r_lighting_state_t where
  | LIGHTING_INIT
  | LIGHTING_DIRTY
  | LIGHTING_READY
deriving DecidableEq

/-- The client side record of one entity, `cl_entity_t`, restricted to the members
the frame parser touches. -/
structure cl_entity_t where
  baseline : entity_state_t
  current : entity_state_t
  prev : entity_state_t
  frame_num : Nat
  animation1_time : Nat
  animation2_time : Nat
  lighting_state : r_lighting_state_t
deriving DecidableEq

/-- Movement types, `pm_type_t`. -/
inductive pm_type_t where
  | PM_NORMAL
  | PM_SPECTATOR
  | PM_DEAD
  | PM_FREEZE
deriving DecidableEq

/-- The transmissible movement state, `pm_state_t`. -/
structure pm_state_t where
  type : pm_type_t
  origin : svec3_t
  velocity : svec3_t
  flags : Nat
  time : Nat
  gravity : Int
  view_offset : svec3_t
  view_angles : svec3_t
  kick_angles : svec3_t
  delta_angles : svec3_t
deriving DecidableEq

/-- The player state, `player_state_t`: the movement state and the statistics. -/
structure player_state_t where
  pm_state : pm_state_t
  stats : List Int
deriving DecidableEq

/-- The all-zero player state (a C `static player_state_t null_state`). -/
def null_player_state : player_state_t :=
  ⟨⟨pm_type_t.PM_NORMAL, ⟨0, 0, 0⟩, ⟨0, 0, 0⟩, 0, 0, 0, ⟨0, 0, 0⟩, ⟨0, 0, 0⟩, ⟨0, 0, 0⟩,
    ⟨0, 0, 0⟩⟩, []⟩

/-- One received frame, `cl_frame_t`.  `entity_state` is the non-masked index of the
frame's first entry in the entity state log. -/
structure cl_frame_t where
  valid : Bool
  frame_num : Nat
  delta_frame_num : Int
  time : Nat
  area_bits : List Nat
  ps : player_state_t
  num_entities : Nat
  entity_state : Nat
deriving DecidableEq

/-- Connection states of the client, `cl_state_t`. -/
inductive cl_state_t where
  | CL_DISCONNECTED
  | CL_CONNECTING
  | CL_CONNECTED
  | CL_ACTIVE
deriving DecidableEq

/-- The predicted movement state of the local player. -/
structure cl_predicted_state_t where
  origin : vec3_t
  view_offset : vec3_t
  view_angles : vec3_t
  error : vec3_t
deriving DecidableEq

/-- The client state `cl` (with `cls.state`), restricted to the members that
`cl_entity.c` and `Cl_UpdateLerp` touch.  Arrays are functions of the index. -/
structure cl_client_t where
  entity_states : Nat → entity_state_t
  entity_state : Nat
  entities : Nat → cl_entity_t
  frame : cl_frame_t
  frames : Nat → cl_frame_t
  surpress_count : Nat
  server_hz : Nat
  demo_server : Bool
  predicted_state : cl_predicted_state_t
  time : Nat
  lerp : vec_t
  cls_state : cl_state_t

/-- Outcomes that end a parse: the `Com_Error(ERR_DROP, ...)` calls of `cl_entity.c`,
and a read through the `NULL` reference frame.  `iteration_bound` is no outcome of the
C code: a loop of the embedding returns it when the iteration bound it was given is
used up.  The theorems on `Cl_ParseEntities` state results that are `Except.ok`, so the
bound is not reached there. -/
inductive fault where
  | bad_number (n : Nat)
  | end_of_message
  | delta_from_invalid_frame
  | delta_frame_too_old
  | delta_parse_entities_too_old
  | null_dereference
  | iteration_bound
deriving DecidableEq

/-- The three faults of the reference frame check in `Cl_ParseFrame`. -/
def fault.is_delta : fault → Bool
  | fault.delta_from_invalid_frame => true
  | fault.delta_frame_too_old => true
  | fault.delta_parse_entities_too_old => true
  | _ => false

/-- One entry of the entity stream of a frame message: the entity number, the change
bits, and the bytes of the changed fields that `Net_ReadDeltaEntity` consumes.  The
entry with number `0` ends the stream; its other members are not read. -/
structure entry_t where
  number : Nat
  bits : Nat
  fields : List Nat
deriving DecidableEq

/-- The decoder `Net_ReadDeltaEntity(msg, from, to, number, bits)` (declared in
`net.h`, defined outside the sources at hand): base state, entity number, change
bits and field bytes give the decoded state. -/
abbrev entity_decoder := entity_state_t → Nat → Nat → List Nat → entity_state_t

/-- The decoder `Net_ReadDeltaPlayerState(msg, from, to)`. -/
abbrev player_decoder := player_state_t → List Nat → player_state_t

/-- A frame message as `Cl_ParseFrame` reads it, field by field. -/
structure frame_msg_t where
  frame_num : Nat
  delta_frame_num : Int
  surpress_count : Nat
  area_bits : List Nat
  ps_fields : List Nat
  entities : List entry_t

/-! ## `cl_entity.c` -/

/-- `Cl_ValidDeltaPlayerState`: the delta is valid when the unpacked origins are at
most 256 units apart. -/
def Cl_ValidDeltaPlayerState (frm to_ : player_state_t) : Bool :=
  let old_origin := UnpackVector frm.pm_state.origin
  let new_origin := UnpackVector to_.pm_state.origin
  let delta := VectorSubtract old_origin new_origin
  if VectorLength_gt delta 256 then false else true

/-- `Cl_ValidDeltaEntity`: same model and origins at most 256 units apart. -/
def Cl_ValidDeltaEntity (frm to_ : entity_state_t) : Bool :=
  if frm.model1 ≠ to_.model1 then false
  else
    let delta := VectorSubtract frm.origin to_.origin
    if VectorLength_gt delta 256 then false else true

/-- A pointer `entity_state_t *` as `Cl_ParseEntities` passes it: into the entity
state log, or to the baseline of an entity. -/
inductive state_ref where
  | log (i : Nat)
  | baseline (n : Nat)
deriving DecidableEq

/-- Dereference of a `state_ref`. -/
def state_ref.get (cl : cl_client_t) : state_ref → entity_state_t
  | state_ref.log i => cl.entity_states i
  | state_ref.baseline n => (cl.entities n).baseline

/-- `Cl_ReadDeltaEntity(frame, from, number, bits)` with `frame == &cl.frame` (its only
call sites): decodes into the next slot of the entity state log, counts the entity
in the frame and updates the interpolation pair of the entity. -/
def Cl_ReadDeltaEntity (L : limits_t) (dec : entity_decoder) (cl : cl_client_t)
    (frm : state_ref) (number bits : Nat) (fields : List Nat) : cl_client_t :=
  let ent := cl.entities number
  let to_index := cl.entity_state &&& L.ENTITY_STATE_MASK
  let to_ := dec (frm.get cl) number bits fields
  let cl1 : cl_client_t :=
    { cl with
      entity_state := u32 (cl.entity_state + 1)
      frame := { cl.frame with num_entities := u16 (cl.frame.num_entities + 1) }
      entity_states := Function.update cl.entity_states to_index to_ }
  let ent1 : cl_entity_t :=
    if ent.frame_num ≠ u32 (cl.frame.frame_num + 4294967295)
        ∨ Cl_ValidDeltaEntity (frm.get cl1) to_ = false then
      { ent with
        prev := { to_ with origin := to_.old_origin }
        animation1_time := 0
        animation2_time := 0
        lighting_state := r_lighting_state_t.LIGHTING_INIT }
    else
      { ent with prev := ent.current }
  let ent2 : cl_entity_t := { ent1 with frame_num := cl.frame.frame_num, current := to_ }
  { cl1 with entities := Function.update cl1.entities number ent2 }

/-- The local variables `old_state`, `old_number`, `old_index` of `Cl_ParseEntities`.
`old_state` is an index into the entity state log, `none` for `NULL`. -/
structure old_cursor_t where
  old_state : Option Nat
  old_number : Nat
  old_index : Nat
deriving DecidableEq

/-- The block that reloads the old cursor at `old_index`:
`if (old_index >= delta_frame->num_entities) old_number = 0xffff; else { ... }`.
Reading `delta_frame->num_entities` through `NULL` is a `null_dereference`. -/
def reload_old (L : limits_t) (cl : cl_client_t) (delta_frame : Option Nat)
    (k : old_cursor_t) : Except fault old_cursor_t :=
  match delta_frame with
  | none => Except.error fault.null_dereference
  | some slot =>
    let df := cl.frames slot
    if k.old_index ≥ df.num_entities then
      Except.ok { k with old_number := 65535 }
    else
      let i := u32 (df.entity_state + k.old_index) &&& L.ENTITY_STATE_MASK
      Except.ok { k with old_state := some i, old_number := (cl.entity_states i).number }

/-- The statement `old_index++` followed by the reload block. -/
def advance_old (L : limits_t) (cl : cl_client_t) (delta_frame : Option Nat)
    (k : old_cursor_t) : Except fault old_cursor_t :=
  reload_old L cl delta_frame { k with old_index := u32 (k.old_index + 1) }

/-- The body shared by both "unchanged" loops: copy the old entity with change bits
`0`, then advance the old cursor. -/
def copy_old (L : limits_t) (dec : entity_decoder) (delta_frame : Option Nat)
    (cl : cl_client_t) (k : old_cursor_t) : Except fault (cl_client_t × old_cursor_t) :=
  match k.old_state with
  | none => Except.error fault.null_dereference
  | some i =>
    let cl1 := Cl_ReadDeltaEntity L dec cl (state_ref.log i) k.old_number 0 []
    match advance_old L cl1 delta_frame k with
    | Except.error e => Except.error e
    | Except.ok k1 => Except.ok (cl1, k1)

/-- The loop `while (old_number < number) { ... }`.  The first argument bounds the
number of iterations. -/
def copy_below (L : limits_t) (dec : entity_decoder) (delta_frame : Option Nat)
    (number : Nat) : Nat → cl_client_t → old_cursor_t → Except fault (cl_client_t × old_cursor_t)
  | 0, cl, k =>
    if k.old_number < number then Except.error fault.iteration_bound else Except.ok (cl, k)
  | fuel + 1, cl, k =>
    if k.old_number < number then
      match copy_old L dec delta_frame cl k with
      | Except.error e => Except.error e
      | Except.ok (cl1, k1) => copy_below L dec delta_frame number fuel cl1 k1
    else Except.ok (cl, k)

/-- The loop `while (old_number != 0xffff) { ... }` that copies the remaining old
entities.  The first argument bounds the number of iterations. -/
def copy_rest (L : limits_t) (dec : entity_decoder) (delta_frame : Option Nat) :
    Nat → cl_client_t → old_cursor_t → Except fault (cl_client_t × old_cursor_t)
  | 0, cl, k =>
    if k.old_number ≠ 65535 then Except.error fault.iteration_bound else Except.ok (cl, k)
  | fuel + 1, cl, k =>
    if k.old_number ≠ 65535 then
      match copy_old L dec delta_frame cl k with
      | Except.error e => Except.error e
      | Except.ok (cl1, k1) => copy_rest L dec delta_frame fuel cl1 k1
    else Except.ok (cl, k)

/-- The iteration bound of the two copy loops: one more than the number of entities
of the reference frame (none without a reference frame). -/
def copy_bound (cl : cl_client_t) (delta_frame : Option Nat) : Nat :=
  match delta_frame with
  | none => 0
  | some slot => (cl.frames slot).num_entities + 1

/-- The loop `while (true) { ... }` of `Cl_ParseEntities` over the entries of the
message.  It returns at the entry with number `0`; the entries behind it are handed
back.  A message that ends before that entry raises `end_of_message`. -/
def parse_entries (L : limits_t) (dec : entity_decoder) (delta_frame : Option Nat) :
    List entry_t → cl_client_t → old_cursor_t →
      Except fault (cl_client_t × old_cursor_t × List entry_t)
  | [], _, _ => Except.error fault.end_of_message
  | e :: rest, cl, k =>
    if e.number ≥ L.MAX_ENTITIES then Except.error (fault.bad_number e.number)
    else if e.number = 0 then Except.ok (cl, k, rest)
    else
      match copy_below L dec delta_frame e.number (copy_bound cl delta_frame) cl k with
      | Except.error err => Except.error err
      | Except.ok (cl1, k1) =>
        if e.bits &&& L.U_REMOVE ≠ 0 then
          match advance_old L cl1 delta_frame k1 with
          | Except.error err => Except.error err
          | Except.ok k2 => parse_entries L dec delta_frame rest cl1 k2
        else if k1.old_number = e.number then
          match k1.old_state with
          | none => Except.error fault.null_dereference
          | some i =>
            let cl2 := Cl_ReadDeltaEntity L dec cl1 (state_ref.log i) e.number e.bits e.fields
            match advance_old L cl2 delta_frame k1 with
            | Except.error err => Except.error err
            | Except.ok k2 => parse_entries L dec delta_frame rest cl2 k2
        else if k1.old_number > e.number then
          let cl2 :=
            Cl_ReadDeltaEntity L dec cl1 (state_ref.baseline e.number) e.number e.bits e.fields
          parse_entries L dec delta_frame rest cl2 k1
        else parse_entries L dec delta_frame rest cl1 k1

/-- The initial values of `old_state`, `old_number` and `old_index` in
`Cl_ParseEntities`: index `0`, and the number `0xffff` without a reference frame or
with an empty one. -/
def initial_old (L : limits_t) (cl : cl_client_t) (delta_frame : Option Nat) : old_cursor_t :=
  match delta_frame with
  | none => ⟨none, 65535, 0⟩
  | some slot =>
    let df := cl.frames slot
    if 0 ≥ df.num_entities then ⟨none, 65535, 0⟩
    else
      let i := u32 (df.entity_state + 0) &&& L.ENTITY_STATE_MASK
      ⟨some i, (cl.entity_states i).number, 0⟩

/-- `Cl_ParseEntities(delta_frame, frame)` with `frame == &cl.frame`.  `delta_frame` is
the slot of the reference frame in `cl.frames`, `none` for `NULL`.  The result is the
new client state and the rest of the message. -/
def Cl_ParseEntities (L : limits_t) (dec : entity_decoder) (delta_frame : Option Nat)
    (cl : cl_client_t) (msg : List entry_t) : Except fault (cl_client_t × List entry_t) :=
  let cl0 : cl_client_t :=
    { cl with frame := { cl.frame with entity_state := cl.entity_state, num_entities := 0 } }
  match parse_entries L dec delta_frame msg cl0 (initial_old L cl0 delta_frame) with
  | Except.error err => Except.error err
  | Except.ok (cl1, k1, rest) =>
    match copy_rest L dec delta_frame (copy_bound cl1 delta_frame) cl1 k1 with
    | Except.error err => Except.error err
    | Except.ok (cl2, _) => Except.ok (cl2, rest)

/-- `Cl_ParsePlayerState(delta_frame, frame)` with `frame == &cl.frame`.  The validity
test compares the reference player state with the player state still stored in
`cl.frame`; on failure the freshly decoded state is also written to the reference
frame (`delta_frame->ps = frame->ps`). -/
def Cl_ParsePlayerState (decPS : player_decoder) (delta_frame : Option Nat)
    (cl : cl_client_t) (fields : List Nat) : cl_client_t :=
  let cl1 : cl_client_t :=
    match delta_frame with
    | some slot =>
      let df := cl.frames slot
      if Cl_ValidDeltaPlayerState df.ps cl.frame.ps then
        { cl with frame := { cl.frame with ps := decPS df.ps fields } }
      else
        let ps := decPS null_player_state fields
        { cl with
          frame := { cl.frame with ps := ps }
          frames := Function.update cl.frames slot { df with ps := ps } }
    | none => { cl with frame := { cl.frame with ps := decPS null_player_state fields } }
  if cl1.demo_server then
    { cl1 with
      frame := { cl1.frame with
        ps := { cl1.frame.ps with
          pm_state := { cl1.frame.ps.pm_state with type := pm_type_t.PM_FREEZE } } } }
  else cl1

/-- `UnpackAngle(x)`: 65536 units make 360 degrees. -/
def UnpackAngle (a : Int) : vec_t := (a : ℚ) * (360 / 65536)

/-- `UnpackAngles(in, out)`. -/
def UnpackAngles (v : svec3_t) : vec3_t := ⟨UnpackAngle v.x, UnpackAngle v.y, UnpackAngle v.z⟩

/-- The first part of `Cl_ParseFrame`: reads the frame numbers and the suppress count
and resolves the reference frame.  The result is the client state and the slot of
the reference frame (`none` for an uncompressed frame). -/
def Cl_ParseFrame_header (L : limits_t) (cl : cl_client_t) (msg : frame_msg_t) :
    Except fault (cl_client_t × Option Nat) :=
  let cl1 : cl_client_t :=
    { cl with
      frame := { cl.frame with frame_num := msg.frame_num, delta_frame_num := msg.delta_frame_num }
      surpress_count := msg.surpress_count }
  if cl1.frame.delta_frame_num ≤ 0 then
    Except.ok ({ cl1 with frame := { cl1.frame with valid := true } }, none)
  else
    let slot := cl1.frame.delta_frame_num.toNat &&& L.PACKET_MASK
    let df := cl1.frames slot
    if df.valid = false then Except.error fault.delta_from_invalid_frame
    else if (df.frame_num : Int) ≠ cl1.frame.delta_frame_num then
      Except.error fault.delta_frame_too_old
    else if u32 (cl1.entity_state + (4294967296 - df.entity_state))
        > L.ENTITY_STATE_BACKUP - L.PACKET_BACKUP then
      Except.error fault.delta_parse_entities_too_old
    else Except.ok ({ cl1 with frame := { cl1.frame with valid := true } }, some slot)

/-- `Cl_ParseFrame`.  `check` stands for `Cl_CheckPredictionError` (defined in
`cl_predict.c`, outside the sources at hand), which adjusts the predicted state. -/
def Cl_ParseFrame (L : limits_t) (dec : entity_decoder) (decPS : player_decoder)
    (check : cl_client_t → cl_predicted_state_t) (cl : cl_client_t) (msg : frame_msg_t) :
    Except fault cl_client_t :=
  match Cl_ParseFrame_header L cl msg with
  | Except.error err => Except.error err
  | Except.ok (cl1, delta_frame) =>
    let cl2 : cl_client_t := { cl1 with frame := { cl1.frame with area_bits := msg.area_bits } }
    let cl3 := Cl_ParsePlayerState decPS delta_frame cl2 msg.ps_fields
    match Cl_ParseEntities L dec delta_frame cl3 msg.entities with
    | Except.error err => Except.error err
    | Except.ok (cl4, _) =>
      let cl5 : cl_client_t :=
        { cl4 with frame := { cl4.frame with time := u32 (cl4.frame.frame_num * 1000) / cl4.server_hz } }
      let cl6 : cl_client_t :=
        { cl5 with frames := Function.update cl5.frames (cl5.frame.frame_num &&& L.PACKET_MASK) cl5.frame }
      if cl6.frame.valid then
        let cl7 : cl_client_t :=
          if cl6.cls_state ≠ cl_state_t.CL_ACTIVE then
            { cl6 with
              cls_state := cl_state_t.CL_ACTIVE
              predicted_state := { cl6.predicted_state with
                origin := UnpackVector cl6.frame.ps.pm_state.origin
                view_offset := UnpackVector cl6.frame.ps.pm_state.view_offset
                view_angles := UnpackAngles cl6.frame.ps.pm_state.view_angles } }
          else cl6
        Except.ok { cl7 with predicted_state := check cl7 }
      else Except.ok cl6

/-! ## Views of the client state used to state the merge properties -/

/-- The position in the entity state log of the entry with non-masked index `ds + t`:
the C expression `(ds + t) & ENTITY_STATE_MASK` on 32 bit unsigned integers. -/
def log_pos (L : limits_t) (ds t : Nat) : Nat := u32 (ds + t) &&& L.ENTITY_STATE_MASK

/-- The entity states of frame `f` as they stand in the entity state log, read the way
`Cl_LerpEntities` reads them. -/
def frame_states (L : limits_t) (cl : cl_client_t) (f : cl_frame_t) : List entity_state_t :=
  (List.range f.num_entities).map fun i => cl.entity_states (log_pos L f.entity_state i)

/-- The entity numbers of frame `f`. -/
def frame_numbers (L : limits_t) (cl : cl_client_t) (f : cl_frame_t) : List Nat :=
  (frame_states L cl f).map entity_state_t.number

/-- The copy of an old state that the "unchanged" loops make: a decode with change
bits `0` and nothing to read. -/
def copy_state (dec : entity_decoder) (o : entity_state_t) : entity_state_t :=
  dec o o.number 0 []

/-- The test `old_number < number` of the first copy loop, on a state of the reference
frame. -/
def is_below (number : Nat) (o : entity_state_t) : Bool := decide (o.number < number)

/-- The merge of `Cl_ParseEntities` on lists: `olds` are the states of the reference
frame that are not consumed yet, the second list holds the entries in front of the
terminating entry.  It follows the control flow of the C loop, the removal branch
skipping the old state at the cursor whatever its number. -/
def merge_states (L : limits_t) (dec : entity_decoder) (bl : Nat → entity_state_t) :
    List entity_state_t → List entry_t → List entity_state_t
  | olds, [] => olds.map (copy_state dec)
  | olds, e :: es =>
    let lo := olds.takeWhile (is_below e.number)
    let hi := olds.dropWhile (is_below e.number)
    lo.map (copy_state dec) ++
      (if e.bits &&& L.U_REMOVE ≠ 0 then merge_states L dec bl hi.tail es
       else
        match hi with
        | [] => dec (bl e.number) e.number e.bits e.fields :: merge_states L dec bl [] es
        | o :: hi1 =>
          if o.number = e.number then
            dec o e.number e.bits e.fields :: merge_states L dec bl hi1 es
          else dec (bl e.number) e.number e.bits e.fields :: merge_states L dec bl (o :: hi1) es)

/-- The state an entry is decoded against when the reference frame holds `olds`: the
old state of that number if there is one, the baseline otherwise. -/
def delta_base (bl : Nat → entity_state_t) (olds : List entity_state_t) (number : Nat) :
    entity_state_t :=
  match olds.find? fun o => decide (o.number = number) with
  | some o => o
  | none => bl number

/-- What a state of the merged frame is: the copy of an old state whose number no
entry mentions, or the decode of an entry without `U_REMOVE` against its delta base. -/
def merged_from (L : limits_t) (dec : entity_decoder) (bl : Nat → entity_state_t)
    (olds : List entity_state_t) (es : List entry_t) (s : entity_state_t) : Prop :=
  (∃ o, o ∈ olds ∧ (∀ e, e ∈ es → e.number ≠ o.number) ∧ s = copy_state dec o) ∨
  (∃ e, e ∈ es ∧ e.bits &&& L.U_REMOVE = 0 ∧
    s = dec (delta_base bl olds e.number) e.number e.bits e.fields)

/-- The relation between the client state `cl` in the middle of `Cl_ParseEntities` and
the client state `cl0` at its start: `ds` and `n` are the log index and the size of
the reference frame, the log cursor of `cl0` is `d` entries behind `ds`, and `outs`
are the states written so far. -/
structure parse_inv (L : limits_t) (cl0 cl : cl_client_t) (ds n d : Nat)
    (outs : List entity_state_t) : Prop where
  frames_eq : cl.frames = cl0.frames
  baseline_eq : ∀ m, (cl.entities m).baseline = (cl0.entities m).baseline
  cursor_eq : cl.entity_state = u32 (ds + (d + outs.length))
  start_eq : cl.frame.entity_state = u32 (ds + d)
  count_eq : cl.frame.num_entities = outs.length
  old_eq : ∀ t, t < n → cl.entity_states (log_pos L ds t) = cl0.entity_states (log_pos L ds t)
  new_eq : ∀ t (h : t < outs.length), cl.entity_states (log_pos L ds (d + t)) = outs[t]

/-- The old cursor `k` stands at index `i` of the reference frame. -/
def cursor_at (L : limits_t) (cl0 : cl_client_t) (ds n i : Nat) (k : old_cursor_t) : Prop :=
  k.old_index = i ∧
  (i < n → k.old_state = some (log_pos L ds i) ∧
    k.old_number = (cl0.entity_states (log_pos L ds i)).number) ∧
  (n ≤ i → k.old_number = 65535)

/-- The reference frame `delta_frame` of `cl0` starts at log index `ds` and has `n`
entities (`n = 0` without a reference frame). -/
def reference_is (cl0 : cl_client_t) (delta_frame : Option Nat) (ds n : Nat) : Prop :=
  match delta_frame with
  | none => n = 0
  | some slot => (cl0.frames slot).entity_state = ds ∧ (cl0.frames slot).num_entities = n

/-- The states of the reference frame from index `i` on. -/
def old_states (L : limits_t) (cl0 : cl_client_t) (ds n i : Nat) : List entity_state_t :=
  ((List.range n).drop i).map fun t => cl0.entity_states (log_pos L ds t)

/-- The states of the reference frame `delta_frame` (none without a reference frame). -/
def reference_states (L : limits_t) (cl : cl_client_t) (delta_frame : Option Nat) :
    List entity_state_t :=
  match delta_frame with
  | none => []
  | some slot => frame_states L cl (cl.frames slot)

/-- The entity numbers of the reference frame, the set `O` of the merge. -/
def reference_numbers (L : limits_t) (cl : cl_client_t) (delta_frame : Option Nat) : List Nat :=
  (reference_states L cl delta_frame).map entity_state_t.number

/-- The entity numbers of the entries, the set `N` of the merge. -/
def entry_numbers (es : List entry_t) : List Nat := es.map entry_t.number

/-- The numbers of the entries that carry `U_REMOVE`. -/
def removed_numbers (L : limits_t) (es : List entry_t) : List Nat :=
  (es.filter fun e => decide (e.bits &&& L.U_REMOVE ≠ 0)).map entry_t.number

/-- The baseline table `cl.entities[n].baseline`. -/
def baseline_of (cl : cl_client_t) (n : Nat) : entity_state_t := (cl.entities n).baseline

/-- A well-formed call of `Cl_ParseEntities`: `es` are the entries in front of the
terminating entry, `d` is the distance of the log cursor from the start of the
reference frame.

* the entity state log has a power of two as size and `MAX_ENTITIES` fits 16 bits with
  room for the end marker `0xffff`;
* the decoder stores the entity number it is given;
* the log cursor is a 32 bit value, `d` entries behind the start of the reference
  frame, which lies in front of the cursor;
* the log has room for the new frame without overwriting the reference frame, and
  the entity count fits 16 bits;
* the reference frame is strictly ascending with numbers below `MAX_ENTITIES`;
* the entries are strictly ascending with non-zero numbers below `MAX_ENTITIES`;
* every entry with `U_REMOVE` names an entity of the reference frame. -/
structure merge_pre (L : limits_t) (kk : Nat) (dec : entity_decoder) (cl : cl_client_t)
    (delta_frame : Option Nat) (d : Nat) (es : List entry_t) : Prop where
  backup_pow : L.ENTITY_STATE_BACKUP = 2 ^ kk
  backup_le : kk ≤ 32
  max_pos : 0 < L.MAX_ENTITIES
  max_le : L.MAX_ENTITIES ≤ 65535
  dec_number : ∀ frm n b p, (dec frm n b p).number = n
  cursor_wf : cl.entity_state < 4294967296
  cursor_eq : ∀ slot, delta_frame = some slot →
    cl.entity_state = u32 ((cl.frames slot).entity_state + d) ∧ (cl.frames slot).num_entities ≤ d
  capacity : d + (reference_states L cl delta_frame).length + es.length ≤ 2 ^ kk
  count16 : (reference_states L cl delta_frame).length + es.length < 65536
  olds_sorted : (reference_numbers L cl delta_frame).Pairwise (· < ·)
  olds_range : ∀ x, x ∈ reference_numbers L cl delta_frame → x < L.MAX_ENTITIES
  es_sorted : (entry_numbers es).Pairwise (· < ·)
  es_range : ∀ e, e ∈ es → 0 < e.number ∧ e.number < L.MAX_ENTITIES
  removes_old : ∀ e, e ∈ es → e.bits &&& L.U_REMOVE ≠ 0 →
    e.number ∈ reference_numbers L cl delta_frame

/-- The slot of the frame ring that a frame message with delta sequence `d` refers
to: `cl.frames[d & PACKET_MASK]`. -/
def delta_slot (L : limits_t) (d : Int) : Nat := d.toNat &&& L.PACKET_MASK

/-- The reference frame of delta sequence `d` cannot be used: its slot is not valid,
or holds another frame, or its entity states start more than
`ENTITY_STATE_BACKUP - PACKET_BACKUP` entries behind the log cursor (in 32 bit unsigned
arithmetic). -/
def delta_rejected (L : limits_t) (cl : cl_client_t) (d : Int) : Prop :=
  (cl.frames (delta_slot L d)).valid = false ∨
  ((cl.frames (delta_slot L d)).frame_num : Int) ≠ d ∨
  u32 (cl.entity_state + (4294967296 - (cl.frames (delta_slot L d)).entity_state))
    > L.ENTITY_STATE_BACKUP - L.PACKET_BACKUP

/-! ## Sample client states for the frame parser -/

/-- Sample header constants: 32 frames, a log of 1024 entity states, 1024 entities,
and a bit for `U_REMOVE`. -/
def sample_limits : limits_t := ⟨32, 1024, 1024, 2048⟩

/-- A sample decoder: it stores the entity number and, when a change bit is set, the
first field byte as the event. -/
def sample_decoder : entity_decoder := fun frm n bits fields =>
  if bits = 0 then { frm with number := n }
  else { frm with number := n, event := fields.headD 0 }

/-- A sample entity state with the given number and sound index. -/
def sample_state (n snd : Nat) : entity_state_t :=
  { null_entity_state with number := n, sound := snd }

/-- A sample entity record whose baseline has sound index `1`. -/
def sample_entity (n : Nat) : cl_entity_t :=
  ⟨sample_state n 1, null_entity_state, null_entity_state, 0, 0, 0,
    r_lighting_state_t.LIGHTING_INIT⟩

/-- An empty, invalid frame. -/
def sample_frame : cl_frame_t := ⟨false, 0, 0, 0, [], null_player_state, 0, 0⟩

/-- A sample client: frame 40 sits in slot 8 of the frame ring and holds the entities
5 and 7 (sound indices 50 and 70) at the log indices 0 and 1; the log cursor is 2. -/
def sample_client : cl_client_t :=
  { entity_states := fun i =>
      if i = 0 then sample_state 5 50 else if i = 1 then sample_state 7 70
      else null_entity_state
    entity_state := 2
    entities := sample_entity
    frame := sample_frame
    frames := fun s =>
      if s = 8 then { sample_frame with valid := true, frame_num := 40, num_entities := 2 }
      else sample_frame
    surpress_count := 0
    server_hz := 10
    demo_server := false
    predicted_state := ⟨vec3_origin, vec3_origin, vec3_origin, vec3_origin⟩
    time := 0
    lerp := 0
    cls_state := cl_state_t.CL_CONNECTED }

/-- The entity numbers of the frame a parse produced, `none` if the parse failed. -/
def parsed_numbers (L : limits_t) (r : Except fault (cl_client_t × List entry_t)) :
    Option (List Nat) :=
  match r with
  | Except.error _ => none
  | Except.ok (cl, _) => some (frame_numbers L cl cl.frame)

/-- The entity states of the frame a parse produced, `none` if the parse failed. -/
def parsed_states (L : limits_t) (r : Except fault (cl_client_t × List entry_t)) :
    Option (List entity_state_t) :=
  match r with
  | Except.error _ => none
  | Except.ok (cl, _) => some (frame_states L cl cl.frame)

/-- Sample entries: a new entity 3, the removal of entity 5, a new entity 9. -/
def sample_entries : List entry_t := [⟨3, 1, [4]⟩, ⟨5, 2048, []⟩, ⟨9, 1, [6]⟩]

/-- The entry that ends the entity stream. -/
def end_entry : entry_t := ⟨0, 0, []⟩

/-- A sample client whose slot 8 of the frame ring still holds frame 8: frame 40 was
never stored there. -/
def sample_client_stale : cl_client_t :=
  { sample_client with
    frames := fun s =>
      if s = 8 then { sample_frame with valid := true, frame_num := 8, num_entities := 2 }
      else sample_frame }

/-- The message of frame 50 that declares frame 40 as its reference, with an empty
entity stream. -/
def sample_msg : frame_msg_t := ⟨50, 40, 0, [], [], [end_entry]⟩

/-- The fault of a parse, `none` if the parse succeeded. -/
def fault_of {α : Type} (r : Except fault α) : Option fault :=
  match r with
  | Except.error e => some e
  | Except.ok _ => none

/-! ## A sample client with a short entity state log -/

/-- Sample header constants with a short log: 2 frames and a log of 4 entity states. -/
def small_limits : limits_t := ⟨2, 4, 1024, 2048⟩

/-- A sample client for the short log: frame 2 sits in slot 0 of the frame ring and
holds the entity 9 (sound index 90) at the log index 0; the log cursor is 1. -/
def small_client : cl_client_t :=
  { sample_client with
    entity_states := fun i => if i = 0 then sample_state 9 90 else null_entity_state
    entity_state := 1
    frames := fun s =>
      if s = 0 then { sample_frame with valid := true, frame_num := 2, num_entities := 1 }
      else sample_frame }

/-- Four entries for new entities below the entity 9. -/
def small_entries : List entry_t := [⟨1, 1, [4]⟩, ⟨2, 1, [4]⟩, ⟨3, 1, [4]⟩, ⟨4, 1, [4]⟩]

/-- The message of frame 3 that declares frame 2 as its reference, with the given
entries. -/
def small_msg (es : List entry_t) : frame_msg_t := ⟨3, 2, 0, [], [], es ++ [end_entry]⟩

/-! ## Player movement: data model (`bg_pmove.h`, `cm` types) -/

/-- `VectorAdd(a, b, out)`. -/
def VectorAdd (a b : vec3_t) : vec3_t := ⟨a.x + b.x, a.y + b.y, a.z + b.z⟩

/-- `VectorScale(v, s, out)`. -/
def VectorScale (v : vec3_t) (s : vec_t) : vec3_t := ⟨v.x * s, v.y * s, v.z * s⟩

/-- `VectorMA(a, s, b, out)`: `a + s * b`. -/
def VectorMA (a : vec3_t) (s : vec_t) (b : vec3_t) : vec3_t :=
  ⟨a.x + s * b.x, a.y + s * b.y, a.z + s * b.z⟩

/-- The C conversion of a `vec_t` to a 16 bit integer in `PackVector`: truncation
toward zero (values are taken to be in range). -/
def trunc_int (q : vec_t) : Int := if 0 ≤ q then ⌊q⌋ else ⌈q⌉

/-- `PackVector(in, out)`: coordinates in eighths of a unit. -/
def PackVector (v : vec3_t) : svec3_t :=
  ⟨trunc_int (v.x * 8), trunc_int (v.y * 8), trunc_int (v.z * 8)⟩

/-- The functions of the math library that have no rational counterpart: the square
root behind `VectorLength` and `VectorNormalize`, and the trigonometry of
`AngleVectors(angles, forward, right, up)`. -/
structure pm_math_t where
  sqrt : vec_t → vec_t
  AngleVectors : vec3_t → vec3_t × vec3_t × vec3_t

/-- `VectorLength(v)`. -/
def VectorLength (M : pm_math_t) (v : vec3_t) : vec_t := M.sqrt (DotProduct v v)

/-- `VectorNormalize(v)`: the normalised vector (the vector itself if its length is
zero) and the length. -/
def VectorNormalize (M : pm_math_t) (v : vec3_t) : vec3_t × vec_t :=
  let length := VectorLength M v
  if length ≠ 0 then (VectorScale v (1 / length), length) else (v, length)

/-- `Clamp(x, lo, hi)`. -/
def Clamp (x lo hi : vec_t) : vec_t := if x < lo then lo else if x > hi then hi else x

/-- The movement constants `PM_*` of `bg_pmove.h`, which is not among the sources at
hand. -/
structure pm_const_t where
  PM_SCALE : vec_t
  PM_ACCEL_AIR : vec_t
  PM_ACCEL_GROUND : vec_t
  PM_ACCEL_GROUND_SLICK : vec_t
  PM_ACCEL_SPECTATOR : vec_t
  PM_ACCEL_WATER : vec_t
  PM_CLIP_BOUNCE : vec_t
  PM_FRICT_AIR : vec_t
  PM_FRICT_GROUND : vec_t
  PM_FRICT_GROUND_SLICK : vec_t
  PM_FRICT_LADDER : vec_t
  PM_FRICT_SPECTATOR : vec_t
  PM_FRICT_WATER : vec_t
  PM_GRAVITY_WATER : vec_t
  PM_GROUND_DIST : vec_t
  PM_GROUND_DIST_TRICK : vec_t
  PM_SPEED_AIR : vec_t
  PM_SPEED_CURRENT : vec_t
  PM_SPEED_DUCK_STAND : vec_t
  PM_SPEED_DUCKED : vec_t
  PM_SPEED_FALL : vec_t
  PM_SPEED_FALL_FAR : vec_t
  PM_SPEED_JUMP : vec_t
  PM_SPEED_LADDER : vec_t
  PM_SPEED_LAND : vec_t
  PM_SPEED_RUN : vec_t
  PM_SPEED_SPECTATOR : vec_t
  PM_SPEED_STOP : vec_t
  PM_SPEED_UP : vec_t
  PM_SPEED_TRICK_JUMP : vec_t
  PM_SPEED_WATER : vec_t
  PM_SPEED_WATER_JUMP : vec_t
  PM_SPEED_WATER_SINK : vec_t
  PM_STEP_HEIGHT : vec_t
  PM_STEP_NORMAL : vec_t
  PM_STOP_EPSILON : vec_t
  PM_MAX_TOUCH_ENTS : Nat

/-! The flag bits `PMF_*`, the content bits and the surface and button bits are defined
in headers that are not among the sources at hand.  Modelled from the spec: each named
flag is a bit of its own (§3, §9: "a bitset with named accessors, preserving exact bit
semantics"); the positions chosen here are not significant. -/

/-- Modelled from the spec: the bit of `PMF_DUCKED`. -/
def PMF_DUCKED : Nat := 2 ^ 0
/-- Modelled from the spec: the bit of `PMF_JUMPED`. -/
def PMF_JUMPED : Nat := 2 ^ 1
/-- Modelled from the spec: the bit of `PMF_JUMP_HELD`. -/
def PMF_JUMP_HELD : Nat := 2 ^ 2
/-- Modelled from the spec: the bit of `PMF_ON_GROUND`. -/
def PMF_ON_GROUND : Nat := 2 ^ 3
/-- Modelled from the spec: the bit of `PMF_ON_STAIRS`. -/
def PMF_ON_STAIRS : Nat := 2 ^ 4
/-- Modelled from the spec: the bit of `PMF_ON_LADDER`. -/
def PMF_ON_LADDER : Nat := 2 ^ 5
/-- Modelled from the spec: the bit of `PMF_UNDER_WATER`. -/
def PMF_UNDER_WATER : Nat := 2 ^ 6
/-- Modelled from the spec: the bit of `PMF_PUSHED`. -/
def PMF_PUSHED : Nat := 2 ^ 7
/-- Modelled from the spec: the bit of `PMF_TIME_LAND`. -/
def PMF_TIME_LAND : Nat := 2 ^ 8
/-- Modelled from the spec: the bit of `PMF_TIME_TELEPORT`. -/
def PMF_TIME_TELEPORT : Nat := 2 ^ 9
/-- Modelled from the spec: the bit of `PMF_TIME_TRICK_JUMP`. -/
def PMF_TIME_TRICK_JUMP : Nat := 2 ^ 10
/-- Modelled from the spec: the bit of `PMF_TIME_WATER_JUMP`. -/
def PMF_TIME_WATER_JUMP : Nat := 2 ^ 11
/-- Modelled from the spec: the bit of `PMF_NO_PREDICTION`. -/
def PMF_NO_PREDICTION : Nat := 2 ^ 12
/-- Modelled from the spec: `PMF_TIME_MASK`, the timed flags (§4.1 step 1: the state
timer and "its associated timed flags"). -/
def PMF_TIME_MASK : Nat :=
  PMF_TIME_LAND ||| PMF_TIME_TELEPORT ||| PMF_TIME_TRICK_JUMP ||| PMF_TIME_WATER_JUMP

/-- The content, surface and button bits the movement code tests, defined in headers
that are not among the sources at hand. -/
structure pm_bits_t where
  CONTENTS_CURRENT_0 : Nat
  CONTENTS_CURRENT_90 : Nat
  CONTENTS_CURRENT_180 : Nat
  CONTENTS_CURRENT_270 : Nat
  CONTENTS_CURRENT_UP : Nat
  CONTENTS_CURRENT_DOWN : Nat
  MASK_CURRENT : Nat
  CONTENTS_WATER : Nat
  MASK_WATER : Nat
  CONTENTS_LADDER : Nat
  MASK_SOLID : Nat
  SURF_SLICK : Nat
  BUTTON_WALK : Nat

/-- The C test `if (flags & mask)`. -/
def has_flag (flags mask : Nat) : Bool := decide (flags &&& mask ≠ 0)

/-- The C statement `flags |= mask`. -/
def flags_set (flags mask : Nat) : Nat := flags ||| mask

/-- The C statement `flags &= ~mask`, for any width of `flags`. -/
def flags_clear (flags mask : Nat) : Nat := flags ^^^ (flags &&& mask)

/-- A plane, `cm_bsp_plane_t`, restricted to its normal and its number. -/
structure cm_bsp_plane_t where
  normal : vec3_t
  num : Nat
deriving DecidableEq

/-- A surface, `cm_bsp_surface_t`, restricted to its flags. -/
structure cm_bsp_surface_t where
  flags : Nat
deriving DecidableEq

/-- The result of a trace, `cm_trace_t`.  `surface` and `ent` are pointers (`none` for
`NULL`); entities are named by a number. -/
structure cm_trace_t where
  all_solid : Bool
  start_solid : Bool
  fraction : vec_t
  end_ : vec3_t
  plane : cm_bsp_plane_t
  surface : Option cm_bsp_surface_t
  contents : Nat
  ent : Option Nat
deriving DecidableEq

/-- The world query capabilities of a move: `pm->Trace(start, end, mins, maxs)` and
`pm->PointContents(point)`. -/
structure pm_world_t where
  Trace : vec3_t → vec3_t → vec3_t → vec3_t → cm_trace_t
  PointContents : vec3_t → Nat

/-- A movement command, `user_cmd_t`. -/
structure user_cmd_t where
  msec : Nat
  buttons : Nat
  angles : svec3_t
  forward : Int
  right : Int
  up : Int
deriving DecidableEq

/-- The move `pm_move_t` without its function pointers: state, command and results. -/
structure pm_move_t where
  s : pm_state_t
  cmd : user_cmd_t
  touch_ents : List Nat
  angles : vec3_t
  mins : vec3_t
  maxs : vec3_t
  ground_entity : Option Nat
  water_type : Nat
  water_level : Nat
  step : vec_t
deriving DecidableEq

/-- The locals of a move, `pm_locals_t` (the file-scope `pml`). -/
structure pm_locals_t where
  origin : vec3_t
  velocity : vec3_t
  view_offset : vec3_t
  previous_origin : vec3_t
  previous_velocity : vec3_t
  forward : vec3_t
  right : vec3_t
  up : vec3_t
  time : vec_t
  ground_surface : Option cm_bsp_surface_t
  ground_plane : cm_bsp_plane_t
  ground_contents : Nat
deriving DecidableEq

/-- The file-scope variables `pm` (the target of the pointer) and `pml`. -/
structure pm_ctx where
  pm : pm_move_t
  pml : pm_locals_t
deriving DecidableEq

/-- The default bounding box `PM_MINS`. -/
def PM_MINS : vec3_t := ⟨-16, -16, -24⟩

/-- The default bounding box `PM_MAXS`. -/
def PM_MAXS : vec3_t := ⟨16, 16, 32⟩

/-- The bound `MAX_CLIP_PLANES` of the slide loop. -/
def MAX_CLIP_PLANES : Nat := 4

/-! ## Player movement: `bg_pmove.c` -/

/-- The macro `MAX(a, b)`. -/
def MAX (a b : vec_t) : vec_t := if a > b then a else b

/-- One component of `Pm_ClipVelocity`: subtract the change and stop small values. -/
def clip_component (K : pm_const_t) (v n backoff : vec_t) : vec_t :=
  let out := v - n * backoff
  if out < K.PM_STOP_EPSILON ∧ out > -K.PM_STOP_EPSILON then 0 else out

/-- `Pm_ClipVelocity(in, normal, out, bounce)`: slide off of the impacted plane. -/
def Pm_ClipVelocity (K : pm_const_t) (v normal : vec3_t) (bounce : vec_t) : vec3_t :=
  let backoff0 := DotProduct v normal
  let backoff := if backoff0 < 0 then backoff0 * bounce else backoff0 / bounce
  ⟨clip_component K v.x normal.x backoff, clip_component K v.y normal.y backoff,
    clip_component K v.z normal.z backoff⟩

/-- `Pm_TouchEnt(ent)`: mark the entity as touched. -/
def Pm_TouchEnt (K : pm_const_t) (c : pm_ctx) (ent : Option Nat) : pm_ctx :=
  match ent with
  | none => c
  | some e =>
    if c.pm.touch_ents.length = K.PM_MAX_TOUCH_ENTS then c
    else if e ∈ c.pm.touch_ents then c
    else { c with pm.touch_ents := c.pm.touch_ents ++ [e] }

/-- The `for` loop of `Pm_SlideMove`, with the remaining iterations, the remaining
time and the number of planes hit.  The last component of the result tells that the
function returned from inside the loop (trapped in a solid). -/
def Pm_SlideMove_loop (K : pm_const_t) (W : pm_world_t) :
    Nat → pm_ctx → vec_t → Nat → pm_ctx × Nat × Bool
  | 0, c, _, num_planes => (c, num_planes, false)
  | n + 1, c, time_remaining, num_planes =>
    if time_remaining ≤ 0 then (c, num_planes, false)
    else
      let pos := VectorMA c.pml.origin time_remaining c.pml.velocity
      let trace := W.Trace c.pml.origin pos c.pm.mins c.pm.maxs
      let c1 := Pm_TouchEnt K c trace.ent
      if trace.all_solid then ({ c1 with pml.velocity := vec3_origin }, num_planes, true)
      else
        let c2 : pm_ctx := { c1 with pml.origin := trace.end_ }
        if trace.fraction = 1 then (c2, num_planes, false)
        else
          let time_remaining1 := time_remaining - time_remaining * trace.fraction
          let c3 : pm_ctx :=
            { c2 with pml.velocity :=
                Pm_ClipVelocity K c2.pml.velocity trace.plane.normal K.PM_CLIP_BOUNCE }
          Pm_SlideMove_loop K W n c3 time_remaining1 (num_planes + 1)

/-- `Pm_SlideMove()`: the new context and the result (true if not blocked). -/
def Pm_SlideMove (K : pm_const_t) (W : pm_world_t) (c : pm_ctx) : pm_ctx × Bool :=
  let vel0 := c.pml.velocity
  let r := Pm_SlideMove_loop K W MAX_CLIP_PLANES c c.pml.time 0
  if r.2.2 then (r.1, true)
  else
    let c2 : pm_ctx :=
      if DotProduct r.1.pml.velocity vel0 ≤ 0 then { r.1 with pml.velocity := vec3_origin }
      else r.1
    (c2, decide (r.2.1 = 0))

/-- The first part of `Pm_StepMove(true)`: trace up by the step height (twice the step
height during a water jump) and slide from there.  The result is `none` when the
upward position is not available (`Pm_StepMove` returns false). -/
def Pm_StepMove_up (K : pm_const_t) (W : pm_world_t) (c : pm_ctx) : Option pm_ctx :=
  let pos0 : vec3_t := { c.pml.origin with z := c.pml.origin.z + K.PM_STEP_HEIGHT }
  let pos : vec3_t :=
    if has_flag c.pm.s.flags PMF_TIME_WATER_JUMP then { pos0 with z := pos0.z + K.PM_STEP_HEIGHT }
    else pos0
  let trace := W.Trace c.pml.origin pos c.pm.mins c.pm.maxs
  if trace.all_solid then none
  else some (Pm_SlideMove K W { c with pml.origin := trace.end_ }).1

/-- The second part of `Pm_StepMove(up)`: settle to the floor by tracing down.  `org` and
`vel` are the origin and the velocity saved at the start of `Pm_StepMove`. -/
def Pm_StepMove_settle (K : pm_const_t) (W : pm_world_t) (org vel : vec3_t) (up : Bool)
    (c1 : pm_ctx) : pm_ctx × Bool :=
  let pos : vec3_t :=
    { c1.pml.origin with z := c1.pml.origin.z - (K.PM_STEP_HEIGHT + K.PM_GROUND_DIST) }
  let trace := W.Trace c1.pml.origin pos c1.pm.mins c1.pm.maxs
  if trace.ent.isSome ∧ trace.plane.normal.z ≥ K.PM_STEP_NORMAL then
    if trace.ent ≠ c1.pm.ground_entity ∨ trace.plane.num ≠ c1.pml.ground_plane.num then
      let c2 : pm_ctx := { c1 with pml.velocity := { c1.pml.velocity with z := vel.z } }
      let c3 : pm_ctx :=
        if up = true ∧ c2.pml.velocity.z ≥ K.PM_SPEED_UP then
          { c2 with pml.origin :=
              { c2.pml.origin with z := MAX (org.z + K.PM_STEP_HEIGHT) c2.pml.origin.z } }
        else
          { c2 with
            pml.origin := { c2.pml.origin with z := trace.end_.z }
            pml.velocity :=
              Pm_ClipVelocity K c2.pml.velocity trace.plane.normal K.PM_CLIP_BOUNCE }
      let step := |c3.pml.origin.z - org.z|
      if step ≥ K.PM_STOP_EPSILON then
        let c4 : pm_ctx := { c3 with pm.step := c3.pml.origin.z - org.z }
        if step ≥ 4 then ({ c4 with pm.s.flags := flags_set c4.pm.s.flags PMF_ON_STAIRS }, true)
        else (c4, true)
      else (c3, false)
    else (c1, false)
  else (c1, false)

/-- `Pm_StepMove(up)`: the step portion of the step slide move. -/
def Pm_StepMove (K : pm_const_t) (W : pm_world_t) (c : pm_ctx) (up : Bool) :
    pm_ctx × Bool :=
  if up then
    match Pm_StepMove_up K W c with
    | none => (c, false)
    | some c1 => Pm_StepMove_settle K W c.pml.origin c.pml.velocity up c1
  else Pm_StepMove_settle K W c.pml.origin c.pml.velocity up c

/-- The first part of `Pm_StepSlideMove()`, run when the slide was blocked and the
player is not on a ladder: step up from the original position `org` with the original
velocity `vel`, and keep the stepped result unless the unstepped one (`c1`) got further
horizontally.  The comparison is `VectorLength(delta0) > VectorLength(delta1)`. -/
def Pm_StepSlideMove_up (K : pm_const_t) (M : pm_math_t) (W : pm_world_t) (org vel : vec3_t)
    (c1 : pm_ctx) : pm_ctx :=
  let org0 := c1.pml.origin
  let vel0 := c1.pml.velocity
  let stepped := Pm_StepMove K W { c1 with pml.origin := org, pml.velocity := vel } true
  if stepped.2 then
    let delta0 : vec3_t := { VectorSubtract org0 org with z := 0 }
    let delta1 : vec3_t := { VectorSubtract stepped.1.pml.origin org with z := 0 }
    if VectorLength M delta0 > VectorLength M delta1 then
      { stepped.1 with
        pml.origin := org0
        pml.velocity := vel0
        pm.s.flags := flags_clear stepped.1.pm.s.flags PMF_ON_STAIRS
        pm.step := 0 }
    else stepped.1
  else { stepped.1 with pml.origin := org0, pml.velocity := vel0 }

/-- The second part of `Pm_StepSlideMove()`: step down to remain on the ground. -/
def Pm_StepSlideMove_down (K : pm_const_t) (W : pm_world_t) (c2 : pm_ctx) : pm_ctx :=
  if has_flag c2.pm.s.flags PMF_ON_GROUND ∧ has_flag c2.pm.s.flags PMF_TIME_TRICK_JUMP = false then
    if c2.pm.step < K.PM_STOP_EPSILON ∧ c2.pml.velocity.z < K.PM_SPEED_UP then
      let stepped := Pm_StepMove K W c2 false
      if stepped.2 = false then
        { stepped.1 with pml.origin := c2.pml.origin, pml.velocity := c2.pml.velocity }
      else stepped.1
    else c2
  else c2

/-- `Pm_StepSlideMove()`. -/
def Pm_StepSlideMove (K : pm_const_t) (M : pm_math_t) (W : pm_world_t) (c : pm_ctx) : pm_ctx :=
  let slid := Pm_SlideMove K W c
  if slid.2 = false ∧ has_flag slid.1.pm.s.flags PMF_ON_LADDER = false then
    Pm_StepSlideMove_down K W (Pm_StepSlideMove_up K M W c.pml.origin c.pml.velocity slid.1)
  else Pm_StepSlideMove_down K W slid.1

/-- `Pm_Friction()`. -/
def Pm_Friction (K : pm_const_t) (B : pm_bits_t) (M : pm_math_t) (c : pm_ctx) : pm_ctx :=
  let vel : vec3_t :=
    if has_flag c.pm.s.flags PMF_ON_GROUND then { c.pml.velocity with z := 0 }
    else c.pml.velocity
  let speed := VectorLength M vel
  if speed < 1 then { c with pml.velocity := vec3_origin }
  else
    let control := MAX K.PM_SPEED_STOP speed
    let friction : vec_t :=
      if c.pm.s.type = pm_type_t.PM_SPECTATOR then K.PM_FRICT_SPECTATOR
      else if has_flag c.pm.s.flags PMF_ON_LADDER then K.PM_FRICT_LADDER
      else
        (if has_flag c.pm.s.flags PMF_ON_GROUND then
          match c.pml.ground_surface with
          | some surface =>
            if has_flag surface.flags B.SURF_SLICK then K.PM_FRICT_GROUND_SLICK
            else K.PM_FRICT_GROUND
          | none => K.PM_FRICT_GROUND
        else K.PM_FRICT_AIR) + K.PM_FRICT_WATER * (c.pm.water_level : ℚ)
    let scale := MAX 0 (speed - friction * control * c.pml.time) / speed
    { c with pml.velocity := VectorScale c.pml.velocity scale }

/-- `Pm_Accelerate(dir, speed, accel)`. -/
def Pm_Accelerate (c : pm_ctx) (dir : vec3_t) (speed accel : vec_t) : pm_ctx :=
  let current_speed := DotProduct c.pml.velocity dir
  let add_speed := speed - current_speed
  if add_speed ≤ 0 then c
  else
    let accel_speed0 := accel * c.pml.time * speed
    let accel_speed := if accel_speed0 > add_speed then add_speed else accel_speed0
    { c with pml.velocity := VectorMA c.pml.velocity accel_speed dir }

/-- `Pm_Gravity()`. -/
def Pm_Gravity (K : pm_const_t) (c : pm_ctx) : pm_ctx :=
  let gravity0 : vec_t := (c.pm.s.gravity : ℚ)
  let gravity := if c.pm.water_level > 2 then gravity0 * K.PM_GRAVITY_WATER else gravity0
  { c with pml.velocity := { c.pml.velocity with z := c.pml.velocity.z - gravity * c.pml.time } }

/-- The direction that the current bits of `contents` add up to. -/
def current_direction (B : pm_bits_t) (contents : Nat) : vec3_t :=
  let v0 : vec3_t := vec3_origin
  let v1 : vec3_t := if has_flag contents B.CONTENTS_CURRENT_0 then { v0 with x := v0.x + 1 } else v0
  let v2 : vec3_t := if has_flag contents B.CONTENTS_CURRENT_90 then { v1 with y := v1.y + 1 } else v1
  let v3 : vec3_t := if has_flag contents B.CONTENTS_CURRENT_180 then { v2 with x := v2.x - 1 } else v2
  let v4 : vec3_t := if has_flag contents B.CONTENTS_CURRENT_270 then { v3 with y := v3.y - 1 } else v3
  let v5 : vec3_t := if has_flag contents B.CONTENTS_CURRENT_UP then { v4 with z := v4.z + 1 } else v4
  if has_flag contents B.CONTENTS_CURRENT_DOWN then { v5 with z := v5.z - 1 } else v5

/-- `Pm_Currents(vel)`: adds water currents and conveyor belt velocities to `vel`. -/
def Pm_Currents (K : pm_const_t) (B : pm_bits_t) (c : pm_ctx) (vel : vec3_t) : vec3_t :=
  let vel1 : vec3_t :=
    if has_flag c.pm.water_type B.MASK_CURRENT then
      let s : vec_t :=
        if c.pm.water_level = 1 ∧ c.pm.ground_entity.isSome then K.PM_SPEED_WATER
        else K.PM_SPEED_RUN
      VectorMA vel s (current_direction B c.pm.water_type)
    else vel
  if c.pm.ground_entity.isSome then
    VectorMA vel1 K.PM_SPEED_CURRENT (current_direction B c.pml.ground_contents)
  else vel1

/-- `Pm_CheckTrickJump()`. -/
def Pm_CheckTrickJump (K : pm_const_t) (c : pm_ctx) : Bool :=
  if c.pm.ground_entity.isSome then false
  else if c.pml.previous_velocity.z < K.PM_SPEED_UP then false
  else if c.pm.cmd.up < 1 then false
  else if has_flag c.pm.s.flags PMF_JUMP_HELD then false
  else if has_flag c.pm.s.flags PMF_TIME_MASK then false
  else true

/-- The landing part of `Pm_CategorizePosition`, run when ground is found and the
player had no ground entity. -/
def Pm_Landing (K : pm_const_t) (B : pm_bits_t) (c : pm_ctx) (trick_jump : Bool) : pm_ctx :=
  let c1 : pm_ctx :=
    if has_flag c.pm.s.flags PMF_TIME_WATER_JUMP then
      { c with pm.s.flags := flags_clear c.pm.s.flags PMF_TIME_WATER_JUMP, pm.s.time := 0 }
    else c
  if c1.pml.previous_velocity.z ≤ K.PM_SPEED_LAND then
    let c2 : pm_ctx := { c1 with pm.s.flags := flags_set c1.pm.s.flags PMF_TIME_LAND, pm.s.time := 32 }
    if c2.pml.previous_velocity.z ≤ K.PM_SPEED_FALL then
      if c2.pml.previous_velocity.z ≤ K.PM_SPEED_FALL_FAR then { c2 with pm.s.time := 1024 }
      else { c2 with pm.s.time := 512 }
    else c2
  else if trick_jump = true ∧ has_flag c1.pml.ground_contents B.CONTENTS_LADDER = false then
    { c1 with pm.s.flags := flags_set c1.pm.s.flags PMF_TIME_TRICK_JUMP, pm.s.time := 32 }
  else c1

/-- The water part of `Pm_CategorizePosition`: water level and type from up to three
point samples. -/
def Pm_WaterLevel (K : pm_const_t) (B : pm_bits_t) (W : pm_world_t) (c : pm_ctx) : pm_ctx :=
  let c0 : pm_ctx := { c with pm.water_level := 0, pm.water_type := 0 }
  let pos1 : vec3_t := { c0.pml.origin with z := c0.pml.origin.z + c0.pm.mins.z + K.PM_GROUND_DIST }
  let contents1 := W.PointContents pos1
  if has_flag contents1 B.MASK_WATER then
    let c1 : pm_ctx := { c0 with pm.water_type := contents1, pm.water_level := 1 }
    let pos2 : vec3_t := { pos1 with z := c1.pml.origin.z }
    let contents2 := W.PointContents pos2
    if has_flag contents2 B.MASK_WATER then
      let c2 : pm_ctx :=
        { c1 with pm.water_type := c1.pm.water_type ||| contents2, pm.water_level := 2 }
      let pos3 : vec3_t := { pos2 with z := c2.pml.origin.z + c2.pml.view_offset.z + 1 }
      let contents3 := W.PointContents pos3
      if has_flag contents3 B.MASK_WATER then
        { c2 with
          pm.water_type := c2.pm.water_type ||| contents3
          pm.water_level := 3
          pm.s.flags := flags_set c2.pm.s.flags PMF_UNDER_WATER }
      else c2
    else c1
  else c0

/-- The ground trace of `Pm_CategorizePosition`: down by `PM_GROUND_DIST`, or ahead and
down by `PM_GROUND_DIST_TRICK` for a player eligible for a trick jump. -/
def Pm_GroundTrace (K : pm_const_t) (W : pm_world_t) (c : pm_ctx) (trick_jump : Bool) :
    cm_trace_t :=
  let pos : vec3_t :=
    if trick_jump then
      let p := VectorMA c.pml.origin c.pml.time c.pml.velocity
      { p with z := p.z - K.PM_GROUND_DIST_TRICK }
    else { c.pml.origin with z := c.pml.origin.z - K.PM_GROUND_DIST }
  W.Trace c.pml.origin pos c.pm.mins c.pm.maxs

/-- The ground part of `Pm_CategorizePosition`: stores the ground of the trace and sets
or clears `PMF_ON_GROUND` and the ground entity. -/
def Pm_Ground (K : pm_const_t) (B : pm_bits_t) (c : pm_ctx) (trace : cm_trace_t)
    (trick_jump : Bool) : pm_ctx :=
  let c1 : pm_ctx :=
    { c with
      pml.ground_plane := trace.plane
      pml.ground_surface := trace.surface
      pml.ground_contents := trace.contents }
  if trace.ent.isSome ∧ trace.plane.normal.z ≥ K.PM_STEP_NORMAL then
    let c11 := if c1.pm.ground_entity.isSome then c1 else Pm_Landing K B c1 trick_jump
    let c12 : pm_ctx :=
      { c11 with pm.s.flags := flags_set c11.pm.s.flags PMF_ON_GROUND, pm.ground_entity := trace.ent }
    if has_flag c12.pm.s.flags PMF_TIME_TRICK_JUMP = false then
      { c12 with pml.origin := { c12.pml.origin with z := trace.end_.z + K.PM_STOP_EPSILON } }
    else c12
  else
    { c1 with pm.s.flags := flags_clear c1.pm.s.flags PMF_ON_GROUND, pm.ground_entity := none }

/-- `Pm_CategorizePosition()`: ground entity, water level and water type. -/
def Pm_CategorizePosition (K : pm_const_t) (B : pm_bits_t) (W : pm_world_t) (c : pm_ctx) :
    pm_ctx :=
  let trick_jump := Pm_CheckTrickJump K c
  let trace := Pm_GroundTrace K W c trick_jump
  Pm_WaterLevel K B W (Pm_TouchEnt K (Pm_Ground K B c trace trick_jump) trace.ent)

/-- The first part of `Pm_CheckDuck()`: sets `PMF_DUCKED` for a dead player, for a player
on the ground who asks to crouch, and for a player who cannot stand up. -/
def Pm_CheckDuck_flag (W : pm_world_t) (c : pm_ctx) : pm_ctx :=
  if c.pm.s.type = pm_type_t.PM_DEAD then
    { c with pm.s.flags := flags_set c.pm.s.flags PMF_DUCKED }
  else if has_flag c.pm.s.flags PMF_ON_GROUND ∧ c.pm.cmd.up < 0 then
    { c with pm.s.flags := flags_set c.pm.s.flags PMF_DUCKED }
  else
    let trace := W.Trace c.pml.origin c.pml.origin c.pm.mins c.pm.maxs
    if trace.all_solid then { c with pm.s.flags := flags_set c.pm.s.flags PMF_DUCKED } else c

/-- The second part of `Pm_CheckDuck()`: moves the view offset toward its target and,
when ducked, lowers the bounding box.  `height` is `pm->maxs[2] - pm->mins[2]`. -/
def Pm_CheckDuck_view (K : pm_const_t) (height : vec_t) (c1 : pm_ctx) : pm_ctx :=
  if has_flag c1.pm.s.flags PMF_DUCKED then
    let target : vec_t :=
      if c1.pm.s.type = pm_type_t.PM_DEAD then c1.pm.mins.z + height * (15 / 100)
      else c1.pm.mins.z + height * (1 / 2)
    let vo1 : vec_t :=
      if c1.pml.view_offset.z > target then c1.pml.view_offset.z - c1.pml.time * K.PM_SPEED_DUCK_STAND
      else c1.pml.view_offset.z
    let vo2 : vec_t := if vo1 < target then target else vo1
    { c1 with
      pml.view_offset := { c1.pml.view_offset with z := vo2 }
      pm.maxs := { c1.pm.maxs with z := c1.pm.maxs.z + c1.pm.mins.z * (1 / 2) } }
  else
    let target : vec_t := c1.pm.mins.z + height * (9 / 10)
    let vo1 : vec_t :=
      if c1.pml.view_offset.z < target then c1.pml.view_offset.z + c1.pml.time * K.PM_SPEED_DUCK_STAND
      else c1.pml.view_offset.z
    let vo2 : vec_t := if vo1 > target then target else vo1
    { c1 with pml.view_offset := { c1.pml.view_offset with z := vo2 } }

/-- `Pm_CheckDuck()`: ducking adjusts the bounding box and the view offset. -/
def Pm_CheckDuck (K : pm_const_t) (W : pm_world_t) (c : pm_ctx) : pm_ctx :=
  Pm_CheckDuck_view K (c.pm.maxs.z - c.pm.mins.z) (Pm_CheckDuck_flag W c)

/-- The jump speed of `Pm_CheckJump()`: `PM_SPEED_JUMP`, raised by
`PM_SPEED_TRICK_JUMP` for a trick jump, and scaled by `0.66` for each water level
above 1. -/
def jump_speed (K : pm_const_t) (c : pm_ctx) : vec_t :=
  let jump1 : vec_t :=
    if has_flag c.pm.s.flags PMF_TIME_TRICK_JUMP then K.PM_SPEED_JUMP + K.PM_SPEED_TRICK_JUMP
    else K.PM_SPEED_JUMP
  if c.pm.water_level > 1 then
    if c.pm.water_level > 2 then jump1 * (66 / 100) * (66 / 100) else jump1 * (66 / 100)
  else jump1

/-- The jump of `Pm_CheckJump()` ("finally, do the jump"): consumes the trick jump,
sets the vertical velocity, marks the jump as held and clears the ground. -/
def Pm_Jump (K : pm_const_t) (c : pm_ctx) : pm_ctx :=
  let flags1 :=
    if has_flag c.pm.s.flags PMF_TIME_TRICK_JUMP then flags_clear c.pm.s.flags PMF_TIME_TRICK_JUMP
    else c.pm.s.flags
  let time1 := if has_flag c.pm.s.flags PMF_TIME_TRICK_JUMP then 0 else c.pm.s.time
  let z : vec_t :=
    if c.pml.velocity.z < 0 then jump_speed K c else c.pml.velocity.z + jump_speed K c
  { c with
    pml.velocity := { c.pml.velocity with z := z }
    pm.s.time := time1
    pm.s.flags := flags_clear (flags_set flags1 (PMF_JUMPED ||| PMF_JUMP_HELD)) PMF_ON_GROUND
    pm.ground_entity := none }

/-- `Pm_CheckJump()`: the new context and whether a jump occurs. -/
def Pm_CheckJump (K : pm_const_t) (c : pm_ctx) : pm_ctx × Bool :=
  if has_flag c.pm.s.flags PMF_ON_GROUND = false then (c, false)
  else if has_flag c.pm.s.flags PMF_TIME_LAND then (c, false)
  else if has_flag c.pm.s.flags PMF_JUMP_HELD then (c, false)
  else if c.pm.cmd.up < 1 then (c, false)
  else (Pm_Jump K c, true)

/-- `Pm_CheckPush()`: the new context and whether the player was pushed. -/
def Pm_CheckPush (c : pm_ctx) : pm_ctx × Bool :=
  if has_flag c.pm.s.flags PMF_PUSHED = false then (c, false)
  else
    ({ c with pm.s.flags := flags_clear c.pm.s.flags PMF_ON_GROUND, pm.ground_entity := none },
      true)

/-- `Pm_CheckLadder()`: the new context and whether the player is on a ladder. -/
def Pm_CheckLadder (B : pm_bits_t) (M : pm_math_t) (W : pm_world_t) (c : pm_ctx) :
    pm_ctx × Bool :=
  if has_flag c.pm.s.flags PMF_TIME_MASK then (c, false)
  else
    let forward := (VectorNormalize M { c.pml.forward with z := 0 }).1
    let pos0 := VectorMA c.pml.origin 1 forward
    let pos : vec3_t := { pos0 with z := pos0.z + c.pml.view_offset.z }
    let trace := W.Trace c.pml.origin pos c.pm.mins c.pm.maxs
    if trace.fraction < 1 ∧ has_flag trace.contents B.CONTENTS_LADDER then
      ({ c with pm.s.flags := flags_set c.pm.s.flags PMF_ON_LADDER }, true)
    else (c, false)

/-- `Pm_CheckWaterJump()`: the new context and whether a water jump has occurred. -/
def Pm_CheckWaterJump (K : pm_const_t) (B : pm_bits_t) (W : pm_world_t) (c : pm_ctx) :
    pm_ctx × Bool :=
  if has_flag c.pm.s.flags PMF_TIME_WATER_JUMP then (c, false)
  else if c.pm.water_level ≠ 2 then (c, false)
  else if c.pm.cmd.up < 1 ∧ c.pm.cmd.forward < 1 then (c, false)
  else
    let pos := VectorMA (VectorAdd c.pml.origin c.pml.view_offset) 24 c.pml.forward
    let trace := W.Trace c.pml.origin pos c.pm.mins c.pm.maxs
    if trace.fraction < 1 ∧ has_flag trace.contents B.MASK_SOLID then
      let pos1 : vec3_t := { pos with z := pos.z + (K.PM_STEP_HEIGHT + c.pm.maxs.z - c.pm.mins.z) }
      let trace1 := W.Trace pos1 pos1 c.pm.mins c.pm.maxs
      if trace1.start_solid then (c, false)
      else
        ({ c with
            pml.velocity := { c.pml.velocity with z := K.PM_SPEED_WATER_JUMP }
            pm.s.flags := flags_set c.pm.s.flags (PMF_TIME_WATER_JUMP ||| PMF_JUMP_HELD)
            pm.s.time := 2000 }, true)
    else (c, false)

/-- The intended velocity `forward * cmd.forward + right * cmd.right` of the move
functions, componentwise. -/
def wish_velocity (c : pm_ctx) : vec3_t :=
  VectorAdd (VectorScale c.pml.forward (c.pm.cmd.forward : ℚ))
    (VectorScale c.pml.right (c.pm.cmd.right : ℚ))

/-- `Pm_LadderMove()`. -/
def Pm_LadderMove (K : pm_const_t) (B : pm_bits_t) (M : pm_math_t) (W : pm_world_t)
    (c : pm_ctx) : pm_ctx :=
  let c1 := Pm_Friction K B M c
  let vel0 : vec3_t := { wish_velocity c1 with z := 0 }
  let vel1 : vec3_t :=
    if |c1.pml.velocity.z| < K.PM_SPEED_LADDER then
      let z : vec_t :=
        if c1.pm.angles.x ≤ -15 ∧ c1.pm.cmd.forward > 0 then K.PM_SPEED_LADDER
        else if c1.pm.angles.x ≥ 15 ∧ c1.pm.cmd.forward > 0 then -K.PM_SPEED_LADDER
        else if c1.pm.cmd.up > 0 then K.PM_SPEED_LADDER
        else if c1.pm.cmd.up < 0 then -K.PM_SPEED_LADDER
        else 0
      let s : vec_t := K.PM_SPEED_LADDER * (1 / 8)
      let x : vec_t := if vel0.x < -s then -s else if vel0.x > s then s else vel0.x
      let y : vec_t := if vel0.y < -s then -s else if vel0.y > s then s else vel0.y
      ⟨x, y, z⟩
    else vel0
  let c2 : pm_ctx :=
    if c1.pm.cmd.up > 0 then { c1 with pm.s.flags := flags_set c1.pm.s.flags PMF_JUMP_HELD }
    else c1
  let vel2 := Pm_Currents K B c2 vel1
  let dir := VectorNormalize M vel2
  let speed := Clamp dir.2 0 K.PM_SPEED_LADDER
  Pm_StepSlideMove K M W (Pm_Accelerate c2 dir.1 speed K.PM_ACCEL_GROUND)

/-- `Pm_WaterJumpMove()`. -/
def Pm_WaterJumpMove (K : pm_const_t) (B : pm_bits_t) (M : pm_math_t) (W : pm_world_t)
    (c : pm_ctx) : pm_ctx :=
  let c1 := Pm_Gravity K (Pm_Friction K B M c)
  let forward0 := (VectorNormalize M { c1.pml.forward with z := 0 }).1
  let forward := VectorMA c1.pml.origin 30 forward0
  let c2 : pm_ctx :=
    if (W.Trace c1.pml.origin forward c1.pm.mins c1.pm.maxs).fraction = 1 then
      { c1 with pml.velocity := { c1.pml.velocity with z := Clamp c1.pml.velocity.z 0 K.PM_SPEED_JUMP } }
    else c1
  let c3 : pm_ctx :=
    if c2.pml.velocity.z ≤ 0 then
      { c2 with pm.s.flags := flags_clear c2.pm.s.flags PMF_TIME_MASK, pm.s.time := 0 }
    else c2
  Pm_StepSlideMove K M W c3

/-- `Pm_WaterMove()`. -/
def Pm_WaterMove (K : pm_const_t) (B : pm_bits_t) (M : pm_math_t) (W : pm_world_t)
    (c : pm_ctx) : pm_ctx :=
  let checked := Pm_CheckWaterJump K B W c
  if checked.2 then Pm_WaterJumpMove K B M W checked.1
  else
    let c1 := Pm_Friction K B M checked.1
    let speed0 := VectorLength M c1.pml.velocity
    let c2 := if speed0 > K.PM_SPEED_WATER then Pm_Friction K B M c1 else c1
    let c3 : pm_ctx :=
      if c2.pm.cmd.forward = 0 ∧ c2.pm.cmd.right = 0 ∧ c2.pm.cmd.up = 0 then
        if c2.pml.velocity.z > K.PM_SPEED_WATER_SINK then Pm_Gravity K c2 else c2
      else c2
    let vel0 := wish_velocity c3
    let vel1 : vec3_t := { vel0 with z := vel0.z + (c3.pm.cmd.up : ℚ) }
    let view0 := VectorAdd c3.pml.origin c3.pml.view_offset
    let view : vec3_t := { view0 with z := view0.z - 4 }
    let skiing : Bool :=
      decide (c3.pm.water_level = 2 ∧ c3.pml.velocity.z ≥ 0 ∧ vel1.z > 0) &&
        !(has_flag (W.PointContents view) B.CONTENTS_WATER)
    let c4 : pm_ctx :=
      if skiing then { c3 with pml.velocity := { c3.pml.velocity with z := 0 } } else c3
    let vel2 : vec3_t := if skiing then { vel1 with z := 0 } else vel1
    let vel3 := Pm_Currents K B c4 vel2
    let dir := VectorNormalize M vel3
    let speed := if dir.2 > K.PM_SPEED_WATER then K.PM_SPEED_WATER else dir.2
    Pm_StepSlideMove K M W (Pm_Accelerate c4 dir.1 speed K.PM_ACCEL_WATER)

/-- `Pm_AirMove()`. -/
def Pm_AirMove (K : pm_const_t) (B : pm_bits_t) (M : pm_math_t) (W : pm_world_t)
    (c : pm_ctx) : pm_ctx :=
  let c1 := Pm_Gravity K (Pm_Friction K B M c)
  let c2 : pm_ctx :=
    { c1 with
      pml.forward := (VectorNormalize M { c1.pml.forward with z := 0 }).1
      pml.right := (VectorNormalize M { c1.pml.right with z := 0 }).1 }
  let vel : vec3_t := { wish_velocity c2 with z := 0 }
  let dir := VectorNormalize M vel
  let speed := Clamp dir.2 0 K.PM_SPEED_AIR
  Pm_StepSlideMove K M W (Pm_Accelerate c2 dir.1 speed K.PM_ACCEL_AIR)

/-- `Pm_WalkMove()`.  The result is `none` when the function reads
`pml.ground_surface->flags` through a `NULL` ground surface. -/
def Pm_WalkMove (K : pm_const_t) (B : pm_bits_t) (M : pm_math_t) (W : pm_world_t)
    (c : pm_ctx) : Option pm_ctx :=
  let jumped := Pm_CheckJump K c
  let pushed : pm_ctx × Bool := if jumped.2 then (jumped.1, true) else Pm_CheckPush jumped.1
  let c1 := pushed.1
  if pushed.2 then
    if c1.pm.water_level > 1 then some (Pm_WaterMove K B M W c1)
    else some (Pm_AirMove K B M W c1)
  else
    let c2 : pm_ctx :=
      { c1 with pml.velocity :=
          Pm_ClipVelocity K c1.pml.velocity c1.pml.ground_plane.normal K.PM_CLIP_BOUNCE }
    let c3 := Pm_Friction K B M c2
    let forward0 : vec3_t := { c3.pml.forward with z := 0 }
    let right0 : vec3_t := { c3.pml.right with z := 0 }
    let forward1 := Pm_ClipVelocity K forward0 c3.pml.ground_plane.normal K.PM_CLIP_BOUNCE
    let right1 := Pm_ClipVelocity K right0 c3.pml.ground_plane.normal K.PM_CLIP_BOUNCE
    let c4 : pm_ctx :=
      { c3 with
        pml.forward := (VectorNormalize M forward1).1
        pml.right := (VectorNormalize M right1).1 }
    let vel := Pm_Currents K B c4 (wish_velocity c4)
    let dir := VectorNormalize M vel
    let max_speed0 : vec_t :=
      if has_flag c4.pm.s.flags PMF_DUCKED then K.PM_SPEED_DUCKED else K.PM_SPEED_RUN
    let max_speed1 : vec_t :=
      if c4.pm.water_level > 1 then max_speed0 / ((c4.pm.water_level : ℚ) * (66 / 100))
      else max_speed0
    let max_speed : vec_t :=
      if has_flag c4.pm.cmd.buttons B.BUTTON_WALK then max_speed1 * (66 / 100) else max_speed1
    let speed := Clamp dir.2 0 max_speed
    match c4.pml.ground_surface with
    | none => none
    | some surface =>
      let accel : vec_t :=
        if has_flag surface.flags B.SURF_SLICK then K.PM_ACCEL_GROUND_SLICK
        else K.PM_ACCEL_GROUND
      let c5 := Pm_Accelerate c4 dir.1 speed accel
      let speed1 := VectorLength M c5.pml.velocity
      let clipped := Pm_ClipVelocity K c5.pml.velocity c5.pml.ground_plane.normal K.PM_CLIP_BOUNCE
      let c6 : pm_ctx :=
        { c5 with pml.velocity := VectorScale (VectorNormalize M clipped).1 speed1 }
      some (Pm_StepSlideMove K M W c6)

/-- `Pm_GoodPosition()`: the packed origin, unpacked, does not start in a solid. -/
def Pm_GoodPosition (W : pm_world_t) (c : pm_ctx) : Bool :=
  if c.pm.s.type = pm_type_t.PM_SPECTATOR then true
  else
    let pos := UnpackVector c.pm.s.origin
    !(W.Trace pos pos c.pm.mins c.pm.maxs).start_solid

/-- The table `jitter_bits` of `Pm_SnapPosition`. -/
def jitter_bits : List Nat := [0, 4, 1, 2, 3, 5, 6, 7]

/-- The candidate origin of `Pm_SnapPosition` for one entry of `jitter_bits`: the packed
origin, bumped by the sign on the axes whose bit is set. -/
def snap_candidate (origin : vec3_t) (bit : Nat) : svec3_t :=
  let sign (q : vec_t) : Int := if q ≥ 0 then 1 else -1
  let p := PackVector origin
  ⟨if bit &&& 1 ≠ 0 then p.x + sign origin.x else p.x,
   if bit &&& 2 ≠ 0 then p.y + sign origin.y else p.y,
   if bit &&& 4 ≠ 0 then p.z + sign origin.z else p.z⟩

/-- The loop of `Pm_SnapPosition` over the entries of `jitter_bits` that are left. -/
def Pm_SnapPosition_loop (W : pm_world_t) : List Nat → pm_ctx → pm_ctx × Bool
  | [], c => (c, false)
  | bit :: bits, c =>
    let c1 : pm_ctx := { c with pm.s.origin := snap_candidate c.pml.origin bit }
    if Pm_GoodPosition W c1 then
      ({ c1 with
          pm.s.velocity := PackVector c1.pml.velocity
          pm.s.view_offset := PackVector c1.pml.view_offset }, true)
    else Pm_SnapPosition_loop W bits c1

/-- `Pm_SnapPosition()`: the new context and whether a valid position was found. -/
def Pm_SnapPosition (W : pm_world_t) (c : pm_ctx) : pm_ctx × Bool :=
  Pm_SnapPosition_loop W jitter_bits c

/-- The pitch clamp of `Pm_ClampAngles`: above 90 and below 270 degrees the pitch
becomes 90, from 270 to 360 degrees it is lowered by 360, and it is left as it is
otherwise. -/
def clamp_pitch (pitch : vec_t) : vec_t :=
  if pitch > 90 ∧ pitch < 270 then 90
  else if pitch ≤ 360 ∧ pitch ≥ 270 then pitch - 360
  else pitch

/-- `Pm_ClampAngles()`.  `PITCH` is the first component of the angles. -/
def Pm_ClampAngles (M : pm_math_t) (c : pm_ctx) : pm_ctx :=
  let c1 : pm_ctx := { c with pm.s.view_angles := c.pm.cmd.angles }
  let unclamped : vec3_t :=
    ⟨UnpackAngle (c1.pm.cmd.angles.x + c1.pm.s.kick_angles.x + c1.pm.s.delta_angles.x),
     UnpackAngle (c1.pm.cmd.angles.y + c1.pm.s.kick_angles.y + c1.pm.s.delta_angles.y),
     UnpackAngle (c1.pm.cmd.angles.z + c1.pm.s.kick_angles.z + c1.pm.s.delta_angles.z)⟩
  let c2 : pm_ctx := { c1 with pm.angles := { unclamped with x := clamp_pitch unclamped.x } }
  let angles : vec3_t :=
    if c2.pm.water_level < 3 ∧ has_flag c2.pm.s.flags PMF_ON_LADDER = false
        ∧ c2.pm.s.type ≠ pm_type_t.PM_SPECTATOR then
      { c2.pm.angles with x := 0 }
    else c2.pm.angles
  let vectors := M.AngleVectors angles
  { c2 with pml.forward := vectors.1, pml.right := vectors.2.1, pml.up := vectors.2.2 }

/-- `Pm_SpectatorMove()`. -/
def Pm_SpectatorMove (K : pm_const_t) (B : pm_bits_t) (M : pm_math_t) (c : pm_ctx) : pm_ctx :=
  let c1 := Pm_Friction K B M c
  let vel := VectorAdd (wish_velocity c1) (VectorScale c1.pml.up (c1.pm.cmd.up : ℚ))
  let dir := VectorNormalize M vel
  let speed := Clamp dir.2 0 K.PM_SPEED_SPECTATOR
  let c2 := Pm_Accelerate c1 dir.1 speed K.PM_ACCEL_SPECTATOR
  { c2 with pml.origin := VectorMA c2.pml.origin c2.pml.time c2.pml.velocity }

/-- `Pm_Init()`: resets the results of the move and the per-move flags and counts the
state timer down. -/
def Pm_Init (K : pm_const_t) (pm : pm_move_t) : pm_move_t :=
  let pm1 : pm_move_t :=
    { pm with
      mins := VectorScale PM_MINS K.PM_SCALE
      maxs := VectorScale PM_MAXS K.PM_SCALE
      angles := vec3_origin
      touch_ents := []
      water_type := 0
      water_level := 0
      step := 0 }
  let f1 := flags_clear pm1.s.flags (PMF_DUCKED ||| PMF_JUMPED)
  let f2 := flags_clear f1 (PMF_ON_GROUND ||| PMF_ON_STAIRS ||| PMF_ON_LADDER)
  let f3 := flags_clear f2 PMF_UNDER_WATER
  let f4 := flags_clear f3 PMF_NO_PREDICTION
  let f5 := if pm1.cmd.up < 1 then flags_clear f4 PMF_JUMP_HELD else f4
  let pm2 : pm_move_t := { pm1 with s.flags := f5 }
  if pm2.s.time ≠ 0 then
    if pm2.cmd.msec ≥ pm2.s.time then
      { pm2 with s.flags := flags_clear pm2.s.flags PMF_TIME_MASK, s.time := 0 }
    else { pm2 with s.time := pm2.s.time - pm2.cmd.msec }
  else pm2

/-- `Pm_InitLocal()`: clears `pml` and unpacks origin, velocity and view offset. -/
def Pm_InitLocal (pm : pm_move_t) : pm_ctx :=
  { pm := pm
    pml :=
      { origin := UnpackVector pm.s.origin
        velocity := UnpackVector pm.s.velocity
        view_offset := UnpackVector pm.s.view_offset
        previous_origin := UnpackVector pm.s.origin
        previous_velocity := UnpackVector pm.s.velocity
        forward := vec3_origin
        right := vec3_origin
        up := vec3_origin
        time := (pm.cmd.msec : ℚ) * (1 / 1000)
        ground_surface := none
        ground_plane := ⟨vec3_origin, 0⟩
        ground_contents := 0 } }

/-- The dispatch of `Pm_Move` to one of the move functions, by flags and water level. -/
def Pm_Dispatch (K : pm_const_t) (B : pm_bits_t) (M : pm_math_t) (W : pm_world_t)
    (c : pm_ctx) : Option pm_ctx :=
  if has_flag c.pm.s.flags PMF_TIME_TELEPORT then some c
  else if has_flag c.pm.s.flags PMF_TIME_WATER_JUMP then some (Pm_WaterJumpMove K B M W c)
  else if has_flag c.pm.s.flags PMF_ON_LADDER then some (Pm_LadderMove K B M W c)
  else if has_flag c.pm.s.flags PMF_ON_GROUND then Pm_WalkMove K B M W c
  else if c.pm.water_level > 1 then some (Pm_WaterMove K B M W c)
  else some (Pm_AirMove K B M W c)

/-- `Pm_Move(pm_move)` (built without `PMOVE_PRECISE`).  The result is `none` when the
walk move reads through a `NULL` ground surface. -/
def Pm_Move (K : pm_const_t) (B : pm_bits_t) (M : pm_math_t) (W : pm_world_t)
    (pm_move : pm_move_t) : Option pm_ctx :=
  let c0 := Pm_InitLocal (Pm_Init K pm_move)
  let c1 := (Pm_SnapPosition W c0).1
  if c1.pm.s.type = pm_type_t.PM_SPECTATOR then
    some (Pm_SnapPosition W (Pm_SpectatorMove K B M (Pm_ClampAngles M c1))).1
  else
    let c2 : pm_ctx :=
      if c1.pm.s.type = pm_type_t.PM_DEAD ∨ c1.pm.s.type = pm_type_t.PM_FREEZE then
        { c1 with pm.cmd.forward := 0, pm.cmd.right := 0, pm.cmd.up := 0 }
      else c1
    if c2.pm.s.type = pm_type_t.PM_FREEZE then some c2
    else
      let c3 := Pm_CategorizePosition K B W c2
      let c4 := Pm_ClampAngles M c3
      let c5 := Pm_CheckDuck K W c4
      let c6 := (Pm_CheckLadder B M W c5).1
      match Pm_Dispatch K B M W c6 with
      | none => none
      | some c7 =>
        let c8 := Pm_CategorizePosition K B W c7
        let c9 : pm_ctx :=
          if has_flag c8.pm.s.flags PMF_ON_GROUND then
            { c8 with pm.s.flags := flags_clear c8.pm.s.flags PMF_PUSHED }
          else c8
        let snapped := Pm_SnapPosition W c9
        if snapped.2 = false then
          some { snapped.1 with
            pm.s.origin := PackVector snapped.1.pml.previous_origin
            pm.s.velocity := ⟨0, 0, 0⟩ }
        else some snapped.1

/-! ## Views of the movement state used to state the movement properties -/

/-- What no step of a move changes: the movement type, the command duration and the
previous origin and velocity saved by `Pm_InitLocal`. -/
def pm_kept (c c1 : pm_ctx) : Prop :=
  c1.pm.s.type = c.pm.s.type ∧ c1.pm.cmd.msec = c.pm.cmd.msec ∧
  c1.pml.previous_origin = c.pml.previous_origin ∧
  c1.pml.previous_velocity = c.pml.previous_velocity ∧ c1.pml.time = c.pml.time

/-- The test of the stored origin that `Pm_GoodPosition` makes for a player that is no
spectator: the trace from the unpacked origin to itself with the current bounding box
reports `start_solid`. -/
def stored_start_solid (W : pm_world_t) (c : pm_ctx) : Bool :=
  (W.Trace (UnpackVector c.pm.s.origin) (UnpackVector c.pm.s.origin) c.pm.mins c.pm.maxs).start_solid

/-- The jump speed before the water scaling: `PM_SPEED_JUMP`, raised by
`PM_SPEED_TRICK_JUMP` when the trick jump timer runs. -/
def normal_jump_speed (K : pm_const_t) (c : pm_ctx) : vec_t :=
  if has_flag c.pm.s.flags PMF_TIME_TRICK_JUMP then K.PM_SPEED_JUMP + K.PM_SPEED_TRICK_JUMP
  else K.PM_SPEED_JUMP

/-- The vertical velocity a jump starts from: a downward velocity is dropped. -/
def jump_base (c : pm_ctx) : vec_t := if c.pml.velocity.z < 0 then 0 else c.pml.velocity.z

/-- Sample movement constants. -/
def sample_pm_const : pm_const_t :=
  { PM_SCALE := 1
    PM_ACCEL_AIR := 1
    PM_ACCEL_GROUND := 10
    PM_ACCEL_GROUND_SLICK := 4
    PM_ACCEL_SPECTATOR := 4
    PM_ACCEL_WATER := 4
    PM_CLIP_BOUNCE := 101 / 100
    PM_FRICT_AIR := 1 / 2
    PM_FRICT_GROUND := 10
    PM_FRICT_GROUND_SLICK := 2
    PM_FRICT_LADDER := 12
    PM_FRICT_SPECTATOR := 3
    PM_FRICT_WATER := 1
    PM_GRAVITY_WATER := 1 / 2
    PM_GROUND_DIST := 1 / 4
    PM_GROUND_DIST_TRICK := 16
    PM_SPEED_AIR := 450
    PM_SPEED_CURRENT := 100
    PM_SPEED_DUCK_STAND := 225
    PM_SPEED_DUCKED := 150
    PM_SPEED_FALL := -420
    PM_SPEED_FALL_FAR := -560
    PM_SPEED_JUMP := 270
    PM_SPEED_LADDER := 125
    PM_SPEED_LAND := -280
    PM_SPEED_RUN := 300
    PM_SPEED_SPECTATOR := 500
    PM_SPEED_STOP := 100
    PM_SPEED_UP := 1 / 10
    PM_SPEED_TRICK_JUMP := 85
    PM_SPEED_WATER := 125
    PM_SPEED_WATER_JUMP := 450
    PM_SPEED_WATER_SINK := -16
    PM_STEP_HEIGHT := 16
    PM_STEP_NORMAL := 7 / 10
    PM_STOP_EPSILON := 1 / 10
    PM_MAX_TOUCH_ENTS := 32 }

/-- A sample movement state: a normal player at the origin, gravity 800. -/
def sample_pm_state : pm_state_t :=
  ⟨pm_type_t.PM_NORMAL, ⟨0, 0, 0⟩, ⟨0, 0, 0⟩, 0, 0, 800, ⟨0, 0, 0⟩, ⟨0, 0, 0⟩, ⟨0, 0, 0⟩, ⟨0, 0, 0⟩⟩

/-- A sample move: the sample state with a command of 100 milliseconds that asks to
jump. -/
def sample_pm_move : pm_move_t :=
  { s := sample_pm_state
    cmd := ⟨100, 0, ⟨0, 0, 0⟩, 0, 0, 1⟩
    touch_ents := []
    angles := vec3_origin
    mins := PM_MINS
    maxs := PM_MAXS
    ground_entity := none
    water_type := 0
    water_level := 0
    step := 0 }

/-- A sample context in the middle of a move: the sample move, at rest on the ground
entity 1. -/
def sample_pm_grounded : pm_ctx :=
  { (Pm_InitLocal sample_pm_move) with
    pm.s.flags := PMF_ON_GROUND
    pm.ground_entity := some 1 }

/-- The sample context at rest on the ground, at water level 3. -/
def sample_pm_submerged : pm_ctx := { sample_pm_grounded with pm.water_level := 3 }

/-- The sample context with a command whose pitch is the 16 bit value `-32768`
(half a turn), kick and delta angles being zero. -/
def sample_pm_pitch : pm_ctx :=
  { sample_pm_grounded with pm.cmd.angles := ⟨-32768, 0, 0⟩ }

/-- A world that is solid everywhere: every trace starts and stays in a solid, on a
surface without flags, and there is no water. -/
def solid_world : pm_world_t :=
  { Trace := fun start _ _ _ => ⟨true, true, 0, start, ⟨vec3_origin, 0⟩, some ⟨0⟩, 0, none⟩
    PointContents := fun _ => 0 }

/-- Sample content, surface and button bits. -/
def sample_pm_bits : pm_bits_t :=
  { CONTENTS_CURRENT_0 := 2 ^ 18
    CONTENTS_CURRENT_90 := 2 ^ 19
    CONTENTS_CURRENT_180 := 2 ^ 20
    CONTENTS_CURRENT_270 := 2 ^ 21
    CONTENTS_CURRENT_UP := 2 ^ 22
    CONTENTS_CURRENT_DOWN := 2 ^ 23
    MASK_CURRENT := 2 ^ 18 + 2 ^ 19 + 2 ^ 20 + 2 ^ 21 + 2 ^ 22 + 2 ^ 23
    CONTENTS_WATER := 2 ^ 5
    MASK_WATER := 2 ^ 3 + 2 ^ 4 + 2 ^ 5
    CONTENTS_LADDER := 2 ^ 29
    MASK_SOLID := 2 ^ 0 + 2 ^ 1
    SURF_SLICK := 2 ^ 1
    BUTTON_WALK := 2 ^ 1 }

/-- A sample math capability: the square root rounded down to a multiple of `1/256`,
and the axes of a view that looks along the first coordinate. -/
def sample_pm_math : pm_math_t :=
  { sqrt := fun x => (Nat.sqrt (⌊x * 65536⌋).toNat : ℚ) / 256
    AngleVectors := fun _ => (⟨1, 0, 0⟩, ⟨0, -1, 0⟩, ⟨0, 0, 1⟩) }

/-! ## Server data model (`sv_types.h` and `net_chan.h` are not among the sources) -/

/-- The connection state of a client slot.  `Sv_DropClient` tests
`cl->state > SV_CLIENT_FREE`, and a zeroed slot is free. -/
inductive sv_client_state_t where
  | SV_CLIENT_FREE
  | SV_CLIENT_CONNECTED
  | SV_CLIENT_ACTIVE
deriving DecidableEq

/-- The state of the level, `sv.state`. -/
inductive sv_state_t where
  | SV_UNINITIALIZED
  | SV_LOADING
  | SV_ACTIVE_GAME
  | SV_ACTIVE_DEMO
deriving DecidableEq

/-- A message buffer, `mem_buf_t`: the `size` bytes written so far and the two
overflow marks. -/
structure mem_buf_t where
  allow_overflow : Bool
  overflowed : Bool
  data : List Nat
deriving DecidableEq

/-- The field `size` of a buffer. -/
def mem_buf_t.size (b : mem_buf_t) : Nat := b.data.length

/-- A zeroed buffer. -/
def zero_buf : mem_buf_t := ⟨false, false, []⟩

/-- The network channel of a client, `net_chan_t`: the type of the remote address
(a number, `NA_LOOP` being a constant of the absent header), the reliable message
buffer, the time of the last transmission, the address and the port of the remote
address, and the `qport` of the client. -/
structure net_chan_t where
  remote_address_type : Nat
  message : mem_buf_t
  last_sent : Nat
  remote_ip : Nat
  remote_port : Nat
  qport : Nat
deriving DecidableEq

/-- One entry of `cl->datagram.messages`, `sv_client_message_t`. -/
structure sv_client_message_t where
  offset : Nat
  len : Nat
deriving DecidableEq

/-- The unreliable datagram of a client, `sv_client_datagram_t`. -/
structure sv_client_datagram_t where
  buffer : mem_buf_t
  messages : List sv_client_message_t
deriving DecidableEq

/-- A client slot, `sv_client_t`, with the fields the server code at hand uses. -/
structure sv_client_t where
  state : sv_client_state_t
  name : List Nat
  message_level : Int
  entity : Option Nat
  last_frame : Int
  last_message : Nat
  cmd_msec : Int
  cmd_msec_errors : Nat
  user_info : List Nat
  net_chan : net_chan_t
  datagram : sv_client_datagram_t
  message_size : List Nat
  rate : Nat
  surpress_count : Nat
  download_buffer : Option (List Nat)
deriving DecidableEq

/-- What the server does to the outside during a tick: a call of `Netchan_Transmit`
on the channel of a client slot with a payload, and a call of the game module's
`ClientDisconnect` for an entity. -/
inductive sv_event where
  | transmit (client : Nat) (payload : List Nat)
  | client_disconnect (entity : Option Nat)
deriving DecidableEq

/-- The server: `svs.initialized`, `svs.clients` (its length is
`sv_max_clients->integer`), `sv.state`, `sv.frame_num`, `sv.demo_file` (the bytes
left to read), `quake2world.time`, `sv_hz->integer`, and the calls made so far. -/
structure sv_t where
  initialized : Bool
  clients : List sv_client_t
  state : sv_state_t
  frame_num : Nat
  demo_file : List Nat
  time : Nat
  sv_hz : Nat
  events : List sv_event
deriving DecidableEq

/-- The functions and constants the server code uses that are not among the
sources: buffer operations, the network channel, the frame builder and writer of
`sv_entity.c`, the file system and `Sv_ShutdownServer`.  `Fs_Read file len` gives the
bytes read and the rest of the file when one object of `len` bytes could be read. -/
structure sv_env_t where
  MAX_MSG_SIZE : Nat
  NA_LOOP : Nat
  SV_CMD_DISCONNECT : Int
  SV_CMD_PRINT : Int
  PRINT_HIGH : Int
  Mem_InitBuffer : Nat → mem_buf_t
  Mem_ClearBuffer : mem_buf_t → mem_buf_t
  Mem_WriteBuffer : mem_buf_t → List Nat → mem_buf_t
  Net_WriteByte : mem_buf_t → Int → mem_buf_t
  Net_WriteString : mem_buf_t → List Nat → mem_buf_t
  Netchan_Transmit : Nat → net_chan_t → List Nat → net_chan_t
  Sv_BuildClientFrame : sv_t → sv_client_t → sv_client_t
  Sv_WriteClientFrame : sv_client_t → mem_buf_t → mem_buf_t
  Fs_Read : List Nat → Nat → Option (List Nat × List Nat)
  LittleLong : List Nat → Int
  Sv_ShutdownServer : sv_t → sv_t

/-- A slot after `memset(cl, 0, sizeof(*cl))`, with `entity` and `last_frame` as
`Sv_DropClient` leaves them. -/
def dropped_client (ent : Option Nat) : sv_client_t :=
  { state := sv_client_state_t.SV_CLIENT_FREE
    name := []
    message_level := 0
    entity := ent
    last_frame := -1
    last_message := 0
    cmd_msec := 0
    cmd_msec_errors := 0
    user_info := []
    net_chan := ⟨0, zero_buf, 0, 0, 0, 0⟩
    datagram := ⟨zero_buf, []⟩
    message_size := []
    rate := 0
    surpress_count := 0
    download_buffer := none }

/-- The slot `svs.clients[i]`. -/
def client_at (sv : sv_t) (i : Nat) : sv_client_t := sv.clients.getD i (dropped_client none)

/-- The server with the slot `svs.clients[i]` replaced. -/
def set_client (sv : sv_t) (i : Nat) (cl : sv_client_t) : sv_t :=
  { sv with clients := sv.clients.set i cl }

/-! ## `sv_main.c`, `sv_send.c` -/

/-- `Sv_DropClient(cl)` for the slot `i`: the slot afterwards and the calls made. -/
def Sv_DropClient (E : sv_env_t) (time : Nat) (i : Nat) (cl : sv_client_t) :
    sv_client_t × List sv_event :=
  let cl1 : sv_client_t :=
    { cl with
      net_chan.message := E.Mem_ClearBuffer cl.net_chan.message
      datagram.buffer := E.Mem_ClearBuffer cl.datagram.buffer }
  let sent : sv_client_t × List sv_event :=
    if cl1.state ≠ sv_client_state_t.SV_CLIENT_FREE then
      let informed : List sv_event :=
        if cl1.state = sv_client_state_t.SV_CLIENT_ACTIVE then
          [sv_event.client_disconnect cl1.entity]
        else []
      let cl2 : sv_client_t :=
        { cl1 with net_chan.message := E.Net_WriteByte cl1.net_chan.message E.SV_CMD_DISCONNECT }
      ({ cl2 with net_chan := E.Netchan_Transmit time cl2.net_chan cl2.net_chan.message.data },
        informed ++ [sv_event.transmit i cl2.net_chan.message.data])
    else (cl1, [])
  (dropped_client sent.1.entity, sent.2)

/-- `Sv_BroadcastPrint(level, fmt, ...)` with the formatted text `string`; the echo
to the console is left out. -/
def Sv_BroadcastPrint (E : sv_env_t) (level : Int) (string : List Nat) (sv : sv_t) : sv_t :=
  { sv with
    clients := sv.clients.map fun cl =>
      if level < cl.message_level then cl
      else if cl.state ≠ sv_client_state_t.SV_CLIENT_ACTIVE then cl
      else
        { cl with
          net_chan.message :=
            E.Net_WriteString
              (E.Net_WriteByte (E.Net_WriteByte cl.net_chan.message E.SV_CMD_PRINT) level)
              string } }

/-- The sum of `cl->message_size[0 .. sv_hz - 1]` in `uint32_t` arithmetic. -/
def rate_total (sv_hz : Nat) (cl : sv_client_t) : Nat :=
  (List.range sv_hz).foldl (fun total i => u32 (total + cl.message_size.getD i 0)) 0

/-- `Sv_RateDrop(cl)`: the slot afterwards and the result. -/
def Sv_RateDrop (E : sv_env_t) (sv : sv_t) (cl : sv_client_t) : sv_client_t × Bool :=
  if cl.net_chan.remote_address_type = E.NA_LOOP then (cl, false)
  else if rate_total sv.sv_hz cl > cl.rate then
    ({ cl with
        surpress_count := u32 (cl.surpress_count + 1)
        message_size := cl.message_size.set (sv.frame_num % sv.sv_hz) 0 }, true)
  else (cl, false)

/-- The failure of `Sv_SendClientDatagram`, raised through `Com_Error(ERR_DROP, ...)`. -/
inductive sv_fault where
  | frame_exceeds_max_msg_size
deriving DecidableEq

/-- The loop of `Sv_SendClientDatagram` over `cl->datagram.messages`: the channel, the
packet buffer and the calls made, `source` being `cl->datagram.buffer.data`. -/
def Sv_SendClientDatagram_loop (E : sv_env_t) (time : Nat) (i : Nat) (source : List Nat) :
    List sv_client_message_t → net_chan_t × mem_buf_t × List sv_event →
      net_chan_t × mem_buf_t × List sv_event
  | [], acc => acc
  | msg :: rest, acc =>
    let flushed : net_chan_t × mem_buf_t × List sv_event :=
      if acc.2.1.size + msg.len > E.MAX_MSG_SIZE - 16 then
        (E.Netchan_Transmit time acc.1 acc.2.1.data, E.Mem_ClearBuffer acc.2.1,
          acc.2.2 ++ [sv_event.transmit i acc.2.1.data])
      else acc
    Sv_SendClientDatagram_loop E time i source rest
      (flushed.1, E.Mem_WriteBuffer flushed.2.1 ((source.drop msg.offset).take msg.len),
        flushed.2.2)

/-- `Sv_SendClientDatagram(cl)` for the slot `i`: the slot afterwards, the calls made,
and the failure if the frame is too large. -/
def Sv_SendClientDatagram (E : sv_env_t) (sv : sv_t) (i : Nat) (cl : sv_client_t) :
    sv_client_t × List sv_event × Option sv_fault :=
  let cl1 := E.Sv_BuildClientFrame sv cl
  let buf := E.Sv_WriteClientFrame cl1 { E.Mem_InitBuffer E.MAX_MSG_SIZE with allow_overflow := true }
  if buf.overflowed = true ∨ buf.size > E.MAX_MSG_SIZE - 16 then
    (cl1, [], some sv_fault.frame_exceeds_max_msg_size)
  else
    let packed := Sv_SendClientDatagram_loop E sv.time i cl1.datagram.buffer.data
      cl1.datagram.messages (cl1.net_chan, buf, [])
    ({ cl1 with
        net_chan := E.Netchan_Transmit sv.time packed.1 packed.2.1.data
        message_size := cl1.message_size.set (sv.frame_num % sv.sv_hz) cl1.datagram.buffer.size },
      packed.2.2 ++ [sv_event.transmit i packed.2.1.data], none)

/-- `Sv_DemoCompleted()`. -/
def Sv_DemoCompleted (E : sv_env_t) (sv : sv_t) : sv_t := E.Sv_ShutdownServer sv

/-- `Sv_GetDemoMessage(buffer)`: the server afterwards, the size returned and the bytes
of the message.  The `int32_t` size is passed to `Fs_Read` as a 64 bit `size_t`. -/
def Sv_GetDemoMessage (E : sv_env_t) (sv : sv_t) : sv_t × Nat × List Nat :=
  match E.Fs_Read sv.demo_file 4 with
  | none => (Sv_DemoCompleted E sv, 0, [])
  | some (head, rest) =>
    let size := E.LittleLong head
    let sv1 : sv_t := { sv with demo_file := rest }
    if size = -1 then (Sv_DemoCompleted E sv1, 0, [])
    else if size > (E.MAX_MSG_SIZE : Int) then (Sv_DemoCompleted E sv1, 0, [])
    else
      match E.Fs_Read rest (size % 2 ^ 64).toNat with
      | none => (Sv_DemoCompleted E sv1, 0, [])
      | some (body, rest1) => ({ sv1 with demo_file := rest1 }, (size % 2 ^ 64).toNat, body)

/-- The text `" overflowed\n"`. -/
def overflowed_text : List Nat := " overflowed\n".toList.map Char.toNat

/-- The difference `a - b` of two `uint32_t`. -/
def u32_sub (a b : Nat) : Nat := (a % 2 ^ 32 + 2 ^ 32 - b % 2 ^ 32) % 2 ^ 32

/-- The rate throttle of `Sv_SendClientPackets` for an active client in the slot `i`:
the datagram is sent unless `Sv_RateDrop` says otherwise. -/
def Sv_SendClientPackets_throttle (E : sv_env_t) (i : Nat) (sv : sv_t) (cl : sv_client_t) :
    sv_client_t × List sv_event × Option sv_fault :=
  let checked := Sv_RateDrop E sv cl
  if checked.2 = false then Sv_SendClientDatagram E sv i checked.1
  else (checked.1, [], none)

/-- The branch of `Sv_SendClientPackets` that sends the game packet to an active
client in the slot `i` and cleans up for the next frame. -/
def Sv_SendClientPackets_active (E : sv_env_t) (i : Nat) (sv : sv_t) (cl : sv_client_t) :
    sv_t × Option sv_fault :=
  let sent := Sv_SendClientPackets_throttle E i sv cl
  match sent.2.2 with
  | some f => ({ set_client sv i sent.1 with events := sv.events ++ sent.2.1 }, some f)
  | none =>
    ({ set_client sv i
          { sent.1 with
            datagram.buffer := E.Mem_ClearBuffer sent.1.datagram.buffer
            datagram.messages := [] } with
        events := sv.events ++ sent.2.1 }, none)

/-- The body of the loop of `Sv_SendClientPackets` for the slot `i`: the server
afterwards and the failure raised, if any. -/
def Sv_SendClientPackets_client (E : sv_env_t) (i : Nat) (sv : sv_t) : sv_t × Option sv_fault :=
  let cl := client_at sv i
  if cl.state = sv_client_state_t.SV_CLIENT_FREE then (sv, none)
  else if cl.net_chan.message.overflowed = true then
    let dropped := Sv_DropClient E sv.time i cl
    let sv1 : sv_t := { set_client sv i dropped.1 with events := sv.events ++ dropped.2 }
    (Sv_BroadcastPrint E E.PRINT_HIGH (dropped.1.name ++ overflowed_text) sv1, none)
  else if sv.state = sv_state_t.SV_ACTIVE_DEMO then
    let demo := Sv_GetDemoMessage E sv
    if demo.2.1 ≠ 0 then
      let cl1 := client_at demo.1 i
      ({ set_client demo.1 i
            { cl1 with net_chan := E.Netchan_Transmit demo.1.time cl1.net_chan demo.2.2 } with
          events := demo.1.events ++ [sv_event.transmit i demo.2.2] }, none)
    else (demo.1, none)
  else if cl.state = sv_client_state_t.SV_CLIENT_ACTIVE then Sv_SendClientPackets_active E i sv cl
  else if cl.net_chan.message.size ≠ 0 ∨ u32_sub sv.time cl.net_chan.last_sent > 1000 then
    ({ set_client sv i { cl with net_chan := E.Netchan_Transmit sv.time cl.net_chan [] } with
        events := sv.events ++ [sv_event.transmit i []] }, none)
  else (sv, none)

/-- The loop of `Sv_SendClientPackets` over the slots that are left. -/
def Sv_SendClientPackets_loop (E : sv_env_t) : List Nat → sv_t → sv_t × Option sv_fault
  | [], sv => (sv, none)
  | i :: rest, sv =>
    match Sv_SendClientPackets_client E i sv with
    | (sv1, some f) => (sv1, some f)
    | (sv1, none) => Sv_SendClientPackets_loop E rest sv1

/-- `Sv_SendClientPackets()`. -/
def Sv_SendClientPackets (E : sv_env_t) (sv : sv_t) : sv_t × Option sv_fault :=
  if sv.initialized = false then (sv, none)
  else Sv_SendClientPackets_loop E (List.range sv.clients.length) sv
/-! ## Views of the server state used by the statements -/

/-- The transmissions to the slot `i` among the calls of a tick. -/
def transmissions_to (i : Nat) (events : List sv_event) : List sv_event :=
  events.filter fun e =>
    match e with
    | sv_event.transmit j _ => decide (j = i)
    | sv_event.client_disconnect _ => false

/-- The rate check of `Sv_RateDrop` trips for a client: its address is not the loop
device and the sum of its recorded message sizes is above its rate. -/
def rate_trips (E : sv_env_t) (sv : sv_t) (cl : sv_client_t) : Prop :=
  cl.net_chan.remote_address_type ≠ E.NA_LOOP ∧ rate_total sv.sv_hz cl > cl.rate

instance (E : sv_env_t) (sv : sv_t) (cl : sv_client_t) : Decidable (rate_trips E sv cl) := by
  unfold rate_trips
  exact inferInstance

/-- Sample functions and constants for the server: buffers without a limit, a channel
that records the time of the transmission, a frame of one byte, and a demo file read
in little endian order. -/
def sample_sv_env : sv_env_t :=
  { MAX_MSG_SIZE := 1400
    NA_LOOP := 1
    SV_CMD_DISCONNECT := 7
    SV_CMD_PRINT := 10
    PRINT_HIGH := 2
    Mem_InitBuffer := fun _ => zero_buf
    Mem_ClearBuffer := fun b => { b with overflowed := false, data := [] }
    Mem_WriteBuffer := fun b d => { b with data := b.data ++ d }
    Net_WriteByte := fun b x => { b with data := b.data ++ [(x % 256).toNat] }
    Net_WriteString := fun b s => { b with data := b.data ++ s ++ [0] }
    Netchan_Transmit := fun t ch _ => { ch with last_sent := t }
    Sv_BuildClientFrame := fun _ cl => cl
    Sv_WriteClientFrame := fun _ b => { b with data := b.data ++ [0] }
    Fs_Read := fun f n => if n ≤ f.length then some (f.take n, f.drop n) else none
    LittleLong := fun b =>
      let n := b.getD 0 0 + 256 * b.getD 1 0 + 65536 * b.getD 2 0 + 16777216 * b.getD 3 0
      if n < 2 ^ 31 then (n : Int) else (n : Int) - 2 ^ 32
    Sv_ShutdownServer := fun sv => { sv with state := sv_state_t.SV_UNINITIALIZED } }

/-- A sample active client over the network (address type 3): three bytes of reliable
message pending, a rate of 100 bytes and 60 bytes recorded for each of the last two
ticks. -/
def sample_sv_client : sv_client_t :=
  { (dropped_client (some 1)) with
    state := sv_client_state_t.SV_CLIENT_ACTIVE
    net_chan := ⟨3, ⟨false, false, [7, 7, 7]⟩, 0, 0, 0, 0⟩
    message_size := [60, 60]
    rate := 100 }

/-- A sample server in a game at 2 ticks per second with the sample client in its
only slot. -/
def sample_sv : sv_t :=
  { initialized := true
    clients := [sample_sv_client]
    state := sv_state_t.SV_ACTIVE_GAME
    frame_num := 3
    demo_file := []
    time := 5000
    sv_hz := 2
    events := [] }

/-- The server `sv1` differs from `sv` at most in the slot `j`, in the calls made and in
the fields that hold no client: the level state, the tick rate and the other slots
are the same. -/
def same_but_slot (j : Nat) (sv sv1 : sv_t) : Prop :=
  sv1.state = sv.state ∧ sv1.sv_hz = sv.sv_hz ∧ sv1.clients.length = sv.clients.length ∧
    ∀ k, k ≠ j → client_at sv1 k = client_at sv k

/-- The sum of `cl->message_size[0 .. sv_hz - 1]` as a natural number. -/
def message_sum (sv_hz : Nat) (cl : sv_client_t) : Nat :=
  ((List.range sv_hz).map fun i => cl.message_size.getD i 0).sum

/-! ## Push physics: `g_phys.c` (`g_local.h` is not among the sources) -/

/-- The movement types that `G_Push` tells apart; `MOVETYPE_OTHER` stands for every
other movement type. -/
inductive g_movetype_t where
  | MOVETYPE_NONE
  | MOVETYPE_NOCLIP
  | MOVETYPE_PUSH
  | MOVETYPE_STOP
  | MOVETYPE_OTHER
deriving DecidableEq

/-- The client of an entity, with the members of `ps.pmove` that `G_Push` touches:
`pm_flags` and `delta_angles[YAW]`, a 16 bit integer. -/
structure g_client_t where
  pm_flags : Nat
  delta_yaw : Int
deriving DecidableEq

/-- An entity, `edict_t`, with the members that the push code reads and writes.
`linked` tells that `area.prev` is not `NULL`, `item` that `item` is not `NULL`;
`origin` and `angles` are `s.origin` and `s.angles`; entities are named by their index
in `g_edicts`. -/
structure edict_t where
  inuse : Bool
  movetype : g_movetype_t
  linked : Bool
  groundentity : Option Nat
  item : Bool
  clipmask : Nat
  mins : vec3_t
  maxs : vec3_t
  absmin : vec3_t
  absmax : vec3_t
  origin : vec3_t
  angles : vec3_t
  client : Option g_client_t
  health : Int
deriving DecidableEq

/-- One entry of the array `pushed`, `pushed_t`. -/
structure pushed_t where
  ent : Nat
  origin : vec3_t
  angles : vec3_t
  deltayaw : vec_t
deriving DecidableEq

/-- The game state of the push code: `g_edicts` (its length is `globals.num_edicts`),
the array `pushed`, the pointer `pushed_p` as an index into it, and `obstacle`. -/
structure g_phys_t where
  edicts : List edict_t
  pushed : List pushed_t
  pushed_p : Nat
  obstacle : Option Nat
deriving DecidableEq

/-- What the push code imports: `MASK_SOLID`, the member `startsolid` of the result of
`gi.Trace(start, mins, maxs, end, passent, mask)` in the world of the entities given,
`gi.LinkEntity` and `G_TouchTriggers`. -/
structure g_import_t where
  MASK_SOLID : Nat
  Trace : List edict_t → vec3_t → vec3_t → vec3_t → vec3_t → Nat → Nat → Bool
  LinkEntity : edict_t → edict_t
  G_TouchTriggers : List edict_t → Nat → List edict_t

/-- An entity with all members zero. -/
def zero_edict : edict_t :=
  ⟨false, g_movetype_t.MOVETYPE_NONE, false, none, false, 0, vec3_origin, vec3_origin,
    vec3_origin, vec3_origin, vec3_origin, vec3_origin, none, 0⟩

/-- The entity `g_edicts[i]`. -/
def edict_at (st : g_phys_t) (i : Nat) : edict_t := st.edicts.getD i zero_edict

/-- The state with the entity `g_edicts[i]` replaced. -/
def set_edict (st : g_phys_t) (i : Nat) (ent : edict_t) : g_phys_t :=
  { st with edicts := st.edicts.set i ent }

/-- `G_TestEntityPosition(ent)` for the entity `i`: the world entity `g_edicts` if the
entity starts in a solid, `NULL` otherwise. -/
def G_TestEntityPosition (G : g_import_t) (st : g_phys_t) (i : Nat) : Option Nat :=
  let ent := edict_at st i
  let mask := if ent.clipmask ≠ 0 then ent.clipmask else G.MASK_SOLID
  if G.Trace st.edicts ent.origin ent.mins ent.maxs ent.origin i mask then some 0 else none

/-- One component of the move of `G_Push`, clamped to eighths of a unit. -/
def clamp_eighth (x : vec_t) : vec_t :=
  let temp := x * 8
  let temp1 := if temp > 0 then temp + 1 / 2 else temp - 1 / 2
  (1 / 8) * (trunc_int temp1 : ℚ)

/-- The loop of `G_Push` that moves back the entities already moved, from the entry
`n - 1` of `pushed` down to the first.  The delta yaw of a client is set from the
member `deltayaw` of the entry. -/
def G_Push_back (G : g_import_t) : Nat → g_phys_t → g_phys_t
  | 0, st => st
  | n + 1, st =>
    let p := st.pushed.getD n ⟨0, vec3_origin, vec3_origin, 0⟩
    let ent := edict_at st p.ent
    let ent1 : edict_t :=
      { ent with
        origin := p.origin
        angles := p.angles
        client := ent.client.map fun cl => { cl with delta_yaw := trunc_int p.deltayaw } }
    G_Push_back G n (set_edict st p.ent (G.LinkEntity ent1))

/-- The loop of `G_Push` that lets the entities moved touch triggers, from the entry
`n - 1` of `pushed` down to the first. -/
def G_Push_touch (G : g_import_t) : Nat → g_phys_t → g_phys_t
  | 0, st => st
  | n + 1, st =>
    let p := st.pushed.getD n ⟨0, vec3_origin, vec3_origin, 0⟩
    let ent := edict_at st p.ent
    let st1 : g_phys_t :=
      if ent.inuse = true ∧ ent.client.isSome ∧ ent.health > 0 then
        { st with edicts := G.G_TouchTriggers st.edicts p.ent }
      else st
    G_Push_touch G n st1

/-- The body of the loop of `G_Push` over the entities, for the entity `e`: the state
afterwards and whether the entity blocks the push, in which case the entities moved so
far are moved back.  `mins` and `maxs` bound the final position of the pusher,
`forward`, `right` and `up` are the axes of the rotation. -/
def G_Push_check (G : g_import_t) (pusher : Nat) (move amove mins maxs forward right up : vec3_t)
    (e : Nat) (st : g_phys_t) : g_phys_t × Bool :=
  let check := edict_at st e
  if check.inuse = false then (st, false)
  else if check.movetype = g_movetype_t.MOVETYPE_PUSH
      ∨ check.movetype = g_movetype_t.MOVETYPE_STOP
      ∨ check.movetype = g_movetype_t.MOVETYPE_NONE
      ∨ check.movetype = g_movetype_t.MOVETYPE_NOCLIP then (st, false)
  else if check.linked = false then (st, false)
  else if check.groundentity ≠ some pusher ∧
      (check.item = true
        ∨ (check.absmin.x ≥ maxs.x ∨ check.absmin.y ≥ maxs.y ∨ check.absmin.z ≥ maxs.z
          ∨ check.absmax.x ≤ mins.x ∨ check.absmax.y ≤ mins.y ∨ check.absmax.z ≤ mins.z)
        ∨ G_TestEntityPosition G st e = none) then (st, false)
  else
    let moved : g_phys_t × Bool :=
      if (edict_at st pusher).movetype = g_movetype_t.MOVETYPE_PUSH
          ∨ check.groundentity = some pusher then
        let old := st.pushed.getD st.pushed_p ⟨0, vec3_origin, vec3_origin, 0⟩
        let st1 : g_phys_t :=
          { st with
            pushed := st.pushed.set st.pushed_p
              { old with ent := e, origin := check.origin, angles := check.angles }
            pushed_p := st.pushed_p + 1 }
        let check1 : edict_t :=
          { check with
            origin := VectorAdd check.origin move
            client := check.client.map fun cl =>
              { cl with
                pm_flags := flags_set cl.pm_flags PMF_PUSHED
                delta_yaw := trunc_int ((cl.delta_yaw : ℚ) + amove.y) } }
        let st2 := set_edict st1 e check1
        let org := VectorSubtract (edict_at st2 e).origin (edict_at st2 pusher).origin
        let org2 : vec3_t := ⟨DotProduct org forward, -DotProduct org right, DotProduct org up⟩
        let move2 := VectorSubtract org2 org
        let check2 : edict_t :=
          { (edict_at st2 e) with origin := VectorAdd (edict_at st2 e).origin move2 }
        let check3 : edict_t :=
          if check2.groundentity ≠ some pusher then { check2 with groundentity := none }
          else check2
        let st3 := set_edict st2 e check3
        if G_TestEntityPosition G st3 e = none then
          (set_edict st3 e (G.LinkEntity check3), false)
        else
          let st4 := set_edict st3 e { check3 with origin := VectorSubtract check3.origin move }
          if G_TestEntityPosition G st4 e = none then
            ({ st4 with pushed_p := st4.pushed_p - 1 }, false)
          else (st4, true)
      else (st, true)
    if moved.2 = true then
      (G_Push_back G moved.1.pushed_p { moved.1 with obstacle := some e }, true)
    else moved

/-- The loop of `G_Push` over the entities that are left. -/
def G_Push_loop (G : g_import_t) (pusher : Nat)
    (move amove mins maxs forward right up : vec3_t) : List Nat → g_phys_t → g_phys_t × Bool
  | [], st => (st, false)
  | e :: rest, st =>
    match G_Push_check G pusher move amove mins maxs forward right up e st with
    | (st1, true) => (st1, true)
    | (st1, false) => G_Push_loop G pusher move amove mins maxs forward right up rest st1

/-- `G_Push(pusher, move, amove)`: the state afterwards and the result (false if the
push was blocked). -/
def G_Push (G : g_import_t) (M : pm_math_t) (pusher : Nat) (move amove : vec3_t)
    (st : g_phys_t) : g_phys_t × Bool :=
  let move1 : vec3_t := ⟨clamp_eighth move.x, clamp_eighth move.y, clamp_eighth move.z⟩
  let p := edict_at st pusher
  let mins := VectorAdd p.absmin move1
  let maxs := VectorAdd p.absmax move1
  let axes := M.AngleVectors (VectorSubtract vec3_origin amove)
  let old := st.pushed.getD st.pushed_p ⟨0, vec3_origin, vec3_origin, 0⟩
  let saved : pushed_t :=
    { old with
      ent := pusher
      origin := p.origin
      angles := p.angles
      deltayaw :=
        match p.client with
        | some cl => (cl.delta_yaw : ℚ)
        | none => old.deltayaw }
  let st1 : g_phys_t :=
    { st with pushed := st.pushed.set st.pushed_p saved, pushed_p := st.pushed_p + 1 }
  let p1 : edict_t :=
    { p with origin := VectorAdd p.origin move1, angles := VectorAdd p.angles amove }
  let st2 := set_edict st1 pusher (G.LinkEntity p1)
  match G_Push_loop G pusher move1 amove mins maxs axes.1 axes.2.1 axes.2.2
      (List.range st2.edicts.length).tail st2 with
  | (st3, true) => (st3, false)
  | (st3, false) => (G_Push_touch G st3.pushed_p st3, true)

/-! ## Samples of the push physics -/

/-- Sample imports: an entity is in a solid exactly when it is the entity 3, linking
changes nothing and no trigger is touched. -/
def sample_import : g_import_t :=
  { MASK_SOLID := 1
    Trace := fun _ _ _ _ _ passent _ => decide (passent = 3)
    LinkEntity := fun ent => ent
    G_TouchTriggers := fun edicts _ => edicts }

/-- A sample pusher: a platform of 10 units at the origin. -/
def sample_pusher : edict_t :=
  { zero_edict with
    inuse := true
    movetype := g_movetype_t.MOVETYPE_PUSH
    linked := true
    absmax := ⟨10, 10, 10⟩ }

/-- A sample client that stands on the entity 1, with the delta yaw 100. -/
def sample_rider : edict_t :=
  { zero_edict with
    inuse := true
    movetype := g_movetype_t.MOVETYPE_OTHER
    linked := true
    groundentity := some 1
    absmin := ⟨4, 4, 10⟩
    absmax := ⟨6, 6, 12⟩
    origin := ⟨5, 5, 10⟩
    client := some ⟨0, 100⟩
    health := 100 }

/-- A sample entity in the way of the platform. -/
def sample_blocker : edict_t :=
  { zero_edict with
    inuse := true
    movetype := g_movetype_t.MOVETYPE_OTHER
    linked := true
    absmin := ⟨12, 0, 0⟩
    absmax := ⟨14, 10, 10⟩
    origin := ⟨13, 5, 5⟩ }

/-- A sample state at the start of `G_Physics_Pusher`: the world, the platform, the
client on it and the entity in its way, with a zeroed array `pushed` and `pushed_p` at
its start. -/
def sample_phys : g_phys_t :=
  { edicts := [zero_edict, sample_pusher, sample_rider, sample_blocker]
    pushed := List.replicate 8 ⟨0, vec3_origin, vec3_origin, 0⟩
    pushed_p := 0
    obstacle := none }

/-- The origin, the angles and the delta yaw of the entity `i`. -/
def placement (st : g_phys_t) (i : Nat) : vec3_t × vec3_t × Option Int :=
  ((edict_at st i).origin, (edict_at st i).angles,
    (edict_at st i).client.map fun cl => cl.delta_yaw)

/-! ## `cl_view.c` -/

/-- `Cl_UpdateLerp(from)`: updates the interpolation fraction `cl.lerp` and clamps
`cl.time`.  `time_demo` tells that `time_demo->value` is not zero. -/
def Cl_UpdateLerp (time_demo : Bool) (cl : cl_client_t) (frm : cl_frame_t) : cl_client_t :=
  if time_demo then { cl with time := cl.frame.time, lerp := 1 }
  else if cl.time > cl.frame.time then { cl with time := cl.frame.time, lerp := 1 }
  else if cl.time < frm.time then { cl with time := frm.time, lerp := 0 }
  else
    let delta := u32_sub cl.time frm.time
    let interval := u32_sub cl.frame.time frm.time
    if interval = 0 then { cl with time := cl.frame.time, lerp := 1 }
    else { cl with lerp := (delta : ℚ) / (interval : ℚ) }

/-! ## Views of `Cl_ReadDeltaEntity` and samples -/

/-- The state that `Cl_ReadDeltaEntity` decodes, `*to`. -/
def decoded_state (dec : entity_decoder) (cl : cl_client_t) (frm : state_ref)
    (number bits : Nat) (fields : List Nat) : entity_state_t :=
  dec (frm.get cl) number bits fields

/-- The state that `from` points to when `Cl_ReadDeltaEntity` checks the delta, that
is, once the decoded state is written to the log. -/
def base_at_check (L : limits_t) (dec : entity_decoder) (cl : cl_client_t) (frm : state_ref)
    (number bits : Nat) (fields : List Nat) : entity_state_t :=
  frm.get
    { cl with
      entity_states := Function.update cl.entity_states (cl.entity_state &&& L.ENTITY_STATE_MASK)
        (decoded_state dec cl frm number bits fields) }

/-- The condition under which `Cl_ReadDeltaEntity` suppresses interpolation: the frame
number tracked for the entity is not the current frame number minus one (in
`uint32_t` arithmetic), or the base and the decoded state differ in `model1`, or
their origins are more than 256 units apart. -/
def delta_suppressed (L : limits_t) (dec : entity_decoder) (cl : cl_client_t) (frm : state_ref)
    (number bits : Nat) (fields : List Nat) : Prop :=
  (cl.entities number).frame_num ≠ u32 (cl.frame.frame_num + 4294967295)
    ∨ (base_at_check L dec cl frm number bits fields).model1
        ≠ (decoded_state dec cl frm number bits fields).model1
    ∨ VectorLength_gt
        (VectorSubtract (base_at_check L dec cl frm number bits fields).origin
          (decoded_state dec cl frm number bits fields).origin) 256 = true

/-- A sample decoder that moves the entity: it stores the entity number and, when a
change bit is set, the first field byte as the first coordinate of the origin. -/
def moving_decoder : entity_decoder := fun frm n bits fields =>
  if bits = 0 then { frm with number := n }
  else { frm with number := n, origin := { frm.origin with x := (fields.headD 0 : ℚ) } }

/-- A sample decoder of player states: it stores the first field byte as the first
coordinate of the packed origin and the length of the base statistics as the time. -/
def sample_player_decoder : player_decoder := fun frm fields =>
  { frm with
    pm_state := { frm.pm_state with
      origin := { frm.pm_state.origin with x := (fields.headD 0 : Int) }
      time := frm.stats.length } }

/-- The sample client whose last frame has the time 10, with the client time 5. -/
def sample_client_lerp : cl_client_t :=
  { sample_client with frame := { sample_frame with time := 10 }, time := 5 }

instance (L : limits_t) (dec : entity_decoder) (cl : cl_client_t) (frm : state_ref)
    (number bits : Nat) (fields : List Nat) :
    Decidable (delta_suppressed L dec cl frm number bits fields) := by
  unfold delta_suppressed
  exact inferInstance

/-- The last statement of `Cl_ParsePlayerState`: during the playback of a demo the type
of the movement state is forced to `PM_FREEZE`. -/
def demo_freeze (demo_server : Bool) (ps : player_state_t) : player_state_t :=
  if demo_server then { ps with pm_state := { ps.pm_state with type := pm_type_t.PM_FREEZE } }
  else ps

/-- The sample client with a reference frame in slot 8 whose player stands 2400 packed
units (300 units) from the origin and has two statistics. -/
def sample_client_far : cl_client_t :=
  { sample_client with
    frames := fun s =>
      if s = 8 then
        { sample_frame with
          valid := true
          frame_num := 40
          num_entities := 2
          ps := { null_player_state with
            pm_state := { null_player_state.pm_state with origin := ⟨2400, 0, 0⟩ }
            stats := [1, 2] } }
      else sample_frame }

/-! ## Further views and samples of the movement simulator -/

/-- The search of `isqrt`: the largest `r` between `lo` and `hi` with `r * r ≤ n`, by
halving the interval. -/
def isqrt_search (n : Nat) : Nat → Nat → Nat → Nat
  | 0, lo, _ => lo
  | fuel + 1, lo, hi =>
    if hi ≤ lo + 1 then lo
    else
      let mid := (lo + hi) / 2
      if mid * mid ≤ n then isqrt_search n fuel mid hi else isqrt_search n fuel lo mid

/-- The integer square root of numbers below `2 ^ 64`. -/
def isqrt (n : Nat) : Nat := isqrt_search n 64 0 (n + 1)

/-- A sample math capability like `sample_pm_math`, with the square root rounded down
to a multiple of `1/256` by `isqrt`. -/
def grid_pm_math : pm_math_t :=
  { sqrt := fun x => (isqrt (⌊x * 65536⌋).toNat : ℚ) / 256
    AngleVectors := fun _ => (⟨1, 0, 0⟩, ⟨0, -1, 0⟩, ⟨0, 0, 1⟩) }

/-- The fraction of the way from `a` to `b` at which the first coordinate reaches
`10 - 1/32`, the stop in front of the face of the ledge (zero if `a` is past it). -/
def ledge_fraction (a b : vec_t) : vec_t :=
  if a ≥ 10 - 1 / 32 then 0 else (10 - 1 / 32 - a) / (b - a)

/-- A sample world with a ledge, for a player reduced to the point at its origin: the
floor is at height 0 where the first coordinate is below 10 and at height 8 from
there on.  A trace straight down stops on the floor under it, a trace upward is free,
and any other trace below the height 8 that crosses the face of the ledge stops
`1/32` in front of that face. -/
def ledge_world : pm_world_t :=
  { Trace := fun start end_ _ _ =>
      let floor_z : vec_t := if start.x ≥ 10 then 8 else 0
      if start.z < floor_z then
        ⟨true, true, 0, start, ⟨vec3_origin, 0⟩, some ⟨0⟩, 1, some 0⟩
      else if start.x = end_.x ∧ start.y = end_.y ∧ end_.z < start.z then
        if end_.z ≥ floor_z then ⟨false, false, 1, end_, ⟨vec3_origin, 0⟩, none, 0, none⟩
        else
          ⟨false, false, (start.z - floor_z) / (start.z - end_.z), { start with z := floor_z },
            ⟨⟨0, 0, 1⟩, if start.x ≥ 10 then 2 else 1⟩, some ⟨0⟩, 1, some 0⟩
      else if start.z < 8 ∧ start.x < 10 ∧ end_.x ≥ 10 then
        ⟨false, false, ledge_fraction start.x end_.x,
          VectorMA start (ledge_fraction start.x end_.x) (VectorSubtract end_ start),
          ⟨⟨-1, 0, 0⟩, 3⟩, some ⟨0⟩, 1, some 0⟩
      else ⟨false, false, 1, end_, ⟨vec3_origin, 0⟩, none, 0, none⟩
    PointContents := fun _ => 0 }

/-- The sample player on the floor in front of the ledge, running towards it at 200
units per second for a tenth of a second. -/
def sample_pm_runner : pm_ctx :=
  { sample_pm_grounded with
    pml := { sample_pm_grounded.pml with
      velocity := ⟨200, 0, 0⟩
      ground_plane := ⟨⟨0, 0, 1⟩, 1⟩ } }

/-- The result of the plain slide of `Pm_StepSlideMove` (the unstepped result). -/
def unstepped (K : pm_const_t) (W : pm_world_t) (c : pm_ctx) : pm_ctx := (Pm_SlideMove K W c).1

/-- The result of the step-up attempt of `Pm_StepSlideMove`, and whether it
succeeded: `Pm_StepMove(true)` from the starting origin and velocity. -/
def stepped (K : pm_const_t) (W : pm_world_t) (c : pm_ctx) : pm_ctx × Bool :=
  Pm_StepMove K W
    { (unstepped K W c) with pml.origin := c.pml.origin, pml.velocity := c.pml.velocity } true

/-- The horizontal displacement of a position from the origin `org` as
`Pm_StepSlideMove` measures it: `VectorLength` of the difference with the third
component set to zero. -/
def xy_displacement (M : pm_math_t) (org p : vec3_t) : vec_t :=
  VectorLength M { VectorSubtract p org with z := 0 }

/-- None of the candidates of `Pm_SnapPosition` is a good position. -/
def all_candidates_bad (W : pm_world_t) (c : pm_ctx) : Bool :=
  jitter_bits.all fun bit =>
    !Pm_GoodPosition W { c with pm.s.origin := snap_candidate c.pml.origin bit }

/-- The context of `Pm_Move` right before its final `Pm_SnapPosition`, for a player that
is no spectator; `none` for a frozen player, who returns before, and when the walk
move reads through a `NULL` ground surface. -/
def Pm_Move_unsnapped (K : pm_const_t) (B : pm_bits_t) (M : pm_math_t) (W : pm_world_t)
    (pm_move : pm_move_t) : Option pm_ctx :=
  let c1 := (Pm_SnapPosition W (Pm_InitLocal (Pm_Init K pm_move))).1
  let c2 : pm_ctx :=
    if c1.pm.s.type = pm_type_t.PM_DEAD ∨ c1.pm.s.type = pm_type_t.PM_FREEZE then
      { c1 with pm.cmd.forward := 0, pm.cmd.right := 0, pm.cmd.up := 0 }
    else c1
  if c2.pm.s.type = pm_type_t.PM_FREEZE then none
  else
    match Pm_Dispatch K B M W (Pm_CheckLadder B M W (Pm_CheckDuck K W (Pm_ClampAngles M
        (Pm_CategorizePosition K B W c2)))).1 with
    | none => none
    | some c7 =>
      let c8 := Pm_CategorizePosition K B W c7
      if has_flag c8.pm.s.flags PMF_ON_GROUND then
        some { c8 with pm.s.flags := flags_clear c8.pm.s.flags PMF_PUSHED }
      else some c8

/-- The final `Pm_SnapPosition` of `Pm_Move` is reached and finds none of its
candidates valid. -/
def final_snap_fails (K : pm_const_t) (B : pm_bits_t) (M : pm_math_t) (W : pm_world_t)
    (pm_move : pm_move_t) : Bool :=
  match Pm_Move_unsnapped K B M W pm_move with
  | none => false
  | some c9 => all_candidates_bad W c9

/-- The sample move for a frozen player. -/
def sample_pm_frozen : pm_move_t :=
  { sample_pm_move with s := { sample_pm_state with type := pm_type_t.PM_FREEZE } }

/-- The touched-entity list holds no entity twice and at most `PM_MAX_TOUCH_ENTS`
entries. -/
def touch_ok (K : pm_const_t) (c : pm_ctx) : Prop :=
  c.pm.touch_ents.Nodup ∧ c.pm.touch_ents.length ≤ K.PM_MAX_TOUCH_ENTS

/-- A step of a move only adds to the touched-entity list through `Pm_TouchEnt`: it
keeps the list free of duplicates and within its bound. -/
def touch_kept (K : pm_const_t) (c c1 : pm_ctx) : Prop := touch_ok K c → touch_ok K c1

/-- The result that the step-up stage of `Pm_StepSlideMove` keeps, before the step
down that follows. -/
def kept_step (K : pm_const_t) (M : pm_math_t) (W : pm_world_t) (c : pm_ctx) : pm_ctx :=
  Pm_StepSlideMove_up K M W c.pml.origin c.pml.velocity (unstepped K W c)

/-- The end of `Pm_Move`: the final `Pm_SnapPosition`, and the revert to the previous
origin with a zero velocity if it fails. -/
def Pm_Move_finish (W : pm_world_t) (c9 : pm_ctx) : pm_ctx :=
  if (Pm_SnapPosition W c9).2 = false then
    { (Pm_SnapPosition W c9).1 with
      pm.s.origin := PackVector (Pm_SnapPosition W c9).1.pml.previous_origin
      pm.s.velocity := ⟨0, 0, 0⟩ }
  else (Pm_SnapPosition W c9).1

/-- The context of `Pm_Move` after `Pm_Init`, `Pm_InitLocal` and the initial
`Pm_SnapPosition`. -/
def Pm_Move_start (K : pm_const_t) (W : pm_world_t) (pm_move : pm_move_t) : pm_ctx :=
  (Pm_SnapPosition W (Pm_InitLocal (Pm_Init K pm_move))).1

/-! ## The server frame: `sv_main.c` -/

/-- A network address, `net_addr_t`: its type, the address proper and the port. -/
structure net_addr_t where
  type : Nat
  ip : Nat
  port : Nat
deriving DecidableEq

/-- The member `remote_address` of a network channel. -/
def net_chan_t.remote_address (ch : net_chan_t) : net_addr_t :=
  ⟨ch.remote_address_type, ch.remote_ip, ch.remote_port⟩

/-- One entry of `svs.challenges`. -/
structure sv_challenge_t where
  addr : net_addr_t
  challenge : Nat
  time : Nat
deriving DecidableEq

/-- The bytes of a string constant of the code. -/
def text (s : String) : List Nat := s.toList.map Char.toNat

/-- The constants, console variables and functions that `sv_main.c` uses and that are
not among the sources: protocol constants, the size of the member `name` of a client,
the values of `sv_enforce_time` and `sv_timeout`, the address and user info helpers, the library function `atoi`, the
entry points `ClientConnect` of the game module (its answer and the user info it
leaves) and the member `ai` of an entity, and `Netchan_Setup`. -/
structure sv_host_t where
  PROTOCOL_MAJOR : Int
  MAX_USER_INFO_STRING : Nat
  CLIENT_NAME_SIZE : Nat
  CMD_MSEC_CHECK_INTERVAL : Nat
  CMD_MSEC_ALLOWABLE_DRIFT : Int
  CLIENT_RATE_MIN : Nat
  CLIENT_RATE_MAX : Nat
  sv_enforce_time : vec_t
  sv_timeout : vec_t
  sv_download_url : List Nat
  Net_CompareClientNetaddr : net_addr_t → net_addr_t → Bool
  Net_NetaddrToString : net_addr_t → List Nat
  ValidateUserInfo : List Nat → Bool
  GetUserInfo : List Nat → List Nat → List Nat
  SetUserInfo : List Nat → List Nat → List Nat → List Nat
  atoi : List Nat → Int
  ClientConnect : Option Nat → List Nat → Bool × List Nat
  entity_ai : Option Nat → Bool
  Netchan_Setup : net_chan_t → net_addr_t → Nat → net_chan_t

/-- The state of the server frame: the server of the send pass, `svs.real_time`, the
static `last_check_time` of `Sv_CheckCommandTimes`, `svs.challenges` (its length is
`MAX_CHALLENGES`), the out-of-band replies sent through `Netchan_OutOfBandPrint`
(address and text), the simulation time `sv.time` (the member `time` of `sv_t` holds
`quake2world.time`) and `svs.frame_rate`. -/
structure server_t where
  sv : sv_t
  real_time : Nat
  last_check_time : Nat
  challenges : List sv_challenge_t
  replies : List (net_addr_t × List Nat)
  sv_time : Nat
  frame_rate : Nat
deriving DecidableEq

/-- The server with one more out-of-band reply. -/
def server_t.reply (S : server_t) (addr : net_addr_t) (msg : List Nat) : server_t :=
  { S with replies := S.replies ++ [(addr, msg)] }

/-- `Sv_ClientPrint(ent, level, fmt, ...)` with the formatted text `string`; the entity
is named by its number, and the client of entity `n` is the slot `n - 1`. -/
def Sv_ClientPrint (E : sv_env_t) (ent : Option Nat) (level : Int) (string : List Nat)
    (sv : sv_t) : sv_t :=
  match ent with
  | none => sv
  | some n =>
    if n < 1 ∨ n > sv.clients.length then sv
    else
      let cl := client_at sv (n - 1)
      if cl.state ≠ sv_client_state_t.SV_CLIENT_ACTIVE then sv
      else if level < cl.message_level then sv
      else
        set_client sv (n - 1)
          { cl with
            net_chan.message :=
              E.Net_WriteString
                (E.Net_WriteByte (E.Net_WriteByte cl.net_chan.message E.SV_CMD_PRINT) level)
                string }

/-- `Sv_KickClient(cl, msg)` for the slot `i`. -/
def Sv_KickClient (E : sv_env_t) (msg : List Nat) (i : Nat) (sv : sv_t) : sv_t :=
  let cl := client_at sv i
  if cl.state = sv_client_state_t.SV_CLIENT_FREE then sv
  else
    let name := if cl.name = [] then text "player" else cl.name.take 31
    let buf := if msg ≠ [] then text ": " ++ msg else []
    let sv1 := Sv_ClientPrint E cl.entity E.PRINT_HIGH (text "You were kicked" ++ buf ++ text "\n") sv
    let dropped := Sv_DropClient E sv1.time i (client_at sv1 i)
    let sv2 : sv_t := { set_client sv1 i dropped.1 with events := sv1.events ++ dropped.2 }
    Sv_BroadcastPrint E E.PRINT_HIGH (name ++ text " was kicked" ++ buf ++ text "\n") sv2

/-- The body of the loop of `Sv_CheckCommandTimes` for the slot `i`. -/
def Sv_CheckCommandTimes_client (H : sv_host_t) (E : sv_env_t) (i : Nat) (sv : sv_t) : sv_t :=
  let cl := client_at sv i
  if cl.state ≠ sv_client_state_t.SV_CLIENT_ACTIVE then sv
  else if H.sv_enforce_time ≠ 0 then
    if cl.cmd_msec > H.CMD_MSEC_ALLOWABLE_DRIFT then
      let cl1 : sv_client_t := { cl with cmd_msec_errors := u32 (cl.cmd_msec_errors + 1) }
      if (cl1.cmd_msec_errors : ℚ) ≥ H.sv_enforce_time then
        Sv_KickClient E (text "Irregular movement") i (set_client sv i cl1)
      else set_client sv i { cl1 with cmd_msec := 0 }
    else
      let cl1 : sv_client_t :=
        if cl.cmd_msec_errors ≠ 0 then { cl with cmd_msec_errors := cl.cmd_msec_errors - 1 }
        else cl
      set_client sv i { cl1 with cmd_msec := 0 }
  else set_client sv i { cl with cmd_msec := 0 }

/-- The value `-9999` of the `uint32_t` variable `last_check_time`. -/
def last_check_reset : Nat := 2 ^ 32 - 9999

/-- `Sv_CheckCommandTimes()`. -/
def Sv_CheckCommandTimes (H : sv_host_t) (E : sv_env_t) (S : server_t) : server_t :=
  let last := if S.real_time < S.last_check_time then last_check_reset else S.last_check_time
  if u32_sub S.real_time last < H.CMD_MSEC_CHECK_INTERVAL then { S with last_check_time := last }
  else
    { S with
      last_check_time := S.real_time
      sv := (List.range S.sv.clients.length).foldl
        (fun sv i => Sv_CheckCommandTimes_client H E i sv) S.sv }

/-- The value of `timeout` in `Sv_CheckTimeouts`: `svs.real_time - 1000 * sv_timeout->value`,
computed in floating point, cut to an integer and stored in a `uint32_t`. -/
def timeout_limit (H : sv_host_t) (S : server_t) : Nat :=
  (trunc_int ((S.real_time : ℚ) - 1000 * H.sv_timeout) % 2 ^ 32).toNat

/-- The body of the loop of `Sv_CheckTimeouts` for the slot `i`. -/
def Sv_CheckTimeouts_client (E : sv_env_t) (timeout : Nat) (i : Nat) (sv : sv_t) : sv_t :=
  let cl := client_at sv i
  if cl.state = sv_client_state_t.SV_CLIENT_FREE then sv
  else if cl.last_message < timeout then
    let sv1 := Sv_BroadcastPrint E E.PRINT_HIGH (cl.name ++ text " timed out\n") sv
    let dropped := Sv_DropClient E sv1.time i (client_at sv1 i)
    { set_client sv1 i dropped.1 with events := sv1.events ++ dropped.2 }
  else sv

/-- `Sv_CheckTimeouts()`. -/
def Sv_CheckTimeouts (H : sv_host_t) (E : sv_env_t) (S : server_t) : server_t :=
  if timeout_limit H S > S.real_time then S
  else
    { S with
      sv := (List.range S.sv.clients.length).foldl
        (fun sv i => Sv_CheckTimeouts_client E (timeout_limit H S) i sv) S.sv }

/-- `Sv_UserInfoChanged(cl)` for the slot `i`; the call of the game module's
`ClientUserInfoChanged` leaves the server state as it is. -/
def Sv_UserInfoChanged (H : sv_host_t) (E : sv_env_t) (i : Nat) (sv : sv_t) : sv_t :=
  let cl := client_at sv i
  if cl.user_info = [] then Sv_KickClient E (text "Bad user info") i sv
  else if 255 ∈ cl.user_info then Sv_KickClient E (text "Bad user info") i sv
  else if H.ValidateUserInfo cl.user_info = false then Sv_KickClient E (text "Bad user info") i sv
  else
    let cl1 : sv_client_t :=
      { cl with
        name := ((H.GetUserInfo cl.user_info (text "name")).take (H.CLIENT_NAME_SIZE - 1)).map
          fun ch => ch &&& 127 }
    let rate_val := H.GetUserInfo cl.user_info (text "rate")
    let cl2 : sv_client_t :=
      if rate_val ≠ [] then
        let rate := (H.atoi rate_val % 2 ^ 32).toNat
        { cl1 with
          rate :=
            if rate > H.CLIENT_RATE_MAX then H.CLIENT_RATE_MAX
            else if rate < H.CLIENT_RATE_MIN then H.CLIENT_RATE_MIN
            else rate }
      else cl1
    let level_val := H.GetUserInfo cl.user_info (text "message_level")
    let cl3 : sv_client_t :=
      if level_val ≠ [] then { cl2 with message_level := H.atoi level_val } else cl2
    set_client sv i cl3

/-- The arguments of a `connect` request as `Sv_Connect_f` reads them: the protocol
version, the `qport`, the challenge and the user info. -/
structure connect_args_t where
  version : Int
  qport : Nat
  challenge : Nat
  user_info : List Nat
deriving DecidableEq

/-- The first entry of `svs.challenges` whose address compares equal to `addr`. -/
def find_challenge (H : sv_host_t) (addr : net_addr_t) (challenges : List sv_challenge_t) :
    Option Nat :=
  (List.range challenges.length).find? fun i =>
    match challenges.get? i with
    | some ch => H.Net_CompareClientNetaddr addr ch.addr
    | none => false

/-- The first slot in use whose base address matches and whose port or `qport`
matches: the slot of a reconnecting client. -/
def find_reconnect (H : sv_host_t) (addr : net_addr_t) (qport : Nat) (sv : sv_t) : Option Nat :=
  (List.range sv.clients.length).find? fun i =>
    let cl := client_at sv i
    decide (cl.state ≠ sv_client_state_t.SV_CLIENT_FREE)
      && H.Net_CompareClientNetaddr addr cl.net_chan.remote_address
      && (decide (addr.port = cl.net_chan.remote_port) || decide (qport = cl.net_chan.qport))

/-- The first free slot whose entity is no `ai`. -/
def find_free (H : sv_host_t) (sv : sv_t) : Option Nat :=
  (List.range sv.clients.length).find? fun i =>
    let cl := client_at sv i
    decide (cl.state = sv_client_state_t.SV_CLIENT_FREE) && !H.entity_ai cl.entity

/-- The end of `Sv_Connect_f`, once the slot `i` is resolved: the game module is asked,
the user info is stored and parsed, the connect packet is sent and the slot becomes
connected. -/
def Sv_Connect_accept (H : sv_host_t) (E : sv_env_t) (addr : net_addr_t) (qport : Nat)
    (user_info : List Nat) (i : Nat) (S : server_t) : server_t :=
  let answer := H.ClientConnect (client_at S.sv i).entity user_info
  if answer.1 = false then
    let rejmsg := H.GetUserInfo answer.2 (text "rejmsg")
    if rejmsg ≠ [] then S.reply addr (text "print\n" ++ rejmsg ++ text "\nConnection refused\n")
    else S.reply addr (text "print\nConnection refused\n")
  else
    let sv1 := set_client S.sv i
      { (client_at S.sv i) with user_info := answer.2.take (H.MAX_USER_INFO_STRING - 1) }
    let sv2 := Sv_UserInfoChanged H E i sv1
    let S2 := ({ S with sv := sv2 }).reply addr (text "client_connect " ++ H.sv_download_url)
    let cl := client_at sv2 i
    { S2 with
      sv := set_client sv2 i
        { cl with
          net_chan := H.Netchan_Setup cl.net_chan addr qport
          datagram.buffer := { E.Mem_InitBuffer E.MAX_MSG_SIZE with allow_overflow := true }
          last_message := S.real_time
          state := sv_client_state_t.SV_CLIENT_CONNECTED } }

/-- `Sv_Connect_f()` for a request from the address `addr`. -/
def Sv_Connect_f (H : sv_host_t) (E : sv_env_t) (addr : net_addr_t) (args : connect_args_t)
    (S : server_t) : server_t :=
  if args.version ≠ H.PROTOCOL_MAJOR then
    S.reply addr (text "print\nServer is version " ++ text (toString H.PROTOCOL_MAJOR) ++ text ".\n")
  else
    let qport := args.qport % 256
    let challenge := u32 args.challenge
    let user_info0 := args.user_info.take (H.MAX_USER_INFO_STRING - 25 - 1)
    if user_info0 = [] then S.reply addr (text "print\nConnection refused\n")
    else if 255 ∈ user_info0 then S.reply addr (text "print\nConnection refused\n")
    else if H.GetUserInfo user_info0 (text "ip") ≠ [] then
      S.reply addr (text "print\nConnection refused\n")
    else if H.ValidateUserInfo user_info0 = false then
      S.reply addr (text "print\nConnection refused\n")
    else
      let user_info := H.SetUserInfo user_info0 (text "ip") (H.Net_NetaddrToString addr)
      match find_challenge H addr S.challenges with
      | none => S.reply addr (text "print\nNo challenge for address\n")
      | some k =>
        if challenge ≠ (S.challenges.getD k ⟨addr, 0, 0⟩).challenge then
          S.reply addr (text "print\nBad challenge\n")
        else
          let S1 : server_t :=
            { S with
              challenges := S.challenges.set k
                { (S.challenges.getD k ⟨addr, 0, 0⟩) with challenge := 0 } }
          match find_reconnect H addr qport S1.sv with
          | some i => Sv_Connect_accept H E addr qport user_info i S1
          | none =>
            match find_free H S1.sv with
            | some i => Sv_Connect_accept H E addr qport user_info i S1
            | none => S1.reply addr (text "print\nServer is full\n")
/-! ## Views and samples of the server frame -/

/-- Sample constants and functions of the server frame: addresses compare by their
address proper, every user info is valid and holds no keys, and the game module
accepts every connection. -/
def sample_sv_host : sv_host_t :=
  { PROTOCOL_MAJOR := 1010
    MAX_USER_INFO_STRING := 512
    CLIENT_NAME_SIZE := 32
    CMD_MSEC_CHECK_INTERVAL := 1000
    CMD_MSEC_ALLOWABLE_DRIFT := 150
    CLIENT_RATE_MIN := 8000
    CLIENT_RATE_MAX := 100000
    sv_enforce_time := 3
    sv_timeout := 20
    sv_download_url := []
    Net_CompareClientNetaddr := fun a b => decide (a.ip = b.ip)
    Net_NetaddrToString := fun a => [a.ip, a.port]
    ValidateUserInfo := fun _ => true
    GetUserInfo := fun _ _ => []
    SetUserInfo := fun info _ _ => info
    atoi := fun _ => 0
    ClientConnect := fun _ info => (true, info)
    entity_ai := fun _ => false
    Netchan_Setup := fun ch addr qport =>
      { ch with
        remote_address_type := addr.type
        remote_ip := addr.ip
        remote_port := addr.port
        qport := qport } }

/-- The sample client as the slot of the address 77, port 5, with 200 milliseconds of
commands and two errors counted. -/
def sample_sv_drifter : sv_client_t :=
  { sample_sv_client with
    cmd_msec := 200
    cmd_msec_errors := 2
    net_chan := { sample_sv_client.net_chan with remote_ip := 77, remote_port := 5 } }

/-- A sample state of the server frame: the sample server with the client of the
address 77 in its first slot and a free second slot, at the real time 50000, with
the challenge 1234 issued to the address 77, and the simulation time 300 of the tick 3
at 10 ticks a second. -/
def sample_server : server_t :=
  { sv := { sample_sv with clients := [sample_sv_drifter, dropped_client (some 2)] }
    real_time := 50000
    last_check_time := 0
    challenges := [⟨⟨3, 77, 5⟩, 1234, 0⟩]
    replies := []
    sv_time := 300
    frame_rate := 10 }

/-- A sample `connect` request with the challenge 1234. -/
def sample_connect : connect_args_t := ⟨1010, 9, 1234, [65]⟩

/-- The connection states of the slots. -/
def slot_states (sv : sv_t) : List sv_client_state_t := sv.clients.map fun cl => cl.state

/-- The client `cl1` is the client `cl` except, at most, for its reliable message
buffer. -/
def same_but_message (cl cl1 : sv_client_t) : Prop :=
  cl1 = { cl with net_chan.message := cl1.net_chan.message }

/-- Every slot of `sv1` is the slot of `sv` except, at most, for its reliable message
buffer, and the number of slots, the time and the level state are the same. -/
def same_but_messages (sv sv1 : sv_t) : Prop :=
  sv1.clients.length = sv.clients.length ∧ sv1.time = sv.time ∧ sv1.state = sv.state ∧
    ∀ k, same_but_message (client_at sv k) (client_at sv1 k)

/-- What the loop body of `Sv_CheckCommandTimes` does to the slot it inspects: a client
that is not active is left alone; with enforcement on, an active client over the
allowable drift gets one more error and is dropped when the errors reach
`sv_enforce_time`, an active client within the drift loses one error, if it has any;
an active client that is not dropped has `cmd_msec` reset. -/
def check_command_time (H : sv_host_t) (cl : sv_client_t) : sv_client_t :=
  if cl.state ≠ sv_client_state_t.SV_CLIENT_ACTIVE then cl
  else if H.sv_enforce_time ≠ 0 then
    if cl.cmd_msec > H.CMD_MSEC_ALLOWABLE_DRIFT then
      if (u32 (cl.cmd_msec_errors + 1) : ℚ) ≥ H.sv_enforce_time then dropped_client cl.entity
      else { cl with cmd_msec_errors := u32 (cl.cmd_msec_errors + 1), cmd_msec := 0 }
    else { cl with cmd_msec_errors := cl.cmd_msec_errors - 1, cmd_msec := 0 }
  else { cl with cmd_msec := 0 }

/-- A run of checks of one client, each after commands of the given milliseconds have
accumulated. -/
def check_command_times (H : sv_host_t) : List Int → sv_client_t → sv_client_t
  | [], cl => cl
  | m :: ms, cl => check_command_times H ms (check_command_time H { cl with cmd_msec := m })

/-- The check of `Sv_CheckCommandTimes` runs: the interval since the last check has
passed. -/
def command_check_due (H : sv_host_t) (S : server_t) : Prop :=
  ¬ u32_sub S.real_time
      (if S.real_time < S.last_check_time then last_check_reset else S.last_check_time)
    < H.CMD_MSEC_CHECK_INTERVAL

instance (H : sv_host_t) (S : server_t) : Decidable (command_check_due H S) := by
  unfold command_check_due
  exact inferInstance

/-- The connection state of the slot `k`. -/
def slot_state (sv : sv_t) (k : Nat) : sv_client_state_t := (client_at sv k).state

/-- Every slot of `sv1` has the state it has in `sv`, or is free. -/
def kept_or_freed (sv sv1 : sv_t) : Prop :=
  ∀ k, slot_state sv1 k = slot_state sv k ∨ slot_state sv1 k = sv_client_state_t.SV_CLIENT_FREE

/-- Every slot of `sv1` has the state it has in `sv`, or is free, or is connected and
is the slot a connect request from `addr` with `qport` resolves to in `sv`: the slot in
use of a reconnecting client, or else the first free slot. -/
def kept_freed_or_connected (H : sv_host_t) (addr : net_addr_t) (qport : Nat)
    (sv sv1 : sv_t) : Prop :=
  ∀ k, slot_state sv1 k = slot_state sv k
    ∨ slot_state sv1 k = sv_client_state_t.SV_CLIENT_FREE
    ∨ (slot_state sv1 k = sv_client_state_t.SV_CLIENT_CONNECTED
        ∧ ((find_reconnect H addr qport sv = some k
              ∧ slot_state sv k ≠ sv_client_state_t.SV_CLIENT_FREE)
          ∨ (find_reconnect H addr qport sv = none ∧ find_free H sv = some k
              ∧ slot_state sv k = sv_client_state_t.SV_CLIENT_FREE)))

/-- What the loop body of `Sv_CheckTimeouts` does to the slot it inspects: a slot in use
whose last message is older than the limit is dropped. -/
def check_timeout (timeout : Nat) (cl : sv_client_t) : sv_client_t :=
  if cl.state = sv_client_state_t.SV_CLIENT_FREE then cl
  else if cl.last_message < timeout then dropped_client cl.entity
  else cl

/-! ## Challenges and the game tick: `sv_main.c` -/

/-- The loop of `Sv_GetChallenge_f` over `svs.challenges` from the index `i`: the index
at which it stops (the length of the table when no address compares equal) and the
index `oldest` of the entry with the least time among those passed. -/
def Sv_GetChallenge_f_loop (H : sv_host_t) (addr : net_addr_t) :
    List sv_challenge_t → Nat → Nat → Nat → Nat × Nat
  | [], i, oldest, _ => (i, oldest)
  | ch :: rest, i, oldest, oldest_time =>
    if H.Net_CompareClientNetaddr addr ch.addr then (i, oldest)
    else if ch.time < oldest_time then Sv_GetChallenge_f_loop H addr rest (i + 1) i ch.time
    else Sv_GetChallenge_f_loop H addr rest (i + 1) oldest oldest_time

/-- `Sv_GetChallenge_f()` for a request from the address `addr`; `random` is the value
of `Random()`. -/
def Sv_GetChallenge_f (H : sv_host_t) (random : Nat) (addr : net_addr_t) (S : server_t) :
    server_t :=
  let found := Sv_GetChallenge_f_loop H addr S.challenges 0 0 2147483647
  let S1 : server_t :=
    if found.1 = S.challenges.length then
      { S with challenges := S.challenges.set found.2 ⟨addr, random &&& 32767, S.sv.time⟩ }
    else S
  let i := if found.1 = S.challenges.length then found.2 else found.1
  S1.reply addr (text "challenge " ++ text (toString (S1.challenges.getD i ⟨addr, 0, 0⟩).challenge))

/-- `Sv_RunGameFrame()`; `Frame` is the entry point `Frame` of the game module.
`sv.frame_num` and `sv.time` are `uint32_t`; the division is the one of C, which is
not defined for a frame rate of zero. -/
def Sv_RunGameFrame (Frame : server_t → server_t) (S : server_t) : server_t :=
  let S1 : server_t := { S with sv := { S.sv with frame_num := u32 (S.sv.frame_num + 1) } }
  let S2 : server_t := { S1 with sv_time := u32 (S1.sv.frame_num * 1000) / S1.frame_rate }
  let S3 : server_t := if S2.sv_time < S2.real_time then { S2 with real_time := S2.sv_time } else S2
  if S3.sv.state = sv_state_t.SV_ACTIVE_GAME then Frame S3 else S3

/-! ## Samples of the challenges and the game tick -/

/-- A sample server with one free slot and one unused challenge entry. -/
def fresh_server : server_t :=
  { sample_server with
    sv := { sample_sv with clients := [dropped_client (some 1)] }
    challenges := [⟨⟨0, 0, 0⟩, 0, 0⟩] }

/-- The address of the sample requests. -/
def sample_addr : net_addr_t := ⟨3, 77, 5⟩

/-- The sample server after the address asked for a challenge and was sent 1234. -/
def challenged_server : server_t := Sv_GetChallenge_f sample_sv_host 1234 sample_addr fresh_server

/-- The sample server after the connect with the challenge 1234 was accepted. -/
def connected_server : server_t :=
  Sv_Connect_f sample_sv_host sample_sv_env sample_addr sample_connect challenged_server

/-- The sample server after the connected client was kicked. -/
def kicked_server : server_t :=
  { connected_server with sv := Sv_KickClient sample_sv_env [] 0 connected_server.sv }

/-- The challenges stored in the table. -/
def challenge_numbers (S : server_t) : List Nat := S.challenges.map fun ch => ch.challenge

/-- The sample server on the tick before the product `frame_num * 1000` leaves the
range of 32 bits. -/
def late_server : server_t :=
  { sample_server with
    sv := { sample_sv with frame_num := 4294967 }
    sv_time := 429496700
    real_time := 0 }

/-! ## Baselines: `cl_parse.c` -/

/-- `Cl_ParseBaseline()` for a message that holds the entity number, the change bits
(both read with `Net_ReadShort` into a `uint16_t`) and the field bytes: the state
decoded against the all-zero state is stored as the baseline of the entity.  The
number read is the index into `cl.entities` as it is. -/
def Cl_ParseBaseline (dec : entity_decoder) (cl : cl_client_t) (number bits : Nat)
    (fields : List Nat) : cl_client_t :=
  let number := u16 number
  let bits := u16 bits
  { cl with
    entities := Function.update cl.entities number
      { cl.entities number with baseline := dec null_entity_state number bits fields } }

/-- The player state stored in the slot `s` of the frame ring after a parse, `none` if
the parse failed. -/
def stored_ps (r : Except fault cl_client_t) (s : Nat) : Option player_state_t :=
  match r with
  | Except.error _ => none
  | Except.ok cl => some (cl.frames s).ps

/-- The message of frame 50 that declares frame 40 as its reference, with a player
state whose first coordinate is 7 and an empty entity stream. -/
def sample_msg_far : frame_msg_t := ⟨50, 40, 0, [], [7], [end_entry]⟩

/-! ## Views and samples of the ladder move, the slide and the walk -/

/-- The intended velocity `vel` of `Pm_LadderMove` after the block that handles the
vertical intention and limits the horizontal speed; `c1` is the context after
`Pm_Friction`. -/
def ladder_wish (K : pm_const_t) (c1 : pm_ctx) : vec3_t :=
  let vel0 : vec3_t := { wish_velocity c1 with z := 0 }
  if |c1.pml.velocity.z| < K.PM_SPEED_LADDER then
    let z : vec_t :=
      if c1.pm.angles.x ≤ -15 ∧ c1.pm.cmd.forward > 0 then K.PM_SPEED_LADDER
      else if c1.pm.angles.x ≥ 15 ∧ c1.pm.cmd.forward > 0 then -K.PM_SPEED_LADDER
      else if c1.pm.cmd.up > 0 then K.PM_SPEED_LADDER
      else if c1.pm.cmd.up < 0 then -K.PM_SPEED_LADDER
      else 0
    let s : vec_t := K.PM_SPEED_LADDER * (1 / 8)
    let x : vec_t := if vel0.x < -s then -s else if vel0.x > s then s else vel0.x
    let y : vec_t := if vel0.y < -s then -s else if vel0.y > s then s else vel0.y
    ⟨x, y, z⟩
  else vel0

/-- The rest of `Pm_LadderMove` from the intended velocity `vel` on: the jump flag, the
currents, the acceleration and the move. -/
def ladder_finish (K : pm_const_t) (B : pm_bits_t) (M : pm_math_t) (W : pm_world_t)
    (c1 : pm_ctx) (vel : vec3_t) : pm_ctx :=
  let c2 : pm_ctx :=
    if c1.pm.cmd.up > 0 then { c1 with pm.s.flags := flags_set c1.pm.s.flags PMF_JUMP_HELD }
    else c1
  let vel2 := Pm_Currents K B c2 vel
  let dir := VectorNormalize M vel2
  let speed := Clamp dir.2 0 K.PM_SPEED_LADDER
  Pm_StepSlideMove K M W (Pm_Accelerate c2 dir.1 speed K.PM_ACCEL_GROUND)

/-- A sample player on a ladder, rising at 200 units a second, who looks along the
first coordinate and asks to go forward at 400, with a command of 10 milliseconds. -/
def sample_pm_climber : pm_ctx :=
  { sample_pm_grounded with
    pm.s.flags := PMF_ON_LADDER
    pm.cmd.forward := 400
    pml := { sample_pm_grounded.pml with
      velocity := ⟨0, 0, 200⟩
      forward := ⟨1, 0, 0⟩
      time := 1 / 100 } }

/-- A sample world in which the player stands on the entity 1: a trace downward stops
at its start on the upward face of the entity, which has no surface; any other trace is
free. -/
def box_world : pm_world_t :=
  { Trace := fun start end_ _ _ =>
      if end_.z < start.z then ⟨false, false, 0, start, ⟨⟨0, 0, 1⟩, 1⟩, none, 1, some 1⟩
      else ⟨false, false, 1, end_, ⟨vec3_origin, 0⟩, none, 0, none⟩
    PointContents := fun _ => 0 }

/-- A sample move: the sample state with a command of 100 milliseconds that asks to go
forward. -/
def sample_pm_walk : pm_move_t := { sample_pm_move with cmd := ⟨100, 0, ⟨0, 0, 0⟩, 100, 0, 0⟩ }

/-- The sample context at rest on the ground, with no ground surface, and a command that
asks to go forward. -/
def sample_pm_walker : pm_ctx :=
  { sample_pm_grounded with pm.cmd.up := 0, pm.cmd.forward := 100 }

/-! ## Arithmetic of the entity state log -/

theorem log_pos_eq_mod (L : limits_t) (kk : Nat) (hB : L.ENTITY_STATE_BACKUP = 2 ^ kk)
    (hk : kk ≤ 32) (ds t : Nat) : log_pos L ds t = (ds + t) % 2 ^ kk := by
  unfold log_pos limits_t.ENTITY_STATE_MASK u32
  rw [hB, Nat.and_pow_two_sub_one_eq_mod]
  have h32 : (4294967296 : Nat) = 2 ^ 32 := by norm_num
  rw [h32]
  exact Nat.mod_mod_of_dvd _ (Nat.pow_dvd_pow 2 hk)

theorem log_pos_inj (L : limits_t) (kk : Nat) (hB : L.ENTITY_STATE_BACKUP = 2 ^ kk)
    (hk : kk ≤ 32) (ds t1 t2 : Nat) (h1 : t1 < 2 ^ kk) (h2 : t2 < 2 ^ kk)
    (h : log_pos L ds t1 = log_pos L ds t2) : t1 = t2 := by
  rw [log_pos_eq_mod L kk hB hk, log_pos_eq_mod L kk hB hk] at h
  have h3 : t1 ≡ t2 [MOD 2 ^ kk] := Nat.ModEq.add_left_cancel' ds h
  have h4 := Nat.ModEq.eq_of_lt_of_lt h3 h1 h2
  exact h4

theorem log_pos_start (L : limits_t) (kk : Nat) (hB : L.ENTITY_STATE_BACKUP = 2 ^ kk)
    (hk : kk ≤ 32) (ds d t : Nat) : log_pos L (u32 (ds + d)) t = log_pos L ds (d + t) := by
  rw [log_pos_eq_mod L kk hB hk, log_pos_eq_mod L kk hB hk]
  unfold u32
  have h32 : (4294967296 : Nat) = 2 ^ 32 := by norm_num
  rw [h32, Nat.add_mod, Nat.mod_mod_of_dvd _ (Nat.pow_dvd_pow 2 hk), ← Nat.add_mod, Nat.add_assoc]

theorem u32_succ (a : Nat) : u32 (u32 a + 1) = u32 (a + 1) := by
  unfold u32; omega

/-! ## The frame parser and the merge on lists -/

theorem Cl_ReadDeltaEntity_frames (L : limits_t) (dec : entity_decoder) (cl : cl_client_t)
    (ref : state_ref) (number bits : Nat) (fields : List Nat) :
    (Cl_ReadDeltaEntity L dec cl ref number bits fields).frames = cl.frames := rfl

theorem Cl_ReadDeltaEntity_baseline (L : limits_t) (dec : entity_decoder) (cl : cl_client_t)
    (ref : state_ref) (number bits : Nat) (fields : List Nat) (m : Nat) :
    ((Cl_ReadDeltaEntity L dec cl ref number bits fields).entities m).baseline
      = (cl.entities m).baseline := by
  unfold Cl_ReadDeltaEntity
  by_cases hm : m = number
  · subst hm
    simp only [Function.update_same]
    split <;> rfl
  · simp only [Function.update_noteq hm]

theorem Cl_ReadDeltaEntity_log (L : limits_t) (dec : entity_decoder) (cl : cl_client_t)
    (ref : state_ref) (number bits : Nat) (fields : List Nat) :
    (Cl_ReadDeltaEntity L dec cl ref number bits fields).entity_states
      = Function.update cl.entity_states (cl.entity_state &&& L.ENTITY_STATE_MASK)
          (dec (ref.get cl) number bits fields) := rfl

theorem Cl_ReadDeltaEntity_cursor (L : limits_t) (dec : entity_decoder) (cl : cl_client_t)
    (ref : state_ref) (number bits : Nat) (fields : List Nat) :
    (Cl_ReadDeltaEntity L dec cl ref number bits fields).entity_state
      = u32 (cl.entity_state + 1) := rfl

theorem Cl_ReadDeltaEntity_frame (L : limits_t) (dec : entity_decoder) (cl : cl_client_t)
    (ref : state_ref) (number bits : Nat) (fields : List Nat) :
    (Cl_ReadDeltaEntity L dec cl ref number bits fields).frame
      = { cl.frame with num_entities := u16 (cl.frame.num_entities + 1) } := rfl

theorem read_delta_inv (L : limits_t) (kk : Nat) (hB : L.ENTITY_STATE_BACKUP = 2 ^ kk)
    (hk : kk ≤ 32) (dec : entity_decoder) (cl0 cl : cl_client_t) (ds n d : Nat)
    (outs : List entity_state_t) (ref : state_ref) (number bits : Nat) (fields : List Nat)
    (hinv : parse_inv L cl0 cl ds n d outs) (hnd : n ≤ d)
    (hcap : d + outs.length < 2 ^ kk) (h16 : outs.length + 1 < 65536) :
    parse_inv L cl0 (Cl_ReadDeltaEntity L dec cl ref number bits fields) ds n d
      (outs ++ [dec (ref.get cl) number bits fields]) := by
  have hpos : cl.entity_state &&& L.ENTITY_STATE_MASK = log_pos L ds (d + outs.length) := by
    rw [hinv.cursor_eq]; rfl
  constructor
  · rw [Cl_ReadDeltaEntity_frames]; exact hinv.frames_eq
  · intro m; rw [Cl_ReadDeltaEntity_baseline]; exact hinv.baseline_eq m
  · rw [Cl_ReadDeltaEntity_cursor, hinv.cursor_eq, u32_succ]
    simp only [List.length_append, List.length_singleton, Nat.add_assoc]
  · rw [Cl_ReadDeltaEntity_frame]; exact hinv.start_eq
  · rw [Cl_ReadDeltaEntity_frame]
    simp only [List.length_append, List.length_singleton, hinv.count_eq]
    unfold u16; omega
  · intro t ht
    rw [Cl_ReadDeltaEntity_log, hpos, Function.update_noteq]
    · exact hinv.old_eq t ht
    · intro h
      have := log_pos_inj L kk hB hk ds t (d + outs.length) (by omega) hcap h
      omega
  · intro t ht
    rw [Cl_ReadDeltaEntity_log, hpos]
    simp only [List.length_append, List.length_singleton] at ht
    by_cases hlt : t < outs.length
    · rw [Function.update_noteq, List.getElem_append_left hlt]
      · exact hinv.new_eq t hlt
      · intro h
        have := log_pos_inj L kk hB hk ds (d + t) (d + outs.length) (by omega) hcap h
        omega
    · have ht2 : t = outs.length := by omega
      subst ht2
      rw [Function.update_same]
      simp

theorem old_states_of_le (L : limits_t) (cl0 : cl_client_t) (ds n i : Nat) (h : n ≤ i) :
    old_states L cl0 ds n i = [] := by
  unfold old_states
  rw [List.drop_of_length_le (by simpa using h)]
  rfl

theorem old_states_of_lt (L : limits_t) (cl0 : cl_client_t) (ds n i : Nat) (h : i < n) :
    old_states L cl0 ds n i
      = cl0.entity_states (log_pos L ds i) :: old_states L cl0 ds n (i + 1) := by
  unfold old_states
  rw [List.drop_eq_getElem_cons (by simpa using h)]
  simp

theorem old_states_zero (L : limits_t) (cl0 : cl_client_t) (f : cl_frame_t) :
    old_states L cl0 f.entity_state f.num_entities 0 = frame_states L cl0 f := by
  unfold old_states frame_states
  simp

theorem advance_old_at (L : limits_t) (cl0 cl : cl_client_t) (slot ds n i : Nat)
    (k : old_cursor_t) (hf : cl.frames = cl0.frames)
    (hold : ∀ t, t < n → cl.entity_states (log_pos L ds t) = cl0.entity_states (log_pos L ds t))
    (href : reference_is cl0 (some slot) ds n) (hcur : cursor_at L cl0 ds n i k)
    (hi : i + 1 < 4294967296) :
    ∃ k1, advance_old L cl (some slot) k = Except.ok k1 ∧ cursor_at L cl0 ds n (i + 1) k1 := by
  obtain ⟨hds, hn⟩ := href
  obtain ⟨hidx, -, -⟩ := hcur
  have hu : u32 (k.old_index + 1) = i + 1 := by
    rw [hidx]; unfold u32; omega
  unfold advance_old reload_old
  simp only [hf, hds, hn, hu]
  by_cases hlt : i + 1 ≥ n
  · rw [if_pos hlt]
    refine ⟨_, rfl, rfl, ?_, ?_⟩
    · intro h; omega
    · intro _; rfl
  · rw [if_neg hlt]
    refine ⟨_, rfl, rfl, ?_, ?_⟩
    · intro _
      refine ⟨rfl, ?_⟩
      show (cl.entity_states (log_pos L ds (i + 1))).number = _
      rw [hold (i + 1) (by omega)]
    · intro h; omega

theorem reference_some_of_pos (cl0 : cl_client_t) (delta_frame : Option Nat) (ds n : Nat)
    (href : reference_is cl0 delta_frame ds n) (hn : 0 < n) :
    ∃ slot, delta_frame = some slot := by
  cases delta_frame with
  | none => simp only [reference_is] at href; omega
  | some slot => exact ⟨slot, rfl⟩

theorem copy_old_at (L : limits_t) (kk : Nat) (hB : L.ENTITY_STATE_BACKUP = 2 ^ kk)
    (hk : kk ≤ 32) (dec : entity_decoder) (cl0 cl : cl_client_t) (delta_frame : Option Nat)
    (ds n d i : Nat) (k : old_cursor_t) (outs : List entity_state_t)
    (href : reference_is cl0 delta_frame ds n) (hnd : n ≤ d) (hn : n < 65536)
    (hinv : parse_inv L cl0 cl ds n d outs) (hcur : cursor_at L cl0 ds n i k)
    (hlt : i < n) (hcap : d + outs.length < 2 ^ kk) (h16 : outs.length + 1 < 65536) :
    ∃ cl1 k1, copy_old L dec delta_frame cl k = Except.ok (cl1, k1) ∧
      parse_inv L cl0 cl1 ds n d
        (outs ++ [copy_state dec (cl0.entity_states (log_pos L ds i))]) ∧
      cursor_at L cl0 ds n (i + 1) k1 := by
  obtain ⟨slot, hslot⟩ := reference_some_of_pos cl0 delta_frame ds n href (by omega)
  subst hslot
  obtain ⟨hst, hnum⟩ := hcur.2.1 hlt
  have hinv1 := read_delta_inv L kk hB hk dec cl0 cl ds n d outs
    (state_ref.log (log_pos L ds i)) k.old_number 0 [] hinv hnd hcap h16
  have hget : (state_ref.log (log_pos L ds i)).get cl = cl0.entity_states (log_pos L ds i) :=
    hinv.old_eq i hlt
  rw [hget] at hinv1
  obtain ⟨k1, hk1, hcur1⟩ := advance_old_at L cl0
    (Cl_ReadDeltaEntity L dec cl (state_ref.log (log_pos L ds i)) k.old_number 0 []) slot ds n i k
    hinv1.frames_eq hinv1.old_eq href hcur (by omega)
  refine ⟨Cl_ReadDeltaEntity L dec cl (state_ref.log (log_pos L ds i)) k.old_number 0 [],
    k1, ?_, ?_, hcur1⟩
  · unfold copy_old
    rw [hst]
    simp only [hk1]
  · unfold copy_state
    rw [← hnum]
    exact hinv1

theorem copy_below_spec (L : limits_t) (kk : Nat) (hB : L.ENTITY_STATE_BACKUP = 2 ^ kk)
    (hk : kk ≤ 32) (dec : entity_decoder) (cl0 : cl_client_t) (delta_frame : Option Nat)
    (ds n d number : Nat) (href : reference_is cl0 delta_frame ds n) (hnd : n ≤ d)
    (hn : n < 65536) (hnumber : number ≤ 65535) :
    ∀ (fuel : Nat) (cl : cl_client_t) (k : old_cursor_t) (i : Nat) (outs : List entity_state_t),
      parse_inv L cl0 cl ds n d outs → cursor_at L cl0 ds n i k → n ≤ i + fuel →
      d + outs.length + (n - i) ≤ 2 ^ kk → outs.length + (n - i) < 65536 →
      ∃ cl1 k1, copy_below L dec delta_frame number fuel cl k = Except.ok (cl1, k1) ∧
        parse_inv L cl0 cl1 ds n d
          (outs ++ ((old_states L cl0 ds n i).takeWhile (is_below number)).map (copy_state dec)) ∧
        cursor_at L cl0 ds n
          (i + ((old_states L cl0 ds n i).takeWhile (is_below number)).length) k1 ∧
        old_states L cl0 ds n (i + ((old_states L cl0 ds n i).takeWhile (is_below number)).length)
          = (old_states L cl0 ds n i).dropWhile (is_below number) ∧
        ¬ k1.old_number < number := by
  intro fuel
  induction fuel with
  | zero =>
    intro cl k i outs hinv hcur hfuel _ _
    have hle : n ≤ i := by omega
    have hsent := hcur.2.2 hle
    have hnot : ¬ k.old_number < number := by omega
    refine ⟨cl, k, ?_, ?_, ?_, ?_, hnot⟩
    · simp only [copy_below, if_neg hnot]
    · simpa [old_states_of_le L cl0 ds n i hle] using hinv
    · simpa [old_states_of_le L cl0 ds n i hle] using hcur
    · simp [old_states_of_le L cl0 ds n i hle]
  | succ fuel ih =>
    intro cl k i outs hinv hcur hfuel hcap h16
    by_cases hcond : k.old_number < number
    · have hlt : i < n := by
        by_contra hge
        have := hcur.2.2 (by omega)
        omega
      obtain ⟨-, hnum⟩ := hcur.2.1 hlt
      obtain ⟨cl1, k1, hstep, hinv1, hcur1⟩ := copy_old_at L kk hB hk dec cl0 cl delta_frame
        ds n d i k outs href hnd hn hinv hcur hlt (by omega) (by omega)
      obtain ⟨cl2, k2, hrun, hinv2, hcur2, hdrop2, hexit⟩ := ih cl1 k1 (i + 1) _ hinv1 hcur1
        (by omega) (by simp only [List.length_append, List.length_singleton]; omega)
        (by simp only [List.length_append, List.length_singleton]; omega)
      have hb : is_below number (cl0.entity_states (log_pos L ds i)) = true := by
        unfold is_below; rw [← hnum]; simpa using hcond
      refine ⟨cl2, k2, ?_, ?_, ?_, ?_, hexit⟩
      · simp only [copy_below, if_pos hcond, hstep]
        exact hrun
      · rw [old_states_of_lt L cl0 ds n i hlt, List.takeWhile_cons_of_pos hb]
        simpa [List.append_assoc] using hinv2
      · rw [old_states_of_lt L cl0 ds n i hlt, List.takeWhile_cons_of_pos hb]
        simpa [Nat.add_assoc, Nat.add_comm 1] using hcur2
      · rw [old_states_of_lt L cl0 ds n i hlt, List.takeWhile_cons_of_pos hb,
          List.dropWhile_cons_of_pos hb]
        simpa [Nat.add_assoc, Nat.add_comm 1] using hdrop2
    · have htake : (old_states L cl0 ds n i).takeWhile (is_below number) = [] := by
        by_cases hlt : i < n
        · obtain ⟨-, hnum⟩ := hcur.2.1 hlt
          rw [old_states_of_lt L cl0 ds n i hlt]
          apply List.takeWhile_cons_of_neg
          unfold is_below; rw [← hnum]; simpa using hcond
        · rw [old_states_of_le L cl0 ds n i (by omega)]; rfl
      have hdrop : (old_states L cl0 ds n i).dropWhile (is_below number)
          = old_states L cl0 ds n i := by
        have := List.takeWhile_append_dropWhile (is_below number) (old_states L cl0 ds n i)
        rw [htake] at this
        simpa using this
      refine ⟨cl, k, ?_, ?_, ?_, ?_, hcond⟩
      · simp only [copy_below, if_neg hcond]
      · rw [htake]; simpa using hinv
      · rw [htake]; simpa using hcur
      · rw [htake, hdrop]; rfl

theorem old_states_length (L : limits_t) (cl0 : cl_client_t) (ds n i : Nat) :
    (old_states L cl0 ds n i).length = n - i := by
  unfold old_states
  simp

theorem old_states_tail (L : limits_t) (cl0 : cl_client_t) (ds n i : Nat) :
    (old_states L cl0 ds n i).tail = old_states L cl0 ds n (i + 1) := by
  by_cases hlt : i < n
  · rw [old_states_of_lt L cl0 ds n i hlt]; rfl
  · rw [old_states_of_le L cl0 ds n i (by omega), old_states_of_le L cl0 ds n (i + 1) (by omega)]
    rfl

theorem copy_rest_spec (L : limits_t) (kk : Nat) (hB : L.ENTITY_STATE_BACKUP = 2 ^ kk)
    (hk : kk ≤ 32) (dec : entity_decoder) (cl0 : cl_client_t) (delta_frame : Option Nat)
    (ds n d : Nat) (href : reference_is cl0 delta_frame ds n) (hnd : n ≤ d)
    (hn : n < 65536)
    (holdnum : ∀ t, t < n → (cl0.entity_states (log_pos L ds t)).number < 65535) :
    ∀ (fuel : Nat) (cl : cl_client_t) (k : old_cursor_t) (i : Nat) (outs : List entity_state_t),
      parse_inv L cl0 cl ds n d outs → cursor_at L cl0 ds n i k → n ≤ i + fuel →
      d + outs.length + (n - i) ≤ 2 ^ kk → outs.length + (n - i) < 65536 →
      ∃ cl1 k1, copy_rest L dec delta_frame fuel cl k = Except.ok (cl1, k1) ∧
        parse_inv L cl0 cl1 ds n d (outs ++ (old_states L cl0 ds n i).map (copy_state dec)) := by
  intro fuel
  induction fuel with
  | zero =>
    intro cl k i outs hinv hcur hfuel _ _
    have hle : n ≤ i := by omega
    have hsent := hcur.2.2 hle
    refine ⟨cl, k, ?_, ?_⟩
    · simp only [copy_rest, hsent, ne_eq, not_true_eq_false, if_false]
    · simpa [old_states_of_le L cl0 ds n i hle] using hinv
  | succ fuel ih =>
    intro cl k i outs hinv hcur hfuel hcap h16
    by_cases hlt : i < n
    · obtain ⟨-, hnum⟩ := hcur.2.1 hlt
      have hcond : k.old_number ≠ 65535 := by
        have := holdnum i hlt
        omega
      obtain ⟨cl1, k1, hstep, hinv1, hcur1⟩ := copy_old_at L kk hB hk dec cl0 cl delta_frame
        ds n d i k outs href hnd hn hinv hcur hlt (by omega) (by omega)
      obtain ⟨cl2, k2, hrun, hinv2⟩ := ih cl1 k1 (i + 1) _ hinv1 hcur1
        (by omega) (by simp only [List.length_append, List.length_singleton]; omega)
        (by simp only [List.length_append, List.length_singleton]; omega)
      refine ⟨cl2, k2, ?_, ?_⟩
      · simp only [copy_rest, if_pos hcond, hstep]
        exact hrun
      · rw [old_states_of_lt L cl0 ds n i hlt]
        simpa [List.append_assoc] using hinv2
    · have hle : n ≤ i := by omega
      have hsent := hcur.2.2 hle
      refine ⟨cl, k, ?_, ?_⟩
      · simp only [copy_rest, hsent, ne_eq, not_true_eq_false, if_false]
      · simpa [old_states_of_le L cl0 ds n i hle] using hinv

theorem copy_bound_eq (cl0 cl : cl_client_t) (delta_frame : Option Nat) (ds n : Nat)
    (href : reference_is cl0 delta_frame ds n) (hf : cl.frames = cl0.frames) :
    n ≤ copy_bound cl delta_frame := by
  cases delta_frame with
  | none => simp only [reference_is] at href; omega
  | some slot =>
    simp only [reference_is] at href
    simp only [copy_bound, hf, href.2]
    omega

theorem parse_entries_spec (L : limits_t) (kk : Nat) (hB : L.ENTITY_STATE_BACKUP = 2 ^ kk)
    (hk : kk ≤ 32) (dec : entity_decoder) (cl0 : cl_client_t) (delta_frame : Option Nat)
    (ds n d : Nat) (href : reference_is cl0 delta_frame ds n) (hnd : n ≤ d) (hn : n < 65536)
    (hmax0 : 0 < L.MAX_ENTITIES) (hmax : L.MAX_ENTITIES ≤ 65535)
    (term : entry_t) (hterm : term.number = 0) (rest : List entry_t) :
    ∀ (es : List entry_t) (cl : cl_client_t) (k : old_cursor_t) (i : Nat)
      (outs : List entity_state_t),
      parse_inv L cl0 cl ds n d outs → cursor_at L cl0 ds n i k →
      (∀ e, e ∈ es → 0 < e.number ∧ e.number < L.MAX_ENTITIES) →
      (delta_frame = none → ∀ e, e ∈ es → e.bits &&& L.U_REMOVE = 0) →
      d + outs.length + (n - i) + es.length ≤ 2 ^ kk →
      outs.length + (n - i) + es.length < 65536 →
      i + es.length < 4294967296 →
      ∃ cl1 k1 i1 outs1,
        parse_entries L dec delta_frame (es ++ term :: rest) cl k = Except.ok (cl1, k1, rest) ∧
        parse_inv L cl0 cl1 ds n d outs1 ∧ cursor_at L cl0 ds n i1 k1 ∧
        outs1 ++ (old_states L cl0 ds n i1).map (copy_state dec)
          = outs ++ merge_states L dec (fun m => (cl0.entities m).baseline)
              (old_states L cl0 ds n i) es ∧
        outs1.length + (n - i1) ≤ outs.length + (n - i) + es.length := by
  intro es
  induction es with
  | nil =>
    intro cl k i outs hinv hcur _ _ _ _ _
    refine ⟨cl, k, i, outs, ?_, hinv, hcur, ?_, ?_⟩
    · rw [List.nil_append, parse_entries, if_neg (by omega), if_pos hterm]
    · simp only [merge_states]
    · simp
  | cons e es ih =>
    intro cl k i outs hinv hcur hes hrem hcap h16 h32
    simp only [List.length_cons] at hcap h16 h32
    obtain ⟨hpos, hlt⟩ := hes e (List.mem_cons_self e es)
    have hes1 : ∀ e1, e1 ∈ es → 0 < e1.number ∧ e1.number < L.MAX_ENTITIES :=
      fun e1 h1 => hes e1 (List.mem_cons_of_mem e h1)
    have hrem1 : delta_frame = none → ∀ e1, e1 ∈ es → e1.bits &&& L.U_REMOVE = 0 :=
      fun hnone e1 h1 => hrem hnone e1 (List.mem_cons_of_mem e h1)
    obtain ⟨cl1, k1, hrun, hinv1, hcur1, hdrop, hexit⟩ :=
      copy_below_spec L kk hB hk dec cl0 delta_frame ds n d e.number href hnd hn (by omega)
        (copy_bound cl delta_frame) cl k i outs hinv hcur
        (by have := copy_bound_eq cl0 cl delta_frame ds n href hinv.frames_eq; omega)
        (by omega) (by omega)
    have hlo : ((old_states L cl0 ds n i).takeWhile (is_below e.number)).length ≤ n - i := by
      have h1 := (List.takeWhile_sublist (is_below e.number)
        (l := old_states L cl0 ds n i)).length_le
      rw [old_states_length] at h1
      exact h1
    generalize hlodef : (old_states L cl0 ds n i).takeWhile (is_below e.number) = lo
      at hinv1 hcur1 hdrop hlo
    rw [List.cons_append, parse_entries, if_neg (by omega), if_neg (by omega)]
    simp only [hrun]
    by_cases hR : e.bits &&& L.U_REMOVE ≠ 0
    · rw [if_pos hR]
      have hsome : ∃ slot, delta_frame = some slot := by
        cases hdf : delta_frame with
        | none => exact absurd (hrem hdf e (List.mem_cons_self e es)) hR
        | some slot => exact ⟨slot, rfl⟩
      obtain ⟨slot, hslot⟩ := hsome
      subst hslot
      obtain ⟨k2, hadv, hcur2⟩ := advance_old_at L cl0 cl1 slot ds n (i + lo.length) k1
        hinv1.frames_eq hinv1.old_eq href hcur1 (by omega)
      simp only [hadv]
      obtain ⟨cl3, k3, i3, outs3, hrun3, hinv3, hcur3, hmerge3, hlen3⟩ :=
        ih cl1 k2 (i + lo.length + 1) _ hinv1 hcur2 hes1 hrem1
          (by simp only [List.length_append, List.length_map]; omega)
          (by simp only [List.length_append, List.length_map]; omega) (by omega)
      refine ⟨cl3, k3, i3, outs3, hrun3, hinv3, hcur3, ?_, ?_⟩
      · rw [hmerge3, merge_states, if_pos hR, hlodef, ← hdrop, old_states_tail,
          List.append_assoc]
      · simp only [List.length_append, List.length_map] at hlen3
        simp only [List.length_cons]
        omega
    · rw [if_neg hR]
      by_cases heq : k1.old_number = e.number
      · rw [if_pos heq]
        have hin : i + lo.length < n := by
          by_contra hge
          have := hcur1.2.2 (by omega)
          omega
        obtain ⟨hst, hnum⟩ := hcur1.2.1 hin
        obtain ⟨slot, hslot⟩ := reference_some_of_pos cl0 delta_frame ds n href (by omega)
        subst hslot
        have hinv2 := read_delta_inv L kk hB hk dec cl0 cl1 ds n d _
          (state_ref.log (log_pos L ds (i + lo.length))) e.number e.bits e.fields hinv1 hnd
          (by simp only [List.length_append, List.length_map]; omega)
          (by simp only [List.length_append, List.length_map]; omega)
        have hget : (state_ref.log (log_pos L ds (i + lo.length))).get cl1
            = cl0.entity_states (log_pos L ds (i + lo.length)) := hinv1.old_eq _ hin
        rw [hget] at hinv2
        obtain ⟨k2, hadv, hcur2⟩ := advance_old_at L cl0
          (Cl_ReadDeltaEntity L dec cl1 (state_ref.log (log_pos L ds (i + lo.length)))
            e.number e.bits e.fields) slot ds n (i + lo.length) k1
          hinv2.frames_eq hinv2.old_eq href hcur1 (by omega)
        simp only [hst, hadv]
        obtain ⟨cl3, k3, i3, outs3, hrun3, hinv3, hcur3, hmerge3, hlen3⟩ :=
          ih _ k2 (i + lo.length + 1) _ hinv2 hcur2 hes1 hrem1
            (by simp only [List.length_append, List.length_map, List.length_singleton]; omega)
            (by simp only [List.length_append, List.length_map, List.length_singleton]; omega)
            (by omega)
        refine ⟨cl3, k3, i3, outs3, hrun3, hinv3, hcur3, ?_, ?_⟩
        · rw [hmerge3, merge_states, if_neg hR, hlodef, ← hdrop,
            old_states_of_lt L cl0 ds n _ hin]
          simp only [← hnum, heq, if_true, List.append_assoc, List.singleton_append]
        · simp only [List.length_append, List.length_map, List.length_singleton] at hlen3
          simp only [List.length_cons]
          omega
      · rw [if_neg heq]
        have hgt : k1.old_number > e.number := by omega
        rw [if_pos hgt]
        have hinv2 := read_delta_inv L kk hB hk dec cl0 cl1 ds n d _
          (state_ref.baseline e.number) e.number e.bits e.fields hinv1 hnd
          (by simp only [List.length_append, List.length_map]; omega)
          (by simp only [List.length_append, List.length_map]; omega)
        have hget : (state_ref.baseline e.number).get cl1 = (cl0.entities e.number).baseline :=
          hinv1.baseline_eq e.number
        rw [hget] at hinv2
        obtain ⟨cl3, k3, i3, outs3, hrun3, hinv3, hcur3, hmerge3, hlen3⟩ :=
          ih _ k1 (i + lo.length) _ hinv2 hcur1 hes1 hrem1
            (by simp only [List.length_append, List.length_map, List.length_singleton]; omega)
            (by simp only [List.length_append, List.length_map, List.length_singleton]; omega)
            (by omega)
        refine ⟨cl3, k3, i3, outs3, hrun3, hinv3, hcur3, ?_, ?_⟩
        · rw [hmerge3, merge_states, if_neg hR, hlodef, ← hdrop]
          by_cases hin : i + lo.length < n
          · obtain ⟨-, hnum⟩ := hcur1.2.1 hin
            rw [old_states_of_lt L cl0 ds n _ hin]
            simp only [← hnum, heq, if_false, List.append_assoc, List.singleton_append]
          · rw [old_states_of_le L cl0 ds n _ (by omega)]
            simp only [List.append_assoc, List.singleton_append]
        · simp only [List.length_append, List.length_map, List.length_singleton] at hlen3
          simp only [List.length_cons]
          omega

theorem frame_states_of_inv (L : limits_t) (kk : Nat) (hB : L.ENTITY_STATE_BACKUP = 2 ^ kk)
    (hk : kk ≤ 32) (cl0 cl : cl_client_t) (ds n d : Nat) (outs : List entity_state_t)
    (hinv : parse_inv L cl0 cl ds n d outs) : frame_states L cl cl.frame = outs := by
  unfold frame_states
  apply List.ext_getElem
  · simp [hinv.count_eq]
  · intro t h1 h2
    simp only [List.getElem_map, List.getElem_range]
    rw [hinv.start_eq, log_pos_start L kk hB hk]
    exact hinv.new_eq t h2

theorem Cl_ParseEntities_refines (L : limits_t) (kk : Nat) (hB : L.ENTITY_STATE_BACKUP = 2 ^ kk)
    (hk : kk ≤ 32) (hmax0 : 0 < L.MAX_ENTITIES) (hmax : L.MAX_ENTITIES ≤ 65535)
    (dec : entity_decoder) (cl : cl_client_t) (delta_frame : Option Nat) (ds n d : Nat)
    (es : List entry_t) (term : entry_t) (rest : List entry_t)
    (href : reference_is cl delta_frame ds n) (hd : cl.entity_state = u32 (ds + d))
    (hnd : n ≤ d)
    (hes : ∀ e, e ∈ es → 0 < e.number ∧ e.number < L.MAX_ENTITIES)
    (hrem : delta_frame = none → ∀ e, e ∈ es → e.bits &&& L.U_REMOVE = 0)
    (holdnum : ∀ t, t < n → (cl.entity_states (log_pos L ds t)).number < 65535)
    (hcap : d + n + es.length ≤ 2 ^ kk) (h16 : n + es.length < 65536)
    (hterm : term.number = 0) :
    ∃ cl2, Cl_ParseEntities L dec delta_frame cl (es ++ term :: rest) = Except.ok (cl2, rest) ∧
      parse_inv L cl cl2 ds n d
        (merge_states L dec (fun m => (cl.entities m).baseline) (old_states L cl ds n 0) es) := by
  have hinv0 : parse_inv L cl
      { cl with frame := { cl.frame with entity_state := cl.entity_state, num_entities := 0 } }
      ds n d [] := by
    constructor
    · rfl
    · intro m; rfl
    · simpa using hd
    · exact hd
    · rfl
    · intro t _; rfl
    · intro t h; simp at h
  have hcur0 : cursor_at L cl ds n 0
      (initial_old L
        { cl with frame := { cl.frame with entity_state := cl.entity_state, num_entities := 0 } }
        delta_frame) := by
    cases delta_frame with
    | none =>
      simp only [reference_is] at href
      refine ⟨rfl, ?_, ?_⟩
      · intro h; omega
      · intro _; rfl
    | some slot =>
      simp only [reference_is] at href
      obtain ⟨hds, hnn⟩ := href
      simp only [initial_old, hds, hnn]
      by_cases hz : 0 ≥ n
      · rw [if_pos hz]
        refine ⟨rfl, ?_, ?_⟩
        · intro h; omega
        · intro _; rfl
      · rw [if_neg hz]
        refine ⟨rfl, ?_, ?_⟩
        · intro _; exact ⟨rfl, rfl⟩
        · intro h; omega
  obtain ⟨cl1, k1, i1, outs1, hrun, hinv1, hcur1, hmerge, hlen⟩ :=
    parse_entries_spec L kk hB hk dec cl delta_frame ds n d href hnd (by omega) hmax0 hmax term hterm
      rest es _ _ 0 [] hinv0 hcur0 hes hrem (by simpa using hcap) (by simpa using h16)
      (by omega)
  obtain ⟨cl2, k2, hrun2, hinv2⟩ :=
    copy_rest_spec L kk hB hk dec cl delta_frame ds n d href hnd (by omega) holdnum
      (copy_bound cl1 delta_frame) cl1 k1 i1 outs1 hinv1 hcur1
      (by have := copy_bound_eq cl cl1 delta_frame ds n href hinv1.frames_eq; omega)
      (by simp only [List.length_nil] at hlen; omega)
      (by simp only [List.length_nil] at hlen; omega)
  refine ⟨cl2, ?_, ?_⟩
  · unfold Cl_ParseEntities
    simp only [hrun, hrun2]
  · rw [hmerge] at hinv2
    simpa using hinv2

/-! ## Properties of the merge on ascending lists -/

theorem split_below (x : Nat) (olds : List entity_state_t)
    (hs : olds.Pairwise fun a b => a.number < b.number) :
    (∀ o, o ∈ olds.takeWhile (is_below x) → o.number < x) ∧
    (∀ o, o ∈ olds.dropWhile (is_below x) → x ≤ o.number) ∧
    (olds.takeWhile (is_below x)).Pairwise (fun a b => a.number < b.number) ∧
    (olds.dropWhile (is_below x)).Pairwise (fun a b => a.number < b.number) := by
  have happ := List.takeWhile_append_dropWhile (is_below x) olds
  have hs2 := hs
  rw [← happ, List.pairwise_append] at hs2
  refine ⟨?_, ?_, hs2.1, hs2.2.1⟩
  · intro o ho
    have := List.mem_takeWhile_imp ho
    simpa [is_below] using this
  · induction olds with
    | nil => intro o ho; simp at ho
    | cons a l ih =>
      intro o ho
      rw [List.pairwise_cons] at hs
      by_cases ha : is_below x a = true
      · rw [List.dropWhile_cons_of_pos ha] at ho
        have happ1 := List.takeWhile_append_dropWhile (is_below x) l
        have hs3 := hs.2
        rw [← happ1, List.pairwise_append] at hs3
        exact ih hs.2 happ1 hs3 o ho
      · rw [List.dropWhile_cons_of_neg ha] at ho
        have hxa : x ≤ a.number := by simpa [is_below] using ha
        rcases List.mem_cons.mp ho with h | h
        · rw [h]; exact hxa
        · have := hs.1 o h
          omega

theorem delta_base_of_none (bl : Nat → entity_state_t) (l : List entity_state_t) (x : Nat)
    (h : ∀ o, o ∈ l → o.number ≠ x) : delta_base bl l x = bl x := by
  unfold delta_base
  have : l.find? (fun o => decide (o.number = x)) = none := by
    rw [List.find?_eq_none]
    intro o ho
    simpa using h o ho
  rw [this]

theorem delta_base_append (bl : Nat → entity_state_t) (l1 l2 : List entity_state_t) (x : Nat)
    (h : ∀ o, o ∈ l1 → o.number ≠ x) : delta_base bl (l1 ++ l2) x = delta_base bl l2 x := by
  unfold delta_base
  have : l1.find? (fun o => decide (o.number = x)) = none := by
    rw [List.find?_eq_none]
    intro o ho
    simpa using h o ho
  rw [List.find?_append, this]
  rfl

theorem delta_base_cons_eq (bl : Nat → entity_state_t) (o : entity_state_t)
    (l : List entity_state_t) (x : Nat) (h : o.number = x) : delta_base bl (o :: l) x = o := by
  unfold delta_base
  simp [List.find?_cons, h]

theorem delta_base_cons_ne (bl : Nat → entity_state_t) (o : entity_state_t)
    (l : List entity_state_t) (x : Nat) (h : o.number ≠ x) :
    delta_base bl (o :: l) x = delta_base bl l x := by
  unfold delta_base
  simp [List.find?_cons, h]

theorem merged_from_append (L : limits_t) (dec : entity_decoder) (bl : Nat → entity_state_t)
    (lo hi : List entity_state_t) (e : entry_t) (es : List entry_t) (s : entity_state_t)
    (hlo : ∀ o, o ∈ lo → o.number < e.number)
    (hes : ∀ e1, e1 ∈ es → e.number < e1.number) :
    merged_from L dec bl (lo ++ hi) (e :: es) s ↔
      s ∈ lo.map (copy_state dec) ∨ merged_from L dec bl hi (e :: es) s := by
  have hge : ∀ e1, e1 ∈ e :: es → e.number ≤ e1.number := by
    intro e1 h1
    rcases List.mem_cons.mp h1 with h | h
    · rw [h]
    · exact Nat.le_of_lt (hes e1 h)
  have hbase : ∀ e1, e1 ∈ e :: es →
      delta_base bl (lo ++ hi) e1.number = delta_base bl hi e1.number := by
    intro e1 h1
    apply delta_base_append
    intro o ho
    have := hlo o ho
    have := hge e1 h1
    omega
  unfold merged_from
  constructor
  · rintro (⟨o, ho, hne, hs⟩ | ⟨e1, he1, hr, hs⟩)
    · rcases List.mem_append.mp ho with h | h
      · left; rw [hs]; exact List.mem_map_of_mem _ h
      · right; left; exact ⟨o, h, hne, hs⟩
    · right; right
      refine ⟨e1, he1, hr, ?_⟩
      rw [hs, hbase e1 he1]
  · rintro (hmem | ⟨o, ho, hne, hs⟩ | ⟨e1, he1, hr, hs⟩)
    · obtain ⟨o, ho, hs⟩ := List.mem_map.mp hmem
      left
      refine ⟨o, List.mem_append_left _ ho, ?_, hs.symm⟩
      intro e1 h1
      have := hlo o ho
      have := hge e1 h1
      omega
    · left; exact ⟨o, List.mem_append_right _ ho, hne, hs⟩
    · right
      refine ⟨e1, he1, hr, ?_⟩
      rw [hs, hbase e1 he1]

theorem merged_from_remove (L : limits_t) (dec : entity_decoder) (bl : Nat → entity_state_t)
    (h0 : entity_state_t) (hi1 : List entity_state_t) (e : entry_t) (es : List entry_t)
    (s : entity_state_t) (hh0 : h0.number = e.number)
    (hhi : ∀ o, o ∈ hi1 → h0.number < o.number)
    (hes : ∀ e1, e1 ∈ es → e.number < e1.number) (hR : e.bits &&& L.U_REMOVE ≠ 0) :
    merged_from L dec bl (h0 :: hi1) (e :: es) s ↔ merged_from L dec bl hi1 es s := by
  have hbase : ∀ e1, e1 ∈ es → delta_base bl (h0 :: hi1) e1.number = delta_base bl hi1 e1.number := by
    intro e1 h1
    apply delta_base_cons_ne
    have := hes e1 h1
    omega
  unfold merged_from
  constructor
  · rintro (⟨o, ho, hne, hs⟩ | ⟨e1, he1, hr, hs⟩)
    · rcases List.mem_cons.mp ho with h | h
      · exact absurd (hh0.symm ▸ h ▸ rfl) (hne e (List.mem_cons_self e es))
      · left
        exact ⟨o, h, fun e1 h1 => hne e1 (List.mem_cons_of_mem e h1), hs⟩
    · rcases List.mem_cons.mp he1 with h | h
      · rw [h] at hr; exact absurd hr hR
      · right
        refine ⟨e1, h, hr, ?_⟩
        rw [hs, hbase e1 h]
  · rintro (⟨o, ho, hne, hs⟩ | ⟨e1, he1, hr, hs⟩)
    · left
      refine ⟨o, List.mem_cons_of_mem h0 ho, ?_, hs⟩
      intro e1 h1
      rcases List.mem_cons.mp h1 with h | h
      · have := hhi o ho
        rw [h]; omega
      · exact hne e1 h
    · right
      refine ⟨e1, List.mem_cons_of_mem e he1, hr, ?_⟩
      rw [hs, hbase e1 he1]

theorem merged_from_delta (L : limits_t) (dec : entity_decoder) (bl : Nat → entity_state_t)
    (h0 : entity_state_t) (hi1 : List entity_state_t) (e : entry_t) (es : List entry_t)
    (s : entity_state_t) (hh0 : h0.number = e.number)
    (hhi : ∀ o, o ∈ hi1 → h0.number < o.number)
    (hes : ∀ e1, e1 ∈ es → e.number < e1.number) (hR : ¬ e.bits &&& L.U_REMOVE ≠ 0) :
    merged_from L dec bl (h0 :: hi1) (e :: es) s ↔
      s = dec h0 e.number e.bits e.fields ∨ merged_from L dec bl hi1 es s := by
  have hbase : ∀ e1, e1 ∈ es → delta_base bl (h0 :: hi1) e1.number = delta_base bl hi1 e1.number := by
    intro e1 h1
    apply delta_base_cons_ne
    have := hes e1 h1
    omega
  have hR0 : e.bits &&& L.U_REMOVE = 0 := by simpa using hR
  unfold merged_from
  constructor
  · rintro (⟨o, ho, hne, hs⟩ | ⟨e1, he1, hr, hs⟩)
    · rcases List.mem_cons.mp ho with h | h
      · exact absurd (hh0.symm ▸ h ▸ rfl) (hne e (List.mem_cons_self e es))
      · right; left
        exact ⟨o, h, fun e1 h1 => hne e1 (List.mem_cons_of_mem e h1), hs⟩
    · rcases List.mem_cons.mp he1 with h | h
      · left
        rw [hs, h, delta_base_cons_eq bl h0 hi1 e.number hh0]
      · right; right
        refine ⟨e1, h, hr, ?_⟩
        rw [hs, hbase e1 h]
  · rintro (hs | ⟨o, ho, hne, hs⟩ | ⟨e1, he1, hr, hs⟩)
    · right
      refine ⟨e, List.mem_cons_self e es, hR0, ?_⟩
      rw [hs, delta_base_cons_eq bl h0 hi1 e.number hh0]
    · left
      refine ⟨o, List.mem_cons_of_mem h0 ho, ?_, hs⟩
      intro e1 h1
      rcases List.mem_cons.mp h1 with h | h
      · have := hhi o ho
        rw [h]; omega
      · exact hne e1 h
    · right
      refine ⟨e1, List.mem_cons_of_mem e he1, hr, ?_⟩
      rw [hs, hbase e1 he1]

theorem merged_from_baseline (L : limits_t) (dec : entity_decoder) (bl : Nat → entity_state_t)
    (hi : List entity_state_t) (e : entry_t) (es : List entry_t)
    (s : entity_state_t) (hhi : ∀ o, o ∈ hi → e.number < o.number)
    (hR : ¬ e.bits &&& L.U_REMOVE ≠ 0) :
    merged_from L dec bl hi (e :: es) s ↔
      s = dec (bl e.number) e.number e.bits e.fields ∨ merged_from L dec bl hi es s := by
  have hR0 : e.bits &&& L.U_REMOVE = 0 := by simpa using hR
  have hb : delta_base bl hi e.number = bl e.number := by
    apply delta_base_of_none
    intro o ho
    have := hhi o ho
    omega
  unfold merged_from
  constructor
  · rintro (⟨o, ho, hne, hs⟩ | ⟨e1, he1, hr, hs⟩)
    · right; left
      exact ⟨o, ho, fun e1 h1 => hne e1 (List.mem_cons_of_mem e h1), hs⟩
    · rcases List.mem_cons.mp he1 with h | h
      · left
        rw [hs, h, hb]
      · right; right
        exact ⟨e1, h, hr, hs⟩
  · rintro (hs | ⟨o, ho, hne, hs⟩ | ⟨e1, he1, hr, hs⟩)
    · right
      refine ⟨e, List.mem_cons_self e es, hR0, ?_⟩
      rw [hs, hb]
    · left
      refine ⟨o, ho, ?_, hs⟩
      intro e1 h1
      rcases List.mem_cons.mp h1 with h | h
      · have := hhi o ho
        rw [h]; omega
      · exact hne e1 h
    · right
      exact ⟨e1, List.mem_cons_of_mem e he1, hr, hs⟩

theorem merged_from_lower (L : limits_t) (dec : entity_decoder) (bl : Nat → entity_state_t)
    (hnum : ∀ frm n b p, (dec frm n b p).number = n)
    (olds : List entity_state_t) (es : List entry_t) (s : entity_state_t) (x : Nat)
    (h : merged_from L dec bl olds es s) (ho : ∀ o, o ∈ olds → x < o.number)
    (he : ∀ e, e ∈ es → x < e.number) : x < s.number := by
  rcases h with ⟨o, hmem, -, hs⟩ | ⟨e, hmem, -, hs⟩
  · rw [hs, copy_state, hnum]; exact ho o hmem
  · rw [hs, hnum]; exact he e hmem

theorem merge_states_spec (L : limits_t) (dec : entity_decoder) (bl : Nat → entity_state_t)
    (hnum : ∀ frm n b p, (dec frm n b p).number = n) :
    ∀ (es : List entry_t) (olds : List entity_state_t),
      olds.Pairwise (fun a b => a.number < b.number) →
      es.Pairwise (fun a b => a.number < b.number) →
      (∀ e, e ∈ es → e.bits &&& L.U_REMOVE ≠ 0 → ∃ o, o ∈ olds ∧ o.number = e.number) →
      (∀ s, s ∈ merge_states L dec bl olds es ↔ merged_from L dec bl olds es s) ∧
      (merge_states L dec bl olds es).Pairwise (fun a b => a.number < b.number) := by
  intro es
  induction es with
  | nil =>
    intro olds hs _ _
    constructor
    · intro s
      simp only [merge_states, merged_from, List.mem_map, List.not_mem_nil, false_and,
        exists_false, or_false, false_implies, implies_true, true_and]
      constructor
      · rintro ⟨o, ho, hs⟩; exact ⟨o, ho, hs.symm⟩
      · rintro ⟨o, ho, hs⟩; exact ⟨o, ho, hs.symm⟩
    · simp only [merge_states]
      rw [List.pairwise_map]
      simpa [copy_state, hnum] using hs
  | cons e es ih =>
    intro olds hs hes hrem
    obtain ⟨hlo, hhi, plo, phi⟩ := split_below e.number olds hs
    have happ := List.takeWhile_append_dropWhile (is_below e.number) olds
    rw [List.pairwise_cons] at hes
    obtain ⟨hes1, hes2⟩ := hes
    have hremE := hrem e (List.mem_cons_self e es)
    have hrem1 : ∀ e1, e1 ∈ es → e1.bits &&& L.U_REMOVE ≠ 0 →
        ∃ o, o ∈ olds.dropWhile (is_below e.number) ∧ o.number = e1.number := by
      intro e1 h1 hr
      obtain ⟨o, ho, hoe⟩ := hrem e1 (List.mem_cons_of_mem e h1) hr
      rw [← happ] at ho
      rcases List.mem_append.mp ho with h | h
      · have := hlo o h
        have := hes1 e1 h1
        omega
      · exact ⟨o, h, hoe⟩
    have hremE1 : e.bits &&& L.U_REMOVE ≠ 0 →
        ∃ o, o ∈ olds.dropWhile (is_below e.number) ∧ o.number = e.number := by
      intro hr
      obtain ⟨o, ho, hoe⟩ := hremE hr
      rw [← happ] at ho
      rcases List.mem_append.mp ho with h | h
      · have := hlo o h
        omega
      · exact ⟨o, h, hoe⟩
    rw [merge_states]
    clear hrem hremE hs
    generalize olds.takeWhile (is_below e.number) = lo at hlo plo happ
    generalize olds.dropWhile (is_below e.number) = hi at hhi phi happ hrem1 hremE1
    subst happ
    have plo1 : (lo.map (copy_state dec)).Pairwise (fun a b => a.number < b.number) := by
      rw [List.pairwise_map]
      simpa [copy_state, hnum] using plo
    have hlo1 : ∀ a, a ∈ lo.map (copy_state dec) → a.number < e.number := by
      intro a ha
      obtain ⟨o, ho, hoa⟩ := List.mem_map.mp ha
      rw [← hoa, copy_state, hnum]
      exact hlo o ho
    -- the part of the result behind the copied prefix
    suffices hsuff : ∀ (tl : List entity_state_t),
        ((∀ s, s ∈ tl ↔ merged_from L dec bl hi (e :: es) s) ∧
          tl.Pairwise (fun a b => a.number < b.number) ∧ ∀ b, b ∈ tl → e.number ≤ b.number) →
        (∀ s, s ∈ lo.map (copy_state dec) ++ tl ↔ merged_from L dec bl (lo ++ hi) (e :: es) s) ∧
          (lo.map (copy_state dec) ++ tl).Pairwise (fun a b => a.number < b.number) by
      apply hsuff
      by_cases hR : e.bits &&& L.U_REMOVE ≠ 0
      · rw [if_pos hR]
        obtain ⟨o, ho, hoe⟩ := hremE1 hR
        cases hi with
        | nil => simp at ho
        | cons h0 hi1 =>
          rw [List.pairwise_cons] at phi
          have hh0 : h0.number = e.number := by
            rcases List.mem_cons.mp ho with h | h
            · rw [← h]; exact hoe
            · have := phi.1 o h
              have := hhi h0 (List.mem_cons_self h0 hi1)
              omega
          have hrem2 : ∀ e1, e1 ∈ es → e1.bits &&& L.U_REMOVE ≠ 0 →
              ∃ o, o ∈ hi1 ∧ o.number = e1.number := by
            intro e1 h1 hr
            obtain ⟨o1, ho1, hoe1⟩ := hrem1 e1 h1 hr
            rcases List.mem_cons.mp ho1 with h | h
            · have := hes1 e1 h1
              rw [h] at hoe1
              omega
            · exact ⟨o1, h, hoe1⟩
          obtain ⟨ihm, ihp⟩ := ih hi1 phi.2 hes2 hrem2
          rw [List.tail_cons]
          refine ⟨?_, ihp, ?_⟩
          · intro s
            rw [merged_from_remove L dec bl h0 hi1 e es s hh0 phi.1 hes1 hR]
            exact ihm s
          · intro b hb
            have := merged_from_lower L dec bl hnum hi1 es b e.number ((ihm b).mp hb)
              (fun o ho => by have := phi.1 o ho; omega) hes1
            omega
      · rw [if_neg hR]
        cases hi with
        | nil =>
          obtain ⟨ihm, ihp⟩ := ih [] List.Pairwise.nil hes2 hrem1
          have hlow : ∀ b, b ∈ merge_states L dec bl [] es → e.number < b.number := by
            intro b hb
            exact merged_from_lower L dec bl hnum [] es b e.number ((ihm b).mp hb)
              (fun o ho => by simp at ho) hes1
          refine ⟨?_, ?_, ?_⟩
          · intro s
            rw [merged_from_baseline L dec bl [] e es s (by intro o ho; simp at ho) hR,
              List.mem_cons]
            exact or_congr Iff.rfl (ihm s)
          · rw [List.pairwise_cons]
            refine ⟨?_, ihp⟩
            intro b hb
            rw [hnum]
            exact hlow b hb
          · intro b hb
            rcases List.mem_cons.mp hb with h | h
            · rw [h, hnum]
            · exact Nat.le_of_lt (hlow b h)
        | cons h0 hi1 =>
          rw [List.pairwise_cons] at phi
          by_cases hh0 : h0.number = e.number
          · have hrem2 : ∀ e1, e1 ∈ es → e1.bits &&& L.U_REMOVE ≠ 0 →
                ∃ o, o ∈ hi1 ∧ o.number = e1.number := by
              intro e1 h1 hr
              obtain ⟨o1, ho1, hoe1⟩ := hrem1 e1 h1 hr
              rcases List.mem_cons.mp ho1 with h | h
              · have := hes1 e1 h1
                rw [h] at hoe1
                omega
              · exact ⟨o1, h, hoe1⟩
            obtain ⟨ihm, ihp⟩ := ih hi1 phi.2 hes2 hrem2
            have hlow : ∀ b, b ∈ merge_states L dec bl hi1 es → e.number < b.number := by
              intro b hb
              exact merged_from_lower L dec bl hnum hi1 es b e.number ((ihm b).mp hb)
                (fun o ho => by have := phi.1 o ho; omega) hes1
            simp only [if_pos hh0]
            refine ⟨?_, ?_, ?_⟩
            · intro s
              rw [merged_from_delta L dec bl h0 hi1 e es s hh0 phi.1 hes1 hR, List.mem_cons]
              exact or_congr Iff.rfl (ihm s)
            · rw [List.pairwise_cons]
              refine ⟨?_, ihp⟩
              intro b hb
              rw [hnum]
              exact hlow b hb
            · intro b hb
              rcases List.mem_cons.mp hb with h | h
              · rw [h, hnum]
              · exact Nat.le_of_lt (hlow b h)
          · have hgt : ∀ o, o ∈ h0 :: hi1 → e.number < o.number := by
              intro o ho
              have h1 := hhi h0 (List.mem_cons_self h0 hi1)
              rcases List.mem_cons.mp ho with h | h
              · rw [h]; omega
              · have := phi.1 o h
                omega
            obtain ⟨ihm, ihp⟩ := ih (h0 :: hi1) (List.pairwise_cons.mpr phi) hes2 hrem1
            have hlow : ∀ b, b ∈ merge_states L dec bl (h0 :: hi1) es → e.number < b.number := by
              intro b hb
              exact merged_from_lower L dec bl hnum (h0 :: hi1) es b e.number ((ihm b).mp hb)
                hgt hes1
            simp only [if_neg hh0]
            refine ⟨?_, ?_, ?_⟩
            · intro s
              rw [merged_from_baseline L dec bl (h0 :: hi1) e es s hgt hR, List.mem_cons]
              exact or_congr Iff.rfl (ihm s)
            · rw [List.pairwise_cons]
              refine ⟨?_, ihp⟩
              intro b hb
              rw [hnum]
              exact hlow b hb
            · intro b hb
              rcases List.mem_cons.mp hb with h | h
              · rw [h, hnum]
              · exact Nat.le_of_lt (hlow b h)
    intro tl ⟨htm, htp, htl⟩
    constructor
    · intro s
      rw [merged_from_append L dec bl lo hi e es s hlo hes1, List.mem_append]
      exact or_congr Iff.rfl (htm s)
    · rw [List.pairwise_append]
      refine ⟨plo1, htp, ?_⟩
      intro a ha b hb
      have := hlo1 a ha
      have := htl b hb
      omega

/-! ## `Cl_ParseEntities` on well-formed input -/

theorem Cl_ParseEntities_spec (L : limits_t) (kk : Nat) (dec : entity_decoder)
    (cl : cl_client_t) (delta_frame : Option Nat) (d : Nat) (es : List entry_t)
    (term : entry_t) (rest : List entry_t)
    (hpre : merge_pre L kk dec cl delta_frame d es) (hterm : term.number = 0) :
    ∃ cl2, Cl_ParseEntities L dec delta_frame cl (es ++ term :: rest) = Except.ok (cl2, rest) ∧
      cl2.frames = cl.frames ∧
      cl2.frame.entity_state = cl.entity_state ∧
      cl2.entity_state = u32 (cl2.frame.entity_state + cl2.frame.num_entities) ∧
      cl2.frame.num_entities = (frame_states L cl2 cl2.frame).length ∧
      (∀ s, s ∈ frame_states L cl2 cl2.frame ↔
        merged_from L dec (baseline_of cl) (reference_states L cl delta_frame) es s) ∧
      (frame_states L cl2 cl2.frame).Pairwise (fun a b => a.number < b.number) := by
  obtain ⟨hB, hk, hmax0, hmax, hnum, hwf, hcur, hcap, h16, hos, hor, hess, her, hrem⟩ := hpre
  -- the start and the size of the reference frame, and the distance of the cursor
  obtain ⟨ds, n, d1, href, hd, hnd, hstates, hcap1⟩ :
      ∃ ds n d1, reference_is cl delta_frame ds n ∧ cl.entity_state = u32 (ds + d1) ∧ n ≤ d1 ∧
        reference_states L cl delta_frame = old_states L cl ds n 0 ∧
        d1 + n + es.length ≤ 2 ^ kk := by
    cases delta_frame with
    | none =>
      refine ⟨cl.entity_state, 0, 0, rfl, ?_, Nat.le_refl 0, ?_, ?_⟩
      · unfold u32; omega
      · rw [old_states_of_le L cl _ 0 0 (Nat.le_refl 0)]; rfl
      · simp only [reference_states, List.length_nil] at hcap; omega
    | some slot =>
      obtain ⟨h1, h2⟩ := hcur slot rfl
      refine ⟨(cl.frames slot).entity_state, (cl.frames slot).num_entities, d, ⟨rfl, rfl⟩, h1, h2,
        ?_, ?_⟩
      · rw [old_states_zero]; rfl
      · simp only [reference_states, frame_states, List.length_map, List.length_range] at hcap
        omega
  have hlen : (reference_states L cl delta_frame).length = n := by
    rw [hstates, old_states_length]; rfl
  rw [hlen] at h16
  have holdnum : ∀ t, t < n → (cl.entity_states (log_pos L ds t)).number < 65535 := by
    intro t ht
    have hmem : (cl.entity_states (log_pos L ds t)).number ∈ reference_numbers L cl delta_frame := by
      unfold reference_numbers
      rw [hstates]
      apply List.mem_map_of_mem
      unfold old_states
      rw [List.drop_zero]
      exact List.mem_map.mpr ⟨t, List.mem_range.mpr ht, rfl⟩
    have := hor _ hmem
    omega
  have hrem0 : delta_frame = none → ∀ e, e ∈ es → e.bits &&& L.U_REMOVE = 0 := by
    intro hnone e he
    by_contra hne
    have := hrem e he hne
    rw [hnone] at this
    simp [reference_numbers, reference_states] at this
  obtain ⟨cl2, hrun, hinv⟩ := Cl_ParseEntities_refines L kk hB hk hmax0 hmax dec cl delta_frame
    ds n d1 es term rest href hd hnd her hrem0 holdnum hcap1 h16 hterm
  have hfs := frame_states_of_inv L kk hB hk cl cl2 ds n d1 _ hinv
  rw [← hstates] at hfs
  have hsorted_old : (reference_states L cl delta_frame).Pairwise
      (fun a b => a.number < b.number) := by
    have := hos
    unfold reference_numbers at this
    rwa [List.pairwise_map] at this
  have hsorted_es : es.Pairwise (fun a b => a.number < b.number) := by
    have := hess
    unfold entry_numbers at this
    rwa [List.pairwise_map] at this
  have hrem2 : ∀ e, e ∈ es → e.bits &&& L.U_REMOVE ≠ 0 →
      ∃ o, o ∈ reference_states L cl delta_frame ∧ o.number = e.number := by
    intro e he hr
    have := hrem e he hr
    unfold reference_numbers at this
    obtain ⟨o, ho, hoe⟩ := List.mem_map.mp this
    exact ⟨o, ho, hoe⟩
  obtain ⟨hmem, hpw⟩ := merge_states_spec L dec (fun m => (cl.entities m).baseline) hnum es
    (reference_states L cl delta_frame) hsorted_old hsorted_es hrem2
  refine ⟨cl2, hrun, hinv.frames_eq, ?_, ?_, ?_, ?_, ?_⟩
  · rw [hinv.start_eq, hd]
  · rw [hinv.cursor_eq, hinv.start_eq, hinv.count_eq, ← hd]
    unfold u32
    rw [hd]; unfold u32
    omega
  · rw [hinv.count_eq, hfs, hstates]
  · intro s
    rw [hfs]
    exact hmem s
  · rw [hfs]
    exact hpw

/-! ## The reference frame check of `Cl_ParseFrame` -/

theorem reload_old_fault (L : limits_t) (cl : cl_client_t) (delta_frame : Option Nat)
    (k : old_cursor_t) (e : fault) (h : reload_old L cl delta_frame k = Except.error e) :
    e.is_delta = false := by
  unfold reload_old at h
  split at h
  · cases h; rfl
  · dsimp only at h
    split at h <;> cases h

theorem copy_old_fault (L : limits_t) (dec : entity_decoder) (delta_frame : Option Nat)
    (cl : cl_client_t) (k : old_cursor_t) (e : fault)
    (h : copy_old L dec delta_frame cl k = Except.error e) : e.is_delta = false := by
  unfold copy_old at h
  split at h
  · cases h; rfl
  · dsimp only at h
    split at h
    · rename_i e1 h1
      cases h
      exact reload_old_fault L _ delta_frame _ e h1
    · cases h

theorem copy_below_fault (L : limits_t) (dec : entity_decoder) (delta_frame : Option Nat)
    (number : Nat) : ∀ (fuel : Nat) (cl : cl_client_t) (k : old_cursor_t) (e : fault),
      copy_below L dec delta_frame number fuel cl k = Except.error e → e.is_delta = false := by
  intro fuel
  induction fuel with
  | zero =>
    intro cl k e h
    unfold copy_below at h
    split at h
    · cases h; rfl
    · cases h
  | succ fuel ih =>
    intro cl k e h
    unfold copy_below at h
    split at h
    · split at h
      · rename_i e1 h1
        cases h
        exact copy_old_fault L dec delta_frame cl k e h1
      · exact ih _ _ e h
    · cases h

theorem copy_rest_fault (L : limits_t) (dec : entity_decoder) (delta_frame : Option Nat) :
    ∀ (fuel : Nat) (cl : cl_client_t) (k : old_cursor_t) (e : fault),
      copy_rest L dec delta_frame fuel cl k = Except.error e → e.is_delta = false := by
  intro fuel
  induction fuel with
  | zero =>
    intro cl k e h
    unfold copy_rest at h
    split at h
    · cases h; rfl
    · cases h
  | succ fuel ih =>
    intro cl k e h
    unfold copy_rest at h
    split at h
    · split at h
      · rename_i e1 h1
        cases h
        exact copy_old_fault L dec delta_frame cl k e h1
      · exact ih _ _ e h
    · cases h

theorem parse_entries_fault (L : limits_t) (dec : entity_decoder) (delta_frame : Option Nat) :
    ∀ (msg : List entry_t) (cl : cl_client_t) (k : old_cursor_t) (e : fault),
      parse_entries L dec delta_frame msg cl k = Except.error e → e.is_delta = false := by
  intro msg
  induction msg with
  | nil =>
    intro cl k e h
    unfold parse_entries at h
    cases h; rfl
  | cons a rest ih =>
    intro cl k e h
    unfold parse_entries at h
    split at h
    · cases h; rfl
    · split at h
      · cases h
      · split at h
        · rename_i e1 h1
          cases h
          exact copy_below_fault L dec delta_frame _ _ _ _ e h1
        · split at h
          · split at h
            · rename_i e1 h1
              cases h
              exact reload_old_fault L _ delta_frame _ e h1
            · exact ih _ _ e h
          · split at h
            · split at h
              · cases h; rfl
              · dsimp only at h
                split at h
                · rename_i e1 h1
                  cases h
                  exact reload_old_fault L _ delta_frame _ e h1
                · exact ih _ _ e h
            · split at h
              · exact ih _ _ e h
              · exact ih _ _ e h

theorem Cl_ParseEntities_fault (L : limits_t) (dec : entity_decoder) (delta_frame : Option Nat)
    (cl : cl_client_t) (msg : List entry_t) (e : fault)
    (h : Cl_ParseEntities L dec delta_frame cl msg = Except.error e) : e.is_delta = false := by
  unfold Cl_ParseEntities at h
  dsimp only at h
  split at h
  · rename_i e1 h1
    cases h
    exact parse_entries_fault L dec delta_frame _ _ _ e h1
  · split at h
    · rename_i e1 h1
      cases h
      exact copy_rest_fault L dec delta_frame _ _ _ e h1
    · cases h

/-! ## What the steps of a move keep -/

theorem pm_kept_refl (c : pm_ctx) : pm_kept c c := ⟨rfl, rfl, rfl, rfl, rfl⟩

theorem pm_kept_trans {a b c : pm_ctx} (h1 : pm_kept a b) (h2 : pm_kept b c) : pm_kept a c :=
  ⟨h2.1.trans h1.1, h2.2.1.trans h1.2.1, h2.2.2.1.trans h1.2.2.1,
    h2.2.2.2.1.trans h1.2.2.2.1, h2.2.2.2.2.trans h1.2.2.2.2⟩

theorem Pm_TouchEnt_kept (K : pm_const_t) (c : pm_ctx) (ent : Option Nat) :
    pm_kept c (Pm_TouchEnt K c ent) := by
  unfold Pm_TouchEnt
  split
  · exact pm_kept_refl c
  · split
    · exact pm_kept_refl c
    · split
      · exact pm_kept_refl c
      · exact ⟨rfl, rfl, rfl, rfl, rfl⟩

theorem Pm_SlideMove_loop_kept (K : pm_const_t) (W : pm_world_t) :
    ∀ (n : Nat) (c : pm_ctx) (t : vec_t) (np : Nat),
      pm_kept c (Pm_SlideMove_loop K W n c t np).1 := by
  intro n
  induction n with
  | zero => intro c t np; exact pm_kept_refl c
  | succ n ih =>
    intro c t np
    unfold Pm_SlideMove_loop
    have h1 := Pm_TouchEnt_kept K c
      (W.Trace c.pml.origin (VectorMA c.pml.origin t c.pml.velocity) c.pm.mins c.pm.maxs).ent
    split
    · exact pm_kept_refl c
    · dsimp only
      split
      · exact pm_kept_trans h1 ⟨rfl, rfl, rfl, rfl, rfl⟩
      · split
        · exact pm_kept_trans h1 ⟨rfl, rfl, rfl, rfl, rfl⟩
        · refine pm_kept_trans (pm_kept_trans h1 ?_) (ih _ _ _)
          exact ⟨rfl, rfl, rfl, rfl, rfl⟩

theorem Pm_SlideMove_kept (K : pm_const_t) (W : pm_world_t) (c : pm_ctx) :
    pm_kept c (Pm_SlideMove K W c).1 := by
  unfold Pm_SlideMove
  have h := Pm_SlideMove_loop_kept K W MAX_CLIP_PLANES c c.pml.time 0
  dsimp only
  split
  · exact h
  · dsimp only
    split
    · exact pm_kept_trans h ⟨rfl, rfl, rfl, rfl, rfl⟩
    · exact h

theorem Pm_StepMove_up_kept (K : pm_const_t) (W : pm_world_t) (c c1 : pm_ctx)
    (h : Pm_StepMove_up K W c = some c1) : pm_kept c c1 := by
  unfold Pm_StepMove_up at h
  dsimp only at h
  split_ifs at h <;> cases h <;>
    exact pm_kept_trans ⟨rfl, rfl, rfl, rfl, rfl⟩ (Pm_SlideMove_kept K W _)

theorem Pm_StepMove_settle_kept (K : pm_const_t) (W : pm_world_t) (org vel : vec3_t)
    (up : Bool) (c : pm_ctx) : pm_kept c (Pm_StepMove_settle K W org vel up c).1 := by
  unfold Pm_StepMove_settle
  dsimp only
  split_ifs <;> exact ⟨rfl, rfl, rfl, rfl, rfl⟩

theorem Pm_StepMove_kept (K : pm_const_t) (W : pm_world_t) (c : pm_ctx) (up : Bool) :
    pm_kept c (Pm_StepMove K W c up).1 := by
  unfold Pm_StepMove
  split
  · split
    · exact pm_kept_refl c
    · rename_i c1 h
      exact pm_kept_trans (Pm_StepMove_up_kept K W c c1 h) (Pm_StepMove_settle_kept K W _ _ _ c1)
  · exact Pm_StepMove_settle_kept K W _ _ _ c

theorem Pm_StepSlideMove_up_kept (K : pm_const_t) (M : pm_math_t) (W : pm_world_t)
    (org vel : vec3_t) (c : pm_ctx) : pm_kept c (Pm_StepSlideMove_up K M W org vel c) := by
  unfold Pm_StepSlideMove_up
  dsimp only
  have h := pm_kept_trans (b := { c with pml.origin := org, pml.velocity := vel })
    ⟨rfl, rfl, rfl, rfl, rfl⟩ (Pm_StepMove_kept K W _ true)
  split_ifs
  · exact pm_kept_trans h ⟨rfl, rfl, rfl, rfl, rfl⟩
  · exact h
  · exact pm_kept_trans h ⟨rfl, rfl, rfl, rfl, rfl⟩

theorem Pm_StepSlideMove_down_kept (K : pm_const_t) (W : pm_world_t) (c : pm_ctx) :
    pm_kept c (Pm_StepSlideMove_down K W c) := by
  unfold Pm_StepSlideMove_down
  dsimp only
  have h := Pm_StepMove_kept K W c false
  split_ifs
  · exact pm_kept_trans h ⟨rfl, rfl, rfl, rfl, rfl⟩
  · exact h
  · exact pm_kept_refl c
  · exact pm_kept_refl c

theorem Pm_StepSlideMove_kept (K : pm_const_t) (M : pm_math_t) (W : pm_world_t) (c : pm_ctx) :
    pm_kept c (Pm_StepSlideMove K M W c) := by
  unfold Pm_StepSlideMove
  dsimp only
  have h := Pm_SlideMove_kept K W c
  split_ifs
  · exact pm_kept_trans (pm_kept_trans h (Pm_StepSlideMove_up_kept K M W _ _ _))
      (Pm_StepSlideMove_down_kept K W _)
  · exact pm_kept_trans h (Pm_StepSlideMove_down_kept K W _)

theorem Pm_Friction_kept (K : pm_const_t) (B : pm_bits_t) (M : pm_math_t) (c : pm_ctx) :
    pm_kept c (Pm_Friction K B M c) := by
  unfold Pm_Friction
  dsimp only
  split_ifs <;> exact ⟨rfl, rfl, rfl, rfl, rfl⟩

theorem Pm_Accelerate_kept (c : pm_ctx) (dir : vec3_t) (speed accel : vec_t) :
    pm_kept c (Pm_Accelerate c dir speed accel) := by
  unfold Pm_Accelerate
  dsimp only
  split_ifs <;> exact ⟨rfl, rfl, rfl, rfl, rfl⟩

theorem Pm_Gravity_kept (K : pm_const_t) (c : pm_ctx) : pm_kept c (Pm_Gravity K c) := by
  unfold Pm_Gravity
  exact ⟨rfl, rfl, rfl, rfl, rfl⟩

theorem Pm_Landing_kept (K : pm_const_t) (B : pm_bits_t) (c : pm_ctx) (t : Bool) :
    pm_kept c (Pm_Landing K B c t) := by
  unfold Pm_Landing
  dsimp only
  split_ifs <;> exact ⟨rfl, rfl, rfl, rfl, rfl⟩

theorem Pm_WaterLevel_kept (K : pm_const_t) (B : pm_bits_t) (W : pm_world_t) (c : pm_ctx) :
    pm_kept c (Pm_WaterLevel K B W c) := by
  unfold Pm_WaterLevel
  dsimp only
  split_ifs <;> exact ⟨rfl, rfl, rfl, rfl, rfl⟩

theorem Pm_Ground_kept (K : pm_const_t) (B : pm_bits_t) (c : pm_ctx) (trace : cm_trace_t)
    (t : Bool) : pm_kept c (Pm_Ground K B c trace t) := by
  unfold Pm_Ground
  dsimp only
  have hL := Pm_Landing_kept K B
    { c with
      pml.ground_plane := trace.plane
      pml.ground_surface := trace.surface
      pml.ground_contents := trace.contents } t
  have hL1 : pm_kept c (Pm_Landing K B
    { c with
      pml.ground_plane := trace.plane
      pml.ground_surface := trace.surface
      pml.ground_contents := trace.contents } t) := pm_kept_trans ⟨rfl, rfl, rfl, rfl, rfl⟩ hL
  split_ifs <;>
    first
    | exact ⟨rfl, rfl, rfl, rfl, rfl⟩
    | exact pm_kept_trans hL1 ⟨rfl, rfl, rfl, rfl, rfl⟩

theorem Pm_CategorizePosition_kept (K : pm_const_t) (B : pm_bits_t) (W : pm_world_t)
    (c : pm_ctx) : pm_kept c (Pm_CategorizePosition K B W c) := by
  unfold Pm_CategorizePosition
  dsimp only
  refine pm_kept_trans ?_ (Pm_WaterLevel_kept K B W _)
  exact pm_kept_trans (Pm_Ground_kept K B c _ _) (Pm_TouchEnt_kept K _ _)

theorem Pm_CheckDuck_flag_kept (W : pm_world_t) (c : pm_ctx) :
    pm_kept c (Pm_CheckDuck_flag W c) := by
  unfold Pm_CheckDuck_flag
  dsimp only
  split_ifs <;> exact ⟨rfl, rfl, rfl, rfl, rfl⟩

theorem Pm_CheckDuck_view_kept (K : pm_const_t) (height : vec_t) (c : pm_ctx) :
    pm_kept c (Pm_CheckDuck_view K height c) := by
  unfold Pm_CheckDuck_view
  split <;> exact ⟨rfl, rfl, rfl, rfl, rfl⟩

theorem Pm_CheckDuck_kept (K : pm_const_t) (W : pm_world_t) (c : pm_ctx) :
    pm_kept c (Pm_CheckDuck K W c) :=
  pm_kept_trans (Pm_CheckDuck_flag_kept W c) (Pm_CheckDuck_view_kept K _ _)

theorem Pm_Jump_kept (K : pm_const_t) (c : pm_ctx) : pm_kept c (Pm_Jump K c) := by
  unfold Pm_Jump
  exact ⟨rfl, rfl, rfl, rfl, rfl⟩

theorem Pm_CheckJump_kept (K : pm_const_t) (c : pm_ctx) : pm_kept c (Pm_CheckJump K c).1 := by
  unfold Pm_CheckJump
  split_ifs <;> exact pm_kept_refl c

theorem Pm_CheckPush_kept (c : pm_ctx) : pm_kept c (Pm_CheckPush c).1 := by
  unfold Pm_CheckPush
  split_ifs <;> exact ⟨rfl, rfl, rfl, rfl, rfl⟩

theorem Pm_CheckLadder_kept (B : pm_bits_t) (M : pm_math_t) (W : pm_world_t) (c : pm_ctx) :
    pm_kept c (Pm_CheckLadder B M W c).1 := by
  unfold Pm_CheckLadder
  dsimp only
  split_ifs <;> exact ⟨rfl, rfl, rfl, rfl, rfl⟩

theorem Pm_CheckWaterJump_kept (K : pm_const_t) (B : pm_bits_t) (W : pm_world_t) (c : pm_ctx) :
    pm_kept c (Pm_CheckWaterJump K B W c).1 := by
  unfold Pm_CheckWaterJump
  dsimp only
  split_ifs <;> exact ⟨rfl, rfl, rfl, rfl, rfl⟩

theorem Pm_LadderMove_kept (K : pm_const_t) (B : pm_bits_t) (M : pm_math_t) (W : pm_world_t)
    (c : pm_ctx) : pm_kept c (Pm_LadderMove K B M W c) := by
  unfold Pm_LadderMove
  dsimp only
  refine pm_kept_trans ?_ (Pm_StepSlideMove_kept K M W _)
  refine pm_kept_trans ?_ (Pm_Accelerate_kept _ _ _ _)
  refine pm_kept_trans (Pm_Friction_kept K B M c) ?_
  split_ifs <;> exact ⟨rfl, rfl, rfl, rfl, rfl⟩

theorem Pm_WaterJumpMove_kept (K : pm_const_t) (B : pm_bits_t) (M : pm_math_t)
    (W : pm_world_t) (c : pm_ctx) : pm_kept c (Pm_WaterJumpMove K B M W c) := by
  unfold Pm_WaterJumpMove
  dsimp only
  refine pm_kept_trans ?_ (Pm_StepSlideMove_kept K M W _)
  have h := pm_kept_trans (Pm_Friction_kept K B M c) (Pm_Gravity_kept K _)
  split_ifs <;> exact pm_kept_trans h ⟨rfl, rfl, rfl, rfl, rfl⟩

theorem Pm_WaterMove_kept (K : pm_const_t) (B : pm_bits_t) (M : pm_math_t) (W : pm_world_t)
    (c : pm_ctx) : pm_kept c (Pm_WaterMove K B M W c) := by
  unfold Pm_WaterMove
  dsimp only
  have h0 := Pm_CheckWaterJump_kept K B W c
  split
  · exact pm_kept_trans h0 (Pm_WaterJumpMove_kept K B M W _)
  · refine pm_kept_trans ?_ (Pm_StepSlideMove_kept K M W _)
    refine pm_kept_trans ?_ (Pm_Accelerate_kept _ _ _ _)
    have h1 := pm_kept_trans h0 (Pm_Friction_kept K B M _)
    split_ifs <;>
      first
      | exact pm_kept_trans (pm_kept_trans (pm_kept_trans h1 (Pm_Friction_kept K B M _))
          (Pm_Gravity_kept K _)) ⟨rfl, rfl, rfl, rfl, rfl⟩
      | exact pm_kept_trans (pm_kept_trans h1 (Pm_Friction_kept K B M _)) ⟨rfl, rfl, rfl, rfl, rfl⟩
      | exact pm_kept_trans (pm_kept_trans h1 (Pm_Gravity_kept K _)) ⟨rfl, rfl, rfl, rfl, rfl⟩

theorem Pm_AirMove_kept (K : pm_const_t) (B : pm_bits_t) (M : pm_math_t) (W : pm_world_t)
    (c : pm_ctx) : pm_kept c (Pm_AirMove K B M W c) := by
  unfold Pm_AirMove
  dsimp only
  refine pm_kept_trans ?_ (Pm_StepSlideMove_kept K M W _)
  refine pm_kept_trans ?_ (Pm_Accelerate_kept _ _ _ _)
  exact pm_kept_trans (pm_kept_trans (Pm_Friction_kept K B M c) (Pm_Gravity_kept K _))
    ⟨rfl, rfl, rfl, rfl, rfl⟩

theorem Pm_WalkMove_kept (K : pm_const_t) (B : pm_bits_t) (M : pm_math_t) (W : pm_world_t)
    (c c1 : pm_ctx) (h : Pm_WalkMove K B M W c = some c1) : pm_kept c c1 := by
  unfold Pm_WalkMove at h
  dsimp only at h
  have hj := Pm_CheckJump_kept K c
  have hp : pm_kept c (if (Pm_CheckJump K c).2 = true then ((Pm_CheckJump K c).1, true)
      else Pm_CheckPush (Pm_CheckJump K c).1).1 := by
    split_ifs
    · exact hj
    · exact pm_kept_trans hj (Pm_CheckPush_kept _)
  generalize (if (Pm_CheckJump K c).2 = true then ((Pm_CheckJump K c).1, true)
      else Pm_CheckPush (Pm_CheckJump K c).1) = pushed at h hp
  split at h
  · split at h
    · cases h
      exact pm_kept_trans hp (Pm_WaterMove_kept K B M W _)
    · cases h
      exact pm_kept_trans hp (Pm_AirMove_kept K B M W _)
  · split at h
    · cases h
    · cases h
      refine pm_kept_trans ?_ (Pm_StepSlideMove_kept K M W _)
      refine pm_kept_trans ?_ ⟨rfl, rfl, rfl, rfl, rfl⟩
      refine pm_kept_trans ?_ (Pm_Accelerate_kept _ _ _ _)
      refine pm_kept_trans ?_ ⟨rfl, rfl, rfl, rfl, rfl⟩
      refine pm_kept_trans ?_ (Pm_Friction_kept K B M _)
      exact pm_kept_trans hp ⟨rfl, rfl, rfl, rfl, rfl⟩

theorem Pm_ClampAngles_kept (M : pm_math_t) (c : pm_ctx) : pm_kept c (Pm_ClampAngles M c) := by
  unfold Pm_ClampAngles
  exact ⟨rfl, rfl, rfl, rfl, rfl⟩

theorem Pm_Dispatch_kept (K : pm_const_t) (B : pm_bits_t) (M : pm_math_t) (W : pm_world_t)
    (c c1 : pm_ctx) (h : Pm_Dispatch K B M W c = some c1) : pm_kept c c1 := by
  unfold Pm_Dispatch at h
  split_ifs at h
  · cases h; exact pm_kept_refl c
  · cases h; exact Pm_WaterJumpMove_kept K B M W c
  · cases h; exact Pm_LadderMove_kept K B M W c
  · exact Pm_WalkMove_kept K B M W c c1 h
  · cases h; exact Pm_WaterMove_kept K B M W c
  · cases h; exact Pm_AirMove_kept K B M W c

theorem Pm_SnapPosition_loop_kept (W : pm_world_t) :
    ∀ (bits : List Nat) (c : pm_ctx), pm_kept c (Pm_SnapPosition_loop W bits c).1 := by
  intro bits
  induction bits with
  | nil => intro c; exact pm_kept_refl c
  | cons b bits ih =>
    intro c
    unfold Pm_SnapPosition_loop
    dsimp only
    split_ifs
    · exact ⟨rfl, rfl, rfl, rfl, rfl⟩
    · exact pm_kept_trans ⟨rfl, rfl, rfl, rfl, rfl⟩ (ih _)

/-! ## The ground surface during a move -/

theorem Pm_TouchEnt_pml (K : pm_const_t) (c : pm_ctx) (ent : Option Nat) :
    (Pm_TouchEnt K c ent).pml = c.pml := by
  unfold Pm_TouchEnt
  split
  · rfl
  · split_ifs <;> rfl

theorem Pm_WaterLevel_surface (K : pm_const_t) (B : pm_bits_t) (W : pm_world_t) (c : pm_ctx) :
    (Pm_WaterLevel K B W c).pml.ground_surface = c.pml.ground_surface := by
  unfold Pm_WaterLevel
  dsimp only
  split_ifs <;> rfl

theorem Pm_Landing_surface (K : pm_const_t) (B : pm_bits_t) (c : pm_ctx) (t : Bool) :
    (Pm_Landing K B c t).pml.ground_surface = c.pml.ground_surface := by
  unfold Pm_Landing
  dsimp only
  split_ifs <;> rfl

theorem Pm_Ground_surface (K : pm_const_t) (B : pm_bits_t) (c : pm_ctx) (trace : cm_trace_t)
    (t : Bool) : (Pm_Ground K B c trace t).pml.ground_surface = trace.surface := by
  unfold Pm_Ground
  dsimp only
  split_ifs <;> first | rfl | exact Pm_Landing_surface K B _ _

theorem Pm_CategorizePosition_surface (K : pm_const_t) (B : pm_bits_t) (W : pm_world_t)
    (c : pm_ctx) :
    (Pm_CategorizePosition K B W c).pml.ground_surface
      = (Pm_GroundTrace K W c (Pm_CheckTrickJump K c)).surface := by
  unfold Pm_CategorizePosition
  dsimp only
  rw [Pm_WaterLevel_surface, Pm_TouchEnt_pml, Pm_Ground_surface]

theorem Pm_ClampAngles_surface (M : pm_math_t) (c : pm_ctx) :
    (Pm_ClampAngles M c).pml.ground_surface = c.pml.ground_surface := rfl

theorem Pm_CheckDuck_surface (K : pm_const_t) (W : pm_world_t) (c : pm_ctx) :
    (Pm_CheckDuck K W c).pml.ground_surface = c.pml.ground_surface := by
  have h1 : (Pm_CheckDuck_flag W c).pml.ground_surface = c.pml.ground_surface := by
    unfold Pm_CheckDuck_flag
    dsimp only
    split_ifs <;> rfl
  have h2 : ∀ h c1, (Pm_CheckDuck_view K h c1).pml.ground_surface = c1.pml.ground_surface := by
    intro h c1
    unfold Pm_CheckDuck_view
    split <;> rfl
  unfold Pm_CheckDuck
  rw [h2, h1]

theorem Pm_CheckLadder_surface (B : pm_bits_t) (M : pm_math_t) (W : pm_world_t) (c : pm_ctx) :
    (Pm_CheckLadder B M W c).1.pml.ground_surface = c.pml.ground_surface := by
  unfold Pm_CheckLadder
  dsimp only
  split_ifs <;> rfl

theorem Pm_CheckJump_surface (K : pm_const_t) (c : pm_ctx) :
    (Pm_CheckJump K c).1.pml.ground_surface = c.pml.ground_surface := by
  unfold Pm_CheckJump
  split_ifs <;> rfl

theorem Pm_CheckPush_surface (c : pm_ctx) :
    (Pm_CheckPush c).1.pml.ground_surface = c.pml.ground_surface := by
  unfold Pm_CheckPush
  split_ifs <;> rfl

theorem Pm_Friction_surface (K : pm_const_t) (B : pm_bits_t) (M : pm_math_t) (c : pm_ctx) :
    (Pm_Friction K B M c).pml.ground_surface = c.pml.ground_surface := by
  unfold Pm_Friction
  dsimp only
  split_ifs <;> rfl

theorem Pm_WalkMove_isSome (K : pm_const_t) (B : pm_bits_t) (M : pm_math_t) (W : pm_world_t)
    (c : pm_ctx) (h : c.pml.ground_surface.isSome = true) :
    (Pm_WalkMove K B M W c).isSome = true := by
  unfold Pm_WalkMove
  dsimp only
  have hp : (if (Pm_CheckJump K c).2 = true then ((Pm_CheckJump K c).1, true)
      else Pm_CheckPush (Pm_CheckJump K c).1).1.pml.ground_surface = c.pml.ground_surface := by
    split_ifs
    · exact Pm_CheckJump_surface K c
    · rw [Pm_CheckPush_surface, Pm_CheckJump_surface]
  generalize (if (Pm_CheckJump K c).2 = true then ((Pm_CheckJump K c).1, true)
      else Pm_CheckPush (Pm_CheckJump K c).1) = pushed at hp
  split
  · split <;> rfl
  · rw [Pm_Friction_surface]
    dsimp only
    rw [hp]
    split
    · rename_i hnone
      rw [hnone] at h
      cases h
    · rfl

theorem Pm_Dispatch_isSome (K : pm_const_t) (B : pm_bits_t) (M : pm_math_t) (W : pm_world_t)
    (c : pm_ctx) (h : c.pml.ground_surface.isSome = true) :
    (Pm_Dispatch K B M W c).isSome = true := by
  unfold Pm_Dispatch
  split_ifs <;> first | rfl | exact Pm_WalkMove_isSome K B M W c h

theorem Pm_Move_isSome (K : pm_const_t) (B : pm_bits_t) (M : pm_math_t) (W : pm_world_t)
    (pm : pm_move_t) (hW : ∀ a b m x, (W.Trace a b m x).surface.isSome = true) :
    (Pm_Move K B M W pm).isSome = true := by
  have hs : ∀ c, (Pm_Dispatch K B M W (Pm_CheckLadder B M W (Pm_CheckDuck K W
      (Pm_ClampAngles M (Pm_CategorizePosition K B W c)))).1).isSome = true := by
    intro c
    apply Pm_Dispatch_isSome
    rw [Pm_CheckLadder_surface, Pm_CheckDuck_surface, Pm_ClampAngles_surface,
      Pm_CategorizePosition_surface]
    exact hW _ _ _ _
  unfold Pm_Move
  dsimp only
  split_ifs
  all_goals first
    | rfl
    | (split
       · rename_i hnone
         rw [← Option.not_isSome_iff_eq_none] at hnone
         exact absurd (hs _) hnone
       · split_ifs <;> rfl)
/-! ## The final position of a move -/

theorem trunc_int_cast (n : Int) : trunc_int ((n : ℚ) / 8 * 8) = n := by
  have h : (n : ℚ) / 8 * 8 = (n : ℚ) := by ring
  rw [h]
  unfold trunc_int
  split_ifs
  · exact Int.floor_intCast n
  · exact Int.ceil_intCast n

theorem PackVector_UnpackVector (v : svec3_t) : PackVector (UnpackVector v) = v := by
  unfold PackVector UnpackVector
  dsimp only
  rw [trunc_int_cast, trunc_int_cast, trunc_int_cast]

theorem Pm_SnapPosition_loop_good (W : pm_world_t) :
    ∀ (bits : List Nat) (c : pm_ctx), (Pm_SnapPosition_loop W bits c).2 = true →
      Pm_GoodPosition W (Pm_SnapPosition_loop W bits c).1 = true := by
  intro bits
  induction bits with
  | nil =>
    intro c h
    simp [Pm_SnapPosition_loop] at h
  | cons b bits ih =>
    intro c
    unfold Pm_SnapPosition_loop
    dsimp only
    split_ifs with hg
    · intro _
      exact hg
    · exact ih _

theorem Pm_Init_type (K : pm_const_t) (pm : pm_move_t) :
    (Pm_Init K pm).s.type = pm.s.type ∧ (Pm_Init K pm).s.origin = pm.s.origin
      ∧ (Pm_Init K pm).cmd.msec = pm.cmd.msec := by
  unfold Pm_Init
  dsimp only
  split_ifs <;> exact ⟨rfl, rfl, rfl⟩

theorem stored_start_solid_of_good (W : pm_world_t) (c : pm_ctx)
    (ht : c.pm.s.type ≠ pm_type_t.PM_SPECTATOR) (h : Pm_GoodPosition W c = true) :
    stored_start_solid W c = false := by
  unfold Pm_GoodPosition at h
  rw [if_neg ht] at h
  unfold stored_start_solid
  simpa using h

/-- The two ways a move of a player that is neither spectator nor frozen ends: the last
`Pm_SnapPosition` found a valid position, or the stored origin is the one the move
started with and the stored velocity is zero. -/
theorem Pm_Move_final (K : pm_const_t) (B : pm_bits_t) (M : pm_math_t) (W : pm_world_t)
    (pm : pm_move_t) (c : pm_ctx) (hs : pm.s.type ≠ pm_type_t.PM_SPECTATOR)
    (hf : pm.s.type ≠ pm_type_t.PM_FREEZE) (h : Pm_Move K B M W pm = some c) :
    c.pm.s.type = pm.s.type ∧
    (Pm_GoodPosition W c = true
      ∨ (c.pm.s.origin = pm.s.origin ∧ c.pm.s.velocity = ⟨0, 0, 0⟩)) := by
  obtain ⟨hit, hio, _⟩ := Pm_Init_type K pm
  have h1 : pm_kept (Pm_InitLocal (Pm_Init K pm))
      (Pm_SnapPosition W (Pm_InitLocal (Pm_Init K pm))).1 :=
    Pm_SnapPosition_loop_kept W _ _
  have ht1 : (Pm_SnapPosition W (Pm_InitLocal (Pm_Init K pm))).1.pm.s.type = pm.s.type := by
    rw [h1.1]
    exact hit
  unfold Pm_Move at h
  dsimp only at h
  rw [if_neg (by rw [ht1]; exact hs)] at h
  generalize hc2 : (if (Pm_SnapPosition W (Pm_InitLocal (Pm_Init K pm))).1.pm.s.type
        = pm_type_t.PM_DEAD ∨ (Pm_SnapPosition W (Pm_InitLocal (Pm_Init K pm))).1.pm.s.type
        = pm_type_t.PM_FREEZE then _ else _ : pm_ctx) = c2 at h
  have h2 : pm_kept (Pm_SnapPosition W (Pm_InitLocal (Pm_Init K pm))).1 c2 := by
    rw [← hc2]
    split_ifs
    · exact ⟨rfl, rfl, rfl, rfl, rfl⟩
    · exact pm_kept_refl _
  have h02 := pm_kept_trans h1 h2
  rw [if_neg (by rw [h02.1]; exact fun e => hf (hit ▸ e))] at h
  have h6 : pm_kept c2 (Pm_CheckLadder B M W (Pm_CheckDuck K W (Pm_ClampAngles M
      (Pm_CategorizePosition K B W c2)))).1 :=
    pm_kept_trans (pm_kept_trans (pm_kept_trans (Pm_CategorizePosition_kept K B W c2)
      (Pm_ClampAngles_kept M _)) (Pm_CheckDuck_kept K W _)) (Pm_CheckLadder_kept B M W _)
  generalize (Pm_CheckLadder B M W (Pm_CheckDuck K W (Pm_ClampAngles M
      (Pm_CategorizePosition K B W c2)))).1 = c6 at h h6
  cases h7 : Pm_Dispatch K B M W c6 with
  | none =>
    rw [h7] at h
    cases h
  | some c7 =>
    rw [h7] at h
    dsimp only at h
    have hk7 := Pm_Dispatch_kept K B M W c6 c7 h7
    generalize hc9 : (if has_flag (Pm_CategorizePosition K B W c7).pm.s.flags PMF_ON_GROUND = true
        then _ else _ : pm_ctx) = c9 at h
    have h9 : pm_kept c7 c9 := by
      rw [← hc9]
      split_ifs
      · exact pm_kept_trans (Pm_CategorizePosition_kept K B W c7) ⟨rfl, rfl, rfl, rfl, rfl⟩
      · exact Pm_CategorizePosition_kept K B W c7
    have hsn : pm_kept c9 (Pm_SnapPosition W c9).1 := Pm_SnapPosition_loop_kept W _ _
    have hall := pm_kept_trans (pm_kept_trans (pm_kept_trans (pm_kept_trans h02 h6) hk7) h9) hsn
    have hgood := Pm_SnapPosition_loop_good W jitter_bits c9
    split_ifs at h with hfail
    · cases h
      refine ⟨?_, Or.inr ⟨?_, rfl⟩⟩
      · show (Pm_SnapPosition W c9).1.pm.s.type = pm.s.type
        rw [hall.1]
        exact hit
      · show PackVector (Pm_SnapPosition W c9).1.pml.previous_origin = pm.s.origin
        rw [hall.2.2.1]
        show PackVector (UnpackVector (Pm_Init K pm).s.origin) = pm.s.origin
        rw [PackVector_UnpackVector, hio]
    · cases h
      refine ⟨?_, Or.inl ?_⟩
      · rw [hall.1]
        exact hit
      · apply hgood
        cases hb : (Pm_SnapPosition_loop W jitter_bits c9).2
        · exact absurd hb hfail
        · rfl
/-! ## The send pass of the server -/

theorem transmissions_to_append (i : Nat) (a b : List sv_event) :
    transmissions_to i (a ++ b) = transmissions_to i a ++ transmissions_to i b := by
  unfold transmissions_to
  exact List.filter_append _ _

theorem transmissions_to_other (i j : Nat) (h : j ≠ i) (d : List Nat) :
    transmissions_to i [sv_event.transmit j d] = [] := by
  simp [transmissions_to, h]

theorem client_at_set_ne (sv : sv_t) (i j : Nat) (cl : sv_client_t) (ev : List sv_event)
    (h : i ≠ j) : client_at { set_client sv j cl with events := ev } i = client_at sv i := by
  unfold client_at set_client
  simp only [List.getD_eq_getElem?_getD]
  rw [List.getElem?_set_ne (Ne.symm h)]

theorem client_at_set_eq (sv : sv_t) (j : Nat) (cl : sv_client_t) (ev : List sv_event)
    (h : j < sv.clients.length) : client_at { set_client sv j cl with events := ev } j = cl := by
  unfold client_at set_client
  simp only [List.getD_eq_getElem?_getD]
  rw [List.getElem?_set_self h]
  rfl

theorem same_but_slot_set (sv : sv_t) (j : Nat) (cl : sv_client_t) (ev : List sv_event) :
    same_but_slot j sv { set_client sv j cl with events := ev } :=
  ⟨rfl, rfl, by simp [set_client], fun _ hk => client_at_set_ne sv _ j cl ev hk⟩

theorem same_but_slot_refl (j : Nat) (sv : sv_t) : same_but_slot j sv sv :=
  ⟨rfl, rfl, rfl, fun _ _ => rfl⟩

theorem Sv_SendClientDatagram_loop_events (E : sv_env_t) (time i j : Nat) (source : List Nat)
    (h : j ≠ i) :
    ∀ (msgs : List sv_client_message_t) (acc : net_chan_t × mem_buf_t × List sv_event),
      transmissions_to i (Sv_SendClientDatagram_loop E time j source msgs acc).2.2
        = transmissions_to i acc.2.2 := by
  intro msgs
  induction msgs with
  | nil => intro acc; rfl
  | cons m rest ih =>
    intro acc
    unfold Sv_SendClientDatagram_loop
    dsimp only
    rw [ih]
    dsimp only
    split_ifs
    · rw [transmissions_to_append, transmissions_to_other i j h, List.append_nil]
    · rfl

theorem Sv_SendClientDatagram_events (E : sv_env_t) (sv : sv_t) (i j : Nat) (cl : sv_client_t)
    (h : j ≠ i) : transmissions_to i (Sv_SendClientDatagram E sv j cl).2.1 = [] := by
  unfold Sv_SendClientDatagram
  dsimp only
  split_ifs
  · rfl
  · rw [transmissions_to_append, Sv_SendClientDatagram_loop_events E _ i j _ h,
      transmissions_to_other i j h]
    rfl

theorem Sv_SendClientPackets_throttle_events (E : sv_env_t) (sv : sv_t) (i j : Nat)
    (cl : sv_client_t) (h : j ≠ i) :
    transmissions_to i (Sv_SendClientPackets_throttle E j sv cl).2.1 = [] := by
  unfold Sv_SendClientPackets_throttle
  dsimp only
  split_ifs
  · exact Sv_SendClientDatagram_events E sv i j _ h
  · rfl

theorem Sv_SendClientPackets_active_other (E : sv_env_t) (sv : sv_t) (i j : Nat)
    (cl : sv_client_t) (h : j ≠ i) :
    same_but_slot j sv (Sv_SendClientPackets_active E j sv cl).1 ∧
    transmissions_to i (Sv_SendClientPackets_active E j sv cl).1.events
      = transmissions_to i sv.events := by
  have hev := Sv_SendClientPackets_throttle_events E sv i j cl h
  unfold Sv_SendClientPackets_active
  dsimp only
  generalize Sv_SendClientPackets_throttle E j sv cl = sent at hev
  split
  · refine ⟨same_but_slot_set sv j _ _, ?_⟩
    show transmissions_to i (sv.events ++ sent.2.1) = _
    rw [transmissions_to_append, hev, List.append_nil]
  · refine ⟨same_but_slot_set sv j _ _, ?_⟩
    show transmissions_to i (sv.events ++ sent.2.1) = _
    rw [transmissions_to_append, hev, List.append_nil]

/-- The loop body for a slot `j` whose reliable buffer has not overflowed, outside demo
playback: only the slot `j` changes, and no transmission to another slot is made. -/
theorem Sv_SendClientPackets_client_other (E : sv_env_t) (sv : sv_t) (i j : Nat) (h : j ≠ i)
    (hover : (client_at sv j).net_chan.message.overflowed = false)
    (hdemo : sv.state ≠ sv_state_t.SV_ACTIVE_DEMO) :
    same_but_slot j sv (Sv_SendClientPackets_client E j sv).1 ∧
    transmissions_to i (Sv_SendClientPackets_client E j sv).1.events
      = transmissions_to i sv.events := by
  unfold Sv_SendClientPackets_client
  dsimp only
  have hover1 : ¬ (client_at sv j).net_chan.message.overflowed = true := by
    rw [hover]
    exact Bool.false_ne_true
  rw [if_neg hover1, if_neg hdemo]
  split_ifs with h1 h2 h3
  · exact ⟨same_but_slot_refl j sv, rfl⟩
  · exact Sv_SendClientPackets_active_other E sv i j _ h
  · refine ⟨same_but_slot_set sv j _ _, ?_⟩
    show transmissions_to i (sv.events ++ [sv_event.transmit j []]) = _
    rw [transmissions_to_append, transmissions_to_other i j h, List.append_nil]
  · exact ⟨same_but_slot_refl j sv, rfl⟩

/-- The loop body for an active slot `i` whose rate check trips: the slot keeps its
state and its reliable buffer, no call is made and no failure is raised. -/
theorem Sv_SendClientPackets_client_dropped (E : sv_env_t) (sv : sv_t) (i : Nat)
    (hlen : i < sv.clients.length)
    (hact : (client_at sv i).state = sv_client_state_t.SV_CLIENT_ACTIVE)
    (hover : (client_at sv i).net_chan.message.overflowed = false)
    (hdemo : sv.state ≠ sv_state_t.SV_ACTIVE_DEMO)
    (hrate : rate_trips E sv (client_at sv i)) :
    same_but_slot i sv (Sv_SendClientPackets_client E i sv).1 ∧
    (Sv_SendClientPackets_client E i sv).1.events = sv.events ∧
    (Sv_SendClientPackets_client E i sv).2 = none ∧
    (client_at (Sv_SendClientPackets_client E i sv).1 i).state
      = sv_client_state_t.SV_CLIENT_ACTIVE ∧
    (client_at (Sv_SendClientPackets_client E i sv).1 i).net_chan
      = (client_at sv i).net_chan := by
  have hthr : Sv_SendClientPackets_throttle E i sv (client_at sv i)
      = ({ (client_at sv i) with
            surpress_count := u32 ((client_at sv i).surpress_count + 1)
            message_size := (client_at sv i).message_size.set (sv.frame_num % sv.sv_hz) 0 },
          [], none) := by
    unfold Sv_SendClientPackets_throttle Sv_RateDrop
    rw [if_neg hrate.1, if_pos hrate.2]
    rfl
  unfold Sv_SendClientPackets_client
  dsimp only
  have hover1 : ¬ (client_at sv i).net_chan.message.overflowed = true := by
    rw [hover]
    exact Bool.false_ne_true
  rw [if_neg (by rw [hact]; decide), if_neg hover1, if_neg hdemo, if_pos hact]
  unfold Sv_SendClientPackets_active
  rw [hthr]
  dsimp only
  refine ⟨same_but_slot_set sv i _ _, List.append_nil _, rfl, ?_, ?_⟩
  · rw [client_at_set_eq sv i _ _ hlen]
    exact hact
  · rw [client_at_set_eq sv i _ _ hlen]

/-- The loop of the send pass over slots without repetition whose reliable buffers have
not overflowed, outside demo playback: a slot that is not in the list, or that is
active with a rate check that trips, keeps its state and its channel, and no
transmission to it is made. -/
theorem Sv_SendClientPackets_loop_dropped (E : sv_env_t) (i : Nat) :
    ∀ (l : List Nat) (sv : sv_t), l.Nodup →
      (∀ j ∈ l, (client_at sv j).net_chan.message.overflowed = false) →
      sv.state ≠ sv_state_t.SV_ACTIVE_DEMO →
      (i ∈ l → i < sv.clients.length ∧
        (client_at sv i).state = sv_client_state_t.SV_CLIENT_ACTIVE ∧
        rate_trips E sv (client_at sv i)) →
      transmissions_to i (Sv_SendClientPackets_loop E l sv).1.events
          = transmissions_to i sv.events ∧
        (client_at (Sv_SendClientPackets_loop E l sv).1 i).state = (client_at sv i).state ∧
        (client_at (Sv_SendClientPackets_loop E l sv).1 i).net_chan
          = (client_at sv i).net_chan := by
  intro l
  induction l with
  | nil => intro sv _ _ _ _; exact ⟨rfl, rfl, rfl⟩
  | cons j rest ih =>
    intro sv hnd hover hdemo hi
    have hnd1 := List.nodup_cons.mp hnd
    by_cases hji : j = i
    · subst hji
      obtain ⟨hlen, hact, hrate⟩ := hi (List.mem_cons_self _ _)
      obtain ⟨hsame, hev, hnone, hstate, hchan⟩ := Sv_SendClientPackets_client_dropped E sv j
        hlen hact (hover j (List.mem_cons_self _ _)) hdemo hrate
      unfold Sv_SendClientPackets_loop
      generalize Sv_SendClientPackets_client E j sv = r at hsame hev hnone hstate hchan
      obtain ⟨sv1, f⟩ := r
      dsimp only at hsame hev hnone hstate hchan
      subst hnone
      dsimp only
      have hrec := ih sv1 hnd1.2
        (fun k hk => by
          rw [hsame.2.2.2 k (fun e => hnd1.1 (e ▸ hk))]
          exact hover k (List.mem_cons_of_mem _ hk))
        (by rw [hsame.1]; exact hdemo)
        (fun hmem => absurd hmem hnd1.1)
      rw [hrec.1, hrec.2.1, hrec.2.2, hev, hstate, hchan, hact]
      exact ⟨rfl, rfl, rfl⟩
    · obtain ⟨hsame, hev⟩ := Sv_SendClientPackets_client_other E sv i j hji
        (hover j (List.mem_cons_self _ _)) hdemo
      unfold Sv_SendClientPackets_loop
      generalize Sv_SendClientPackets_client E j sv = r at hsame hev
      obtain ⟨sv1, f⟩ := r
      dsimp only at hsame hev
      have hci : client_at sv1 i = client_at sv i := hsame.2.2.2 i (Ne.symm hji)
      cases f with
      | some f =>
        dsimp only
        rw [hev, hci]
        exact ⟨rfl, rfl, rfl⟩
      | none =>
        dsimp only
        have hrec := ih sv1 hnd1.2
          (fun k hk => by
            rw [hsame.2.2.2 k (fun e => hnd1.1 (e ▸ hk))]
            exact hover k (List.mem_cons_of_mem _ hk))
          (by rw [hsame.1]; exact hdemo)
          (fun hmem => by
            obtain ⟨hlen, hact, hrate⟩ := hi (List.mem_cons_of_mem _ hmem)
            refine ⟨by rw [hsame.2.2.1]; exact hlen, by rw [hci]; exact hact, ?_⟩
            unfold rate_trips at hrate ⊢
            rw [hci, hsame.2.1]
            exact hrate)
        rw [hrec.1, hrec.2.1, hrec.2.2, hev, hci]
        exact ⟨rfl, rfl, rfl⟩
/-! ## The rate check -/

theorem rate_total_succ (n : Nat) (cl : sv_client_t) :
    rate_total (n + 1) cl = u32 (rate_total n cl + cl.message_size.getD n 0) := by
  unfold rate_total
  rw [List.range_succ, List.foldl_append]
  rfl

theorem message_sum_succ (n : Nat) (cl : sv_client_t) :
    message_sum (n + 1) cl = message_sum n cl + cl.message_size.getD n 0 := by
  unfold message_sum
  rw [List.range_succ, List.map_append, List.sum_append]
  simp

theorem rate_total_eq_sum (cl : sv_client_t) :
    ∀ n, message_sum n cl < 2 ^ 32 → rate_total n cl = message_sum n cl := by
  intro n
  induction n with
  | zero => intro _; rfl
  | succ n ih =>
    intro h
    rw [message_sum_succ] at h
    rw [rate_total_succ, message_sum_succ, ih (by omega)]
    unfold u32
    exact Nat.mod_eq_of_lt h

/-- The result and the effect of `Sv_RateDrop` in the arithmetic of the code. -/
theorem Sv_RateDrop_cases (E : sv_env_t) (sv : sv_t) (cl : sv_client_t) :
    ((Sv_RateDrop E sv cl).2 = true ↔
      cl.net_chan.remote_address_type ≠ E.NA_LOOP ∧ rate_total sv.sv_hz cl > cl.rate) ∧
    ((Sv_RateDrop E sv cl).2 = true →
      (Sv_RateDrop E sv cl).1 =
        { cl with
          surpress_count := u32 (cl.surpress_count + 1)
          message_size := cl.message_size.set (sv.frame_num % sv.sv_hz) 0 }) ∧
    ((Sv_RateDrop E sv cl).2 = false → (Sv_RateDrop E sv cl).1 = cl) := by
  unfold Sv_RateDrop
  split_ifs with h1 h2
  · simp [h1]
  · simp [h1, h2]
  · simp [h1, h2]
/-! ## The interpolation pair after `Cl_ReadDeltaEntity` -/

theorem Cl_ValidDeltaEntity_false (a b : entity_state_t) :
    Cl_ValidDeltaEntity a b = false ↔
      a.model1 ≠ b.model1 ∨ VectorLength_gt (VectorSubtract a.origin b.origin) 256 = true := by
  unfold Cl_ValidDeltaEntity
  dsimp only
  split_ifs with h1 h2
  · simp [h1]
  · simp [h2]
  · simp [h1, h2]

theorem base_at_check_eq (L : limits_t) (dec : entity_decoder) (cl : cl_client_t)
    (frm : state_ref) (number bits : Nat) (fields : List Nat) :
    frm.get
      { cl with
        entity_state := u32 (cl.entity_state + 1)
        frame := { cl.frame with num_entities := u16 (cl.frame.num_entities + 1) }
        entity_states := Function.update cl.entity_states (cl.entity_state &&& L.ENTITY_STATE_MASK)
          (dec (frm.get cl) number bits fields) }
      = base_at_check L dec cl frm number bits fields := by
  cases frm <;> rfl

/-- The entity record that `Cl_ReadDeltaEntity` leaves for the entity it read. -/
theorem Cl_ReadDeltaEntity_entity (L : limits_t) (dec : entity_decoder) (cl : cl_client_t)
    (frm : state_ref) (number bits : Nat) (fields : List Nat) :
    (delta_suppressed L dec cl frm number bits fields →
      (Cl_ReadDeltaEntity L dec cl frm number bits fields).entities number
        = { (cl.entities number) with
            prev := { (decoded_state dec cl frm number bits fields) with
              origin := (decoded_state dec cl frm number bits fields).old_origin }
            animation1_time := 0
            animation2_time := 0
            lighting_state := r_lighting_state_t.LIGHTING_INIT
            frame_num := cl.frame.frame_num
            current := decoded_state dec cl frm number bits fields }) ∧
    (¬ delta_suppressed L dec cl frm number bits fields →
      (Cl_ReadDeltaEntity L dec cl frm number bits fields).entities number
        = { (cl.entities number) with
            prev := (cl.entities number).current
            frame_num := cl.frame.frame_num
            current := decoded_state dec cl frm number bits fields }) := by
  unfold Cl_ReadDeltaEntity
  simp only [Function.update_same]
  rw [base_at_check_eq]
  unfold delta_suppressed
  rw [← Cl_ValidDeltaEntity_false]
  unfold decoded_state
  constructor
  · intro h
    rw [if_pos h]
  · intro h
    rw [if_neg h]

/-! ## The interpolation fraction -/

theorem u32_sub_of_le (a b : Nat) (ha : a < 2 ^ 32) (hb : b ≤ a) : u32_sub a b = a - b := by
  unfold u32_sub
  rw [Nat.mod_eq_of_lt ha, Nat.mod_eq_of_lt (lt_of_le_of_lt hb ha)]
  have h : a + 2 ^ 32 - b = (a - b) + 2 ^ 32 := by omega
  rw [h, Nat.add_mod_right]
  exact Nat.mod_eq_of_lt (by omega)

/-- The branches of `Cl_UpdateLerp` for times that fit in 32 bits. -/
theorem Cl_UpdateLerp_cases (time_demo : Bool) (cl : cl_client_t) (frm : cl_frame_t)
    (h1 : cl.time < 2 ^ 32) (h3 : cl.frame.time < 2 ^ 32) :
    (time_demo = true →
      Cl_UpdateLerp time_demo cl frm = { cl with time := cl.frame.time, lerp := 1 }) ∧
    (time_demo = false → cl.time > cl.frame.time →
      Cl_UpdateLerp time_demo cl frm = { cl with time := cl.frame.time, lerp := 1 }) ∧
    (time_demo = false → cl.time ≤ cl.frame.time → cl.time < frm.time →
      Cl_UpdateLerp time_demo cl frm = { cl with time := frm.time, lerp := 0 }) ∧
    (time_demo = false → frm.time ≤ cl.time → cl.time ≤ cl.frame.time →
      cl.frame.time = frm.time →
      Cl_UpdateLerp time_demo cl frm = { cl with time := cl.frame.time, lerp := 1 }) ∧
    (time_demo = false → frm.time ≤ cl.time → cl.time ≤ cl.frame.time →
      cl.frame.time ≠ frm.time →
      Cl_UpdateLerp time_demo cl frm
        = { cl with lerp := ((cl.time - frm.time : Nat) : ℚ) / ((cl.frame.time - frm.time : Nat) : ℚ) }) := by
  refine ⟨?_, ?_, ?_, ?_, ?_⟩
  · intro hd
    unfold Cl_UpdateLerp
    rw [if_pos hd]
  · intro hd hgt
    unfold Cl_UpdateLerp
    rw [if_neg (by rw [hd]; exact Bool.false_ne_true), if_pos hgt]
  · intro hd hle hlt
    unfold Cl_UpdateLerp
    rw [if_neg (by rw [hd]; exact Bool.false_ne_true), if_neg (not_lt.mpr hle), if_pos hlt]
  · intro hd hle1 hle2 heq
    unfold Cl_UpdateLerp
    rw [if_neg (by rw [hd]; exact Bool.false_ne_true), if_neg (not_lt.mpr hle2),
      if_neg (not_lt.mpr hle1)]
    dsimp only
    rw [u32_sub_of_le _ _ h3 (le_trans hle1 hle2), if_pos (by omega)]
  · intro hd hle1 hle2 hne
    unfold Cl_UpdateLerp
    rw [if_neg (by rw [hd]; exact Bool.false_ne_true), if_neg (not_lt.mpr hle2),
      if_neg (not_lt.mpr hle1)]
    dsimp only
    rw [u32_sub_of_le _ _ h3 (le_trans hle1 hle2), u32_sub_of_le _ _ h1 hle1,
      if_neg (by omega)]
/-! ## Claims on the frame parser -/

theorem pairwise_key_unique {α : Type} (f : α → Nat) (l : List α)
    (h : l.Pairwise (fun a b => f a < f b)) (a b : α) (ha : a ∈ l) (hb : b ∈ l)
    (hab : f a = f b) : a = b := by
  induction l with
  | nil => simp at ha
  | cons x xs ih =>
    rw [List.pairwise_cons] at h
    rcases List.mem_cons.mp ha with h1 | h1 <;> rcases List.mem_cons.mp hb with h2 | h2
    · rw [h1, h2]
    · have := h.1 b h2
      rw [h1] at hab
      omega
    · have := h.1 a h1
      rw [h2] at hab
      omega
    · exact ih h.2 h1 h2

theorem mem_removed_numbers (L : limits_t) (es : List entry_t) (x : Nat) :
    x ∈ removed_numbers L es ↔ ∃ e, e ∈ es ∧ e.bits &&& L.U_REMOVE ≠ 0 ∧ e.number = x := by
  unfold removed_numbers
  simp only [List.mem_map, List.mem_filter, decide_eq_true_eq]
  constructor
  · rintro ⟨e, ⟨he, hr⟩, hx⟩; exact ⟨e, he, hr, hx⟩
  · rintro ⟨e, he, hr, hx⟩; exact ⟨e, ⟨he, hr⟩, hx⟩

/-- C1 (amended).  For a well-formed call (`merge_pre`: reference frame and entries
strictly ascending and below `MAX_ENTITIES`, every entry with `U_REMOVE` naming an
entity of the reference frame, room in the log), `Cl_ParseEntities` returns, and the
entity numbers of the new frame are exactly the numbers of the reference frame or of
the entries that no entry removes, without duplicates and ascending; the frame starts
at the old log cursor, the cursor advances by `num_entities`, and `num_entities` is the
length of the list. -/
theorem Cl_ParseEntities_merge_complete (L : limits_t) (kk : Nat) (dec : entity_decoder)
    (cl : cl_client_t) (delta_frame : Option Nat) (d : Nat) (es : List entry_t)
    (term : entry_t) (rest : List entry_t)
    (hpre : merge_pre L kk dec cl delta_frame d es) (hterm : term.number = 0) :
    ∃ cl2, Cl_ParseEntities L dec delta_frame cl (es ++ term :: rest) = Except.ok (cl2, rest) ∧
      (∀ x, x ∈ frame_numbers L cl2 cl2.frame ↔
        (x ∈ reference_numbers L cl delta_frame ∨ x ∈ entry_numbers es) ∧
          x ∉ removed_numbers L es) ∧
      (frame_numbers L cl2 cl2.frame).Nodup ∧
      (frame_numbers L cl2 cl2.frame).Pairwise (· < ·) ∧
      cl2.frame.entity_state = cl.entity_state ∧
      cl2.entity_state = u32 (cl.entity_state + cl2.frame.num_entities) ∧
      cl2.frame.num_entities = (frame_numbers L cl2 cl2.frame).length := by
  obtain ⟨cl2, hrun, -, hstart, hcursor, hcount, hmem, hpw⟩ :=
    Cl_ParseEntities_spec L kk dec cl delta_frame d es term rest hpre hterm
  have hnum := hpre.dec_number
  have hess : es.Pairwise (fun a b => a.number < b.number) := by
    have := hpre.es_sorted
    unfold entry_numbers at this
    rwa [List.pairwise_map] at this
  have hpwn : (frame_numbers L cl2 cl2.frame).Pairwise (· < ·) := by
    unfold frame_numbers
    rw [List.pairwise_map]
    exact hpw
  refine ⟨cl2, hrun, ?_, ?_, hpwn, hstart, ?_, ?_⟩
  · intro x
    unfold frame_numbers
    rw [List.mem_map, mem_removed_numbers]
    constructor
    · rintro ⟨s, hs, hsx⟩
      rcases (hmem s).mp hs with ⟨o, ho, hne, hso⟩ | ⟨e, he, hr, hse⟩
      · have hxo : x = o.number := by rw [← hsx, hso, copy_state, hnum]
        refine ⟨Or.inl ?_, ?_⟩
        · rw [hxo]; exact List.mem_map_of_mem _ ho
        · rintro ⟨e, he, -, hex⟩
          exact hne e he (by rw [hex, hxo])
      · have hxe : x = e.number := by rw [← hsx, hse, hnum]
        refine ⟨Or.inr ?_, ?_⟩
        · rw [hxe]; exact List.mem_map_of_mem _ he
        · rintro ⟨e1, he1, hr1, hex1⟩
          have := pairwise_key_unique entry_t.number es hess e1 e he1 he (by rw [hex1, hxe])
          rw [this] at hr1
          exact hr1 hr
    · rintro ⟨hx, hnr⟩
      by_cases hN : x ∈ entry_numbers es
      · obtain ⟨e, he, hex⟩ := List.mem_map.mp hN
        have hr : e.bits &&& L.U_REMOVE = 0 := by
          by_contra hne
          exact hnr ⟨e, he, hne, hex⟩
        refine ⟨_, (hmem _).mpr (Or.inr ⟨e, he, hr, rfl⟩), ?_⟩
        rw [hnum, hex]
      · rcases hx with hx | hx
        · obtain ⟨o, ho, hox⟩ := List.mem_map.mp hx
          refine ⟨_, (hmem _).mpr (Or.inl ⟨o, ho, ?_, rfl⟩), ?_⟩
          · intro e he hex
            apply hN
            rw [← hox, ← hex]
            exact List.mem_map_of_mem _ he
          · rw [copy_state, hnum, hox]
        · exact absurd hx hN
  · exact hpwn.imp (fun h => Nat.ne_of_lt h)
  · rw [hcursor, hstart]
  · rw [hcount]; unfold frame_numbers; simp

theorem sample_decoder_number (frm : entity_state_t) (n b : Nat) (p : List Nat) :
    (sample_decoder frm n b p).number = n := by
  unfold sample_decoder
  split <;> rfl

theorem sample_merge_pre :
    merge_pre sample_limits 10 sample_decoder sample_client (some 8) 2 sample_entries where
  backup_pow := by decide
  backup_le := by decide
  max_pos := by decide
  max_le := by decide
  dec_number := sample_decoder_number
  cursor_wf := by decide
  cursor_eq := by
    intro slot h
    cases h
    decide
  capacity := by decide
  count16 := by decide
  olds_sorted := by decide
  olds_range := by decide
  es_sorted := by decide
  es_range := by decide
  removes_old := by decide

/-- Witness of C1 (amended): the sample client, whose reference frame holds 5 and 7,
receives the entries 3, 5 (removed) and 9. -/
theorem Cl_ParseEntities_merge_complete_witness :
    ∃ cl2, Cl_ParseEntities sample_limits sample_decoder (some 8) sample_client
        (sample_entries ++ end_entry :: []) = Except.ok (cl2, []) ∧
      (∀ x, x ∈ frame_numbers sample_limits cl2 cl2.frame ↔
        (x ∈ reference_numbers sample_limits sample_client (some 8) ∨
          x ∈ entry_numbers sample_entries) ∧ x ∉ removed_numbers sample_limits sample_entries) ∧
      (frame_numbers sample_limits cl2 cl2.frame).Nodup ∧
      (frame_numbers sample_limits cl2 cl2.frame).Pairwise (· < ·) ∧
      cl2.frame.entity_state = sample_client.entity_state ∧
      cl2.entity_state = u32 (sample_client.entity_state + cl2.frame.num_entities) ∧
      cl2.frame.num_entities = (frame_numbers sample_limits cl2 cl2.frame).length :=
  Cl_ParseEntities_merge_complete sample_limits 10 sample_decoder sample_client (some 8) 2
    sample_entries end_entry [] sample_merge_pre rfl

/-- Counterexample to C1 as stated: the reference frame holds the entities 5 and 7
(strictly ascending), the stream holds the single entry 3 with `U_REMOVE` (strictly
ascending, non-zero).  Entity 5 is in the reference frame and is not removed, yet the
new frame holds entity 7 only. -/
theorem Cl_ParseEntities_merge_complete_counterexample :
    reference_numbers sample_limits sample_client (some 8) = [5, 7] ∧
    entry_numbers [⟨3, 2048, []⟩] = [3] ∧
    removed_numbers sample_limits [⟨3, 2048, []⟩] = [3] ∧
    parsed_numbers sample_limits
      (Cl_ParseEntities sample_limits sample_decoder (some 8) sample_client
        [⟨3, 2048, []⟩, end_entry]) = some [7] := by
  decide

theorem Cl_ParseFrame_header_cases (L : limits_t) (cl : cl_client_t) (msg : frame_msg_t)
    (hd : 0 < msg.delta_frame_num) :
    (delta_rejected L cl msg.delta_frame_num ∧
      ∃ e, e.is_delta = true ∧ Cl_ParseFrame_header L cl msg = Except.error e) ∨
    (¬ delta_rejected L cl msg.delta_frame_num ∧
      ∃ cl1, Cl_ParseFrame_header L cl msg
        = Except.ok (cl1, some (delta_slot L msg.delta_frame_num))) := by
  have hnle : ¬ msg.delta_frame_num ≤ 0 := by omega
  unfold Cl_ParseFrame_header delta_rejected delta_slot
  simp only [hnle, if_false]
  by_cases h1 : (cl.frames (msg.delta_frame_num.toNat &&& L.PACKET_MASK)).valid = false
  · left
    refine ⟨Or.inl h1, fault.delta_from_invalid_frame, rfl, ?_⟩
    rw [if_pos h1]
  · by_cases h2 : ((cl.frames (msg.delta_frame_num.toNat &&& L.PACKET_MASK)).frame_num : Int)
        ≠ msg.delta_frame_num
    · left
      refine ⟨Or.inr (Or.inl h2), fault.delta_frame_too_old, rfl, ?_⟩
      rw [if_neg h1, if_pos h2]
    · by_cases h3 : u32 (cl.entity_state + (4294967296
          - (cl.frames (msg.delta_frame_num.toNat &&& L.PACKET_MASK)).entity_state))
          > L.ENTITY_STATE_BACKUP - L.PACKET_BACKUP
      · left
        refine ⟨Or.inr (Or.inr h3), fault.delta_parse_entities_too_old, rfl, ?_⟩
        rw [if_neg h1, if_neg h2, if_pos h3]
      · right
        constructor
        · rintro (h | h | h)
          · exact h1 h
          · exact h2 h
          · exact h3 h
        · rw [if_neg h1, if_neg h2, if_neg h3]
          exact ⟨_, rfl⟩

/-- C2.  For a frame message that declares a delta sequence `d > 0`: the header stage of
`Cl_ParseFrame`, which reads the frame numbers and the suppress count only, fails if
and only if the slot `cl.frames[d & PACKET_MASK]` is not valid, or holds a frame number
other than `d`, or starts more than `ENTITY_STATE_BACKUP - PACKET_BACKUP` log entries
behind the cursor; its fault is the fault of `Cl_ParseFrame` whatever the area bits,
the player state bytes and the entity entries of the message are; `Cl_ParseFrame`
raises a fault of the reference frame check only in that case; and a header stage that
succeeds hands on the slot of a valid frame with frame number `d`. -/
theorem Cl_ParseFrame_delta_check (L : limits_t) (dec : entity_decoder)
    (decPS : player_decoder) (check : cl_client_t → cl_predicted_state_t) (cl : cl_client_t)
    (msg : frame_msg_t) (hd : 0 < msg.delta_frame_num) :
    ((∃ e, Cl_ParseFrame_header L cl msg = Except.error e)
      ↔ delta_rejected L cl msg.delta_frame_num) ∧
    (∀ e, Cl_ParseFrame_header L cl msg = Except.error e →
      ∀ (ab ps : List Nat) (ents : List entry_t),
        Cl_ParseFrame L dec decPS check cl
          { msg with area_bits := ab, ps_fields := ps, entities := ents } = Except.error e) ∧
    ((∃ e, e.is_delta = true ∧ Cl_ParseFrame L dec decPS check cl msg = Except.error e)
      ↔ delta_rejected L cl msg.delta_frame_num) ∧
    (∀ cl1 r, Cl_ParseFrame_header L cl msg = Except.ok (cl1, r) →
      r = some (delta_slot L msg.delta_frame_num) ∧
      (cl.frames (delta_slot L msg.delta_frame_num)).valid = true ∧
      ((cl.frames (delta_slot L msg.delta_frame_num)).frame_num : Int) = msg.delta_frame_num) := by
  have hfull : ∀ e, Cl_ParseFrame_header L cl msg = Except.error e →
      ∀ (ab ps : List Nat) (ents : List entry_t),
        Cl_ParseFrame L dec decPS check cl
          { msg with area_bits := ab, ps_fields := ps, entities := ents } = Except.error e := by
    intro e he ab ps ents
    have hsame : Cl_ParseFrame_header L cl
        { msg with area_bits := ab, ps_fields := ps, entities := ents }
        = Cl_ParseFrame_header L cl msg := rfl
    unfold Cl_ParseFrame
    rw [hsame, he]
  rcases Cl_ParseFrame_header_cases L cl msg hd with ⟨hrej, e, hdelta, he⟩ | ⟨hacc, cl1, hok⟩
  · refine ⟨⟨fun _ => hrej, fun _ => ⟨e, he⟩⟩, hfull, ⟨fun _ => hrej, fun _ => ⟨e, hdelta, ?_⟩⟩, ?_⟩
    · exact hfull e he msg.area_bits msg.ps_fields msg.entities
    · intro cl1 r hok
      rw [he] at hok
      cases hok
  · refine ⟨⟨?_, fun h => absurd h hacc⟩, hfull, ⟨?_, fun h => absurd h hacc⟩, ?_⟩
    · rintro ⟨e, he⟩
      rw [hok] at he
      cases he
    · rintro ⟨e, hdelta, he⟩
      exfalso
      unfold Cl_ParseFrame at he
      rw [hok] at he
      dsimp only at he
      split at he
      · rename_i e1 h1
        cases he
        have := Cl_ParseEntities_fault L dec _ _ _ e h1
        rw [this] at hdelta
        cases hdelta
      · split at he <;> cases he
    · intro cl2 r hok2
      rw [hok] at hok2
      cases hok2
      refine ⟨rfl, ?_, ?_⟩
      · by_contra hv
        exact hacc (Or.inl (by simpa using hv))
      · by_contra hv
        exact hacc (Or.inr (Or.inl hv))

/-- Witness of C2: frame 50 declares frame 40 as its reference, and slot 8 of a ring of
32 frames holds frame 8: the frame is rejected. -/
theorem Cl_ParseFrame_delta_check_witness :
    fault_of (Cl_ParseFrame sample_limits sample_decoder (fun ps _ => ps)
      (fun c => c.predicted_state) sample_client_stale sample_msg)
      = some fault.delta_frame_too_old ∧
    ((∃ e, e.is_delta = true ∧
        Cl_ParseFrame sample_limits sample_decoder (fun ps _ => ps)
          (fun c => c.predicted_state) sample_client_stale sample_msg = Except.error e)
      ↔ delta_rejected sample_limits sample_client_stale sample_msg.delta_frame_num) :=
  ⟨by decide,
    (Cl_ParseFrame_delta_check sample_limits sample_decoder (fun ps _ => ps)
      (fun c => c.predicted_state) sample_client_stale sample_msg (by decide)).2.2.1⟩

/-! ## The step-up stage of `Pm_StepSlideMove` -/

theorem kept_step_cases (K : pm_const_t) (M : pm_math_t) (W : pm_world_t) (c : pm_ctx)
    (hstep : (stepped K W c).2 = true) :
    (xy_displacement M c.pml.origin (unstepped K W c).pml.origin
        > xy_displacement M c.pml.origin (stepped K W c).1.pml.origin →
      kept_step K M W c =
        { (stepped K W c).1 with
          pml.origin := (unstepped K W c).pml.origin
          pml.velocity := (unstepped K W c).pml.velocity
          pm.s.flags := flags_clear (stepped K W c).1.pm.s.flags PMF_ON_STAIRS
          pm.step := 0 }) ∧
    (¬ xy_displacement M c.pml.origin (unstepped K W c).pml.origin
        > xy_displacement M c.pml.origin (stepped K W c).1.pml.origin →
      kept_step K M W c = (stepped K W c).1) := by
  unfold kept_step Pm_StepSlideMove_up
  unfold stepped at hstep
  unfold xy_displacement stepped
  dsimp only
  rw [if_pos hstep]
  constructor
  · intro h
    rw [if_pos h]
  · intro h
    rw [if_neg h]

theorem Pm_StepSlideMove_blocked (K : pm_const_t) (M : pm_math_t) (W : pm_world_t) (c : pm_ctx)
    (hblocked : (Pm_SlideMove K W c).2 = false)
    (hladder : has_flag (unstepped K W c).pm.s.flags PMF_ON_LADDER = false) :
    Pm_StepSlideMove K M W c = Pm_StepSlideMove_down K W (kept_step K M W c) := by
  unfold Pm_StepSlideMove kept_step
  unfold unstepped at hladder
  dsimp only
  rw [if_pos ⟨hblocked, hladder⟩]
  rfl
/-! ## The touched-entity list during a move -/

theorem touch_kept_refl (K : pm_const_t) (c : pm_ctx) : touch_kept K c c := fun h => h

theorem touch_kept_trans {K : pm_const_t} {a b c : pm_ctx} (h1 : touch_kept K a b)
    (h2 : touch_kept K b c) : touch_kept K a c := fun h => h2 (h1 h)

theorem touch_kept_same (K : pm_const_t) {c c1 : pm_ctx}
    (h : c1.pm.touch_ents = c.pm.touch_ents) : touch_kept K c c1 := by
  intro hok
  unfold touch_ok at hok ⊢
  rw [h]
  exact hok

theorem Pm_TouchEnt_list (K : pm_const_t) (c : pm_ctx) (ent : Option Nat) :
    (∀ e, ent = some e → e ∉ c.pm.touch_ents →
      c.pm.touch_ents.length ≠ K.PM_MAX_TOUCH_ENTS →
      Pm_TouchEnt K c ent = { c with pm.touch_ents := c.pm.touch_ents ++ [e] }) ∧
    (ent = none ∨ (∃ e, ent = some e ∧ e ∈ c.pm.touch_ents)
        ∨ c.pm.touch_ents.length = K.PM_MAX_TOUCH_ENTS →
      Pm_TouchEnt K c ent = c) := by
  unfold Pm_TouchEnt
  constructor
  · intro e he hmem hlen
    subst he
    dsimp only
    rw [if_neg hlen, if_neg hmem]
  · intro h
    cases ent with
    | none => rfl
    | some e =>
      dsimp only
      split_ifs with h1 h2
      · rfl
      · rfl
      · rcases h with h | ⟨e1, he1, hm⟩ | h
        · cases h
        · cases he1
          exact absurd hm h2
        · exact absurd h h1

theorem Pm_TouchEnt_touch (K : pm_const_t) (c : pm_ctx) (ent : Option Nat) :
    touch_kept K c (Pm_TouchEnt K c ent) := by
  unfold Pm_TouchEnt
  split
  · exact touch_kept_refl K c
  · rename_i e
    split_ifs with h1 h2
    · exact touch_kept_refl K c
    · exact touch_kept_refl K c
    · intro hok
      unfold touch_ok at hok ⊢
      dsimp only
      constructor
      · rw [List.nodup_append]
        refine ⟨hok.1, List.nodup_singleton e, ?_⟩
        intro a ha hb
        rw [List.mem_singleton] at hb
        subst hb
        exact h2 ha
      · rw [List.length_append, List.length_singleton]
        exact Nat.lt_of_le_of_ne hok.2 h1

theorem Pm_SlideMove_loop_touch (K : pm_const_t) (W : pm_world_t) :
    ∀ (n : Nat) (c : pm_ctx) (t : vec_t) (np : Nat),
      touch_kept K c (Pm_SlideMove_loop K W n c t np).1 := by
  intro n
  induction n with
  | zero => intro c t np; exact touch_kept_refl K c
  | succ n ih =>
    intro c t np
    unfold Pm_SlideMove_loop
    have h1 := Pm_TouchEnt_touch K c
      (W.Trace c.pml.origin (VectorMA c.pml.origin t c.pml.velocity) c.pm.mins c.pm.maxs).ent
    split
    · exact touch_kept_refl K c
    · dsimp only
      split
      · exact touch_kept_trans h1 (touch_kept_same K (by rfl))
      · split
        · exact touch_kept_trans h1 (touch_kept_same K (by rfl))
        · refine touch_kept_trans (touch_kept_trans h1 ?_) (ih _ _ _)
          exact (touch_kept_same K (by rfl))

theorem Pm_SlideMove_touch (K : pm_const_t) (W : pm_world_t) (c : pm_ctx) :
    touch_kept K c (Pm_SlideMove K W c).1 := by
  unfold Pm_SlideMove
  have h := Pm_SlideMove_loop_touch K W MAX_CLIP_PLANES c c.pml.time 0
  dsimp only
  split
  · exact h
  · dsimp only
    split
    · exact touch_kept_trans h (touch_kept_same K (by rfl))
    · exact h

theorem Pm_StepMove_up_touch (K : pm_const_t) (W : pm_world_t) (c c1 : pm_ctx)
    (h : Pm_StepMove_up K W c = some c1) : touch_kept K c c1 := by
  unfold Pm_StepMove_up at h
  dsimp only at h
  split_ifs at h <;> cases h <;>
    exact touch_kept_trans (touch_kept_same K (by rfl)) (Pm_SlideMove_touch K W _)

theorem Pm_StepMove_settle_touch (K : pm_const_t) (W : pm_world_t) (org vel : vec3_t)
    (up : Bool) (c : pm_ctx) : touch_kept K c (Pm_StepMove_settle K W org vel up c).1 := by
  unfold Pm_StepMove_settle
  dsimp only
  split_ifs <;> exact (touch_kept_same K (by rfl))

theorem Pm_StepMove_touch (K : pm_const_t) (W : pm_world_t) (c : pm_ctx) (up : Bool) :
    touch_kept K c (Pm_StepMove K W c up).1 := by
  unfold Pm_StepMove
  split
  · split
    · exact touch_kept_refl K c
    · rename_i c1 h
      exact touch_kept_trans (Pm_StepMove_up_touch K W c c1 h) (Pm_StepMove_settle_touch K W _ _ _ c1)
  · exact Pm_StepMove_settle_touch K W _ _ _ c

theorem Pm_StepSlideMove_up_touch (K : pm_const_t) (M : pm_math_t) (W : pm_world_t)
    (org vel : vec3_t) (c : pm_ctx) : touch_kept K c (Pm_StepSlideMove_up K M W org vel c) := by
  unfold Pm_StepSlideMove_up
  dsimp only
  have h := touch_kept_trans (b := { c with pml.origin := org, pml.velocity := vel })
    (touch_kept_same K (by rfl)) (Pm_StepMove_touch K W _ true)
  split_ifs
  · exact touch_kept_trans h (touch_kept_same K (by rfl))
  · exact h
  · exact touch_kept_trans h (touch_kept_same K (by rfl))

theorem Pm_StepSlideMove_down_touch (K : pm_const_t) (W : pm_world_t) (c : pm_ctx) :
    touch_kept K c (Pm_StepSlideMove_down K W c) := by
  unfold Pm_StepSlideMove_down
  dsimp only
  have h := Pm_StepMove_touch K W c false
  split_ifs
  · exact touch_kept_trans h (touch_kept_same K (by rfl))
  · exact h
  · exact touch_kept_refl K c
  · exact touch_kept_refl K c

theorem Pm_StepSlideMove_touch (K : pm_const_t) (M : pm_math_t) (W : pm_world_t) (c : pm_ctx) :
    touch_kept K c (Pm_StepSlideMove K M W c) := by
  unfold Pm_StepSlideMove
  dsimp only
  have h := Pm_SlideMove_touch K W c
  split_ifs
  · exact touch_kept_trans (touch_kept_trans h (Pm_StepSlideMove_up_touch K M W _ _ _))
      (Pm_StepSlideMove_down_touch K W _)
  · exact touch_kept_trans h (Pm_StepSlideMove_down_touch K W _)

theorem Pm_Friction_touch (K : pm_const_t) (B : pm_bits_t) (M : pm_math_t) (c : pm_ctx) :
    touch_kept K c (Pm_Friction K B M c) := by
  unfold Pm_Friction
  dsimp only
  split_ifs <;> exact (touch_kept_same K (by rfl))

theorem Pm_Accelerate_touch (K : pm_const_t) (c : pm_ctx) (dir : vec3_t) (speed accel : vec_t) :
    touch_kept K c (Pm_Accelerate c dir speed accel) := by
  unfold Pm_Accelerate
  dsimp only
  split_ifs <;> exact (touch_kept_same K (by rfl))

theorem Pm_Gravity_touch (K : pm_const_t) (c : pm_ctx) : touch_kept K c (Pm_Gravity K c) := by
  unfold Pm_Gravity
  exact (touch_kept_same K (by rfl))

theorem Pm_Landing_touch (K : pm_const_t) (B : pm_bits_t) (c : pm_ctx) (t : Bool) :
    touch_kept K c (Pm_Landing K B c t) := by
  unfold Pm_Landing
  dsimp only
  split_ifs <;> exact (touch_kept_same K (by rfl))

theorem Pm_WaterLevel_touch (K : pm_const_t) (B : pm_bits_t) (W : pm_world_t) (c : pm_ctx) :
    touch_kept K c (Pm_WaterLevel K B W c) := by
  unfold Pm_WaterLevel
  dsimp only
  split_ifs <;> exact (touch_kept_same K (by rfl))

theorem Pm_Ground_touch (K : pm_const_t) (B : pm_bits_t) (c : pm_ctx) (trace : cm_trace_t)
    (t : Bool) : touch_kept K c (Pm_Ground K B c trace t) := by
  unfold Pm_Ground
  dsimp only
  have hL := Pm_Landing_touch K B
    { c with
      pml.ground_plane := trace.plane
      pml.ground_surface := trace.surface
      pml.ground_contents := trace.contents } t
  have hL1 : touch_kept K c (Pm_Landing K B
    { c with
      pml.ground_plane := trace.plane
      pml.ground_surface := trace.surface
      pml.ground_contents := trace.contents } t) := touch_kept_trans (touch_kept_same K (by rfl)) hL
  split_ifs <;>
    first
    | exact (touch_kept_same K (by rfl))
    | exact touch_kept_trans hL1 (touch_kept_same K (by rfl))

theorem Pm_CategorizePosition_touch (K : pm_const_t) (B : pm_bits_t) (W : pm_world_t)
    (c : pm_ctx) : touch_kept K c (Pm_CategorizePosition K B W c) := by
  unfold Pm_CategorizePosition
  dsimp only
  refine touch_kept_trans ?_ (Pm_WaterLevel_touch K B W _)
  exact touch_kept_trans (Pm_Ground_touch K B c _ _) (Pm_TouchEnt_touch K _ _)

theorem Pm_CheckDuck_flag_touch (K : pm_const_t) (W : pm_world_t) (c : pm_ctx) :
    touch_kept K c (Pm_CheckDuck_flag W c) := by
  unfold Pm_CheckDuck_flag
  dsimp only
  split_ifs <;> exact (touch_kept_same K (by rfl))

theorem Pm_CheckDuck_view_touch (K : pm_const_t) (height : vec_t) (c : pm_ctx) :
    touch_kept K c (Pm_CheckDuck_view K height c) := by
  unfold Pm_CheckDuck_view
  split <;> exact (touch_kept_same K (by rfl))

theorem Pm_CheckDuck_touch (K : pm_const_t) (W : pm_world_t) (c : pm_ctx) :
    touch_kept K c (Pm_CheckDuck K W c) :=
  touch_kept_trans (Pm_CheckDuck_flag_touch K W c) (Pm_CheckDuck_view_touch K _ _)

theorem Pm_Jump_touch (K : pm_const_t) (c : pm_ctx) : touch_kept K c (Pm_Jump K c) := by
  unfold Pm_Jump
  exact (touch_kept_same K (by rfl))

theorem Pm_CheckJump_touch (K : pm_const_t) (c : pm_ctx) : touch_kept K c (Pm_CheckJump K c).1 := by
  unfold Pm_CheckJump
  split_ifs <;> exact touch_kept_refl K c

theorem Pm_CheckPush_touch (K : pm_const_t) (c : pm_ctx) : touch_kept K c (Pm_CheckPush c).1 := by
  unfold Pm_CheckPush
  split_ifs <;> exact (touch_kept_same K (by rfl))

theorem Pm_CheckLadder_touch (K : pm_const_t) (B : pm_bits_t) (M : pm_math_t) (W : pm_world_t) (c : pm_ctx) :
    touch_kept K c (Pm_CheckLadder B M W c).1 := by
  unfold Pm_CheckLadder
  dsimp only
  split_ifs <;> exact (touch_kept_same K (by rfl))

theorem Pm_CheckWaterJump_touch (K : pm_const_t) (B : pm_bits_t) (W : pm_world_t) (c : pm_ctx) :
    touch_kept K c (Pm_CheckWaterJump K B W c).1 := by
  unfold Pm_CheckWaterJump
  dsimp only
  split_ifs <;> exact (touch_kept_same K (by rfl))

theorem Pm_LadderMove_touch (K : pm_const_t) (B : pm_bits_t) (M : pm_math_t) (W : pm_world_t)
    (c : pm_ctx) : touch_kept K c (Pm_LadderMove K B M W c) := by
  unfold Pm_LadderMove
  dsimp only
  refine touch_kept_trans ?_ (Pm_StepSlideMove_touch K M W _)
  refine touch_kept_trans ?_ (Pm_Accelerate_touch K _ _ _ _)
  refine touch_kept_trans (Pm_Friction_touch K B M c) ?_
  split_ifs <;> exact (touch_kept_same K (by rfl))

theorem Pm_WaterJumpMove_touch (K : pm_const_t) (B : pm_bits_t) (M : pm_math_t)
    (W : pm_world_t) (c : pm_ctx) : touch_kept K c (Pm_WaterJumpMove K B M W c) := by
  unfold Pm_WaterJumpMove
  dsimp only
  refine touch_kept_trans ?_ (Pm_StepSlideMove_touch K M W _)
  have h := touch_kept_trans (Pm_Friction_touch K B M c) (Pm_Gravity_touch K _)
  split_ifs <;> exact touch_kept_trans h (touch_kept_same K (by rfl))

theorem Pm_WaterMove_touch (K : pm_const_t) (B : pm_bits_t) (M : pm_math_t) (W : pm_world_t)
    (c : pm_ctx) : touch_kept K c (Pm_WaterMove K B M W c) := by
  unfold Pm_WaterMove
  dsimp only
  have h0 := Pm_CheckWaterJump_touch K B W c
  split
  · exact touch_kept_trans h0 (Pm_WaterJumpMove_touch K B M W _)
  · refine touch_kept_trans ?_ (Pm_StepSlideMove_touch K M W _)
    refine touch_kept_trans ?_ (Pm_Accelerate_touch K _ _ _ _)
    have h1 := touch_kept_trans h0 (Pm_Friction_touch K B M _)
    split_ifs <;>
      first
      | exact touch_kept_trans (touch_kept_trans (touch_kept_trans h1 (Pm_Friction_touch K B M _))
          (Pm_Gravity_touch K _)) (touch_kept_same K (by rfl))
      | exact touch_kept_trans (touch_kept_trans h1 (Pm_Friction_touch K B M _)) (touch_kept_same K (by rfl))
      | exact touch_kept_trans (touch_kept_trans h1 (Pm_Gravity_touch K _)) (touch_kept_same K (by rfl))

theorem Pm_AirMove_touch (K : pm_const_t) (B : pm_bits_t) (M : pm_math_t) (W : pm_world_t)
    (c : pm_ctx) : touch_kept K c (Pm_AirMove K B M W c) := by
  unfold Pm_AirMove
  dsimp only
  refine touch_kept_trans ?_ (Pm_StepSlideMove_touch K M W _)
  refine touch_kept_trans ?_ (Pm_Accelerate_touch K _ _ _ _)
  exact touch_kept_trans (touch_kept_trans (Pm_Friction_touch K B M c) (Pm_Gravity_touch K _))
    (touch_kept_same K (by rfl))

theorem Pm_WalkMove_touch (K : pm_const_t) (B : pm_bits_t) (M : pm_math_t) (W : pm_world_t)
    (c c1 : pm_ctx) (h : Pm_WalkMove K B M W c = some c1) : touch_kept K c c1 := by
  unfold Pm_WalkMove at h
  dsimp only at h
  have hj := Pm_CheckJump_touch K c
  have hp : touch_kept K c (if (Pm_CheckJump K c).2 = true then ((Pm_CheckJump K c).1, true)
      else Pm_CheckPush (Pm_CheckJump K c).1).1 := by
    split_ifs
    · exact hj
    · exact touch_kept_trans hj (Pm_CheckPush_touch K _)
  generalize (if (Pm_CheckJump K c).2 = true then ((Pm_CheckJump K c).1, true)
      else Pm_CheckPush (Pm_CheckJump K c).1) = pushed at h hp
  split at h
  · split at h
    · cases h
      exact touch_kept_trans hp (Pm_WaterMove_touch K B M W _)
    · cases h
      exact touch_kept_trans hp (Pm_AirMove_touch K B M W _)
  · split at h
    · cases h
    · cases h
      refine touch_kept_trans ?_ (Pm_StepSlideMove_touch K M W _)
      refine touch_kept_trans ?_ (touch_kept_same K (by rfl))
      refine touch_kept_trans ?_ (Pm_Accelerate_touch K _ _ _ _)
      refine touch_kept_trans ?_ (touch_kept_same K (by rfl))
      refine touch_kept_trans ?_ (Pm_Friction_touch K B M _)
      exact touch_kept_trans hp (touch_kept_same K (by rfl))

theorem Pm_ClampAngles_touch (K : pm_const_t) (M : pm_math_t) (c : pm_ctx) : touch_kept K c (Pm_ClampAngles M c) := by
  unfold Pm_ClampAngles
  exact (touch_kept_same K (by rfl))

theorem Pm_Dispatch_touch (K : pm_const_t) (B : pm_bits_t) (M : pm_math_t) (W : pm_world_t)
    (c c1 : pm_ctx) (h : Pm_Dispatch K B M W c = some c1) : touch_kept K c c1 := by
  unfold Pm_Dispatch at h
  split_ifs at h
  · cases h; exact touch_kept_refl K c
  · cases h; exact Pm_WaterJumpMove_touch K B M W c
  · cases h; exact Pm_LadderMove_touch K B M W c
  · exact Pm_WalkMove_touch K B M W c c1 h
  · cases h; exact Pm_WaterMove_touch K B M W c
  · cases h; exact Pm_AirMove_touch K B M W c

theorem Pm_SnapPosition_loop_touch (K : pm_const_t) (W : pm_world_t) :
    ∀ (bits : List Nat) (c : pm_ctx), touch_kept K c (Pm_SnapPosition_loop W bits c).1 := by
  intro bits
  induction bits with
  | nil => intro c; exact touch_kept_refl K c
  | cons b bits ih =>
    intro c
    unfold Pm_SnapPosition_loop
    dsimp only
    split_ifs
    · exact (touch_kept_same K (by rfl))
    · exact touch_kept_trans (touch_kept_same K (by rfl)) (ih _)
/-! ## The structure of `Pm_Move` -/

theorem Pm_Move_start_type (K : pm_const_t) (W : pm_world_t) (pm : pm_move_t) :
    (Pm_Move_start K W pm).pm.s.type = pm.s.type := by
  unfold Pm_Move_start Pm_SnapPosition
  rw [(Pm_SnapPosition_loop_kept W jitter_bits (Pm_InitLocal (Pm_Init K pm))).1]
  exact (Pm_Init_type K pm).1

/-- `Pm_Move` by the type of the player: the spectator flies, the frozen player
returns after the initial snap, and every other player goes through the stages up to
the final snap. -/
theorem Pm_Move_cases (K : pm_const_t) (B : pm_bits_t) (M : pm_math_t) (W : pm_world_t)
    (pm : pm_move_t) :
    (pm.s.type = pm_type_t.PM_SPECTATOR →
      Pm_Move K B M W pm
        = some (Pm_SnapPosition W (Pm_SpectatorMove K B M
            (Pm_ClampAngles M (Pm_Move_start K W pm)))).1) ∧
    (pm.s.type = pm_type_t.PM_FREEZE →
      Pm_Move K B M W pm
        = some { (Pm_Move_start K W pm) with
            pm.cmd.forward := 0, pm.cmd.right := 0, pm.cmd.up := 0 }) ∧
    (pm.s.type ≠ pm_type_t.PM_SPECTATOR → pm.s.type ≠ pm_type_t.PM_FREEZE →
      Pm_Move K B M W pm = (Pm_Move_unsnapped K B M W pm).map (Pm_Move_finish W)) := by
  have ht := Pm_Move_start_type K W pm
  unfold Pm_Move_start at ht
  refine ⟨fun hs => ?_, fun hf => ?_, fun hs hf => ?_⟩
  · unfold Pm_Move Pm_Move_start
    dsimp only
    rw [if_pos (by rw [ht]; exact hs)]
  · unfold Pm_Move Pm_Move_start
    dsimp only
    rw [if_neg (by rw [ht, hf]; decide), if_pos (Or.inr (by rw [ht]; exact hf)),
      if_pos (by rw [ht]; exact hf)]
  · unfold Pm_Move Pm_Move_unsnapped Pm_Move_finish
    dsimp only
    rw [if_neg (by rw [ht]; exact hs)]
    by_cases hd : (Pm_SnapPosition W (Pm_InitLocal (Pm_Init K pm))).1.pm.s.type
        = pm_type_t.PM_DEAD
    · have hor : (Pm_SnapPosition W (Pm_InitLocal (Pm_Init K pm))).1.pm.s.type
          = pm_type_t.PM_DEAD ∨ (Pm_SnapPosition W (Pm_InitLocal (Pm_Init K pm))).1.pm.s.type
          = pm_type_t.PM_FREEZE := Or.inl hd
      rw [if_pos hor, if_neg (by rw [hd]; decide), if_neg (by rw [hd]; decide)]
      split
      · rfl
      · rename_i c7 heq
        by_cases hg : has_flag (Pm_CategorizePosition K B W c7).pm.s.flags PMF_ON_GROUND = true
        · rw [if_pos hg, if_pos hg]
          simp only [Option.map]
          split_ifs <;> rfl
        · rw [if_neg hg, if_neg hg]
          simp only [Option.map]
          split_ifs <;> rfl
    · have hor : ¬ ((Pm_SnapPosition W (Pm_InitLocal (Pm_Init K pm))).1.pm.s.type
          = pm_type_t.PM_DEAD ∨ (Pm_SnapPosition W (Pm_InitLocal (Pm_Init K pm))).1.pm.s.type
          = pm_type_t.PM_FREEZE) := by
        rw [ht]
        rw [ht] at hd
        exact fun h => h.elim hd hf
      rw [if_neg hor, if_neg (by rw [ht]; exact hf), if_neg (by rw [ht]; exact hf)]
      split
      · rfl
      · rename_i c7 heq
        by_cases hg : has_flag (Pm_CategorizePosition K B W c7).pm.s.flags PMF_ON_GROUND = true
        · rw [if_pos hg, if_pos hg]
          simp only [Option.map]
          split_ifs <;> rfl
        · rw [if_neg hg, if_neg hg]
          simp only [Option.map]
          split_ifs <;> rfl

/-- A relation between contexts that every stage of `Pm_Move` between the initial and
the final snap respects holds between the contexts at these two points. -/
theorem Pm_Move_unsnapped_rel (K : pm_const_t) (B : pm_bits_t) (M : pm_math_t) (W : pm_world_t)
    (pm : pm_move_t) (R : pm_ctx → pm_ctx → Prop)
    (htrans : ∀ a b c, R a b → R b c → R a c)
    (hcmd : ∀ c : pm_ctx, R c { c with pm.cmd.forward := 0, pm.cmd.right := 0, pm.cmd.up := 0 })
    (hflags : ∀ (c : pm_ctx) (f : Nat), R c { c with pm.s.flags := f })
    (hcat : ∀ c, R c (Pm_CategorizePosition K B W c))
    (hclamp : ∀ c, R c (Pm_ClampAngles M c))
    (hduck : ∀ c, R c (Pm_CheckDuck K W c))
    (hladder : ∀ c, R c (Pm_CheckLadder B M W c).1)
    (hdisp : ∀ c c1, Pm_Dispatch K B M W c = some c1 → R c c1)
    (c9 : pm_ctx) (h : Pm_Move_unsnapped K B M W pm = some c9) :
    R (Pm_Move_start K W pm) c9 := by
  unfold Pm_Move_unsnapped at h
  unfold Pm_Move_start
  dsimp only at h
  generalize hc2 : (if (Pm_SnapPosition W (Pm_InitLocal (Pm_Init K pm))).1.pm.s.type
        = pm_type_t.PM_DEAD ∨ (Pm_SnapPosition W (Pm_InitLocal (Pm_Init K pm))).1.pm.s.type
        = pm_type_t.PM_FREEZE then _ else _ : pm_ctx) = c2 at h
  have h2 : c2 = (Pm_SnapPosition W (Pm_InitLocal (Pm_Init K pm))).1
      ∨ R (Pm_SnapPosition W (Pm_InitLocal (Pm_Init K pm))).1 c2 := by
    rw [← hc2]
    split_ifs
    · exact Or.inr (hcmd _)
    · exact Or.inl rfl
  have h6 : R c2 (Pm_CheckLadder B M W (Pm_CheckDuck K W (Pm_ClampAngles M
      (Pm_CategorizePosition K B W c2)))).1 :=
    htrans _ _ _ (htrans _ _ _ (htrans _ _ _ (hcat c2) (hclamp _)) (hduck _)) (hladder _)
  generalize (Pm_CheckLadder B M W (Pm_CheckDuck K W (Pm_ClampAngles M
      (Pm_CategorizePosition K B W c2)))).1 = c6 at h h6
  split_ifs at h
  cases h7 : Pm_Dispatch K B M W c6 with
  | none =>
    rw [h7] at h
    cases h
  | some c7 =>
    rw [h7] at h
    dsimp only at h
    have h27 : R c2 c7 := htrans _ _ _ h6 (hdisp c6 c7 h7)
    have h29 : R c2 c9 := by
      split_ifs at h
      · cases h
        exact htrans _ _ _ (htrans _ _ _ h27 (hcat c7)) (hflags _ _)
      · cases h
        exact htrans _ _ _ h27 (hcat c7)
    rcases h2 with h2 | h2
    · rw [← h2]
      exact h29
    · exact htrans _ _ _ h2 h29

theorem Pm_Move_unsnapped_kept (K : pm_const_t) (B : pm_bits_t) (M : pm_math_t)
    (W : pm_world_t) (pm : pm_move_t) (c9 : pm_ctx)
    (h : Pm_Move_unsnapped K B M W pm = some c9) : pm_kept (Pm_Move_start K W pm) c9 :=
  Pm_Move_unsnapped_rel K B M W pm pm_kept (fun _ _ _ h1 h2 => pm_kept_trans h1 h2)
    (fun _ => ⟨rfl, rfl, rfl, rfl, rfl⟩) (fun _ _ => ⟨rfl, rfl, rfl, rfl, rfl⟩)
    (Pm_CategorizePosition_kept K B W) (Pm_ClampAngles_kept M) (Pm_CheckDuck_kept K W)
    (Pm_CheckLadder_kept B M W) (Pm_Dispatch_kept K B M W) c9 h

theorem Pm_Move_unsnapped_touch (K : pm_const_t) (B : pm_bits_t) (M : pm_math_t)
    (W : pm_world_t) (pm : pm_move_t) (c9 : pm_ctx)
    (h : Pm_Move_unsnapped K B M W pm = some c9) : touch_kept K (Pm_Move_start K W pm) c9 :=
  Pm_Move_unsnapped_rel K B M W pm (touch_kept K) (fun _ _ _ h1 h2 => touch_kept_trans h1 h2)
    (fun _ => touch_kept_same K rfl) (fun _ _ => touch_kept_same K rfl)
    (Pm_CategorizePosition_touch K B W) (Pm_ClampAngles_touch K M) (Pm_CheckDuck_touch K W)
    (Pm_CheckLadder_touch K B M W) (Pm_Dispatch_touch K B M W) c9 h

/-! ## A snap that finds no valid position -/

theorem all_candidates_bad_iff (W : pm_world_t) (c : pm_ctx) :
    all_candidates_bad W c = true ↔
      ∀ bit ∈ jitter_bits,
        Pm_GoodPosition W { c with pm.s.origin := snap_candidate c.pml.origin bit } = false := by
  unfold all_candidates_bad
  rw [List.all_eq_true]
  constructor
  · intro h bit hb
    have := h bit hb
    simpa using this
  · intro h bit hb
    simp [h bit hb]

theorem Pm_SnapPosition_loop_bad (W : pm_world_t) :
    ∀ (bits : List Nat) (c : pm_ctx),
      (∀ bit ∈ bits,
        Pm_GoodPosition W { c with pm.s.origin := snap_candidate c.pml.origin bit } = false) →
      Pm_SnapPosition_loop W bits c
        = (match bits.getLast? with
            | none => c
            | some b => { c with pm.s.origin := snap_candidate c.pml.origin b }, false) := by
  intro bits
  induction bits with
  | nil => intro c _; rfl
  | cons b rest ih =>
    intro c h
    unfold Pm_SnapPosition_loop
    dsimp only
    have hb := h b (List.mem_cons_self _ _)
    rw [if_neg (by rw [hb]; exact Bool.false_ne_true)]
    have hrest := ih { c with pm.s.origin := snap_candidate c.pml.origin b }
      (fun bit hbit => h bit (List.mem_cons_of_mem _ hbit))
    rw [hrest]
    cases rest with
    | nil => rfl
    | cons b1 rest1 =>
      rw [List.getLast?_cons_cons, List.getLast?_eq_getLast _ (List.cons_ne_nil b1 rest1)]

/-- When none of its candidates is valid, `Pm_SnapPosition` returns false and leaves
the last candidate, the packed origin bumped on all three axes, as the stored
origin; nothing else is changed. -/
theorem Pm_SnapPosition_bad (W : pm_world_t) (c : pm_ctx) (h : all_candidates_bad W c = true) :
    Pm_SnapPosition W c = ({ c with pm.s.origin := snap_candidate c.pml.origin 7 }, false) := by
  unfold Pm_SnapPosition
  rw [Pm_SnapPosition_loop_bad W jitter_bits c ((all_candidates_bad_iff W c).mp h)]
  rfl

/-! ## The touched-entity list of a whole move -/

theorem Pm_Init_touch_ents (K : pm_const_t) (pm : pm_move_t) :
    (Pm_Init K pm).touch_ents = [] := by
  unfold Pm_Init
  dsimp only
  split_ifs <;> rfl

theorem Pm_Move_start_touch (K : pm_const_t) (W : pm_world_t) (pm : pm_move_t) :
    touch_ok K (Pm_Move_start K W pm) := by
  unfold Pm_Move_start Pm_SnapPosition
  apply Pm_SnapPosition_loop_touch K W jitter_bits
  unfold touch_ok
  show (Pm_Init K pm).touch_ents.Nodup ∧ (Pm_Init K pm).touch_ents.length ≤ K.PM_MAX_TOUCH_ENTS
  rw [Pm_Init_touch_ents]
  exact ⟨List.nodup_nil, Nat.zero_le _⟩

theorem Pm_SpectatorMove_touch (K : pm_const_t) (B : pm_bits_t) (M : pm_math_t) (c : pm_ctx) :
    touch_kept K c (Pm_SpectatorMove K B M c) := by
  unfold Pm_SpectatorMove
  dsimp only
  exact touch_kept_trans (touch_kept_trans (Pm_Friction_touch K B M c)
    (Pm_Accelerate_touch K _ _ _ _)) (touch_kept_same K (by rfl))

theorem Pm_Move_finish_touch (K : pm_const_t) (W : pm_world_t) (c : pm_ctx) :
    touch_kept K c (Pm_Move_finish W c) := by
  unfold Pm_Move_finish Pm_SnapPosition
  have h := Pm_SnapPosition_loop_touch K W jitter_bits c
  split_ifs
  · exact touch_kept_trans h (touch_kept_same K (by rfl))
  · exact h

/-- The touched-entity list that `Pm_Move` returns is free of duplicates and within
its bound. -/
theorem Pm_Move_touch (K : pm_const_t) (B : pm_bits_t) (M : pm_math_t) (W : pm_world_t)
    (pm : pm_move_t) (c : pm_ctx) (h : Pm_Move K B M W pm = some c) : touch_ok K c := by
  obtain ⟨h1, h2, h3⟩ := Pm_Move_cases K B M W pm
  have h0 := Pm_Move_start_touch K W pm
  by_cases hs : pm.s.type = pm_type_t.PM_SPECTATOR
  · rw [h1 hs] at h
    cases h
    unfold Pm_SnapPosition
    exact Pm_SnapPosition_loop_touch K W jitter_bits _
      (Pm_SpectatorMove_touch K B M _ (Pm_ClampAngles_touch K M _ h0))
  · by_cases hf : pm.s.type = pm_type_t.PM_FREEZE
    · rw [h2 hf] at h
      cases h
      exact h0
    · rw [h3 hs hf] at h
      cases hu : Pm_Move_unsnapped K B M W pm with
      | none =>
        rw [hu] at h
        cases h
      | some c9 =>
        rw [hu] at h
        cases h
        exact Pm_Move_finish_touch K W c9 (Pm_Move_unsnapped_touch K B M W pm c9 hu h0)
/-! ## Slots that change in their message buffer only -/

theorem same_but_message_refl (cl : sv_client_t) : same_but_message cl cl := rfl

theorem same_but_message_trans {a b c : sv_client_t} (h1 : same_but_message a b)
    (h2 : same_but_message b c) : same_but_message a c := by
  unfold same_but_message at h1 h2 ⊢
  rw [h2, h1]

theorem same_but_message_write (cl : sv_client_t) (m : mem_buf_t) :
    same_but_message cl { cl with net_chan.message := m } := rfl

theorem same_but_message_fields {a b : sv_client_t} (h : same_but_message a b) :
    b.state = a.state ∧ b.cmd_msec = a.cmd_msec ∧ b.cmd_msec_errors = a.cmd_msec_errors
      ∧ b.entity = a.entity ∧ b.last_message = a.last_message ∧ b.name = a.name := by
  unfold same_but_message at h
  rw [h]
  exact ⟨rfl, rfl, rfl, rfl, rfl, rfl⟩

theorem same_but_messages_refl (sv : sv_t) : same_but_messages sv sv :=
  ⟨rfl, rfl, rfl, fun _ => rfl⟩

theorem same_but_messages_trans {a b c : sv_t} (h1 : same_but_messages a b)
    (h2 : same_but_messages b c) : same_but_messages a c :=
  ⟨h2.1.trans h1.1, h2.2.1.trans h1.2.1, h2.2.2.1.trans h1.2.2.1,
    fun k => same_but_message_trans (h1.2.2.2 k) (h2.2.2.2 k)⟩

theorem client_at_map (sv : sv_t) (f : sv_client_t → sv_client_t) (k : Nat)
    (hf : f (dropped_client none) = dropped_client none) :
    client_at { sv with clients := sv.clients.map f } k = f (client_at sv k) := by
  unfold client_at
  simp only [List.getD_eq_getElem?_getD, List.getElem?_map]
  cases sv.clients[k]? with
  | none => simp [hf]
  | some cl => simp

theorem client_at_set (sv : sv_t) (i k : Nat) (cl : sv_client_t) :
    client_at (set_client sv i cl) k
      = if k = i ∧ i < sv.clients.length then cl else client_at sv k := by
  unfold client_at set_client
  simp only [List.getD_eq_getElem?_getD]
  by_cases hk : k = i
  · subst hk
    by_cases hl : k < sv.clients.length
    · rw [if_pos ⟨rfl, hl⟩, List.getElem?_set_self hl]
      rfl
    · rw [if_neg (fun h => hl h.2)]
      rw [List.getElem?_eq_none (by simpa using hl), List.getElem?_eq_none (by simpa using hl)]
  · rw [if_neg (fun h => hk h.1), List.getElem?_set_ne (Ne.symm hk)]

theorem Sv_BroadcastPrint_messages (E : sv_env_t) (level : Int) (string : List Nat) (sv : sv_t) :
    same_but_messages sv (Sv_BroadcastPrint E level string sv) := by
  unfold Sv_BroadcastPrint
  refine ⟨by simp, rfl, rfl, fun k => ?_⟩
  rw [client_at_map sv _ k (by simp [dropped_client])]
  split_ifs
  · rfl
  · rfl
  · exact same_but_message_write _ _

theorem Sv_BroadcastPrint_free (E : sv_env_t) (level : Int) (string : List Nat) (sv : sv_t)
    (k : Nat) (h : (client_at sv k).state ≠ sv_client_state_t.SV_CLIENT_ACTIVE) :
    client_at (Sv_BroadcastPrint E level string sv) k = client_at sv k := by
  unfold Sv_BroadcastPrint
  rw [client_at_map sv _ k (by simp [dropped_client])]
  split_ifs <;> rfl

theorem Sv_BroadcastPrint_events (E : sv_env_t) (level : Int) (string : List Nat) (sv : sv_t) :
    (Sv_BroadcastPrint E level string sv).events = sv.events := rfl

theorem Sv_ClientPrint_messages (E : sv_env_t) (ent : Option Nat) (level : Int)
    (string : List Nat) (sv : sv_t) :
    same_but_messages sv (Sv_ClientPrint E ent level string sv)
      ∧ (Sv_ClientPrint E ent level string sv).events = sv.events := by
  unfold Sv_ClientPrint
  cases ent with
  | none => exact ⟨same_but_messages_refl sv, rfl⟩
  | some n =>
    dsimp only
    split_ifs
    · exact ⟨same_but_messages_refl sv, rfl⟩
    · exact ⟨same_but_messages_refl sv, rfl⟩
    · exact ⟨same_but_messages_refl sv, rfl⟩
    · refine ⟨⟨by simp [set_client], rfl, rfl, fun k => ?_⟩, rfl⟩
      rw [client_at_set]
      split_ifs with hk
      · rw [hk.1]
        exact same_but_message_write _ _
      · rfl

theorem client_at_lt (sv : sv_t) (i : Nat)
    (h : (client_at sv i).state ≠ sv_client_state_t.SV_CLIENT_FREE) : i < sv.clients.length := by
  by_contra hl
  apply h
  unfold client_at
  rw [List.getD_eq_getElem?_getD, List.getElem?_eq_none (by simpa using hl)]
  rfl

theorem Sv_DropClient_slot (E : sv_env_t) (time i : Nat) (cl : sv_client_t) :
    (Sv_DropClient E time i cl).1 = dropped_client cl.entity := by
  unfold Sv_DropClient
  dsimp only
  split_ifs <;> rfl

/-- The server after `Sv_DropClient` for the slot `i`, with the events `ev`. -/
theorem drop_after_messages (E : sv_env_t) (i : Nat) (sv sv1 : sv_t) (ev : List sv_event)
    (h : same_but_messages sv sv1) (hi : i < sv.clients.length) :
    ({ set_client sv1 i (Sv_DropClient E sv1.time i (client_at sv1 i)).1 with
        events := ev } : sv_t).clients.length = sv.clients.length
      ∧ ({ set_client sv1 i (Sv_DropClient E sv1.time i (client_at sv1 i)).1 with
        events := ev } : sv_t).time = sv.time
      ∧ ({ set_client sv1 i (Sv_DropClient E sv1.time i (client_at sv1 i)).1 with
        events := ev } : sv_t).state = sv.state
      ∧ (∀ k, k ≠ i → same_but_message (client_at sv k)
          (client_at ({ set_client sv1 i (Sv_DropClient E sv1.time i (client_at sv1 i)).1 with
            events := ev } : sv_t) k))
      ∧ client_at ({ set_client sv1 i (Sv_DropClient E sv1.time i (client_at sv1 i)).1 with
          events := ev } : sv_t) i = dropped_client (client_at sv i).entity := by
  have hset : ∀ k, client_at ({ set_client sv1 i (Sv_DropClient E sv1.time i (client_at sv1 i)).1
      with events := ev } : sv_t) k
      = client_at (set_client sv1 i (Sv_DropClient E sv1.time i (client_at sv1 i)).1) k :=
    fun _ => rfl
  refine ⟨?_, h.2.1, h.2.2.1, fun k hk => ?_, ?_⟩
  · show (set_client sv1 i _).clients.length = _
    simp [set_client, h.1]
  · rw [hset, client_at_set, if_neg (fun hh => hk hh.1)]
    exact h.2.2.2 k
  · rw [hset, client_at_set, if_pos ⟨rfl, h.1 ▸ hi⟩]
    rw [Sv_DropClient_slot, (same_but_message_fields (h.2.2.2 i)).2.2.2.1]

theorem Sv_KickClient_slots (E : sv_env_t) (msg : List Nat) (i : Nat) (sv : sv_t) :
    (Sv_KickClient E msg i sv).clients.length = sv.clients.length
      ∧ (Sv_KickClient E msg i sv).time = sv.time
      ∧ (Sv_KickClient E msg i sv).state = sv.state
      ∧ (∀ k, k ≠ i → same_but_message (client_at sv k) (client_at (Sv_KickClient E msg i sv) k))
      ∧ client_at (Sv_KickClient E msg i sv) i
          = if (client_at sv i).state = sv_client_state_t.SV_CLIENT_FREE then client_at sv i
            else dropped_client (client_at sv i).entity := by
  unfold Sv_KickClient
  dsimp only
  by_cases hfree : (client_at sv i).state = sv_client_state_t.SV_CLIENT_FREE
  · simp only [if_pos hfree]
    exact ⟨trivial, trivial, trivial, fun _ _ => rfl, trivial⟩
  · simp only [if_neg hfree]
    have hi := client_at_lt sv i hfree
    have h1 := (Sv_ClientPrint_messages E (client_at sv i).entity E.PRINT_HIGH
      (text "You were kicked" ++ (if msg ≠ [] then text ": " ++ msg else []) ++ text "\n") sv).1
    have h2 := fun ev => drop_after_messages E i sv _ ev h1 hi
    refine ⟨(Sv_BroadcastPrint_messages E _ _ _).1.trans (h2 _).1,
      (Sv_BroadcastPrint_messages E _ _ _).2.1.trans (h2 _).2.1,
      (Sv_BroadcastPrint_messages E _ _ _).2.2.1.trans (h2 _).2.2.1, fun k hk => ?_, ?_⟩
    · exact same_but_message_trans ((h2 _).2.2.2.1 k hk)
        ((Sv_BroadcastPrint_messages E _ _ _).2.2.2 k)
    · rw [Sv_BroadcastPrint_free, (h2 _).2.2.2.2]
      rw [(h2 _).2.2.2.2]
      simp [dropped_client]

/-! ## The command time check -/

theorem check_command_time_message {a b : sv_client_t} (h : same_but_message a b) :
    same_but_message (check_command_time H a) (check_command_time H b) := by
  unfold same_but_message at h
  rw [h]
  unfold check_command_time same_but_message
  dsimp only
  split_ifs <;> rfl

theorem Sv_CheckCommandTimes_client_slots (H : sv_host_t) (E : sv_env_t) (i : Nat) (sv : sv_t) :
    (Sv_CheckCommandTimes_client H E i sv).clients.length = sv.clients.length
      ∧ (Sv_CheckCommandTimes_client H E i sv).time = sv.time
      ∧ (Sv_CheckCommandTimes_client H E i sv).state = sv.state
      ∧ (∀ k, k ≠ i →
          same_but_message (client_at sv k) (client_at (Sv_CheckCommandTimes_client H E i sv) k))
      ∧ client_at (Sv_CheckCommandTimes_client H E i sv) i
          = check_command_time H (client_at sv i) := by
  have hset : ∀ cl, (client_at sv i).state = sv_client_state_t.SV_CLIENT_ACTIVE →
      (set_client sv i cl).clients.length = sv.clients.length
        ∧ (set_client sv i cl).time = sv.time ∧ (set_client sv i cl).state = sv.state
        ∧ (∀ k, k ≠ i → same_but_message (client_at sv k) (client_at (set_client sv i cl) k))
        ∧ client_at (set_client sv i cl) i = cl := by
    intro cl hact
    have hi : i < sv.clients.length := client_at_lt sv i (by rw [hact]; decide)
    refine ⟨by simp [set_client], rfl, rfl, fun k hk => ?_, ?_⟩
    · rw [client_at_set, if_neg (fun hh => hk hh.1)]
      exact same_but_message_refl _
    · rw [client_at_set, if_pos ⟨rfl, hi⟩]
  unfold Sv_CheckCommandTimes_client check_command_time
  dsimp only
  by_cases hact : (client_at sv i).state = sv_client_state_t.SV_CLIENT_ACTIVE
  · have hn : ¬ (client_at sv i).state ≠ sv_client_state_t.SV_CLIENT_ACTIVE := not_not.mpr hact
    simp only [if_neg hn]
    by_cases henf : H.sv_enforce_time ≠ 0
    · simp only [if_pos henf]
      by_cases hd : (client_at sv i).cmd_msec > H.CMD_MSEC_ALLOWABLE_DRIFT
      · simp only [if_pos hd]
        by_cases hk : (u32 ((client_at sv i).cmd_msec_errors + 1) : ℚ) ≥ H.sv_enforce_time
        · simp only [if_pos hk]
          have h0 := hset { client_at sv i with
            cmd_msec_errors := u32 ((client_at sv i).cmd_msec_errors + 1) } hact
          have h1 := Sv_KickClient_slots E (text "Irregular movement") i
            (set_client sv i { client_at sv i with
              cmd_msec_errors := u32 ((client_at sv i).cmd_msec_errors + 1) })
          refine ⟨h1.1.trans h0.1, h1.2.1.trans h0.2.1, h1.2.2.1.trans h0.2.2.1,
            fun k hk => same_but_message_trans (h0.2.2.2.1 k hk) (h1.2.2.2.1 k hk), ?_⟩
          rw [h1.2.2.2.2, h0.2.2.2.2]
          simp [hact]
        · simp only [if_neg hk]
          exact hset _ hact
      · simp only [if_neg hd]
        have hcl : (if (client_at sv i).cmd_msec_errors ≠ 0 then
            { client_at sv i with cmd_msec_errors := (client_at sv i).cmd_msec_errors - 1 }
            else client_at sv i)
            = { client_at sv i with cmd_msec_errors := (client_at sv i).cmd_msec_errors - 1 } := by
          split_ifs with h0
          · rfl
          · simp only [ne_eq, not_not] at h0
            have h1 : (client_at sv i).cmd_msec_errors - 1 = (client_at sv i).cmd_msec_errors := by
              rw [h0]
            rw [h1]
        rw [hcl]
        exact hset _ hact
    · simp only [if_neg henf]
      exact hset _ hact
  · have hn : (client_at sv i).state ≠ sv_client_state_t.SV_CLIENT_ACTIVE := hact
    simp only [if_pos hn]
    exact ⟨trivial, trivial, trivial, fun _ _ => rfl, trivial⟩

/-- A loop over distinct slots whose body does `f` to its own slot and changes the other
slots in their message buffers only. -/
theorem slot_loop (step : Nat → sv_t → sv_t) (f : sv_client_t → sv_client_t)
    (hstep : ∀ i sv, (step i sv).clients.length = sv.clients.length
      ∧ (step i sv).time = sv.time ∧ (step i sv).state = sv.state
      ∧ (∀ k, k ≠ i → same_but_message (client_at sv k) (client_at (step i sv) k))
      ∧ same_but_message (f (client_at sv i)) (client_at (step i sv) i))
    (hf : ∀ a b, same_but_message a b → same_but_message (f a) (f b)) :
    ∀ (l : List Nat), l.Nodup → ∀ sv : sv_t,
      (l.foldl (fun sv i => step i sv) sv).clients.length = sv.clients.length
        ∧ (l.foldl (fun sv i => step i sv) sv).time = sv.time
        ∧ (l.foldl (fun sv i => step i sv) sv).state = sv.state
        ∧ ∀ k, (k ∈ l → same_but_message (f (client_at sv k))
                  (client_at (l.foldl (fun sv i => step i sv) sv) k))
            ∧ (k ∉ l → same_but_message (client_at sv k)
                  (client_at (l.foldl (fun sv i => step i sv) sv) k)) := by
  intro l
  induction l with
  | nil =>
    intro _ sv
    exact ⟨rfl, rfl, rfl, fun k => ⟨fun h => absurd h (List.not_mem_nil k), fun _ => rfl⟩⟩
  | cons i rest ih =>
    intro hnd sv
    have hnd1 := List.nodup_cons.mp hnd
    have h1 := hstep i sv
    have h2 := ih hnd1.2 (step i sv)
    rw [List.foldl_cons]
    refine ⟨h2.1.trans h1.1, h2.2.1.trans h1.2.1, h2.2.2.1.trans h1.2.2.1, fun k => ⟨?_, ?_⟩⟩
    · intro hk
      by_cases hki : k = i
      · subst hki
        exact same_but_message_trans h1.2.2.2.2 ((h2.2.2.2 k).2 hnd1.1)
      · have hkr : k ∈ rest := by
          rcases List.mem_cons.mp hk with h | h
          · exact absurd h hki
          · exact h
        exact same_but_message_trans (hf _ _ (h1.2.2.2.1 k hki)) ((h2.2.2.2 k).1 hkr)
    · intro hk
      have hki : k ≠ i := fun h => hk (h ▸ List.mem_cons_self _ _)
      have hkr : k ∉ rest := fun h => hk (List.mem_cons_of_mem _ h)
      exact same_but_message_trans (h1.2.2.2.1 k hki) ((h2.2.2.2 k).2 hkr)

theorem Sv_CheckCommandTimes_slot (H : sv_host_t) (E : sv_env_t) (S : server_t)
    (hdue : command_check_due H S) (k : Nat) :
    same_but_message (check_command_time H (client_at S.sv k))
      (client_at (Sv_CheckCommandTimes H E S).sv k) := by
  have hloop := slot_loop (fun i sv => Sv_CheckCommandTimes_client H E i sv) (check_command_time H)
    (fun i sv => by
      have h := Sv_CheckCommandTimes_client_slots H E i sv
      exact ⟨h.1, h.2.1, h.2.2.1, h.2.2.2.1, h.2.2.2.2 ▸ same_but_message_refl _⟩)
    (fun _ _ h => check_command_time_message h)
    (List.range S.sv.clients.length) (List.nodup_range _) S.sv
  unfold Sv_CheckCommandTimes
  unfold command_check_due at hdue
  dsimp only
  rw [if_neg hdue]
  by_cases hk : k ∈ List.range S.sv.clients.length
  · exact (hloop.2.2.2 k).1 hk
  · have hfree : (client_at S.sv k).state = sv_client_state_t.SV_CLIENT_FREE := by
      by_contra hne
      exact hk (List.mem_range.mpr (client_at_lt S.sv k hne))
    have hsame : check_command_time H (client_at S.sv k) = client_at S.sv k := by
      unfold check_command_time
      rw [if_pos (by rw [hfree]; decide)]
    rw [hsame]
    exact (hloop.2.2.2 k).2 hk

theorem check_command_time_over (H : sv_host_t) (cl : sv_client_t)
    (hact : cl.state = sv_client_state_t.SV_CLIENT_ACTIVE) (henf : H.sv_enforce_time ≠ 0)
    (hover : cl.cmd_msec > H.CMD_MSEC_ALLOWABLE_DRIFT) (hfit : cl.cmd_msec_errors + 1 < 2 ^ 32) :
    (((cl.cmd_msec_errors + 1 : Nat) : ℚ) ≥ H.sv_enforce_time →
        check_command_time H cl = dropped_client cl.entity)
      ∧ (((cl.cmd_msec_errors + 1 : Nat) : ℚ) < H.sv_enforce_time →
        check_command_time H cl
          = { cl with cmd_msec_errors := cl.cmd_msec_errors + 1, cmd_msec := 0 }) := by
  have hu : u32 (cl.cmd_msec_errors + 1) = cl.cmd_msec_errors + 1 := Nat.mod_eq_of_lt hfit
  unfold check_command_time
  rw [if_neg (not_not.mpr hact), if_pos henf, if_pos hover, hu]
  constructor
  · intro h
    rw [if_pos h]
  · intro h
    rw [if_neg (not_le.mpr h)]

theorem check_command_time_within (H : sv_host_t) (cl : sv_client_t)
    (hact : cl.state = sv_client_state_t.SV_CLIENT_ACTIVE) (henf : H.sv_enforce_time ≠ 0)
    (hin : ¬ cl.cmd_msec > H.CMD_MSEC_ALLOWABLE_DRIFT) :
    check_command_time H cl
      = { cl with cmd_msec_errors := cl.cmd_msec_errors - 1, cmd_msec := 0 } := by
  unfold check_command_time
  rw [if_neg (not_not.mpr hact), if_pos henf, if_neg hin]

theorem check_command_times_over (H : sv_host_t) (henf : H.sv_enforce_time ≠ 0) :
    ∀ (ms : List Int) (cl : sv_client_t), cl.state = sv_client_state_t.SV_CLIENT_ACTIVE →
      (∀ m ∈ ms, m > H.CMD_MSEC_ALLOWABLE_DRIFT) →
      cl.cmd_msec_errors + ms.length < 2 ^ 32 →
      ((cl.cmd_msec_errors + ms.length : Nat) : ℚ) < H.sv_enforce_time →
      (check_command_times H ms cl).state = sv_client_state_t.SV_CLIENT_ACTIVE
        ∧ (check_command_times H ms cl).cmd_msec_errors = cl.cmd_msec_errors + ms.length := by
  intro ms
  induction ms with
  | nil =>
    intro cl hact _ _ _
    exact ⟨hact, rfl⟩
  | cons m rest ih =>
    intro cl hact hover hfit hlt
    rw [List.length_cons] at hfit hlt
    have hle : ((cl.cmd_msec_errors + 1 : Nat) : ℚ) ≤ ((cl.cmd_msec_errors + (rest.length + 1) : Nat) : ℚ) := by
      exact_mod_cast (by omega : cl.cmd_msec_errors + 1 ≤ cl.cmd_msec_errors + (rest.length + 1))
    have h1 := (check_command_time_over H { cl with cmd_msec := m } hact henf
      (hover m (List.mem_cons_self _ _)) (by show cl.cmd_msec_errors + 1 < 2 ^ 32; omega)).2
      (lt_of_le_of_lt hle hlt)
    unfold check_command_times
    rw [h1]
    have h2 := ih { cl with cmd_msec_errors := cl.cmd_msec_errors + 1, cmd_msec := 0 } hact
      (fun x hx => hover x (List.mem_cons_of_mem _ hx))
      (by show cl.cmd_msec_errors + 1 + rest.length < 2 ^ 32; omega)
      (by
        show ((cl.cmd_msec_errors + 1 + rest.length : Nat) : ℚ) < _
        rw [show cl.cmd_msec_errors + 1 + rest.length = cl.cmd_msec_errors + (rest.length + 1) by omega]
        exact hlt)
    refine ⟨h2.1, ?_⟩
    rw [h2.2, List.length_cons]
    show cl.cmd_msec_errors + 1 + rest.length = _
    omega

/-! ## The states of the slots -/

theorem kept_or_freed_refl (sv : sv_t) : kept_or_freed sv sv := fun _ => Or.inl rfl

theorem kept_or_freed_trans {a b c : sv_t} (h1 : kept_or_freed a b) (h2 : kept_or_freed b c) :
    kept_or_freed a c := by
  intro k
  rcases h2 k with h | h
  · rw [h]
    exact h1 k
  · exact Or.inr h

theorem kept_or_freed_of_messages {a b : sv_t}
    (h : ∀ k, same_but_message (client_at a k) (client_at b k)) : kept_or_freed a b :=
  fun k => Or.inl (same_but_message_fields (h k)).1

theorem kept_or_freed_set (sv : sv_t) (i : Nat) (cl : sv_client_t) (ev : List sv_event)
    (h : cl.state = (client_at sv i).state ∨ cl.state = sv_client_state_t.SV_CLIENT_FREE) :
    kept_or_freed sv { set_client sv i cl with events := ev } := by
  intro k
  show (client_at (set_client sv i cl) k).state = (client_at sv k).state
    ∨ (client_at (set_client sv i cl) k).state = _
  rw [client_at_set]
  split_ifs with hk
  · rw [hk.1]
    exact h
  · exact Or.inl rfl

theorem kept_or_freed_slots {sv sv1 : sv_t} (i : Nat)
    (hother : ∀ k, k ≠ i → same_but_message (client_at sv k) (client_at sv1 k))
    (hown : (client_at sv1 i).state = (client_at sv i).state
      ∨ (client_at sv1 i).state = sv_client_state_t.SV_CLIENT_FREE) :
    kept_or_freed sv sv1 := by
  intro k
  by_cases hk : k = i
  · rw [hk]
    exact hown
  · exact Or.inl (same_but_message_fields (hother k hk)).1

theorem Sv_KickClient_states (E : sv_env_t) (msg : List Nat) (i : Nat) (sv : sv_t) :
    kept_or_freed sv (Sv_KickClient E msg i sv) := by
  have h := Sv_KickClient_slots E msg i sv
  refine kept_or_freed_slots i h.2.2.2.1 ?_
  rw [h.2.2.2.2]
  split_ifs
  · exact Or.inl rfl
  · exact Or.inr rfl

theorem check_timeout_message (timeout : Nat) {a b : sv_client_t} (h : same_but_message a b) :
    same_but_message (check_timeout timeout a) (check_timeout timeout b) := by
  unfold same_but_message at h
  rw [h]
  unfold check_timeout same_but_message
  dsimp only
  split_ifs <;> rfl

theorem Sv_CheckTimeouts_client_slots (E : sv_env_t) (timeout i : Nat) (sv : sv_t) :
    (Sv_CheckTimeouts_client E timeout i sv).clients.length = sv.clients.length
      ∧ (Sv_CheckTimeouts_client E timeout i sv).time = sv.time
      ∧ (Sv_CheckTimeouts_client E timeout i sv).state = sv.state
      ∧ (∀ k, k ≠ i →
          same_but_message (client_at sv k) (client_at (Sv_CheckTimeouts_client E timeout i sv) k))
      ∧ same_but_message (check_timeout timeout (client_at sv i))
          (client_at (Sv_CheckTimeouts_client E timeout i sv) i) := by
  unfold Sv_CheckTimeouts_client check_timeout
  dsimp only
  by_cases hfree : (client_at sv i).state = sv_client_state_t.SV_CLIENT_FREE
  · simp only [if_pos hfree]
    exact ⟨trivial, trivial, trivial, fun _ _ => rfl, rfl⟩
  · simp only [if_neg hfree]
    by_cases hold : (client_at sv i).last_message < timeout
    · simp only [if_pos hold]
      have h1 := Sv_BroadcastPrint_messages E E.PRINT_HIGH
        ((client_at sv i).name ++ text " timed out\n") sv
      have h2 := fun ev => drop_after_messages E i sv _ ev h1 (client_at_lt sv i hfree)
      refine ⟨(h2 _).1, (h2 _).2.1, (h2 _).2.2.1, (h2 _).2.2.2.1, ?_⟩
      rw [(h2 _).2.2.2.2]
      exact same_but_message_refl _
    · simp only [if_neg hold]
      exact ⟨trivial, trivial, trivial, fun _ _ => rfl, rfl⟩

theorem check_timeout_state (timeout : Nat) (cl : sv_client_t) :
    (check_timeout timeout cl).state = cl.state
      ∨ (check_timeout timeout cl).state = sv_client_state_t.SV_CLIENT_FREE := by
  unfold check_timeout
  split_ifs
  · exact Or.inl rfl
  · exact Or.inr rfl
  · exact Or.inl rfl

theorem Sv_CheckTimeouts_states (H : sv_host_t) (E : sv_env_t) (S : server_t) :
    kept_or_freed S.sv (Sv_CheckTimeouts H E S).sv := by
  unfold Sv_CheckTimeouts
  split_ifs
  · exact kept_or_freed_refl _
  · have hloop := slot_loop (fun i sv => Sv_CheckTimeouts_client E (timeout_limit H S) i sv)
      (check_timeout (timeout_limit H S))
      (fun i sv => Sv_CheckTimeouts_client_slots E (timeout_limit H S) i sv)
      (fun _ _ h => check_timeout_message _ h)
      (List.range S.sv.clients.length) (List.nodup_range _) S.sv
    intro k
    show (client_at _ k).state = (client_at S.sv k).state ∨ (client_at _ k).state = _
    by_cases hk : k ∈ List.range S.sv.clients.length
    · rw [(same_but_message_fields ((hloop.2.2.2 k).1 hk)).1]
      exact check_timeout_state _ _
    · exact Or.inl (same_but_message_fields ((hloop.2.2.2 k).2 hk)).1

theorem Sv_RateDrop_state (E : sv_env_t) (sv : sv_t) (cl : sv_client_t) :
    (Sv_RateDrop E sv cl).1.state = cl.state := by
  unfold Sv_RateDrop
  split_ifs <;> rfl

theorem Sv_SendClientDatagram_state (E : sv_env_t) (sv : sv_t) (i : Nat) (cl : sv_client_t)
    (hbuild : ∀ sv cl, (E.Sv_BuildClientFrame sv cl).state = cl.state) :
    (Sv_SendClientDatagram E sv i cl).1.state = cl.state := by
  unfold Sv_SendClientDatagram
  dsimp only
  split_ifs
  · exact hbuild sv cl
  · exact hbuild sv cl

theorem Sv_SendClientPackets_throttle_state (E : sv_env_t) (sv : sv_t) (i : Nat)
    (cl : sv_client_t) (hbuild : ∀ sv cl, (E.Sv_BuildClientFrame sv cl).state = cl.state) :
    (Sv_SendClientPackets_throttle E i sv cl).1.state = cl.state := by
  unfold Sv_SendClientPackets_throttle
  dsimp only
  split_ifs
  · rw [Sv_SendClientDatagram_state E sv i _ hbuild, Sv_RateDrop_state]
  · exact Sv_RateDrop_state E sv cl

theorem Sv_SendClientPackets_active_states (E : sv_env_t) (sv : sv_t) (i : Nat)
    (hbuild : ∀ sv cl, (E.Sv_BuildClientFrame sv cl).state = cl.state) :
    kept_or_freed sv (Sv_SendClientPackets_active E i sv (client_at sv i)).1 := by
  have h := Sv_SendClientPackets_throttle_state E sv i (client_at sv i) hbuild
  unfold Sv_SendClientPackets_active
  dsimp only
  split
  · exact kept_or_freed_set sv i _ _ (Or.inl h)
  · exact kept_or_freed_set sv i _ _ (Or.inl h)

theorem Sv_GetDemoMessage_states (E : sv_env_t) (sv : sv_t)
    (hshut : ∀ sv, kept_or_freed sv (E.Sv_ShutdownServer sv)) :
    kept_or_freed sv (Sv_GetDemoMessage E sv).1 := by
  unfold Sv_GetDemoMessage Sv_DemoCompleted
  split
  · exact hshut sv
  · dsimp only
    split_ifs
    · exact hshut { sv with demo_file := _ }
    · exact hshut { sv with demo_file := _ }
    · split
      · exact hshut { sv with demo_file := _ }
      · exact kept_or_freed_refl sv

theorem Sv_SendClientPackets_client_states (E : sv_env_t) (i : Nat) (sv : sv_t)
    (hbuild : ∀ sv cl, (E.Sv_BuildClientFrame sv cl).state = cl.state)
    (hshut : ∀ sv, kept_or_freed sv (E.Sv_ShutdownServer sv)) :
    kept_or_freed sv (Sv_SendClientPackets_client E i sv).1 := by
  unfold Sv_SendClientPackets_client
  dsimp only
  by_cases hfree : (client_at sv i).state = sv_client_state_t.SV_CLIENT_FREE
  · rw [if_pos hfree]
    exact kept_or_freed_refl sv
  · rw [if_neg hfree]
    split_ifs
    · have h2 := fun ev => drop_after_messages E i sv sv ev (same_but_messages_refl sv)
        (client_at_lt sv i hfree)
      refine kept_or_freed_trans (kept_or_freed_slots i (h2 _).2.2.2.1 (Or.inr ?_))
        (kept_or_freed_of_messages (Sv_BroadcastPrint_messages E _ _ _).2.2.2)
      rw [(h2 _).2.2.2.2]
      rfl
    · exact kept_or_freed_trans (Sv_GetDemoMessage_states E sv hshut)
        (kept_or_freed_set _ i _ _ (Or.inl rfl))
    · exact Sv_GetDemoMessage_states E sv hshut
    · exact Sv_SendClientPackets_active_states E sv i hbuild
    · exact kept_or_freed_set sv i _ _ (Or.inl rfl)
    · exact kept_or_freed_refl sv

theorem Sv_SendClientPackets_loop_states (E : sv_env_t)
    (hbuild : ∀ sv cl, (E.Sv_BuildClientFrame sv cl).state = cl.state)
    (hshut : ∀ sv, kept_or_freed sv (E.Sv_ShutdownServer sv)) :
    ∀ (l : List Nat) (sv : sv_t), kept_or_freed sv (Sv_SendClientPackets_loop E l sv).1 := by
  intro l
  induction l with
  | nil => exact fun sv => kept_or_freed_refl sv
  | cons i rest ih =>
    intro sv
    have h1 := Sv_SendClientPackets_client_states E i sv hbuild hshut
    unfold Sv_SendClientPackets_loop
    split
    · rename_i sv1 f heq
      rw [heq] at h1
      exact h1
    · rename_i sv1 heq
      rw [heq] at h1
      exact kept_or_freed_trans h1 (ih sv1)

theorem Sv_SendClientPackets_states (E : sv_env_t) (sv : sv_t)
    (hbuild : ∀ sv cl, (E.Sv_BuildClientFrame sv cl).state = cl.state)
    (hshut : ∀ sv, kept_or_freed sv (E.Sv_ShutdownServer sv)) :
    kept_or_freed sv (Sv_SendClientPackets E sv).1 := by
  unfold Sv_SendClientPackets
  split_ifs
  · exact kept_or_freed_refl sv
  · exact Sv_SendClientPackets_loop_states E hbuild hshut _ sv

/-! ## The connect request -/

theorem Sv_UserInfoChanged_states (H : sv_host_t) (E : sv_env_t) (i : Nat) (sv : sv_t) :
    kept_or_freed sv (Sv_UserInfoChanged H E i sv) := by
  unfold Sv_UserInfoChanged
  dsimp only
  split_ifs <;>
    first
    | exact Sv_KickClient_states E _ i sv
    | exact kept_or_freed_set sv i _ sv.events (Or.inl rfl)

theorem Sv_Connect_accept_states (H : sv_host_t) (E : sv_env_t) (addr : net_addr_t)
    (qport : Nat) (user_info : List Nat) (i : Nat) (S : server_t) (k : Nat) :
    slot_state (Sv_Connect_accept H E addr qport user_info i S).sv k = slot_state S.sv k
      ∨ slot_state (Sv_Connect_accept H E addr qport user_info i S).sv k
          = sv_client_state_t.SV_CLIENT_FREE
      ∨ (slot_state (Sv_Connect_accept H E addr qport user_info i S).sv k
          = sv_client_state_t.SV_CLIENT_CONNECTED ∧ k = i) := by
  unfold Sv_Connect_accept
  dsimp only
  split_ifs
  · exact Or.inl rfl
  · exact Or.inl rfl
  · have h1 : kept_or_freed S.sv (set_client S.sv i
        { client_at S.sv i with
          user_info := (H.ClientConnect (client_at S.sv i).entity user_info).2.take
            (H.MAX_USER_INFO_STRING - 1) }) :=
      kept_or_freed_set S.sv i _ S.sv.events (Or.inl rfl)
    have h2 := kept_or_freed_trans h1 (Sv_UserInfoChanged_states H E i _)
    show (client_at (set_client _ i _) k).state = _ ∨ (client_at (set_client _ i _) k).state = _
      ∨ ((client_at (set_client _ i _) k).state = _ ∧ k = i)
    rw [client_at_set]
    split_ifs with hk
    · exact Or.inr (Or.inr ⟨rfl, hk.1⟩)
    · rcases h2 k with h | h
      · exact Or.inl h
      · exact Or.inr (Or.inl h)

theorem find_reconnect_state (H : sv_host_t) (addr : net_addr_t) (qport : Nat) (sv : sv_t)
    (i : Nat) (h : find_reconnect H addr qport sv = some i) :
    slot_state sv i ≠ sv_client_state_t.SV_CLIENT_FREE := by
  unfold find_reconnect at h
  have hp := List.find?_some h
  simp only [Bool.and_eq_true, decide_eq_true_eq] at hp
  exact hp.1.1

theorem find_free_state (H : sv_host_t) (sv : sv_t) (i : Nat) (h : find_free H sv = some i) :
    slot_state sv i = sv_client_state_t.SV_CLIENT_FREE := by
  unfold find_free at h
  have hp := List.find?_some h
  simp only [Bool.and_eq_true, decide_eq_true_eq] at hp
  exact hp.1

theorem Sv_Connect_f_states (H : sv_host_t) (E : sv_env_t) (addr : net_addr_t)
    (args : connect_args_t) (S : server_t) :
    kept_freed_or_connected H addr (args.qport % 256) S.sv (Sv_Connect_f H E addr args S).sv := by
  intro k
  unfold Sv_Connect_f
  dsimp only
  split_ifs
  · exact Or.inl rfl
  · exact Or.inl rfl
  · exact Or.inl rfl
  · exact Or.inl rfl
  · exact Or.inl rfl
  · split
    · exact Or.inl rfl
    · split_ifs
      · exact Or.inl rfl
      · split
        · rename_i i hrec
          rcases Sv_Connect_accept_states H E addr (args.qport % 256) _ i _ k with h | h | h
          · exact Or.inl h
          · exact Or.inr (Or.inl h)
          · refine Or.inr (Or.inr ⟨h.1, Or.inl ?_⟩)
            rw [h.2]
            exact ⟨hrec, find_reconnect_state H addr _ _ i hrec⟩
        · rename_i hrec
          split
          · rename_i i hfree
            rcases Sv_Connect_accept_states H E addr (args.qport % 256) _ i _ k with h | h | h
            · exact Or.inl h
            · exact Or.inr (Or.inl h)
            · refine Or.inr (Or.inr ⟨h.1, Or.inr ?_⟩)
              rw [h.2]
              exact ⟨hrec, hfree, find_free_state H _ i hfree⟩
          · exact Or.inl rfl
/-! ## Flags -/

theorem has_flag_bit (f i : Nat) : has_flag f (2 ^ i) = f.testBit i := by
  unfold has_flag
  rw [Nat.and_two_pow]
  cases h : f.testBit i
  · simp
  · simp

theorem testBit_flags_set (f m i : Nat) :
    (flags_set f m).testBit i = (f.testBit i || m.testBit i) := by
  unfold flags_set
  exact Nat.testBit_lor f m i

theorem testBit_flags_clear (f m i : Nat) :
    (flags_clear f m).testBit i = (f.testBit i && !(m.testBit i)) := by
  unfold flags_clear
  rw [Nat.testBit_xor, Nat.testBit_land]
  cases f.testBit i <;> cases m.testBit i <;> rfl

/-! ## Claims on the movement simulator -/

/-- C7.  For a player on the ground with zero velocity, `PMF_JUMP_HELD`, `PMF_TIME_LAND`
and `PMF_TIME_TRICK_JUMP` clear, water level at most 1 and a command with `up >= 1`,
`Pm_CheckJump` succeeds and leaves `velocity.z` equal to `PM_SPEED_JUMP`,
`PMF_ON_GROUND` cleared, no ground entity, and `PMF_JUMP_HELD` set. -/
theorem Pm_CheckJump_from_rest (K : pm_const_t) (c : pm_ctx)
    (hground : has_flag c.pm.s.flags PMF_ON_GROUND = true)
    (hvel : c.pml.velocity = vec3_origin)
    (hheld : has_flag c.pm.s.flags PMF_JUMP_HELD = false)
    (hland : has_flag c.pm.s.flags PMF_TIME_LAND = false)
    (htrick : has_flag c.pm.s.flags PMF_TIME_TRICK_JUMP = false)
    (hwater : c.pm.water_level ≤ 1) (hup : c.pm.cmd.up ≥ 1) :
    (Pm_CheckJump K c).2 = true ∧
    (Pm_CheckJump K c).1.pml.velocity.z = K.PM_SPEED_JUMP ∧
    has_flag (Pm_CheckJump K c).1.pm.s.flags PMF_ON_GROUND = false ∧
    (Pm_CheckJump K c).1.pm.ground_entity = none ∧
    has_flag (Pm_CheckJump K c).1.pm.s.flags PMF_JUMP_HELD = true := by
  have hrun : Pm_CheckJump K c = (Pm_Jump K c, true) := by
    unfold Pm_CheckJump
    have hup1 : ¬ c.pm.cmd.up < 1 := by omega
    simp only [hground, hland, hheld, hup1, if_false, Bool.true_eq_false, Bool.false_eq_true]
  have hw1 : ¬ c.pm.water_level > 1 := by omega
  rw [hrun]
  refine ⟨rfl, ?_, ?_, rfl, ?_⟩
  · simp only [Pm_Jump, jump_speed, hvel, vec3_origin, htrick, hw1, if_false, lt_self_iff_false,
      Bool.false_eq_true, zero_add]
  · simp only [Pm_Jump, htrick, Bool.false_eq_true, if_false]
    unfold PMF_ON_GROUND
    rw [has_flag_bit, testBit_flags_clear, Nat.testBit_two_pow_self]
    simp
  · simp only [Pm_Jump, htrick, Bool.false_eq_true, if_false]
    unfold PMF_JUMP_HELD
    rw [has_flag_bit, testBit_flags_clear, testBit_flags_set]
    have h1 : (PMF_JUMPED ||| 2 ^ 2).testBit 2 = true := by decide
    have h2 : PMF_ON_GROUND.testBit 2 = false := by decide
    rw [h1, h2]
    simp

/-- Witness of C7: the sample player at rest on the ground asks to jump. -/
theorem Pm_CheckJump_from_rest_witness :
    (Pm_CheckJump sample_pm_const sample_pm_grounded).2 = true ∧
    (Pm_CheckJump sample_pm_const sample_pm_grounded).1.pml.velocity.z
      = sample_pm_const.PM_SPEED_JUMP ∧
    has_flag (Pm_CheckJump sample_pm_const sample_pm_grounded).1.pm.s.flags PMF_ON_GROUND = false ∧
    (Pm_CheckJump sample_pm_const sample_pm_grounded).1.pm.ground_entity = none ∧
    has_flag (Pm_CheckJump sample_pm_const sample_pm_grounded).1.pm.s.flags PMF_JUMP_HELD = true :=
  Pm_CheckJump_from_rest sample_pm_const sample_pm_grounded (by decide)
    (by simp [sample_pm_grounded, Pm_InitLocal, sample_pm_move, sample_pm_state, UnpackVector,
      vec3_origin])
    (by decide) (by decide) (by decide) (by decide) (by decide)

theorem Pm_CheckJump_success (K : pm_const_t) (c : pm_ctx) (h : (Pm_CheckJump K c).2 = true) :
    Pm_CheckJump K c = (Pm_Jump K c, true) := by
  unfold Pm_CheckJump at h ⊢
  split_ifs at h ⊢
  rfl

/-- C8.  At water level 3 `Pm_Gravity` lowers `velocity.z` by
`gravity * PM_GRAVITY_WATER * time`, at lower water levels by `gravity * time`; a
successful `Pm_CheckJump` raises the vertical velocity (a downward velocity being
dropped first) by `0.66 * 0.66` times the normal jump speed at water level 3, by `0.66`
times that speed at water level 2, and by that speed at the water levels 0 and 1. -/
theorem Pm_water_gravity_jump (K : pm_const_t) (c : pm_ctx) :
    (c.pm.water_level = 3 →
      (Pm_Gravity K c).pml.velocity.z
        = c.pml.velocity.z - (c.pm.s.gravity : ℚ) * K.PM_GRAVITY_WATER * c.pml.time) ∧
    (c.pm.water_level ≤ 2 →
      (Pm_Gravity K c).pml.velocity.z = c.pml.velocity.z - (c.pm.s.gravity : ℚ) * c.pml.time) ∧
    ((Pm_CheckJump K c).2 = true →
      (c.pm.water_level = 3 →
        (Pm_CheckJump K c).1.pml.velocity.z
          = jump_base c + (66 / 100) * (66 / 100) * normal_jump_speed K c) ∧
      (c.pm.water_level = 2 →
        (Pm_CheckJump K c).1.pml.velocity.z = jump_base c + (66 / 100) * normal_jump_speed K c) ∧
      (c.pm.water_level ≤ 1 →
        (Pm_CheckJump K c).1.pml.velocity.z = jump_base c + normal_jump_speed K c)) := by
  refine ⟨?_, ?_, ?_⟩
  · intro h3
    have : c.pm.water_level > 2 := by omega
    simp only [Pm_Gravity, this, if_true]
  · intro h2
    have : ¬ c.pm.water_level > 2 := by omega
    simp only [Pm_Gravity, this, if_false]
  · intro hjump
    rw [Pm_CheckJump_success K c hjump]
    have hz : (Pm_Jump K c).pml.velocity.z = jump_base c + jump_speed K c := by
      unfold Pm_Jump jump_base
      dsimp only
      split_ifs <;> simp
    refine ⟨?_, ?_, ?_⟩
    · intro h3
      have h1 : c.pm.water_level > 1 := by omega
      have h2 : c.pm.water_level > 2 := by omega
      rw [hz]
      simp only [jump_speed, normal_jump_speed, h1, h2, if_true]
      ring
    · intro h2
      have h1 : c.pm.water_level > 1 := by omega
      have h3 : ¬ c.pm.water_level > 2 := by omega
      rw [hz]
      simp only [jump_speed, normal_jump_speed, h1, h3, if_true, if_false]
      ring
    · intro h1
      have h2 : ¬ c.pm.water_level > 1 := by omega
      rw [hz]
      simp only [jump_speed, normal_jump_speed, h2, if_false]

/-- Witness of C8: the sample player on the ground at water level 3 asks to jump. -/
theorem Pm_water_gravity_jump_witness :
    (Pm_Gravity sample_pm_const sample_pm_submerged).pml.velocity.z
      = sample_pm_submerged.pml.velocity.z
        - (sample_pm_submerged.pm.s.gravity : ℚ) * sample_pm_const.PM_GRAVITY_WATER
          * sample_pm_submerged.pml.time ∧
    (Pm_CheckJump sample_pm_const sample_pm_submerged).1.pml.velocity.z
      = jump_base sample_pm_submerged
        + (66 / 100) * (66 / 100) * normal_jump_speed sample_pm_const sample_pm_submerged :=
  ⟨(Pm_water_gravity_jump sample_pm_const sample_pm_submerged).1 (by decide),
    ((Pm_water_gravity_jump sample_pm_const sample_pm_submerged).2.2 (by decide)).1 (by decide)⟩

/-- C6 (the code at the failing input).  A command pitch of `-32768` with zero kick and
delta angles unpacks to -180 degrees; neither branch of the clamp applies and
`Pm_ClampAngles` leaves `pm->angles[PITCH]` at -180 degrees, outside `(-90, 90]`. -/
theorem Pm_ClampAngles_pitch_unclamped (M : pm_math_t) :
    (Pm_ClampAngles M sample_pm_pitch).pm.angles.x = -180 ∧
    ¬ (-90 < (Pm_ClampAngles M sample_pm_pitch).pm.angles.x ∧
        (Pm_ClampAngles M sample_pm_pitch).pm.angles.x ≤ 90) := by
  have h : (Pm_ClampAngles M sample_pm_pitch).pm.angles.x = -180 := by
    simp only [Pm_ClampAngles, sample_pm_pitch, sample_pm_grounded, Pm_InitLocal, sample_pm_move,
      sample_pm_state, clamp_pitch, UnpackAngle]
    norm_num
  rw [h]
  exact ⟨rfl, by norm_num⟩


/-- C5, as stated, fails: in a world that is solid everywhere, `Pm_Move` of the normal
sample player returns, and the stored origin, tested with the current bounding box
against the trace, reports `start_solid`.  The final `Pm_SnapPosition` finds no
valid candidate, and the origin the move falls back to is not tested. -/
theorem Pm_Move_start_solid_counterexample :
    sample_pm_move.s.type = pm_type_t.PM_NORMAL ∧
    ∃ c, Pm_Move sample_pm_const sample_pm_bits sample_pm_math solid_world sample_pm_move
        = some c ∧ c.pm.s.type = pm_type_t.PM_NORMAL ∧ stored_start_solid solid_world c = true := by
  refine ⟨rfl, ?_⟩
  have hsome := Pm_Move_isSome sample_pm_const sample_pm_bits sample_pm_math solid_world
    sample_pm_move (fun _ _ _ _ => rfl)
  obtain ⟨c, hc⟩ := Option.isSome_iff_exists.mp hsome
  exact ⟨c, hc, (Pm_Move_final _ _ _ _ _ c (by decide) (by decide) hc).1, rfl⟩

/-- C5, amended: for every world and every input state of a player that is neither
spectator nor frozen (so after each move of any sequence of commands), a `Pm_Move`
that returns leaves either a stored origin that, tested with the current bounding box
against the trace, does not report `start_solid`, or the stored origin the move
started with together with a zero stored velocity.  The move returns whenever every
trace of the world carries a surface. -/
theorem Pm_Move_snapped_or_reverted (K : pm_const_t) (B : pm_bits_t) (M : pm_math_t)
    (W : pm_world_t) (pm : pm_move_t) (hs : pm.s.type ≠ pm_type_t.PM_SPECTATOR)
    (hf : pm.s.type ≠ pm_type_t.PM_FREEZE) :
    ((∀ a b m x, (W.Trace a b m x).surface.isSome = true) →
      (Pm_Move K B M W pm).isSome = true) ∧
    ∀ c, Pm_Move K B M W pm = some c →
      stored_start_solid W c = false
        ∨ (c.pm.s.origin = pm.s.origin ∧ c.pm.s.velocity = ⟨0, 0, 0⟩) := by
  refine ⟨Pm_Move_isSome K B M W pm, ?_⟩
  intro c h
  obtain ⟨ht, hg⟩ := Pm_Move_final K B M W pm c hs hf h
  rcases hg with hg | hg
  · exact Or.inl (stored_start_solid_of_good W c (by rw [ht]; exact hs) hg)
  · exact Or.inr hg

/-- C5, amended, at the normal sample player in the world that is solid everywhere:
the move returns and leaves the stored origin it started with. -/
theorem Pm_Move_snapped_or_reverted_witness :
    sample_pm_move.s.type ≠ pm_type_t.PM_SPECTATOR ∧
    sample_pm_move.s.type ≠ pm_type_t.PM_FREEZE ∧
    (Pm_Move sample_pm_const sample_pm_bits sample_pm_math solid_world sample_pm_move).isSome
      = true ∧
    ∀ c, Pm_Move sample_pm_const sample_pm_bits sample_pm_math solid_world sample_pm_move
        = some c →
      stored_start_solid solid_world c = false
        ∨ (c.pm.s.origin = sample_pm_move.s.origin ∧ c.pm.s.velocity = ⟨0, 0, 0⟩) :=
  ⟨by decide, by decide,
    (Pm_Move_snapped_or_reverted sample_pm_const sample_pm_bits sample_pm_math solid_world
      sample_pm_move (by decide) (by decide)).1 (fun _ _ _ _ => rfl),
    (Pm_Move_snapped_or_reverted sample_pm_const sample_pm_bits sample_pm_math solid_world
      sample_pm_move (by decide) (by decide)).2⟩
/-! ## The game tick -/

theorem Sv_RunGameFrame_fields (Frame : server_t → server_t) (S : server_t)
    (hframe : ∀ T, (Frame T).sv.frame_num = T.sv.frame_num ∧ (Frame T).sv_time = T.sv_time
      ∧ (Frame T).real_time = T.real_time ∧ (Frame T).frame_rate = T.frame_rate) :
    (Sv_RunGameFrame Frame S).sv.frame_num = u32 (S.sv.frame_num + 1)
      ∧ (Sv_RunGameFrame Frame S).sv_time = u32 (u32 (S.sv.frame_num + 1) * 1000) / S.frame_rate
      ∧ (Sv_RunGameFrame Frame S).real_time
          = min S.real_time (u32 (u32 (S.sv.frame_num + 1) * 1000) / S.frame_rate)
      ∧ (Sv_RunGameFrame Frame S).frame_rate = S.frame_rate := by
  unfold Sv_RunGameFrame
  dsimp only
  by_cases hlt : u32 (u32 (S.sv.frame_num + 1) * 1000) / S.frame_rate < S.real_time
  · rw [if_pos hlt]
    split_ifs
    · rw [(hframe _).1, (hframe _).2.1, (hframe _).2.2.1, (hframe _).2.2.2]
      exact ⟨rfl, rfl, (min_eq_right (le_of_lt hlt)).symm, rfl⟩
    · exact ⟨rfl, rfl, (min_eq_right (le_of_lt hlt)).symm, rfl⟩
  · rw [if_neg hlt]
    split_ifs
    · rw [(hframe _).1, (hframe _).2.1, (hframe _).2.2.1, (hframe _).2.2.2]
      exact ⟨rfl, rfl, (min_eq_left (not_lt.mp hlt)).symm, rfl⟩
    · exact ⟨rfl, rfl, (min_eq_left (not_lt.mp hlt)).symm, rfl⟩
/-! ## The frame ring during a parse -/

theorem copy_old_frames (L : limits_t) (dec : entity_decoder) (delta_frame : Option Nat)
    (cl : cl_client_t) (k : old_cursor_t) (cl1 : cl_client_t) (k1 : old_cursor_t)
    (h : copy_old L dec delta_frame cl k = Except.ok (cl1, k1)) : cl1.frames = cl.frames ∧ cl1.frame.frame_num = cl.frame.frame_num := by
  unfold copy_old at h
  split at h
  · cases h
  · dsimp only at h
    split at h
    · cases h
    · cases h
      exact ⟨rfl, rfl⟩

theorem copy_below_frames (L : limits_t) (dec : entity_decoder) (delta_frame : Option Nat)
    (number : Nat) : ∀ (fuel : Nat) (cl : cl_client_t) (k : old_cursor_t) (cl1 : cl_client_t)
      (k1 : old_cursor_t),
      copy_below L dec delta_frame number fuel cl k = Except.ok (cl1, k1) →
      cl1.frames = cl.frames ∧ cl1.frame.frame_num = cl.frame.frame_num := by
  intro fuel
  induction fuel with
  | zero =>
    intro cl k cl1 k1 h
    unfold copy_below at h
    split at h
    · cases h
    · cases h
      exact ⟨rfl, rfl⟩
  | succ fuel ih =>
    intro cl k cl1 k1 h
    unfold copy_below at h
    split at h
    · split at h
      · cases h
      · rename_i cl2 k2 h2
        have h3 := copy_old_frames L dec delta_frame cl k cl2 k2 h2
        have h4 := ih _ _ _ _ h
        exact ⟨h4.1.trans h3.1, h4.2.trans h3.2⟩
    · cases h
      exact ⟨rfl, rfl⟩

theorem copy_rest_frames (L : limits_t) (dec : entity_decoder) (delta_frame : Option Nat) :
    ∀ (fuel : Nat) (cl : cl_client_t) (k : old_cursor_t) (cl1 : cl_client_t)
      (k1 : old_cursor_t),
      copy_rest L dec delta_frame fuel cl k = Except.ok (cl1, k1) → cl1.frames = cl.frames ∧ cl1.frame.frame_num = cl.frame.frame_num := by
  intro fuel
  induction fuel with
  | zero =>
    intro cl k cl1 k1 h
    unfold copy_rest at h
    split at h
    · cases h
    · cases h
      exact ⟨rfl, rfl⟩
  | succ fuel ih =>
    intro cl k cl1 k1 h
    unfold copy_rest at h
    split at h
    · split at h
      · cases h
      · rename_i cl2 k2 h2
        have h3 := copy_old_frames L dec delta_frame cl k cl2 k2 h2
        have h4 := ih _ _ _ _ h
        exact ⟨h4.1.trans h3.1, h4.2.trans h3.2⟩
    · cases h
      exact ⟨rfl, rfl⟩

theorem parse_entries_frames (L : limits_t) (dec : entity_decoder) (delta_frame : Option Nat) :
    ∀ (msg : List entry_t) (cl : cl_client_t) (k : old_cursor_t) (cl1 : cl_client_t)
      (k1 : old_cursor_t) (rest : List entry_t),
      parse_entries L dec delta_frame msg cl k = Except.ok (cl1, k1, rest) →
      cl1.frames = cl.frames ∧ cl1.frame.frame_num = cl.frame.frame_num := by
  intro msg
  induction msg with
  | nil =>
    intro cl k cl1 k1 rest h
    unfold parse_entries at h
    cases h
  | cons a tl ih =>
    intro cl k cl1 k1 rest h
    unfold parse_entries at h
    split at h
    · cases h
    · split at h
      · cases h
        exact ⟨rfl, rfl⟩
      · split at h
        · cases h
        · rename_i cl2 k2 h2
          have hb := copy_below_frames L dec delta_frame _ _ _ _ cl2 k2 h2
          split at h
          · split at h
            · cases h
            · exact ⟨(ih _ _ _ _ _ h).1.trans hb.1, (ih _ _ _ _ _ h).2.trans hb.2⟩
          · split at h
            · split at h
              · cases h
              · dsimp only at h
                split at h
                · cases h
                · exact ⟨(ih _ _ _ _ _ h).1.trans hb.1, (ih _ _ _ _ _ h).2.trans hb.2⟩
            · split at h
              · exact ⟨(ih _ _ _ _ _ h).1.trans hb.1, (ih _ _ _ _ _ h).2.trans hb.2⟩
              · exact ⟨(ih _ _ _ _ _ h).1.trans hb.1, (ih _ _ _ _ _ h).2.trans hb.2⟩

theorem Cl_ParseEntities_frames (L : limits_t) (dec : entity_decoder) (delta_frame : Option Nat)
    (cl : cl_client_t) (msg : List entry_t) (cl1 : cl_client_t) (rest : List entry_t)
    (h : Cl_ParseEntities L dec delta_frame cl msg = Except.ok (cl1, rest)) :
    cl1.frames = cl.frames ∧ cl1.frame.frame_num = cl.frame.frame_num := by
  unfold Cl_ParseEntities at h
  dsimp only at h
  split at h
  · cases h
  · rename_i cl2 k2 rest2 h2
    split at h
    · cases h
    · rename_i cl3 k3 h3
      cases h
      have h4 := copy_rest_frames L dec delta_frame _ _ _ _ _ h3
      have h5 := parse_entries_frames L dec delta_frame _ _ _ _ _ _ h2
      exact ⟨h4.1.trans h5.1, h4.2.trans h5.2⟩

theorem Cl_ParsePlayerState_frames (decPS : player_decoder) (delta_frame : Option Nat)
    (cl : cl_client_t) (fields : List Nat) (s : Nat) :
    ((Cl_ParsePlayerState decPS delta_frame cl fields).frames s = cl.frames s)
      ∨ (delta_frame = some s
          ∧ Cl_ValidDeltaPlayerState (cl.frames s).ps cl.frame.ps = false
          ∧ (Cl_ParsePlayerState decPS delta_frame cl fields).frames s
              = { cl.frames s with ps := decPS null_player_state fields }) := by
  have hdemo : ∀ c : cl_client_t,
      (if c.demo_server then
        ({ c with
          frame := { c.frame with
            ps := { c.frame.ps with
              pm_state := { c.frame.ps.pm_state with type := pm_type_t.PM_FREEZE } } } } :
          cl_client_t)
      else c).frames = c.frames := by
    intro c
    split_ifs <;> rfl
  unfold Cl_ParsePlayerState
  dsimp only
  rw [hdemo]
  cases delta_frame with
  | none => exact Or.inl rfl
  | some slot =>
    dsimp only
    by_cases hv : Cl_ValidDeltaPlayerState (cl.frames slot).ps cl.frame.ps = true
    · rw [if_pos hv]
      exact Or.inl rfl
    · rw [if_neg hv]
      by_cases hs : s = slot
      · subst hs
        refine Or.inr ⟨rfl, by simpa using hv, ?_⟩
        exact Function.update_same _ _ _
      · exact Or.inl (Function.update_noteq hs _ _)

theorem Cl_ParseFrame_header_frames (L : limits_t) (cl : cl_client_t) (msg : frame_msg_t)
    (cl1 : cl_client_t) (delta_frame : Option Nat)
    (h : Cl_ParseFrame_header L cl msg = Except.ok (cl1, delta_frame)) :
    cl1.frames = cl.frames ∧ cl1.frame.ps = cl.frame.ps
      ∧ cl1.frame.frame_num = msg.frame_num
      ∧ (∀ s, delta_frame = some s →
          0 < msg.delta_frame_num ∧ s = delta_slot L msg.delta_frame_num) := by
  unfold Cl_ParseFrame_header at h
  dsimp only at h
  split at h
  · cases h
    exact ⟨rfl, rfl, rfl, fun s hs => by cases hs⟩
  · rename_i hpos
    split at h
    · cases h
    · split at h
      · cases h
      · split at h
        · cases h
        · cases h
          refine ⟨rfl, rfl, rfl, fun s hs => ?_⟩
          cases hs
          exact ⟨by omega, rfl⟩

theorem Cl_ParseFrame_slots (L : limits_t) (dec : entity_decoder) (decPS : player_decoder)
    (check : cl_client_t → cl_predicted_state_t) (cl : cl_client_t) (msg : frame_msg_t)
    (cl1 : cl_client_t) (h : Cl_ParseFrame L dec decPS check cl msg = Except.ok cl1) (s : Nat)
    (hs : s ≠ msg.frame_num &&& L.PACKET_MASK) :
    cl1.frames s = cl.frames s
      ∨ (0 < msg.delta_frame_num ∧ s = delta_slot L msg.delta_frame_num
          ∧ Cl_ValidDeltaPlayerState (cl.frames s).ps cl.frame.ps = false
          ∧ cl1.frames s = { cl.frames s with ps := decPS null_player_state msg.ps_fields }) := by
  unfold Cl_ParseFrame at h
  split at h
  · cases h
  · rename_i cl2 delta_frame hhead
    obtain ⟨hfr, hps, hnum, hslot⟩ := Cl_ParseFrame_header_frames L cl msg cl2 delta_frame hhead
    dsimp only at h
    split at h
    · cases h
    · rename_i cl4 rest hent
      have hfr4 := Cl_ParseEntities_frames L dec delta_frame _ _ cl4 rest hent
      have hpl := Cl_ParsePlayerState_frames decPS delta_frame
        { cl2 with frame := { cl2.frame with area_bits := msg.area_bits } } msg.ps_fields s
      have hnum4 : cl4.frame.frame_num = msg.frame_num := by
        rw [hfr4.2, ← hnum]
        unfold Cl_ParsePlayerState
        dsimp only
        split_ifs <;> (split <;> first | rfl | (split_ifs <;> rfl))
      have hstore : ∀ c : cl_client_t, c.frames s = cl1.frames s → cl1.frames s = c.frames s :=
        fun _ hc => hc.symm
      have hkey : cl1.frames s = cl4.frames s := by
        split at h
        · cases h
          dsimp only
          split_ifs <;> exact Function.update_noteq (by rw [hnum4]; exact hs) _ _
        · cases h
          exact Function.update_noteq (by rw [hnum4]; exact hs) _ _
      rw [hkey, hfr4.1]
      rcases hpl with hp | ⟨hd, hv, hp⟩
      · left
        rw [hp]
        exact congrFun hfr s
      · right
        obtain ⟨hpos, hsl⟩ := hslot s hd
        refine ⟨hpos, hsl, ?_, ?_⟩
        · rw [← congrFun hfr s, ← hps]
          exact hv
        · rw [hp]
          show ({ cl2.frames s with ps := _ } : cl_frame_t) = _
          rw [congrFun hfr s]

theorem ok_of_fault_of_none {α : Type} (r : Except fault α) (h : fault_of r = none) :
    ∃ a, r = Except.ok a := by
  cases r with
  | error e => cases h
  | ok a => exact ⟨a, rfl⟩
/-! ## The timed flags, the ladder move and the slide -/

theorem flags_clear_timed (f : Nat) :
    flags_clear f PMF_TIME_MASK &&& PMF_TIME_MASK = 0 := by
  apply Nat.eq_of_testBit_eq
  intro i
  rw [Nat.testBit_land, testBit_flags_clear, Nat.zero_testBit]
  cases f.testBit i <;> cases PMF_TIME_MASK.testBit i <;> rfl

theorem flags_clear_other (f m : Nat) (hm : m &&& PMF_TIME_MASK = 0) :
    flags_clear f m &&& PMF_TIME_MASK = f &&& PMF_TIME_MASK := by
  apply Nat.eq_of_testBit_eq
  intro i
  have hi : (m &&& PMF_TIME_MASK).testBit i = false := by
    rw [hm]
    exact Nat.zero_testBit i
  rw [Nat.testBit_land] at hi
  rw [Nat.testBit_land, Nat.testBit_land, testBit_flags_clear]
  cases hf : f.testBit i <;> cases hmm : m.testBit i <;> cases ht : PMF_TIME_MASK.testBit i <;>
    simp_all

/-- The flags of `Pm_Init` before the timer is counted down hold the timed flags of
the start. -/
theorem Pm_Init_cases (K : pm_const_t) (pm : pm_move_t) :
    ∃ f : Nat, f &&& PMF_TIME_MASK = pm.s.flags &&& PMF_TIME_MASK
      ∧ (pm.s.time ≠ 0 → pm.cmd.msec ≥ pm.s.time →
          (Pm_Init K pm).s.time = 0 ∧ (Pm_Init K pm).s.flags = flags_clear f PMF_TIME_MASK)
      ∧ (pm.s.time ≠ 0 → pm.cmd.msec < pm.s.time →
          (Pm_Init K pm).s.time = pm.s.time - pm.cmd.msec ∧ (Pm_Init K pm).s.flags = f)
      ∧ (pm.s.time = 0 → (Pm_Init K pm).s.time = 0 ∧ (Pm_Init K pm).s.flags = f) := by
  have h4 : flags_clear (flags_clear (flags_clear (flags_clear pm.s.flags
      (PMF_DUCKED ||| PMF_JUMPED)) (PMF_ON_GROUND ||| PMF_ON_STAIRS ||| PMF_ON_LADDER))
      PMF_UNDER_WATER) PMF_NO_PREDICTION &&& PMF_TIME_MASK = pm.s.flags &&& PMF_TIME_MASK := by
    rw [flags_clear_other _ _ (by decide), flags_clear_other _ _ (by decide),
      flags_clear_other _ _ (by decide), flags_clear_other _ _ (by decide)]
  refine ⟨if pm.cmd.up < 1 then flags_clear (flags_clear (flags_clear (flags_clear
      (flags_clear pm.s.flags (PMF_DUCKED ||| PMF_JUMPED))
      (PMF_ON_GROUND ||| PMF_ON_STAIRS ||| PMF_ON_LADDER)) PMF_UNDER_WATER) PMF_NO_PREDICTION)
      PMF_JUMP_HELD
    else flags_clear (flags_clear (flags_clear (flags_clear pm.s.flags
      (PMF_DUCKED ||| PMF_JUMPED)) (PMF_ON_GROUND ||| PMF_ON_STAIRS ||| PMF_ON_LADDER))
      PMF_UNDER_WATER) PMF_NO_PREDICTION, ?_, ?_, ?_, ?_⟩
  · split_ifs
    · rw [flags_clear_other _ _ (by decide), h4]
    · exact h4
  · intro ht hm
    unfold Pm_Init
    dsimp only
    rw [if_pos ht, if_pos hm]
    exact ⟨rfl, rfl⟩
  · intro ht hm
    unfold Pm_Init
    dsimp only
    rw [if_pos ht, if_neg (not_le.mpr hm)]
    exact ⟨rfl, rfl⟩
  · intro ht
    unfold Pm_Init
    dsimp only
    rw [if_neg (not_not.mpr ht)]
    exact ⟨ht, rfl⟩

theorem Pm_LadderMove_eq (K : pm_const_t) (B : pm_bits_t) (M : pm_math_t) (W : pm_world_t)
    (c : pm_ctx) :
    Pm_LadderMove K B M W c
      = ladder_finish K B M W (Pm_Friction K B M c) (ladder_wish K (Pm_Friction K B M c)) := rfl

theorem clamp_abs (v s : vec_t) (hs : 0 ≤ s) :
    |if v < -s then -s else if v > s then s else v| ≤ s := by
  split_ifs with h1 h2
  · rw [abs_neg, abs_of_nonneg hs]
  · rw [abs_of_nonneg hs]
  · rw [abs_le]
    exact ⟨not_lt.mp h1, not_lt.mp h2⟩

/-- Without room in the log the reference frame is overwritten: with a log of 4 states,
of which the reference frame holds one and the cursor is one past it, the header of
`Cl_ParseFrame` accepts the delta, the four new entities fill the log, and the entity 9,
which no entry mentions, is copied from the slot that now holds the state of the
entity 4: it is stored with the sound index 1 and the event 4 instead of the sound
index 90. -/
theorem Cl_ParseEntities_unchanged_overrun :
    fault_of (Cl_ParseFrame_header small_limits small_client (small_msg small_entries)) = none
      ∧ reference_states small_limits small_client (some 0) = [sample_state 9 90]
      ∧ 9 ∉ entry_numbers small_entries
      ∧ (parsed_states small_limits
          (Cl_ParseEntities small_limits sample_decoder (some 0) small_client
            (small_entries ++ [end_entry]))).map (fun l => l.map fun s => (s.number, s.sound, s.event))
        = some [(9, 1, 4), (2, 1, 4), (3, 1, 4), (4, 1, 4), (9, 1, 4)] := by
  decide

/-- Without room in the log the base of a delta is overwritten: in the same state the
entry that changes the entity 9 is decoded against the slot that now holds the state of
the entity 4, not against the state of the entity 9 in the reference frame. -/
theorem Cl_ParseEntities_delta_base_overrun :
    fault_of (Cl_ParseFrame_header small_limits small_client
        (small_msg (small_entries ++ [⟨9, 1, [6]⟩]))) = none
      ∧ (parsed_states small_limits
          (Cl_ParseEntities small_limits sample_decoder (some 0) small_client
            (small_entries ++ [⟨9, 1, [6]⟩] ++ [end_entry]))).map
            (fun l => l.getLast?.map fun s => (s.number, s.sound, s.event))
        = some (some (9, 1, 6))
      ∧ ((sample_decoder (sample_state 9 90) 9 1 [6]).number,
          (sample_decoder (sample_state 9 90) 9 1 [6]).sound,
          (sample_decoder (sample_state 9 90) 9 1 [6]).event) = (9, 90, 6) := by
  decide
/-! ## Claims about the send pass of the server -/

/-- C10, as stated, fails: the sample client is active, its rate check trips (120
bytes recorded against a rate of 100) and three bytes of reliable message are
pending, yet `Sv_SendClientPackets` makes no transmission to it in the tick. -/
theorem Sv_SendClientPackets_reliable_counterexample :
    (client_at sample_sv 0).state = sv_client_state_t.SV_CLIENT_ACTIVE ∧
    (Sv_RateDrop sample_sv_env sample_sv (client_at sample_sv 0)).2 = true ∧
    (client_at sample_sv 0).net_chan.message.size = 3 ∧
    transmissions_to 0 (Sv_SendClientPackets sample_sv_env sample_sv).1.events = [] := by
  decide

/-- C10, amended: outside demo playback and with no reliable buffer marked as
overflowed at the start of the tick, for every active client whose rate check trips
(its address is not the loop device and the sum of its recorded message sizes over
the last `sv_hz` ticks is above its rate), `Sv_SendClientPackets` makes no
transmission to it in that tick, neither of a frame nor of its reliable message; the
client stays active and its channel, the pending reliable message included, is
left as it was. -/
theorem Sv_SendClientPackets_rate_drop (E : sv_env_t) (sv : sv_t) (i : Nat)
    (hlen : i < sv.clients.length)
    (hact : (client_at sv i).state = sv_client_state_t.SV_CLIENT_ACTIVE)
    (hdemo : sv.state ≠ sv_state_t.SV_ACTIVE_DEMO)
    (hover : ∀ j, j < sv.clients.length → (client_at sv j).net_chan.message.overflowed = false)
    (hrate : rate_trips E sv (client_at sv i)) :
    transmissions_to i (Sv_SendClientPackets E sv).1.events = transmissions_to i sv.events ∧
    (client_at (Sv_SendClientPackets E sv).1 i).state = sv_client_state_t.SV_CLIENT_ACTIVE ∧
    (client_at (Sv_SendClientPackets E sv).1 i).net_chan = (client_at sv i).net_chan := by
  unfold Sv_SendClientPackets
  split_ifs
  · exact ⟨rfl, hact, rfl⟩
  · have h := Sv_SendClientPackets_loop_dropped E i (List.range sv.clients.length) sv
      (List.nodup_range _) (fun j hj => hover j (List.mem_range.mp hj)) hdemo
      (fun _ => ⟨hlen, hact, hrate⟩)
    rw [hact] at h
    exact h

/-- Witness of C10, amended: the sample server with the sample client, whose rate
check trips while three bytes of reliable message are pending. -/
theorem Sv_SendClientPackets_rate_drop_witness :
    transmissions_to 0 (Sv_SendClientPackets sample_sv_env sample_sv).1.events
      = transmissions_to 0 sample_sv.events ∧
    (client_at (Sv_SendClientPackets sample_sv_env sample_sv).1 0).state
      = sv_client_state_t.SV_CLIENT_ACTIVE ∧
    (client_at (Sv_SendClientPackets sample_sv_env sample_sv).1 0).net_chan
      = (client_at sample_sv 0).net_chan :=
  Sv_SendClientPackets_rate_drop sample_sv_env sample_sv 0 (by decide) (by decide) (by decide)
    (by decide) (by decide)
/-! ## Claims about the rate check -/

/-- C11.  With a sum of `message_size[0 .. sv_hz - 1]` and a suppress count that fit
in 32 bits, `Sv_RateDrop` returns true if and only if the address of the client is not
the loop device and the sum is strictly greater than the rate of the client; when it
returns true the suppress count is one higher, the slot of `message_size` for the
current tick is zero, and nothing else of the client, its connection state in
particular, is changed; when it returns false the client is unchanged. -/
theorem Sv_RateDrop_spec (E : sv_env_t) (sv : sv_t) (cl : sv_client_t)
    (hsum : message_sum sv.sv_hz cl < 2 ^ 32) (hcount : cl.surpress_count + 1 < 2 ^ 32) :
    ((Sv_RateDrop E sv cl).2 = true ↔
      cl.net_chan.remote_address_type ≠ E.NA_LOOP ∧ message_sum sv.sv_hz cl > cl.rate) ∧
    ((Sv_RateDrop E sv cl).2 = true →
      (Sv_RateDrop E sv cl).1 =
        { cl with
          surpress_count := cl.surpress_count + 1
          message_size := cl.message_size.set (sv.frame_num % sv.sv_hz) 0 } ∧
      (Sv_RateDrop E sv cl).1.state = cl.state) ∧
    ((Sv_RateDrop E sv cl).2 = false → (Sv_RateDrop E sv cl).1 = cl) := by
  obtain ⟨h1, h2, h3⟩ := Sv_RateDrop_cases E sv cl
  have hu : u32 (cl.surpress_count + 1) = cl.surpress_count + 1 := Nat.mod_eq_of_lt hcount
  rw [rate_total_eq_sum cl sv.sv_hz hsum] at h1
  refine ⟨h1, ?_, h3⟩
  intro ht
  rw [h2 ht, hu]
  exact ⟨rfl, rfl⟩

/-- Witness of C11: the sample client, with 120 bytes recorded against a rate of
100. -/
theorem Sv_RateDrop_spec_witness :
    (Sv_RateDrop sample_sv_env sample_sv sample_sv_client).2 = true ∧
    (Sv_RateDrop sample_sv_env sample_sv sample_sv_client).1.surpress_count = 1 ∧
    (Sv_RateDrop sample_sv_env sample_sv sample_sv_client).1.message_size = [60, 0] ∧
    (Sv_RateDrop sample_sv_env sample_sv sample_sv_client).1.state
      = sv_client_state_t.SV_CLIENT_ACTIVE :=
  have h := Sv_RateDrop_spec sample_sv_env sample_sv sample_sv_client (by decide) (by decide)
  have ht : (Sv_RateDrop sample_sv_env sample_sv sample_sv_client).2 = true :=
    h.1.mpr (by decide)
  ⟨ht, by rw [(h.2.1 ht).1]; rfl, by rw [(h.2.1 ht).1]; rfl, by rw [(h.2.1 ht).2]; rfl⟩
/-! ## Claims about the validity of deltas and the interpolation fraction -/

/-- C14, as stated, fails: the sample entity 3 is read from its baseline with a decoder
that moves it by 300 units; interpolation is suppressed, the current state is the
decoded state, but the previous state is not equal to it: its origin is the
`old_origin` of the decoded state. -/
theorem Cl_ReadDeltaEntity_interpolation_counterexample :
    delta_suppressed sample_limits moving_decoder sample_client (state_ref.baseline 3) 3 1 [300] ∧
    ((Cl_ReadDeltaEntity sample_limits moving_decoder sample_client (state_ref.baseline 3) 3 1
        [300]).entities 3).current
      = decoded_state moving_decoder sample_client (state_ref.baseline 3) 3 1 [300] ∧
    ((Cl_ReadDeltaEntity sample_limits moving_decoder sample_client (state_ref.baseline 3) 3 1
        [300]).entities 3).prev
      ≠ decoded_state moving_decoder sample_client (state_ref.baseline 3) 3 1 [300] := by
  decide!

/-- C14, amended.  After `Cl_ReadDeltaEntity` for the entity `number` with the base
state `from` and the decoded state `to`: if the frame number tracked for the entity is
not the current frame number minus one, or `from` and `to` differ in `model1`, or their
origins are more than 256 units apart, the previous state of the entity is `to` with
its origin replaced by `to.old_origin`, and the animation times and the lighting are
reset; otherwise the previous state is the old current state.  In both cases the
current state is `to` and the tracked frame number is that of the current frame. -/
theorem Cl_ReadDeltaEntity_interpolation (L : limits_t) (dec : entity_decoder)
    (cl : cl_client_t) (frm : state_ref) (number bits : Nat) (fields : List Nat) :
    (delta_suppressed L dec cl frm number bits fields →
      ((Cl_ReadDeltaEntity L dec cl frm number bits fields).entities number).prev
        = { (decoded_state dec cl frm number bits fields) with
            origin := (decoded_state dec cl frm number bits fields).old_origin } ∧
      ((Cl_ReadDeltaEntity L dec cl frm number bits fields).entities number).animation1_time = 0 ∧
      ((Cl_ReadDeltaEntity L dec cl frm number bits fields).entities number).animation2_time = 0 ∧
      ((Cl_ReadDeltaEntity L dec cl frm number bits fields).entities number).lighting_state
        = r_lighting_state_t.LIGHTING_INIT) ∧
    (¬ delta_suppressed L dec cl frm number bits fields →
      ((Cl_ReadDeltaEntity L dec cl frm number bits fields).entities number).prev
        = (cl.entities number).current) ∧
    ((Cl_ReadDeltaEntity L dec cl frm number bits fields).entities number).current
      = decoded_state dec cl frm number bits fields ∧
    ((Cl_ReadDeltaEntity L dec cl frm number bits fields).entities number).frame_num
      = cl.frame.frame_num := by
  obtain ⟨h1, h2⟩ := Cl_ReadDeltaEntity_entity L dec cl frm number bits fields
  refine ⟨fun h => ?_, fun h => ?_, ?_, ?_⟩
  · rw [h1 h]
    exact ⟨rfl, rfl, rfl, rfl⟩
  · rw [h2 h]
  · by_cases h : delta_suppressed L dec cl frm number bits fields
    · rw [h1 h]
    · rw [h2 h]
  · by_cases h : delta_suppressed L dec cl frm number bits fields
    · rw [h1 h]
    · rw [h2 h]

/-- C15, as stated, fails: the sample entity 3 is read from its baseline (sound index
1) with a decoder that moves it by 300 units, so that the base and the decoded state
fail the validity check; the state that is stored, in the entity and in the log, is
the one decoded against the baseline, not the one decoded against the all-zero
state. -/
theorem Cl_ReadDeltaEntity_zero_base_counterexample :
    Cl_ValidDeltaEntity (state_ref.get sample_client (state_ref.baseline 3))
        (moving_decoder (state_ref.get sample_client (state_ref.baseline 3)) 3 1 [300]) = false ∧
    ((Cl_ReadDeltaEntity sample_limits moving_decoder sample_client (state_ref.baseline 3) 3 1
        [300]).entities 3).current
      = moving_decoder (state_ref.get sample_client (state_ref.baseline 3)) 3 1 [300] ∧
    ((Cl_ReadDeltaEntity sample_limits moving_decoder sample_client (state_ref.baseline 3) 3 1
        [300]).entities 3).current
      ≠ moving_decoder null_entity_state 3 1 [300] ∧
    (Cl_ReadDeltaEntity sample_limits moving_decoder sample_client (state_ref.baseline 3) 3 1
        [300]).entity_states 2
      ≠ moving_decoder null_entity_state 3 1 [300] := by
  decide!

/-- C15, amended.  For entity deltas the state that `Cl_ReadDeltaEntity` stores, in the
entity and in the log, is the one decoded against the base state, whatever the
validity check says.  For player state deltas with a reference frame,
`Cl_ParsePlayerState` decodes against the all-zero state when the player state of the
reference frame and the player state held in the frame before decoding are more than
256 units apart, and against the player state of the reference frame otherwise (the
type being forced to `PM_FREEZE` during the playback of a demo). -/
theorem Cl_delta_base_on_invalid (L : limits_t) (dec : entity_decoder) (decPS : player_decoder)
    (cl : cl_client_t) (frm : state_ref) (number bits : Nat) (fields : List Nat) (slot : Nat) :
    ((Cl_ReadDeltaEntity L dec cl frm number bits fields).entities number).current
      = dec (frm.get cl) number bits fields ∧
    (Cl_ReadDeltaEntity L dec cl frm number bits fields).entity_states
        (cl.entity_state &&& L.ENTITY_STATE_MASK)
      = dec (frm.get cl) number bits fields ∧
    (Cl_ValidDeltaPlayerState (cl.frames slot).ps cl.frame.ps = false →
      (Cl_ParsePlayerState decPS (some slot) cl fields).frame.ps
        = demo_freeze cl.demo_server (decPS null_player_state fields)) ∧
    (Cl_ValidDeltaPlayerState (cl.frames slot).ps cl.frame.ps = true →
      (Cl_ParsePlayerState decPS (some slot) cl fields).frame.ps
        = demo_freeze cl.demo_server (decPS (cl.frames slot).ps fields)) := by
  refine ⟨?_, ?_, ?_, ?_⟩
  · by_cases h : delta_suppressed L dec cl frm number bits fields
    · rw [(Cl_ReadDeltaEntity_entity L dec cl frm number bits fields).1 h]
      rfl
    · rw [(Cl_ReadDeltaEntity_entity L dec cl frm number bits fields).2 h]
      rfl
  · exact Function.update_same _ _ _
  · intro h
    unfold Cl_ParsePlayerState demo_freeze
    simp only [h]
    cases hd : cl.demo_server <;> simp [hd]
  · intro h
    unfold Cl_ParsePlayerState demo_freeze
    simp only [h]
    cases hd : cl.demo_server <;> simp [hd]

/-- C16, as stated, fails: the two frame times coincide (both are 10) and the client
time 5 is before them; `Cl_UpdateLerp` sets the fraction to 0, not to 1, and the client
time to 10. -/
theorem Cl_UpdateLerp_counterexample :
    sample_client_lerp.frame.time = 10 ∧ sample_client_lerp.time = 5 ∧
    (Cl_UpdateLerp false sample_client_lerp { sample_frame with time := 10 }).lerp = 0 ∧
    (Cl_UpdateLerp false sample_client_lerp { sample_frame with time := 10 }).time = 10 := by
  decide!

/-- C16, amended.  For all unsigned 32 bit values of `cl.time`, `from.time` and
`cl.frame.time`, after `Cl_UpdateLerp` the fraction `cl.lerp` lies between 0 and 1.
It is 1, with `cl.time` set to the time of the current frame, when `time_demo` is set
and else when `cl.time` is past the time of the current frame; else it is 0, with
`cl.time` set to the time of the previous frame, when `cl.time` is before that time;
else it is 1, with `cl.time` set to the time of the current frame, when the two frame
times coincide; otherwise it is `(cl.time - from.time) / (cl.frame.time - from.time)`
and `cl.time` is kept. -/
theorem Cl_UpdateLerp_spec (time_demo : Bool) (cl : cl_client_t) (frm : cl_frame_t)
    (h1 : cl.time < 2 ^ 32) (h2 : frm.time < 2 ^ 32) (h3 : cl.frame.time < 2 ^ 32) :
    (0 ≤ (Cl_UpdateLerp time_demo cl frm).lerp ∧ (Cl_UpdateLerp time_demo cl frm).lerp ≤ 1) ∧
    (time_demo = true →
      (Cl_UpdateLerp time_demo cl frm).lerp = 1 ∧
      (Cl_UpdateLerp time_demo cl frm).time = cl.frame.time) ∧
    (time_demo = false → cl.time > cl.frame.time →
      (Cl_UpdateLerp time_demo cl frm).lerp = 1 ∧
      (Cl_UpdateLerp time_demo cl frm).time = cl.frame.time) ∧
    (time_demo = false → cl.time ≤ cl.frame.time → cl.time < frm.time →
      (Cl_UpdateLerp time_demo cl frm).lerp = 0 ∧
      (Cl_UpdateLerp time_demo cl frm).time = frm.time) ∧
    (time_demo = false → frm.time ≤ cl.time → cl.time ≤ cl.frame.time →
      cl.frame.time = frm.time →
      (Cl_UpdateLerp time_demo cl frm).lerp = 1 ∧
      (Cl_UpdateLerp time_demo cl frm).time = cl.frame.time) ∧
    (time_demo = false → frm.time ≤ cl.time → cl.time ≤ cl.frame.time →
      cl.frame.time ≠ frm.time →
      (Cl_UpdateLerp time_demo cl frm).lerp
        = ((cl.time : ℚ) - (frm.time : ℚ)) / ((cl.frame.time : ℚ) - (frm.time : ℚ)) ∧
      (Cl_UpdateLerp time_demo cl frm).time = cl.time) := by
  have _ := h2
  obtain ⟨c1, c2, c3, c4, c5⟩ := Cl_UpdateLerp_cases time_demo cl frm h1 h3
  have hratio : frm.time ≤ cl.time → cl.time ≤ cl.frame.time →
      ((cl.time - frm.time : Nat) : ℚ) / ((cl.frame.time - frm.time : Nat) : ℚ)
        = ((cl.time : ℚ) - (frm.time : ℚ)) / ((cl.frame.time : ℚ) - (frm.time : ℚ)) := by
    intro ha hb
    rw [Nat.cast_sub ha, Nat.cast_sub (le_trans ha hb)]
  refine ⟨?_, fun hd => ?_, fun hd hgt => ?_, fun hd hle hlt => ?_,
    fun hd ha hb heq => ?_, fun hd ha hb hne => ?_⟩
  · by_cases hd1 : time_demo = true
    · rw [c1 hd1]
      exact ⟨zero_le_one, le_refl _⟩
    · have hd : time_demo = false := by simpa using hd1
      by_cases hgt : cl.time > cl.frame.time
      · rw [c2 hd hgt]
        exact ⟨zero_le_one, le_refl _⟩
      · by_cases hlt : cl.time < frm.time
        · rw [c3 hd (not_lt.mp hgt) hlt]
          exact ⟨le_refl _, zero_le_one⟩
        · by_cases heq : cl.frame.time = frm.time
          · rw [c4 hd (not_lt.mp hlt) (not_lt.mp hgt) heq]
            exact ⟨zero_le_one, le_refl _⟩
          · rw [c5 hd (not_lt.mp hlt) (not_lt.mp hgt) heq]
            have hpos : (0 : ℚ) < ((cl.frame.time - frm.time : Nat) : ℚ) := by
              have : 0 < cl.frame.time - frm.time := by omega
              exact_mod_cast this
            constructor
            · exact div_nonneg (Nat.cast_nonneg _) (le_of_lt hpos)
            · rw [div_le_one hpos]
              have : cl.time - frm.time ≤ cl.frame.time - frm.time := by omega
              exact_mod_cast this
  · rw [c1 hd]
    exact ⟨rfl, rfl⟩
  · rw [c2 hd hgt]
    exact ⟨rfl, rfl⟩
  · rw [c3 hd hle hlt]
    exact ⟨rfl, rfl⟩
  · rw [c4 hd ha hb heq]
    exact ⟨rfl, rfl⟩
  · rw [c5 hd ha hb hne]
    exact ⟨hratio ha hb, rfl⟩

/-- Witness of C16, amended: the sample client at the time 5 between a previous frame
of the time 0 and the current frame of the time 10. -/
theorem Cl_UpdateLerp_spec_witness :
    (0 ≤ (Cl_UpdateLerp false sample_client_lerp sample_frame).lerp ∧
      (Cl_UpdateLerp false sample_client_lerp sample_frame).lerp ≤ 1) ∧
    (Cl_UpdateLerp false sample_client_lerp sample_frame).lerp
      = ((5 : ℚ) - (0 : ℚ)) / ((10 : ℚ) - (0 : ℚ)) ∧
    (Cl_UpdateLerp false sample_client_lerp sample_frame).time = 5 :=
  have h := Cl_UpdateLerp_spec false sample_client_lerp sample_frame (by decide) (by decide)
    (by decide)
  ⟨h.1, h.2.2.2.2.2 rfl (by decide) (by decide) (by decide)⟩
/-! ## Claims about stepping, snapping and touched entities -/

/-- C17, as stated, fails: the sample player runs at a ledge of height 8.  The plain
slide is blocked in front of the ledge, the player is not on a ladder, the step-up
attempt succeeds and carries the player 20 units onto the ledge; the result that is
kept is the stepped one, although the unstepped result is displaced less than 10
units horizontally. -/
theorem Pm_StepSlideMove_counterexample :
    (Pm_SlideMove sample_pm_const ledge_world sample_pm_runner).2 = false ∧
    has_flag (unstepped sample_pm_const ledge_world sample_pm_runner).pm.s.flags PMF_ON_LADDER
      = false ∧
    (stepped sample_pm_const ledge_world sample_pm_runner).2 = true ∧
    xy_displacement grid_pm_math sample_pm_runner.pml.origin
      (unstepped sample_pm_const ledge_world sample_pm_runner).pml.origin < 10 ∧
    xy_displacement grid_pm_math sample_pm_runner.pml.origin
      (stepped sample_pm_const ledge_world sample_pm_runner).1.pml.origin = 20 ∧
    kept_step sample_pm_const grid_pm_math ledge_world sample_pm_runner
      = (stepped sample_pm_const ledge_world sample_pm_runner).1 ∧
    (Pm_StepSlideMove sample_pm_const grid_pm_math ledge_world sample_pm_runner).pml.origin
      = ⟨20, 0, 8⟩ := by
  decide!

/-- C17, amended.  In `Pm_StepSlideMove`, when the plain slide is blocked, the player
is not on a ladder and the step-up attempt succeeds, the result that is kept (and
handed to the step down that ends the function) is, of the stepped and the unstepped
result, the one whose horizontal displacement from the starting position is the
larger, the stepped one if the two are equal; the third component is ignored in the
comparison, which is made on `VectorLength`.  When the unstepped result is kept, the
stairs flag and the step height are cleared. -/
theorem Pm_StepSlideMove_keeps_further (K : pm_const_t) (M : pm_math_t) (W : pm_world_t)
    (c : pm_ctx) (hblocked : (Pm_SlideMove K W c).2 = false)
    (hladder : has_flag (unstepped K W c).pm.s.flags PMF_ON_LADDER = false)
    (hstep : (stepped K W c).2 = true) :
    Pm_StepSlideMove K M W c = Pm_StepSlideMove_down K W (kept_step K M W c) ∧
    (xy_displacement M c.pml.origin (unstepped K W c).pml.origin
        > xy_displacement M c.pml.origin (stepped K W c).1.pml.origin →
      kept_step K M W c =
        { (stepped K W c).1 with
          pml.origin := (unstepped K W c).pml.origin
          pml.velocity := (unstepped K W c).pml.velocity
          pm.s.flags := flags_clear (stepped K W c).1.pm.s.flags PMF_ON_STAIRS
          pm.step := 0 }) ∧
    (xy_displacement M c.pml.origin (unstepped K W c).pml.origin
        ≤ xy_displacement M c.pml.origin (stepped K W c).1.pml.origin →
      kept_step K M W c = (stepped K W c).1) ∧
    xy_displacement M c.pml.origin (unstepped K W c).pml.origin
      ≤ xy_displacement M c.pml.origin (kept_step K M W c).pml.origin ∧
    xy_displacement M c.pml.origin (stepped K W c).1.pml.origin
      ≤ xy_displacement M c.pml.origin (kept_step K M W c).pml.origin := by
  obtain ⟨h1, h2⟩ := kept_step_cases K M W c hstep
  refine ⟨Pm_StepSlideMove_blocked K M W c hblocked hladder, h1, fun h => h2 (not_lt.mpr h), ?_, ?_⟩
  · by_cases h : xy_displacement M c.pml.origin (unstepped K W c).pml.origin
        > xy_displacement M c.pml.origin (stepped K W c).1.pml.origin
    · rw [h1 h]
    · rw [h2 h]
      exact not_lt.mp h
  · by_cases h : xy_displacement M c.pml.origin (unstepped K W c).pml.origin
        > xy_displacement M c.pml.origin (stepped K W c).1.pml.origin
    · rw [h1 h]
      exact le_of_lt h
    · rw [h2 h]

/-- Witness of C17, amended: the sample player running at the ledge keeps the stepped
result, which is the further one. -/
theorem Pm_StepSlideMove_keeps_further_witness :
    Pm_StepSlideMove sample_pm_const grid_pm_math ledge_world sample_pm_runner
      = Pm_StepSlideMove_down sample_pm_const ledge_world
          (kept_step sample_pm_const grid_pm_math ledge_world sample_pm_runner) ∧
    xy_displacement grid_pm_math sample_pm_runner.pml.origin
        (unstepped sample_pm_const ledge_world sample_pm_runner).pml.origin
      ≤ xy_displacement grid_pm_math sample_pm_runner.pml.origin
          (kept_step sample_pm_const grid_pm_math ledge_world sample_pm_runner).pml.origin :=
  have h := Pm_StepSlideMove_keeps_further sample_pm_const grid_pm_math ledge_world
    sample_pm_runner (by decide!) (by decide!) (by decide!)
  ⟨h.1, h.2.2.2.1⟩

/-- C18.  For a player that is neither spectator nor frozen, when the final
`Pm_SnapPosition` of `Pm_Move` is reached and finds none of its 8 candidate positions
valid, `Pm_Move` returns with the stored origin equal to the stored origin the move
started with and the stored velocity equal to the zero vector. -/
theorem Pm_Move_reverts (K : pm_const_t) (B : pm_bits_t) (M : pm_math_t) (W : pm_world_t)
    (pm : pm_move_t) (hs : pm.s.type ≠ pm_type_t.PM_SPECTATOR)
    (hf : pm.s.type ≠ pm_type_t.PM_FREEZE)
    (hfail : final_snap_fails K B M W pm = true) :
    ∃ c, Pm_Move K B M W pm = some c ∧ c.pm.s.origin = pm.s.origin
      ∧ c.pm.s.velocity = ⟨0, 0, 0⟩ := by
  unfold final_snap_fails at hfail
  cases hu : Pm_Move_unsnapped K B M W pm with
  | none =>
    rw [hu] at hfail
    cases hfail
  | some c9 =>
    rw [hu] at hfail
    dsimp only at hfail
    have hk := Pm_Move_unsnapped_kept K B M W pm c9 hu
    have hk0 : pm_kept (Pm_InitLocal (Pm_Init K pm)) (Pm_Move_start K W pm) :=
      Pm_SnapPosition_loop_kept W jitter_bits _
    have hprev : c9.pml.previous_origin = UnpackVector pm.s.origin := by
      rw [hk.2.2.1, hk0.2.2.1]
      show UnpackVector (Pm_Init K pm).s.origin = UnpackVector pm.s.origin
      rw [(Pm_Init_type K pm).2.1]
    refine ⟨Pm_Move_finish W c9, ?_, ?_, ?_⟩
    · rw [(Pm_Move_cases K B M W pm).2.2 hs hf, hu]
      rfl
    · unfold Pm_Move_finish
      rw [Pm_SnapPosition_bad W c9 hfail, if_pos rfl]
      show PackVector c9.pml.previous_origin = pm.s.origin
      rw [hprev, PackVector_UnpackVector]
    · unfold Pm_Move_finish
      rw [Pm_SnapPosition_bad W c9 hfail, if_pos rfl]

/-- Witness of C18: the normal sample player in the world that is solid everywhere. -/
theorem Pm_Move_reverts_witness :
    ∃ c, Pm_Move sample_pm_const sample_pm_bits grid_pm_math solid_world sample_pm_move = some c
      ∧ c.pm.s.origin = sample_pm_move.s.origin ∧ c.pm.s.velocity = ⟨0, 0, 0⟩ :=
  Pm_Move_reverts sample_pm_const sample_pm_bits grid_pm_math solid_world sample_pm_move
    (by decide) (by decide) (by decide!)

/-- C19 (the code at the failing input).  The frozen sample player stands at the stored
origin `(0, 0, 0)` in the world that is solid everywhere, so that none of the
candidates of the initial `Pm_SnapPosition` is valid; `Pm_Move` returns with the stored
origin `(1, 1, 1)`, the last candidate, while the stored velocity and view offset
are unchanged. -/
theorem Pm_Move_frozen_origin :
    sample_pm_frozen.s.type = pm_type_t.PM_FREEZE ∧
    sample_pm_frozen.s.origin = ⟨0, 0, 0⟩ ∧
    all_candidates_bad solid_world (Pm_InitLocal (Pm_Init sample_pm_const sample_pm_frozen))
      = true ∧
    (Pm_Move sample_pm_const sample_pm_bits grid_pm_math solid_world sample_pm_frozen).map
        (fun c => (c.pm.s.origin, c.pm.s.velocity, c.pm.s.view_offset))
      = some (⟨1, 1, 1⟩, sample_pm_frozen.s.velocity, sample_pm_frozen.s.view_offset) := by
  decide!

/-- C20.  `Pm_TouchEnt` appends the entity to the touched-entity list exactly when it is
not null, not yet listed and the list does not hold `PM_MAX_TOUCH_ENTS` entries, and
leaves the context unchanged otherwise; it keeps the list free of duplicates and
within `PM_MAX_TOUCH_ENTS` entries, and so is the list that `Pm_Move` returns. -/
theorem Pm_TouchEnt_spec (K : pm_const_t) (B : pm_bits_t) (M : pm_math_t) (W : pm_world_t)
    (c : pm_ctx) (ent : Option Nat) (pm : pm_move_t) :
    (∀ e, ent = some e → e ∉ c.pm.touch_ents →
      c.pm.touch_ents.length ≠ K.PM_MAX_TOUCH_ENTS →
      Pm_TouchEnt K c ent = { c with pm.touch_ents := c.pm.touch_ents ++ [e] }) ∧
    (ent = none ∨ (∃ e, ent = some e ∧ e ∈ c.pm.touch_ents)
        ∨ c.pm.touch_ents.length = K.PM_MAX_TOUCH_ENTS →
      Pm_TouchEnt K c ent = c) ∧
    (touch_ok K c → touch_ok K (Pm_TouchEnt K c ent)) ∧
    (∀ c1, Pm_Move K B M W pm = some c1 → touch_ok K c1) :=
  ⟨(Pm_TouchEnt_list K c ent).1, (Pm_TouchEnt_list K c ent).2, Pm_TouchEnt_touch K c ent,
    fun c1 h => Pm_Move_touch K B M W pm c1 h⟩
/-! ## Claims about the command time check and the slot states -/

/-- C13.  When the command time check is due and `sv_enforce_time` is not zero, the
slot of an active client with an error counter that fits in 32 bits is, after
`Sv_CheckCommandTimes`, what `check_command_time` makes of it, up to its message buffer:
with `cmd_msec` over `CMD_MSEC_ALLOWABLE_DRIFT` the client is dropped (its slot is free)
if the counter plus one has reached `sv_enforce_time`, and otherwise stays active with
the counter one higher and `cmd_msec` zero; with `cmd_msec` within the drift it stays
active with the counter one lower, or zero if it was zero, and `cmd_msec` zero.  Hence
a run of checks that each find the client over the drift leaves it active, with the
counter raised by the number of checks, as long as the raised counter stays below
`sv_enforce_time`. -/
theorem Sv_CheckCommandTimes_spec (H : sv_host_t) (E : sv_env_t) (S : server_t) (i : Nat)
    (hdue : command_check_due H S) (henf : H.sv_enforce_time ≠ 0)
    (hact : (client_at S.sv i).state = sv_client_state_t.SV_CLIENT_ACTIVE)
    (hfit : (client_at S.sv i).cmd_msec_errors + 1 < 2 ^ 32) :
    same_but_message (check_command_time H (client_at S.sv i))
        (client_at (Sv_CheckCommandTimes H E S).sv i)
      ∧ ((client_at S.sv i).cmd_msec > H.CMD_MSEC_ALLOWABLE_DRIFT →
          ((((client_at S.sv i).cmd_msec_errors + 1 : Nat) : ℚ) ≥ H.sv_enforce_time →
            (client_at (Sv_CheckCommandTimes H E S).sv i).state
              = sv_client_state_t.SV_CLIENT_FREE)
          ∧ ((((client_at S.sv i).cmd_msec_errors + 1 : Nat) : ℚ) < H.sv_enforce_time →
            (client_at (Sv_CheckCommandTimes H E S).sv i).state
                = sv_client_state_t.SV_CLIENT_ACTIVE
              ∧ (client_at (Sv_CheckCommandTimes H E S).sv i).cmd_msec_errors
                = (client_at S.sv i).cmd_msec_errors + 1
              ∧ (client_at (Sv_CheckCommandTimes H E S).sv i).cmd_msec = 0))
      ∧ (¬ (client_at S.sv i).cmd_msec > H.CMD_MSEC_ALLOWABLE_DRIFT →
          (client_at (Sv_CheckCommandTimes H E S).sv i).state
              = sv_client_state_t.SV_CLIENT_ACTIVE
            ∧ (client_at (Sv_CheckCommandTimes H E S).sv i).cmd_msec_errors
              = (client_at S.sv i).cmd_msec_errors - 1
            ∧ (client_at (Sv_CheckCommandTimes H E S).sv i).cmd_msec = 0)
      ∧ ∀ ms : List Int, (∀ m ∈ ms, m > H.CMD_MSEC_ALLOWABLE_DRIFT) →
          (client_at S.sv i).cmd_msec_errors + ms.length < 2 ^ 32 →
          (((client_at S.sv i).cmd_msec_errors + ms.length : Nat) : ℚ) < H.sv_enforce_time →
          (check_command_times H ms (client_at S.sv i)).state
              = sv_client_state_t.SV_CLIENT_ACTIVE
            ∧ (check_command_times H ms (client_at S.sv i)).cmd_msec_errors
              = (client_at S.sv i).cmd_msec_errors + ms.length := by
  have hslot := Sv_CheckCommandTimes_slot H E S hdue i
  have hf := same_but_message_fields hslot
  refine ⟨hslot, fun hover => ⟨fun hge => ?_, fun hlt => ?_⟩, fun hin => ?_,
    fun ms hms hfit1 hlt => check_command_times_over H henf ms _ hact hms hfit1 hlt⟩
  · rw [hf.1, (check_command_time_over H _ hact henf hover hfit).1 hge]
    rfl
  · rw [hf.1, hf.2.1, hf.2.2.1, (check_command_time_over H _ hact henf hover hfit).2 hlt]
    exact ⟨hact, rfl, rfl⟩
  · rw [hf.1, hf.2.1, hf.2.2.1, check_command_time_within H _ hact henf hin]
    exact ⟨hact, rfl, rfl⟩

/-- Witness of C13: the sample client has two errors and 200 milliseconds of commands
against a drift of 150 and an enforce time of 3, and is dropped by the check. -/
theorem Sv_CheckCommandTimes_spec_witness :
    (client_at sample_server.sv 0).cmd_msec > sample_sv_host.CMD_MSEC_ALLOWABLE_DRIFT ∧
    (client_at sample_server.sv 0).cmd_msec_errors = 2 ∧
    (client_at (Sv_CheckCommandTimes sample_sv_host sample_sv_env sample_server).sv 0).state
      = sv_client_state_t.SV_CLIENT_FREE :=
  have h := Sv_CheckCommandTimes_spec sample_sv_host sample_sv_env sample_server 0
    (by decide) (by decide!) (by decide) (by decide)
  ⟨by decide, by decide, (h.2.1 (by decide)).1 (by decide!)⟩

/-- Counterexample to C12: a connect request from the address and port of the active
client in the first slot, with the challenge issued to that address, resolves to that
slot as a reconnect.  The slot goes from active to connected; `Sv_DropClient` is not
called, as no packet is transmitted and `ClientDisconnect` is not called, and the slot
is not zeroed: it keeps its recorded message sizes. -/
theorem Sv_Connect_f_reconnect_counterexample :
    slot_state sample_server.sv 0 = sv_client_state_t.SV_CLIENT_ACTIVE
      ∧ slot_state (Sv_Connect_f sample_sv_host sample_sv_env ⟨3, 77, 5⟩ sample_connect
          sample_server).sv 0 = sv_client_state_t.SV_CLIENT_CONNECTED
      ∧ (Sv_Connect_f sample_sv_host sample_sv_env ⟨3, 77, 5⟩ sample_connect
          sample_server).sv.events = sample_server.sv.events
      ∧ (client_at (Sv_Connect_f sample_sv_host sample_sv_env ⟨3, 77, 5⟩ sample_connect
          sample_server).sv 0).message_size = [60, 60] := by
  decide

/-- C12, amended.  With a frame builder that keeps the state of the client and a
shutdown that keeps or frees every slot: `Sv_DropClient` leaves the zeroed slot with the
entity of the client and `last_frame` -1, which is free; `Sv_KickClient`,
`Sv_CheckTimeouts` and `Sv_SendClientPackets` leave every slot in its state or free; and
`Sv_Connect_f` leaves every slot in its state, or free, or connected, the last only for
the slot the request resolves to, which is the first slot in use with the address and
the port or `qport` of the request, whatever its state, and without such a slot the
first free slot of an entity that is no `ai`. -/
theorem Sv_slot_state_changes (H : sv_host_t) (E : sv_env_t)
    (hbuild : ∀ sv cl, (E.Sv_BuildClientFrame sv cl).state = cl.state)
    (hshut : ∀ sv, kept_or_freed sv (E.Sv_ShutdownServer sv)) :
    (∀ time i cl, (Sv_DropClient E time i cl).1 = dropped_client cl.entity
        ∧ (Sv_DropClient E time i cl).1.state = sv_client_state_t.SV_CLIENT_FREE)
      ∧ (∀ msg i sv, kept_or_freed sv (Sv_KickClient E msg i sv))
      ∧ (∀ S, kept_or_freed S.sv (Sv_CheckTimeouts H E S).sv)
      ∧ (∀ sv, kept_or_freed sv (Sv_SendClientPackets E sv).1)
      ∧ ∀ addr args S, kept_freed_or_connected H addr (args.qport % 256) S.sv
          (Sv_Connect_f H E addr args S).sv :=
  ⟨fun time i cl => ⟨Sv_DropClient_slot E time i cl, by rw [Sv_DropClient_slot]; rfl⟩,
    fun msg i sv => Sv_KickClient_states E msg i sv,
    fun S => Sv_CheckTimeouts_states H E S,
    fun sv => Sv_SendClientPackets_states E sv hbuild hshut,
    fun addr args S => Sv_Connect_f_states H E addr args S⟩

/-- Witness of C12, amended: the sample functions keep the states of the slots, and the
first slot of the sample server is active or free after the packets are sent. -/
theorem Sv_slot_state_changes_witness :
    slot_state (Sv_SendClientPackets sample_sv_env sample_server.sv).1 0
        = sv_client_state_t.SV_CLIENT_ACTIVE
      ∨ slot_state (Sv_SendClientPackets sample_sv_env sample_server.sv).1 0
        = sv_client_state_t.SV_CLIENT_FREE :=
  (Sv_slot_state_changes sample_sv_host sample_sv_env (fun _ _ => rfl)
    (fun _ _ => Or.inl rfl)).2.2.2.1 sample_server.sv 0
/-! ## Claims about the challenges and the game tick -/

/-- C21 (the code at the failing input).  The address is sent the challenge 1234 and
connects with it; the challenge is consumed, the table holds 0 in its place.  After the
client was kicked and its slot is free, a connect from the address with the challenge
0, which was not issued, is not refused: the slot becomes connected and the answer is
`client_connect`. -/
theorem Sv_Connect_f_consumed_challenge :
    challenged_server.replies = [(sample_addr, text "challenge 1234")]
      ∧ slot_state connected_server.sv 0 = sv_client_state_t.SV_CLIENT_CONNECTED
      ∧ challenge_numbers connected_server = [0]
      ∧ slot_state kicked_server.sv 0 = sv_client_state_t.SV_CLIENT_FREE
      ∧ slot_state (Sv_Connect_f sample_sv_host sample_sv_env sample_addr
          { sample_connect with challenge := 0 } kicked_server).sv 0
        = sv_client_state_t.SV_CLIENT_CONNECTED
      ∧ (Sv_Connect_f sample_sv_host sample_sv_env sample_addr
          { sample_connect with challenge := 0 } kicked_server).replies
        = kicked_server.replies ++ [(sample_addr, text "client_connect ")] := by
  decide

/-- Counterexample to C26: on the tick 4294967 at 10 ticks a second the simulation time
is 429496700, as the tick before computed it; `Sv_RunGameFrame` makes the tick 4294968,
whose product with 1000 leaves the range of 32 bits, and sets the simulation time to
70, which is less than the time of the previous tick. -/
theorem Sv_RunGameFrame_counterexample :
    late_server.sv_time = u32 (late_server.sv.frame_num * 1000) / late_server.frame_rate
      ∧ late_server.sv_time = 429496700
      ∧ (Sv_RunGameFrame id late_server).sv.frame_num = 4294968
      ∧ (Sv_RunGameFrame id late_server).sv_time = 70
      ∧ (Sv_RunGameFrame id late_server).sv_time < late_server.sv_time := by
  decide

/-- C26, amended.  With a game module that leaves the tick, the times and the frame
rate alone and a frame rate that is not zero, `Sv_RunGameFrame` increases
`sv.frame_num` by one modulo `2 ^ 32`, sets `sv.time` to `frame_num * 1000` modulo
`2 ^ 32` divided by the frame rate, and leaves in `svs.real_time` the minimum of its
old value and the new `sv.time`.  As long as the product `frame_num * 1000` of the new
tick stays below `2 ^ 32`, the tick is exactly one higher, `sv.time` is
`frame_num * 1000 / frame_rate`, and it is not less than the `sv.time` that the previous
tick computed. -/
theorem Sv_RunGameFrame_spec (Frame : server_t → server_t) (S : server_t)
    (hframe : ∀ T, (Frame T).sv.frame_num = T.sv.frame_num ∧ (Frame T).sv_time = T.sv_time
      ∧ (Frame T).real_time = T.real_time ∧ (Frame T).frame_rate = T.frame_rate)
    (hrate : 0 < S.frame_rate) :
    (Sv_RunGameFrame Frame S).sv.frame_num = (S.sv.frame_num + 1) % 2 ^ 32
      ∧ (Sv_RunGameFrame Frame S).sv_time
          = ((Sv_RunGameFrame Frame S).sv.frame_num * 1000) % 2 ^ 32 / S.frame_rate
      ∧ (Sv_RunGameFrame Frame S).real_time
          = min S.real_time (Sv_RunGameFrame Frame S).sv_time
      ∧ ((S.sv.frame_num + 1) * 1000 < 2 ^ 32 →
          (Sv_RunGameFrame Frame S).sv.frame_num = S.sv.frame_num + 1
            ∧ (Sv_RunGameFrame Frame S).sv_time = (S.sv.frame_num + 1) * 1000 / S.frame_rate
            ∧ (S.sv_time = S.sv.frame_num * 1000 / S.frame_rate →
                S.sv_time ≤ (Sv_RunGameFrame Frame S).sv_time)) := by
  obtain ⟨h1, h2, h3, _⟩ := Sv_RunGameFrame_fields Frame S hframe
  have _ := hrate
  refine ⟨h1, ?_, ?_, fun hfit => ?_⟩
  · rw [h2, h1]
    rfl
  · rw [h3, h2]
  · have hn : u32 (S.sv.frame_num + 1) = S.sv.frame_num + 1 :=
      Nat.mod_eq_of_lt (by omega)
    have hp : u32 ((S.sv.frame_num + 1) * 1000) = (S.sv.frame_num + 1) * 1000 :=
      Nat.mod_eq_of_lt hfit
    rw [h1, h2, hn, hp]
    refine ⟨rfl, rfl, fun hprev => ?_⟩
    rw [hprev]
    exact Nat.div_le_div_right (by omega)

/-- Witness of C26, amended: the tick 3 of the sample server at 10 ticks a second is
followed by the tick 4 at the time 400. -/
theorem Sv_RunGameFrame_spec_witness :
    (Sv_RunGameFrame id sample_server).sv.frame_num = 4
      ∧ (Sv_RunGameFrame id sample_server).sv_time = 400
      ∧ sample_server.sv_time ≤ (Sv_RunGameFrame id sample_server).sv_time :=
  have h := (Sv_RunGameFrame_spec id sample_server (fun _ => ⟨rfl, rfl, rfl, rfl⟩)
    (by decide)).2.2.2 (by decide)
  ⟨h.1, h.2.1, h.2.2 (by decide)⟩
/-! ## Claims about entity numbers, the absent reference frame and the frame ring -/

/-- C22 (the code at the failing input).  With 1024 entities, the number 2000 in an
entry of a frame makes `Cl_ParseEntities` raise the error `Bad number`, while
`Cl_ParseBaseline` raises no error for it: it stores the decoded state as the baseline
at the index 2000 of the entity table, which held another state before. -/
theorem Cl_ParseBaseline_unchecked :
    sample_limits.MAX_ENTITIES ≤ 2000
      ∧ fault_of (Cl_ParseEntities sample_limits sample_decoder none sample_client
          [⟨2000, 1, [4]⟩, end_entry]) = some (fault.bad_number 2000)
      ∧ ((Cl_ParseBaseline sample_decoder sample_client 2000 1 [4]).entities 2000).baseline
          = sample_decoder null_entity_state 2000 1 [4]
      ∧ ((Cl_ParseBaseline sample_decoder sample_client 2000 1 [4]).entities 2000).baseline
          ≠ (sample_client.entities 2000).baseline := by
  decide!

/-- C28 (the code at the failing input).  Parsed without a reference frame, a stream
whose first entry has a number in range and the bit `U_REMOVE` set makes
`Cl_ParseEntities` read `delta_frame->num_entities` through the absent reference frame:
the parse neither completes nor raises a protocol error. -/
theorem Cl_ParseEntities_full_frame_remove (L : limits_t) (dec : entity_decoder)
    (cl : cl_client_t) (e : entry_t) (rest : List entry_t) (h0 : e.number ≠ 0)
    (hmax : e.number < L.MAX_ENTITIES) (h16 : e.number ≤ 65535)
    (hrem : e.bits &&& L.U_REMOVE ≠ 0) :
    Cl_ParseEntities L dec none cl (e :: rest) = Except.error fault.null_dereference := by
  have hlt : ¬ (65535 < e.number) := by omega
  unfold Cl_ParseEntities
  dsimp only
  unfold parse_entries
  rw [if_neg (by omega), if_neg h0]
  unfold initial_old copy_bound copy_below
  dsimp only
  rw [if_neg hlt]
  dsimp only
  rw [if_pos hrem]
  rfl

/-- Witness of C28: the removal of the entity 5 in a frame without a reference. -/
theorem Cl_ParseEntities_full_frame_remove_witness :
    fault_of (Cl_ParseEntities sample_limits sample_decoder none sample_client
      [⟨5, 2048, []⟩, end_entry]) = some fault.null_dereference :=
  congrArg fault_of (Cl_ParseEntities_full_frame_remove sample_limits sample_decoder
    sample_client ⟨5, 2048, []⟩ [end_entry] (by decide) (by decide) (by decide) (by decide))

/-- Counterexample to C29: the frame 50 is parsed as a delta from the frame 40 in the
slot 8, whose player stands 300 units from the player state held in the current frame.
The parse completes and stores the frame in the slot 18, and it also replaces the
player state of the reference frame in the slot 8 by the newly decoded one. -/
theorem Cl_ParseFrame_reference_counterexample :
    (8 : Nat) ≠ sample_msg_far.frame_num &&& sample_limits.PACKET_MASK
      ∧ stored_ps (Cl_ParseFrame sample_limits sample_decoder sample_player_decoder
          (fun cl => cl.predicted_state) sample_client_far sample_msg_far) 8
        = some (sample_player_decoder null_player_state [7])
      ∧ sample_player_decoder null_player_state [7] ≠ (sample_client_far.frames 8).ps := by
  decide!

/-- C29, amended.  A completed `Cl_ParseFrame` leaves every slot of the frame ring other
than the slot `frame_num & PACKET_MASK` of the frame just parsed as it was, with one
exception: when the frame is a delta and the player state of the reference frame is
more than 256 units from the player state held in the current frame before the parse,
the player state of the reference frame is replaced by the state decoded against the
all-zero state; the other members of the reference frame are kept. -/
theorem Cl_ParseFrame_ring (L : limits_t) (dec : entity_decoder) (decPS : player_decoder)
    (check : cl_client_t → cl_predicted_state_t) (cl : cl_client_t) (msg : frame_msg_t)
    (cl1 : cl_client_t) (h : Cl_ParseFrame L dec decPS check cl msg = Except.ok cl1) (s : Nat)
    (hs : s ≠ msg.frame_num &&& L.PACKET_MASK) :
    cl1.frames s = cl.frames s
      ∨ (0 < msg.delta_frame_num ∧ s = delta_slot L msg.delta_frame_num
          ∧ Cl_ValidDeltaPlayerState (cl.frames s).ps cl.frame.ps = false
          ∧ cl1.frames s = { cl.frames s with ps := decPS null_player_state msg.ps_fields }) :=
  Cl_ParseFrame_slots L dec decPS check cl msg cl1 h s hs

/-- Witness of C29, amended: the frame 50 parsed as a delta from the frame 40 in the
slot 8, with player states that are close; the parse completes and the slot 8 is as it
was. -/
theorem Cl_ParseFrame_ring_witness :
    ∃ cl1, Cl_ParseFrame sample_limits sample_decoder sample_player_decoder
        (fun cl => cl.predicted_state) sample_client sample_msg = Except.ok cl1
      ∧ cl1.frames 8 = sample_client.frames 8 :=
  (ok_of_fault_of_none (Cl_ParseFrame sample_limits sample_decoder sample_player_decoder
      (fun cl => cl.predicted_state) sample_client sample_msg) (by decide!)).elim
    fun cl1 h => ⟨cl1, h,
      (Cl_ParseFrame_ring sample_limits sample_decoder sample_player_decoder
        (fun cl => cl.predicted_state) sample_client sample_msg cl1 h 8
        (by decide)).resolve_right (fun hr => absurd hr.2.2.1 (by decide!))⟩
/-! ## Claims about the ladder move, the state timer, the slide and the walk -/

/-- Counterexample to C23: the sample player on the ladder still rises at 176 units a
second after the friction, which is not below `PM_SPEED_LADDER` (125); the intended
velocity of `Pm_LadderMove` keeps its first component 400, far above
`PM_SPEED_LADDER / 8`. -/
theorem Pm_LadderMove_counterexample :
    (Pm_Friction sample_pm_const sample_pm_bits grid_pm_math sample_pm_climber).pml.velocity.z
        = 176
      ∧ ladder_wish sample_pm_const
          (Pm_Friction sample_pm_const sample_pm_bits grid_pm_math sample_pm_climber)
        = ⟨400, 0, 0⟩
      ∧ sample_pm_const.PM_SPEED_LADDER * (1 / 8) < 400
      ∧ Pm_LadderMove sample_pm_const sample_pm_bits grid_pm_math solid_world sample_pm_climber
        = ladder_finish sample_pm_const sample_pm_bits grid_pm_math solid_world
            (Pm_Friction sample_pm_const sample_pm_bits grid_pm_math sample_pm_climber)
            ⟨400, 0, 0⟩ := by
  decide!

/-- C23, amended.  `Pm_LadderMove` continues from the intended velocity `ladder_wish`
of the context after the friction.  With `PM_SPEED_LADDER` not negative: when the
vertical velocity is, in absolute value, below `PM_SPEED_LADDER`, the two horizontal
components of the intended velocity lie between `-PM_SPEED_LADDER / 8` and
`PM_SPEED_LADDER / 8`; when it is not, the intended velocity is the one asked for by
the command, with the third component zero and no limit on the horizontal ones. -/
theorem Pm_LadderMove_clamp (K : pm_const_t) (B : pm_bits_t) (M : pm_math_t) (W : pm_world_t)
    (c : pm_ctx) (hs : 0 ≤ K.PM_SPEED_LADDER) :
    Pm_LadderMove K B M W c
        = ladder_finish K B M W (Pm_Friction K B M c) (ladder_wish K (Pm_Friction K B M c))
      ∧ (|(Pm_Friction K B M c).pml.velocity.z| < K.PM_SPEED_LADDER →
          |(ladder_wish K (Pm_Friction K B M c)).x| ≤ K.PM_SPEED_LADDER * (1 / 8)
            ∧ |(ladder_wish K (Pm_Friction K B M c)).y| ≤ K.PM_SPEED_LADDER * (1 / 8))
      ∧ (¬ |(Pm_Friction K B M c).pml.velocity.z| < K.PM_SPEED_LADDER →
          ladder_wish K (Pm_Friction K B M c)
            = { wish_velocity (Pm_Friction K B M c) with z := 0 }) := by
  have hs8 : 0 ≤ K.PM_SPEED_LADDER * (1 / 8) := mul_nonneg hs (by norm_num)
  refine ⟨Pm_LadderMove_eq K B M W c, fun h => ?_, fun h => ?_⟩
  · unfold ladder_wish
    dsimp only
    rw [if_pos h]
    exact ⟨clamp_abs _ _ hs8, clamp_abs _ _ hs8⟩
  · unfold ladder_wish
    dsimp only
    rw [if_neg h]

/-- Witness of C23, amended: the sample player on the ladder at rest; the intended
horizontal velocity is limited to `125 / 8`. -/
theorem Pm_LadderMove_clamp_witness :
    |(ladder_wish sample_pm_const (Pm_Friction sample_pm_const sample_pm_bits grid_pm_math
        { sample_pm_climber with pml.velocity := vec3_origin })).x| ≤ 125 * (1 / 8) :=
  ((Pm_LadderMove_clamp sample_pm_const sample_pm_bits grid_pm_math solid_world
    { sample_pm_climber with pml.velocity := vec3_origin } (by decide!)).2.1 (by decide!)).1

/-- C24.  For every state timer `t` and command duration `m`, after `Pm_Init`: if
`t > 0` and `m >= t` the timer is 0 and every flag in `PMF_TIME_MASK` is cleared; if
`t > 0` and `m < t` the timer is `t - m` and the timed flags are unchanged; if `t = 0`
the timer stays 0 and the timed flags are unchanged. -/
theorem Pm_Init_timer (K : pm_const_t) (pm : pm_move_t) :
    (pm.s.time > 0 → pm.cmd.msec ≥ pm.s.time →
        (Pm_Init K pm).s.time = 0 ∧ (Pm_Init K pm).s.flags &&& PMF_TIME_MASK = 0)
      ∧ (pm.s.time > 0 → pm.cmd.msec < pm.s.time →
        (Pm_Init K pm).s.time = pm.s.time - pm.cmd.msec
          ∧ (Pm_Init K pm).s.flags &&& PMF_TIME_MASK = pm.s.flags &&& PMF_TIME_MASK)
      ∧ (pm.s.time = 0 →
        (Pm_Init K pm).s.time = 0
          ∧ (Pm_Init K pm).s.flags &&& PMF_TIME_MASK = pm.s.flags &&& PMF_TIME_MASK) := by
  obtain ⟨f, hf, h1, h2, h3⟩ := Pm_Init_cases K pm
  refine ⟨fun ht hm => ?_, fun ht hm => ?_, fun ht => ?_⟩
  · obtain ⟨ha, hb⟩ := h1 (Nat.pos_iff_ne_zero.mp ht) hm
    rw [hb]
    exact ⟨ha, flags_clear_timed f⟩
  · obtain ⟨ha, hb⟩ := h2 (Nat.pos_iff_ne_zero.mp ht) hm
    rw [hb]
    exact ⟨ha, hf⟩
  · obtain ⟨ha, hb⟩ := h3 ht
    rw [hb]
    exact ⟨ha, hf⟩

/-- C30 (the code at the failing input).  For a player who neither jumps nor is pushed
and whose ground surface is absent, `Pm_WalkMove` reads `pml.ground_surface->flags`
through the absent surface, while `Pm_Friction` takes the ground friction for an
absent surface without reading it. -/
theorem Pm_WalkMove_absent_surface (K : pm_const_t) (B : pm_bits_t) (M : pm_math_t)
    (W : pm_world_t) (c : pm_ctx) (hsurf : c.pml.ground_surface = none)
    (hjump : (Pm_CheckJump K c).2 = false)
    (hpush : (Pm_CheckPush (Pm_CheckJump K c).1).2 = false) :
    Pm_WalkMove K B M W c = none
      ∧ (Pm_Friction K B M c).pml.ground_surface = none := by
  refine ⟨?_, by rw [Pm_Friction_surface, hsurf]⟩
  have hs : (Pm_CheckPush (Pm_CheckJump K c).1).1.pml.ground_surface = none := by
    rw [Pm_CheckPush_surface, Pm_CheckJump_surface, hsurf]
  unfold Pm_WalkMove
  dsimp only
  rw [hjump]
  simp only [Bool.false_eq_true, if_false, hpush]
  rw [Pm_Friction_surface]
  dsimp only
  rw [hs]

/-- Witness of C30: the sample player walking on the ground without a ground surface;
the whole move of the sample player on the entity without a surface fails the same
way. -/
theorem Pm_WalkMove_absent_surface_witness :
    Pm_WalkMove sample_pm_const sample_pm_bits grid_pm_math box_world sample_pm_walker = none
      ∧ (Pm_Move sample_pm_const sample_pm_bits grid_pm_math box_world sample_pm_walk).isSome
          = false :=
  ⟨(Pm_WalkMove_absent_surface sample_pm_const sample_pm_bits grid_pm_math box_world
      sample_pm_walker (by decide) (by decide) (by decide)).1, by decide!⟩
/-! ## Claims about the push physics -/

/-- C27 (the code at the failing input).  The sample platform is pushed 8 units along
the first coordinate without a rotation.  The client standing on it is moved with it,
then the entity in the way blocks the push: `G_Push` returns false, the origins and the
angles of the platform, the client and the blocking entity are as before the call, but
the delta yaw of the client, 100 before the call, is 0, the value of the member
`deltayaw` of its entry in `pushed`, which `G_Push` does not set for the entities it
moves. -/
theorem G_Push_delta_yaw :
    (G_Push sample_import grid_pm_math 1 ⟨8, 0, 0⟩ vec3_origin sample_phys).2 = false
      ∧ (G_Push sample_import grid_pm_math 1 ⟨8, 0, 0⟩ vec3_origin sample_phys).1.obstacle
          = some 3
      ∧ (G_Push sample_import grid_pm_math 1 ⟨8, 0, 0⟩ vec3_origin sample_phys).1.pushed_p = 3
      ∧ placement (G_Push sample_import grid_pm_math 1 ⟨8, 0, 0⟩ vec3_origin sample_phys).1 1
          = placement sample_phys 1
      ∧ placement (G_Push sample_import grid_pm_math 1 ⟨8, 0, 0⟩ vec3_origin sample_phys).1 3
          = placement sample_phys 3
      ∧ placement sample_phys 2 = (⟨5, 5, 10⟩, vec3_origin, some 100)
      ∧ placement (G_Push sample_import grid_pm_math 1 ⟨8, 0, 0⟩ vec3_origin sample_phys).1 2
          = (⟨5, 5, 10⟩, vec3_origin, some 0) := by
  decide!
end Quetoo
